import Mathlib

/-!
# Display-configuration engine: monitor manager, monitors and the legacy apply handler

A shallow embedding of `src/backends/meta-monitor-manager.c`,
`src/backends/meta-monitor.c`, `src/backends/meta-gpu.c` and `src/core/monitor-xrandr.c`.

Conventions of the embedding

* A C pointer into one of the manager's tables (`manager->modes`, `manager->crtcs`,
  `manager->outputs`) is the index of the element in that table, exactly the number the
  source itself obtains with `ptr - manager->modes`; a nullable pointer is an `Option`.
  Pointer comparison is comparison of indices.
* A pointer to a `MetaMonitorMode` held by a monitor (`preferred_mode`, `current_mode`) is
  the position of that mode in the monitor's `modes` list, which only ever grows at its end.
* `float` refresh rates are only copied and compared (`==`, `!=`, `>`) by the code in
  scope.  A rate is represented by an integer carrying the same order; NaN is outside
  the model.
* Pixel sizes read from the hardware tables (mode sizes, tile sizes, crtc rectangles) are
  exact integers.  The coordinates of an `ApplyConfiguration` request come from the bus
  caller and range over all of `int`, so the sums the handler forms with them are
  reduced to 32 bits as the machine does (`int_wrap`).
* Functions that live outside the four files (the backend virtual functions, the
  configuration objects, the X server, GLib timers) are parameters: fields of a
  collaborator structure or function arguments.  What a function sends to them is
  returned as a list of calls, in order.
* A path on which the source aborts (a failed `g_assert`, a read through `NULL`) gives
  `none`.
-/

namespace Mutter

/-! ## Hardware tables -/

/-- The rectangle type `MetaRectangle`. -/
structure MetaRectangle where
  x : Int
  y : Int
  width : Int
  height : Int
deriving DecidableEq, Repr, Inhabited

/-- The tile descriptor `MetaTileInfo` of an output (all fields `guint32`). -/
structure MetaTileInfo where
  group_id : Nat := 0
  flags : Nat := 0
  max_h_tiles : Nat := 0
  max_v_tiles : Nat := 0
  loc_h_tile : Nat := 0
  loc_v_tile : Nat := 0
  tile_w : Nat := 0
  tile_h : Nat := 0
deriving DecidableEq, Repr, Inhabited

/-- A timing mode, `MetaCrtcMode`. -/
structure MetaCrtcMode where
  mode_id : Int := 0
  width : Int := 0
  height : Int := 0
  refresh_rate : Int := 0
  flags : Nat := 0
deriving DecidableEq, Repr, Inhabited

/-- A display pipeline, `MetaCrtc`.  `current_mode` points into the mode table;
`logical_monitor` is the back pointer to the logical monitor the crtc belongs to, kept
as the `number` of that logical monitor (the code in scope only tests it for `NULL`). -/
structure MetaCrtc where
  crtc_id : Int := 0
  rect : MetaRectangle := ⟨0, 0, 0, 0⟩
  current_mode : Option Nat := none
  transform : Nat := 0
  all_transforms : Nat := 0
  is_dirty : Bool := false
  logical_monitor : Option Int := none
deriving DecidableEq, Repr, Inhabited

/-- A connector, `MetaOutput`.  `crtc`, `modes`, `preferred_mode`, `possible_crtcs` and
`possible_clones` are pointers into the crtc, mode and output tables.  `winsys_id` is the
hardware id of the connector (spelled `output_id` in `core/monitor-xrandr.c`). -/
structure MetaOutput where
  winsys_id : Int := 0
  crtc : Option Nat := none
  modes : List Nat := []
  preferred_mode : Nat := 0
  possible_crtcs : List Nat := []
  possible_clones : List Nat := []
  tile_info : MetaTileInfo := {}
  is_primary : Bool := false
  is_presentation : Bool := false
  is_underscanning : Bool := false
  supports_underscanning : Bool := false
  hotplug_mode_update : Bool := false
  backlight_min : Int := 0
  backlight_max : Int := 0
  backlight : Int := 0
  name : String := ""
  vendor : String := ""
  product : String := ""
  serial : String := ""
  width_mm : Int := 0
  height_mm : Int := 0
  is_dirty : Bool := false
  underscan_hborder : Int := 0
  underscan_vborder : Int := 0
deriving DecidableEq, Repr, Inhabited

/-! ## Monitors -/

/-- The resolution and rate of a monitor mode, `MetaMonitorModeSpec`. -/
structure MetaMonitorModeSpec where
  width : Int := 0
  height : Int := 0
  refresh_rate : Int := 0
deriving DecidableEq, Repr, Inhabited

/-- One per-output entry of a monitor mode, `MetaMonitorCrtcMode`: where the output is
placed and which crtc mode drives it (`none` when the output is off in this mode). -/
structure MetaMonitorCrtcMode where
  x : Int := 0
  y : Int := 0
  output : Nat := 0
  crtc_mode : Option Nat := none
deriving DecidableEq, Repr, Inhabited

/-- A monitor mode, `MetaMonitorMode`: `crtc_modes` is the array allocated with one
entry per member output of the monitor. -/
structure MetaMonitorMode where
  spec : MetaMonitorModeSpec := {}
  crtc_modes : List MetaMonitorCrtcMode := []
deriving DecidableEq, Repr, Inhabited

/-- A monitor: `MetaMonitor` with its private part, and for the tiled class
(`is_tiled`) the fields of `MetaMonitorTiled`: `tile_group_id`, `origin_output` (the
tile (0, 0) output) and `main_output` (the output enabled in untiled modes).  `outputs`
lists pointers into the output table; `preferred_mode` and `current_mode` are positions
in `modes`.  The identification strings of the monitor spec play no part in the code in
scope and are left out. -/
structure MetaMonitor where
  is_tiled : Bool := false
  outputs : List Nat := []
  modes : List MetaMonitorMode := []
  preferred_mode : Option Nat := none
  current_mode : Option Nat := none
  winsys_id : Int := 0
  tile_group_id : Nat := 0
  origin_output : Nat := 0
  main_output : Nat := 0
deriving DecidableEq, Repr, Inhabited

/-! ## The manager -/

/-- A logical monitor, `MetaLogicalMonitor`: its number, its rectangle, whether it is the
primary one, and its member monitors (positions in the manager's monitor list). -/
structure MetaLogicalMonitor where
  number : Int := 0
  rect : MetaRectangle := ⟨0, 0, 0, 0⟩
  is_primary : Bool := false
  monitors : List Nat := []
deriving DecidableEq, Repr, Inhabited

/-- The power saving states, `MetaPowerSave`. -/
inductive MetaPowerSave where
  | META_POWER_SAVE_UNSUPPORTED
  | META_POWER_SAVE_ON
  | META_POWER_SAVE_STANDBY
  | META_POWER_SAVE_SUSPEND
  | META_POWER_SAVE_OFF
deriving DecidableEq, Repr, Inhabited

/-- The part of `MetaMonitorManager` read or written by the code in scope.
`config_manager` tells whether the pointer of that name is set (new configuration
system); `persistent_timeout_id` is the pending revert timer, 0 when there is none;
`primary_logical_monitor` is a position in `logical_monitors`.  The counts `n_modes`,
`n_crtcs` and `n_outputs` are the lengths of the three tables. -/
structure MetaMonitorManager where
  serial : Nat := 0
  config_manager : Bool := false
  modes : List MetaCrtcMode := []
  crtcs : List MetaCrtc := []
  outputs : List MetaOutput := []
  monitors : List MetaMonitor := []
  max_screen_width : Int := 0
  max_screen_height : Int := 0
  screen_width : Int := 0
  screen_height : Int := 0
  persistent_timeout_id : Nat := 0
  in_init : Bool := false
  power_save_mode : MetaPowerSave := MetaPowerSave.META_POWER_SAVE_UNSUPPORTED
  logical_monitors : List MetaLogicalMonitor := []
  primary_logical_monitor : Option Nat := none
deriving DecidableEq, Repr, Inhabited

/-- Dereference of a mode pointer. -/
def MetaMonitorManager.mode (manager : MetaMonitorManager) (p : Nat) : MetaCrtcMode :=
  manager.modes.getD p default

/-- Dereference of a crtc pointer. -/
def MetaMonitorManager.crtc (manager : MetaMonitorManager) (p : Nat) : MetaCrtc :=
  manager.crtcs.getD p default

/-- Dereference of an output pointer. -/
def MetaMonitorManager.output (manager : MetaMonitorManager) (p : Nat) : MetaOutput :=
  manager.outputs.getD p default

/-! ## The legacy `ApplyConfiguration` handler -/

/-- The largest transform, `META_MONITOR_TRANSFORM_FLIPPED_270`: the eight transforms are
numbered 0 to 7 in the order of the `transform_matrices` table. -/
def META_MONITOR_TRANSFORM_FLIPPED_270 : Nat := 7

/-- The value of an `int` expression whose exact result is `v`, reduced to 32 bits. -/
def int_wrap (v : Int) : Int := (v + 2147483648) % 4294967296 - 2147483648

/-- The error domains codes used by the handler. -/
inductive DBusErrorCode where
  | ACCESS_DENIED
  | INVALID_ARGS
deriving DecidableEq, Repr, Inhabited

/-- What the method invocation is answered with: an error, or completion of the call. -/
inductive MethodReply where
  | error (code : DBusErrorCode) (message : String)
  | complete
deriving DecidableEq, Repr, Inhabited

/-- One element of the `crtcs` argument, of variant type `(uiiiuaua{sv})`. -/
structure CrtcSpec where
  crtc_id : Nat := 0
  new_mode : Int := -1
  x : Int := 0
  y : Int := 0
  transform : Nat := 0
  outputs : List Nat := []
deriving DecidableEq, Repr, Inhabited

/-- One element of the `outputs` argument, of variant type `(ua{sv})`; a property that is
absent from the dictionary is `none`. -/
structure OutputSpec where
  output_index : Nat := 0
  primary : Option Bool := none
  presentation : Option Bool := none
  underscanning : Option Bool := none
deriving DecidableEq, Repr, Inhabited

/-- The arguments of an `ApplyConfiguration` call. -/
structure ApplyRequest where
  serial : Nat := 0
  persistent : Bool := false
  crtcs : List CrtcSpec := []
  outputs : List OutputSpec := []
deriving DecidableEq, Repr, Inhabited

/-- A validated crtc assignment, `MetaCrtcInfo`. -/
structure MetaCrtcInfo where
  crtc : Nat := 0
  mode : Option Nat := none
  x : Int := 0
  y : Int := 0
  transform : Nat := 0
  outputs : List Nat := []
deriving DecidableEq, Repr, Inhabited

/-- A validated output attribute set, `MetaOutputInfo`.  `is_default_config` is read by
`core/monitor-xrandr.c` only; the handler leaves it cleared. -/
structure MetaOutputInfo where
  output : Nat := 0
  is_primary : Bool := false
  is_presentation : Bool := false
  is_underscanning : Bool := false
  is_default_config : Bool := false
deriving DecidableEq, Repr, Inhabited

/-- The collaborators of the handler that live outside the files in scope:
`is_rotated` is `meta_monitor_transform_is_rotated`, `apply_configuration` the backend
virtual function, `config_update_current` is `meta_monitor_config_update_current`, and
`timeout_add` the identifier `g_timeout_add_seconds` hands out for the new timer. -/
structure Collaborators where
  is_rotated : Nat → Bool
  apply_configuration :
    MetaMonitorManager → List MetaCrtcInfo → List MetaOutputInfo → MetaMonitorManager
  config_update_current : MetaMonitorManager → MetaMonitorManager
  timeout_add : MetaMonitorManager → Nat

/-- The function `output_can_config`: the crtc is among the output's possible crtcs and
the mode, when there is one, among its modes. -/
def output_can_config (output : MetaOutput) (crtc : Nat) (mode : Option Nat) : Bool :=
  if !(output.possible_crtcs.any (fun c => c == crtc)) then false
  else
    match mode with
    | none => true
    | some m => output.modes.any (fun c => c == m)

/-- The function `output_can_clone`: `clone` is among the possible clones of `output`. -/
def output_can_clone (output : MetaOutput) (clone : Nat) : Bool :=
  output.possible_clones.any (fun c => c == clone)

/-- The inner loop of the validation, over the outputs named by one crtc spec.  The
state is `first_output` and the outputs gathered so far. -/
def validate_nested_outputs (manager : MetaMonitorManager) (crtc : Nat) (mode : Option Nat) :
    List Nat → Option Nat → List Nat → Except (DBusErrorCode × String) (Option Nat × List Nat)
  | [], first_output, acc => Except.ok (first_output, acc)
  | output_index :: rest, first_output, acc =>
    if output_index ≥ manager.outputs.length then
      Except.error (DBusErrorCode.INVALID_ARGS, "Invalid output id")
    else if !(output_can_config (manager.output output_index) crtc mode) then
      Except.error (DBusErrorCode.INVALID_ARGS,
        "Output cannot be assigned to this CRTC or mode")
    else
      match first_output with
      | some first =>
        if !(output_can_clone (manager.output output_index) first) then
          Except.error (DBusErrorCode.INVALID_ARGS, "Outputs cannot be cloned")
        else
          validate_nested_outputs manager crtc mode rest first_output (acc ++ [output_index])
      | none =>
        validate_nested_outputs manager crtc mode rest (some output_index)
          (acc ++ [output_index])

/-- The mode a crtc spec asks for once its `new_mode` has passed the range check:
`new_mode != -1 ? &manager->modes[new_mode] : NULL`. -/
def requested_mode (spec : CrtcSpec) : Option Nat :=
  if spec.new_mode ≠ -1 then some spec.new_mode.toNat else none

/-- The `width` and `height` the geometry check uses for mode `m`: the size of the mode,
swapped when the requested transform is a rotated one. -/
def transformed_size (env : Collaborators) (manager : MetaMonitorManager) (m : Nat)
    (transform : Nat) : Int × Int :=
  if env.is_rotated transform then ((manager.mode m).height, (manager.mode m).width)
  else ((manager.mode m).width, (manager.mode m).height)

/-- The `if (mode) ... else ...` block of the crtc loop: the geometry check.  On success
it gives the updated `new_screen_width` and `new_screen_height` and the position stored
in the `MetaCrtcInfo`. -/
def validate_geometry (env : Collaborators) (manager : MetaMonitorManager) (spec : CrtcSpec)
    (new_screen_width new_screen_height : Int) :
    Except (DBusErrorCode × String) (Int × Int × Int × Int) :=
  match requested_mode spec with
  | some m =>
    if spec.x < 0 ∨
        int_wrap (spec.x + (transformed_size env manager m spec.transform).1) >
          manager.max_screen_width ∨
        spec.y < 0 ∨
        int_wrap (spec.y + (transformed_size env manager m spec.transform).2) >
          manager.max_screen_height then
      Except.error (DBusErrorCode.INVALID_ARGS, "Invalid CRTC geometry")
    else
      Except.ok
        (max new_screen_width (int_wrap (spec.x + (transformed_size env manager m spec.transform).1)),
         max new_screen_height (int_wrap (spec.y + (transformed_size env manager m spec.transform).2)),
         spec.x, spec.y)
  | none => Except.ok (new_screen_width, new_screen_height, 0, 0)

/-- The body of the outer validation loop for one crtc spec.  On success it gives the
`MetaCrtcInfo` and the updated `new_screen_width` and `new_screen_height`. -/
def validate_crtc (env : Collaborators) (manager : MetaMonitorManager) (spec : CrtcSpec)
    (new_screen_width new_screen_height : Int) :
    Except (DBusErrorCode × String) (MetaCrtcInfo × Int × Int) :=
  if spec.crtc_id ≥ manager.crtcs.length then
    Except.error (DBusErrorCode.INVALID_ARGS, "Invalid CRTC id")
  else if spec.new_mode ≠ -1 ∧ (spec.new_mode < 0 ∨ spec.new_mode ≥ manager.modes.length) then
    Except.error (DBusErrorCode.INVALID_ARGS, "Invalid mode id")
  else
    match validate_geometry env manager spec new_screen_width new_screen_height with
    | Except.error e => Except.error e
    | Except.ok (w, h, x, y) =>
      if spec.transform > META_MONITOR_TRANSFORM_FLIPPED_270 ∨
          (manager.crtc spec.crtc_id).all_transforms &&& (1 <<< spec.transform) = 0 then
        Except.error (DBusErrorCode.INVALID_ARGS, "Invalid transform")
      else
        match validate_nested_outputs manager spec.crtc_id (requested_mode spec)
            spec.outputs none [] with
        | Except.error e => Except.error e
        | Except.ok (first_output, outputs) =>
          if first_output = none ∧ requested_mode spec ≠ none then
            Except.error (DBusErrorCode.INVALID_ARGS, "Mode specified without outputs?")
          else
            Except.ok
              (⟨spec.crtc_id, requested_mode spec, x, y, spec.transform, outputs⟩, w, h)

/-- The outer validation loop over the crtc specs. -/
def validate_crtcs (env : Collaborators) (manager : MetaMonitorManager) :
    List CrtcSpec → Int → Int → List MetaCrtcInfo →
    Except (DBusErrorCode × String) (List MetaCrtcInfo × Int × Int)
  | [], w, h, acc => Except.ok (acc, w, h)
  | spec :: rest, w, h, acc =>
    match validate_crtc env manager spec w h with
    | Except.error e => Except.error e
    | Except.ok (crtc_info, w2, h2) => validate_crtcs env manager rest w2 h2 (acc ++ [crtc_info])

/-- The validation loop over the output specs. -/
def validate_outputs (manager : MetaMonitorManager) :
    List OutputSpec → List MetaOutputInfo → Except (DBusErrorCode × String) (List MetaOutputInfo)
  | [], acc => Except.ok acc
  | spec :: rest, acc =>
    if spec.output_index ≥ manager.outputs.length then
      Except.error (DBusErrorCode.INVALID_ARGS, "Invalid output id")
    else if spec.underscanning.getD false = true ∧
        (manager.output spec.output_index).supports_underscanning = false then
      Except.error (DBusErrorCode.INVALID_ARGS, "Underscanning requested but unsupported")
    else
      validate_outputs manager rest
        (acc ++ [{ output := spec.output_index,
                   is_primary := spec.primary.getD false,
                   is_presentation := spec.presentation.getD false,
                   is_underscanning := spec.underscanning.getD false }])

/-- The whole validation ("Validate all arguments" up to the end of the output loop). -/
def validate_request (env : Collaborators) (manager : MetaMonitorManager)
    (request : ApplyRequest) :
    Except (DBusErrorCode × String) (List MetaCrtcInfo × List MetaOutputInfo) :=
  match validate_crtcs env manager request.crtcs 0 0 [] with
  | Except.error e => Except.error e
  | Except.ok (crtc_infos, new_screen_width, new_screen_height) =>
    if new_screen_width = 0 ∨ new_screen_height = 0 then
      Except.error (DBusErrorCode.INVALID_ARGS, "Refusing to disable all outputs")
    else
      match validate_outputs manager request.outputs [] with
      | Except.error e => Except.error e
      | Except.ok output_infos => Except.ok (crtc_infos, output_infos)

/-- What one run of the handler did: the manager afterwards, the reply, the arguments of
every call of the backend apply, the timers removed with `g_source_remove`, and whether
the confirm-display-change signal was emitted. -/
structure HandlerOutcome where
  manager : MetaMonitorManager
  reply : MethodReply
  applied : List (List MetaCrtcInfo × List MetaOutputInfo) := []
  removed_timeouts : List Nat := []
  confirm_display_change : Bool := false
deriving DecidableEq, Repr

/-- The handler `meta_monitor_manager_legacy_handle_apply_configuration`. -/
def meta_monitor_manager_legacy_handle_apply_configuration (env : Collaborators)
    (manager : MetaMonitorManager) (request : ApplyRequest) : HandlerOutcome :=
  if manager.config_manager then
    { manager := manager,
      reply := MethodReply.error DBusErrorCode.ACCESS_DENIED
        "Used old configuration API with new configuration system" }
  else if request.serial ≠ manager.serial then
    { manager := manager,
      reply := MethodReply.error DBusErrorCode.ACCESS_DENIED
        "The requested configuration is based on stale information" }
  else
    match validate_request env manager request with
    | Except.error (code, message) =>
      { manager := manager, reply := MethodReply.error code message }
    | Except.ok (crtc_infos, output_infos) =>
      let cancel := manager.persistent_timeout_id ≠ 0 ∧ request.persistent
      let removed := if cancel then [manager.persistent_timeout_id] else []
      let manager1 := if cancel then { manager with persistent_timeout_id := 0 } else manager
      let manager2 := env.apply_configuration manager1 crtc_infos output_infos
      let manager3 := env.config_update_current manager2
      let manager4 :=
        if request.persistent then
          { manager3 with persistent_timeout_id := env.timeout_add manager3 }
        else manager3
      { manager := manager4,
        reply := MethodReply.complete,
        applied := [(crtc_infos, output_infos)],
        removed_timeouts := removed,
        confirm_display_change := request.persistent }

/-! ## Monitor construction (`meta-monitor.c`) -/

/-- The virtual function `get_main_output`: the single output of a normal monitor
(`outputs->data`), the `main_output` of a tiled one. -/
def meta_monitor_get_main_output (monitor : MetaMonitor) : Nat :=
  if monitor.is_tiled then monitor.main_output else monitor.outputs.headD 0

/-- The test `output->crtc && crtc_mode == output->crtc->current_mode`. -/
def output_crtc_has_mode (manager : MetaMonitorManager) (output : MetaOutput)
    (crtc_mode : Nat) : Bool :=
  match output.crtc with
  | none => false
  | some c => (manager.crtc c).current_mode == some crtc_mode

/-- The monitor mode `meta_monitor_normal_generate_modes` builds for one crtc mode of
the output: the size and rate of the crtc mode, and the single entry for the output. -/
def normal_monitor_mode (manager : MetaMonitorManager) (output : Nat) (crtc_mode : Nat) :
    MetaMonitorMode :=
  { spec := { width := (manager.mode crtc_mode).width,
              height := (manager.mode crtc_mode).height,
              refresh_rate := (manager.mode crtc_mode).refresh_rate },
    crtc_modes := [{ x := 0, y := 0, output := output, crtc_mode := some crtc_mode }] }

/-- The body of the loop of `meta_monitor_normal_generate_modes` for one crtc mode of
the output: the preferred and the current mode are marked, and the mode is appended. -/
def meta_monitor_normal_generate_modes_step (manager : MetaMonitorManager) (output : Nat)
    (monitor : MetaMonitor) (crtc_mode : Nat) : MetaMonitor :=
  { monitor with
    preferred_mode :=
      if crtc_mode = (manager.output output).preferred_mode then some monitor.modes.length
      else monitor.preferred_mode,
    current_mode :=
      if output_crtc_has_mode manager (manager.output output) crtc_mode then
        some monitor.modes.length
      else monitor.current_mode,
    modes := monitor.modes ++ [normal_monitor_mode manager output crtc_mode] }

/-- The function `meta_monitor_normal_generate_modes`: one monitor mode per mode of the
main output, in the order of the output's mode list. -/
def meta_monitor_normal_generate_modes (manager : MetaMonitorManager)
    (monitor : MetaMonitor) : MetaMonitor :=
  (manager.output (meta_monitor_get_main_output monitor)).modes.foldl
    (meta_monitor_normal_generate_modes_step manager (meta_monitor_get_main_output monitor))
    monitor

/-- The constructor `meta_monitor_normal_new`. -/
def meta_monitor_normal_new (manager : MetaMonitorManager) (output : Nat) : MetaMonitor :=
  meta_monitor_normal_generate_modes manager
    { is_tiled := false, outputs := [output], winsys_id := (manager.output output).winsys_id }

/-- The function `is_main_tiled_monitor_output`. -/
def is_main_tiled_monitor_output (output : MetaOutput) : Bool :=
  output.tile_info.loc_h_tile == 0 && output.tile_info.loc_v_tile == 0

/-- The function `add_tiled_monitor_outputs`: the outputs of the table whose group id is
the monitor's are appended, in table order. -/
def add_tiled_monitor_outputs (manager : MetaMonitorManager) (monitor : MetaMonitor) :
    MetaMonitor :=
  (List.range manager.outputs.length).foldl
    (fun (monitor : MetaMonitor) (i : Nat) =>
      if (manager.output i).tile_info.group_id ≠ monitor.tile_group_id then monitor
      else { monitor with outputs := monitor.outputs ++ [i] })
    monitor

/-- The function `calculate_tile_coordinate`.  The cell sizes are `guint32` values added
to the `int` variables `x` and `y`: each sum is reduced to 32 bits. -/
def calculate_tile_coordinate (manager : MetaMonitorManager) (monitor : MetaMonitor)
    (output : Nat) : Int × Int :=
  monitor.outputs.foldl
    (fun (xy : Int × Int) (other_output : Nat) =>
      let x :=
        if (manager.output other_output).tile_info.loc_v_tile =
              (manager.output output).tile_info.loc_v_tile ∧
            (manager.output other_output).tile_info.loc_h_tile <
              (manager.output output).tile_info.loc_h_tile then
          int_wrap (xy.1 + (manager.output other_output).tile_info.tile_w)
        else xy.1
      let y :=
        if (manager.output other_output).tile_info.loc_h_tile =
              (manager.output output).tile_info.loc_h_tile ∧
            (manager.output other_output).tile_info.loc_v_tile <
              (manager.output output).tile_info.loc_v_tile then
          int_wrap (xy.2 + (manager.output other_output).tile_info.tile_h)
        else xy.2
      (x, y))
    (0, 0)

/-- The function `meta_monitor_tiled_calculate_tiled_size`.  The cell sizes are
`guint32` values added to the `int` variables `width` and `height`: each sum is reduced
to 32 bits. -/
def meta_monitor_tiled_calculate_tiled_size (manager : MetaMonitorManager)
    (monitor : MetaMonitor) : Int × Int :=
  monitor.outputs.foldl
    (fun (wh : Int × Int) (output : Nat) =>
      let width :=
        if (manager.output output).tile_info.loc_v_tile = 0 then
          int_wrap (wh.1 + (manager.output output).tile_info.tile_w)
        else wh.1
      let height :=
        if (manager.output output).tile_info.loc_h_tile = 0 then
          int_wrap (wh.2 + (manager.output output).tile_info.tile_h)
        else wh.2
      (width, height))
    (0, 0)

/-- One step of the loop of `is_monitor_mode_assigned`: the entry of the mode for an
output agrees with the live state of that output. -/
def crtc_mode_assigned (manager : MetaMonitorManager) (output : MetaOutput)
    (monitor_crtc_mode : MetaMonitorCrtcMode) : Bool :=
  match monitor_crtc_mode.crtc_mode, output.crtc with
  | some _, none => false
  | some m, some c => (manager.crtc c).current_mode == some m
  | none, some _ => false
  | none, none => true

/-- The loop of `is_monitor_mode_assigned` from list position `i` on: the outputs still
to visit are walked together with the index `i` into `mode->crtc_modes`. -/
def is_monitor_mode_assigned_from (manager : MetaMonitorManager) (mode : MetaMonitorMode) :
    List Nat → Nat → Bool
  | [], _ => true
  | output :: rest, i =>
    if !(crtc_mode_assigned manager (manager.output output) (mode.crtc_modes.getD i default))
    then false
    else is_monitor_mode_assigned_from manager mode rest (i + 1)

/-- The function `is_monitor_mode_assigned`. -/
def is_monitor_mode_assigned (manager : MetaMonitorManager) (monitor : MetaMonitor)
    (mode : MetaMonitorMode) : Bool :=
  is_monitor_mode_assigned_from manager mode monitor.outputs 0

/-- The function `is_crtc_mode_tiled`. -/
def is_crtc_mode_tiled (output : MetaOutput) (crtc_mode : MetaCrtcMode) : Bool :=
  crtc_mode.width == (output.tile_info.tile_w : Int) &&
    crtc_mode.height == (output.tile_info.tile_h : Int)

/-- The function `find_tiled_crtc_mode`: the preferred mode when it has the cell size,
else the first cell-sized mode of the output with the requested rate. -/
def find_tiled_crtc_mode (manager : MetaMonitorManager) (output : MetaOutput)
    (refresh_rate : Int) : Option Nat :=
  if is_crtc_mode_tiled output (manager.mode output.preferred_mode) then
    some output.preferred_mode
  else
    output.modes.find? (fun crtc_mode =>
      is_crtc_mode_tiled output (manager.mode crtc_mode) &&
        (manager.mode crtc_mode).refresh_rate == refresh_rate)

/-- The loop of `create_tiled_monitor_mode` over the member outputs still to visit: the
entry of each output is written at the next index of `crtc_modes`, the rate is stored
and `is_preferred` updated; the loop gives up at the first output without a tiled mode. -/
def create_tiled_monitor_mode_loop (manager : MetaMonitorManager) (monitor : MetaMonitor)
    (refresh_rate : Int) : List Nat → MetaMonitorMode → Bool → Option (MetaMonitorMode × Bool)
  | [], mode, is_preferred => some (mode, is_preferred)
  | output :: rest, mode, is_preferred =>
    match find_tiled_crtc_mode manager (manager.output output) refresh_rate with
    | none => none
    | some tiled_crtc_mode =>
      let xy := calculate_tile_coordinate manager monitor output
      create_tiled_monitor_mode_loop manager monitor refresh_rate rest
        { spec := { mode.spec with refresh_rate := refresh_rate },
          crtc_modes := mode.crtc_modes ++
            [{ x := xy.1, y := xy.2, output := output, crtc_mode := some tiled_crtc_mode }] }
        (is_preferred && tiled_crtc_mode == (manager.output output).preferred_mode)

/-- The function `create_tiled_monitor_mode`: the mode and `*out_is_preferred`, or
`none` for the NULL result. -/
def create_tiled_monitor_mode (manager : MetaMonitorManager) (monitor : MetaMonitor)
    (refresh_rate : Int) : Option (MetaMonitorMode × Bool) :=
  let size := meta_monitor_tiled_calculate_tiled_size manager monitor
  create_tiled_monitor_mode_loop manager monitor refresh_rate monitor.outputs
    { spec := { width := size.1, height := size.2, refresh_rate := 0 }, crtc_modes := [] }
    true

/-- The state of the first loop of `generate_tiled_monitor_modes`: the local list
`tiled_modes` and the monitor, whose `current_mode` and `preferred_mode` point at
positions the tiled modes take once the list is joined to `modes`. -/
structure TiledModesState where
  tiled_modes : List MetaMonitorMode
  monitor : MetaMonitor

/-- The body of the first loop of `generate_tiled_monitor_modes` for one crtc mode of
the main output. -/
def generate_tiled_monitor_modes_step (manager : MetaMonitorManager) (main_output : Nat)
    (st : TiledModesState) (crtc_mode : Nat) : TiledModesState :=
  if !(is_crtc_mode_tiled (manager.output main_output) (manager.mode crtc_mode)) then st
  else
    match create_tiled_monitor_mode manager st.monitor (manager.mode crtc_mode).refresh_rate with
    | none => st
    | some (mode, is_preferred) =>
      { tiled_modes := st.tiled_modes ++ [mode],
        monitor :=
          { st.monitor with
            current_mode :=
              if is_monitor_mode_assigned manager st.monitor mode then
                some (st.monitor.modes.length + st.tiled_modes.length)
              else st.monitor.current_mode,
            preferred_mode :=
              if is_preferred then some (st.monitor.modes.length + st.tiled_modes.length)
              else st.monitor.preferred_mode } }

/-- The first loop of `generate_tiled_monitor_modes`, over the modes of the main output. -/
def generate_tiled_monitor_modes_loop (manager : MetaMonitorManager) (monitor : MetaMonitor) :
    TiledModesState :=
  (manager.output (meta_monitor_get_main_output monitor)).modes.foldl
    (generate_tiled_monitor_modes_step manager (meta_monitor_get_main_output monitor))
    { tiled_modes := [], monitor := monitor }

/-- The second loop of `generate_tiled_monitor_modes`: the position in `tiled_modes` of
the first mode with the highest refresh rate, `none` for an empty list. -/
def best_tiled_mode (tiled_modes : List MetaMonitorMode) : Option Nat :=
  (tiled_modes.enum.foldl
    (fun (best : Option (Nat × MetaMonitorMode)) (entry : Nat × MetaMonitorMode) =>
      match best with
      | none => some entry
      | some b => if entry.2.spec.refresh_rate > b.2.spec.refresh_rate then some entry else best)
    none).map (fun b => b.1)

/-- The function `generate_tiled_monitor_modes`. -/
def generate_tiled_monitor_modes (manager : MetaMonitorManager) (monitor : MetaMonitor) :
    MetaMonitor :=
  let st := generate_tiled_monitor_modes_loop manager monitor
  let monitor1 :=
    if st.monitor.preferred_mode = none then
      { st.monitor with
        preferred_mode :=
          (best_tiled_mode st.tiled_modes).map (fun p => st.monitor.modes.length + p) }
    else st.monitor
  { monitor1 with modes := monitor1.modes ++ st.tiled_modes }

/-- The function `create_untiled_monitor_mode`: `none` for a cell-sized crtc mode, else
the mode that drives `main_output` alone. -/
def create_untiled_monitor_mode (manager : MetaMonitorManager) (monitor : MetaMonitor)
    (main_output : Nat) (crtc_mode : Nat) : Option MetaMonitorMode :=
  if is_crtc_mode_tiled (manager.output main_output) (manager.mode crtc_mode) then none
  else
    some
      { spec := { width := (manager.mode crtc_mode).width,
                  height := (manager.mode crtc_mode).height,
                  refresh_rate := (manager.mode crtc_mode).refresh_rate },
        crtc_modes := monitor.outputs.map (fun output =>
          if output = main_output then
            { x := 0, y := 0, output := output, crtc_mode := some crtc_mode }
          else { x := 0, y := 0, output := output, crtc_mode := none }) }

/-- The function `count_untiled_crtc_modes`. -/
def count_untiled_crtc_modes (manager : MetaMonitorManager) (output : MetaOutput) : Int :=
  output.modes.foldl
    (fun (count : Int) (crtc_mode : Nat) =>
      if !(is_crtc_mode_tiled output (manager.mode crtc_mode)) then count + 1 else count)
    0

/-- The function `find_untiled_output`. -/
def find_untiled_output (manager : MetaMonitorManager) (monitor : MetaMonitor) : Nat :=
  (monitor.outputs.foldl
    (fun (best : Nat × Int) (output : Nat) =>
      if output = monitor.origin_output then best
      else if count_untiled_crtc_modes manager (manager.output output) > best.2 then
        (output, count_untiled_crtc_modes manager (manager.output output))
      else best)
    (monitor.origin_output,
      count_untiled_crtc_modes manager (manager.output monitor.origin_output))).1

/-- The body of the loop of `generate_untiled_monitor_modes` for a crtc mode of the main
output that has the untiled mode `mode`: the mode is appended and, when it is assigned,
made the current mode, and it is made the preferred mode when there is none yet and the
crtc mode is the preferred one of the main output.  The result is `none` when
`g_assert (!monitor_priv->current_mode)` fails, which aborts the program. -/
def generate_untiled_monitor_modes_step (manager : MetaMonitorManager) (main_output : Nat)
    (monitor : MetaMonitor) (crtc_mode : Nat) (mode : MetaMonitorMode) : Option MetaMonitor :=
  if is_monitor_mode_assigned manager monitor mode = true ∧ monitor.current_mode ≠ none then
    none
  else
    some
      { monitor with
        modes := monitor.modes ++ [mode],
        current_mode :=
          if is_monitor_mode_assigned manager monitor mode then some monitor.modes.length
          else monitor.current_mode,
        preferred_mode :=
          if monitor.preferred_mode = none ∧
              crtc_mode = (manager.output main_output).preferred_mode then
            some monitor.modes.length
          else monitor.preferred_mode }

/-- The loop of `generate_untiled_monitor_modes` over the modes of the main output still
to visit, `none` when the assertion fails. -/
def generate_untiled_monitor_modes_loop (manager : MetaMonitorManager) (main_output : Nat) :
    List Nat → MetaMonitor → Option MetaMonitor
  | [], monitor => some monitor
  | crtc_mode :: rest, monitor =>
    match create_untiled_monitor_mode manager monitor main_output crtc_mode with
    | none => generate_untiled_monitor_modes_loop manager main_output rest monitor
    | some mode =>
      match generate_untiled_monitor_modes_step manager main_output monitor crtc_mode mode with
      | none => none
      | some monitor1 => generate_untiled_monitor_modes_loop manager main_output rest monitor1

/-- The function `generate_untiled_monitor_modes`. -/
def generate_untiled_monitor_modes (manager : MetaMonitorManager) (monitor : MetaMonitor) :
    Option MetaMonitor :=
  generate_untiled_monitor_modes_loop manager (meta_monitor_get_main_output monitor)
    (manager.output (meta_monitor_get_main_output monitor)).modes monitor

/-- The function `find_best_mode`: the position in `modes` of the mode the loop ends
with, `none` for an empty list.  The areas `area` and `best_area` are `int` products,
reduced to 32 bits. -/
def find_best_mode (monitor : MetaMonitor) : Option Nat :=
  (monitor.modes.enum.foldl
    (fun (best : Option (Nat × MetaMonitorMode)) (entry : Nat × MetaMonitorMode) =>
      match best with
      | none => some entry
      | some b =>
        if int_wrap (entry.2.spec.width * entry.2.spec.height) >
            int_wrap (b.2.spec.width * b.2.spec.height) then
          some entry
        else if entry.2.spec.refresh_rate > b.2.spec.refresh_rate then some entry
        else best)
    none).map (fun b => b.1)

/-- The function `meta_monitor_tiled_generate_modes`. -/
def meta_monitor_tiled_generate_modes (manager : MetaMonitorManager) (monitor : MetaMonitor) :
    Option MetaMonitor :=
  match generate_untiled_monitor_modes manager (generate_tiled_monitor_modes manager monitor) with
  | none => none
  | some monitor1 =>
    if monitor1.preferred_mode = none then
      some { monitor1 with preferred_mode := find_best_mode monitor1 }
    else some monitor1

/-- The constructor `meta_monitor_tiled_new`, `none` when the assertion of
`generate_untiled_monitor_modes` fails.  The notification
`meta_monitor_manager_tiled_monitor_added` goes to the backend and leaves the monitor
and the tables as they are. -/
def meta_monitor_tiled_new (manager : MetaMonitorManager) (output : Nat) :
    Option MetaMonitor :=
  let monitor0 : MetaMonitor :=
    { is_tiled := true,
      tile_group_id := (manager.output output).tile_info.group_id,
      winsys_id := (manager.output output).winsys_id,
      origin_output := output }
  let monitor1 := add_tiled_monitor_outputs manager monitor0
  let monitor2 := { monitor1 with main_output := find_untiled_output manager monitor1 }
  meta_monitor_tiled_generate_modes manager monitor2

/-- The loop of `meta_monitor_derive_current_mode`: the position of the first mode, from
position `i` on, that is assigned. -/
def first_assigned_mode (manager : MetaMonitorManager) (monitor : MetaMonitor) :
    List MetaMonitorMode → Nat → Option Nat
  | [], _ => none
  | mode :: rest, i =>
    if is_monitor_mode_assigned manager monitor mode then some i
    else first_assigned_mode manager monitor rest (i + 1)

/-- The function `meta_monitor_derive_current_mode`. -/
def meta_monitor_derive_current_mode (manager : MetaMonitorManager) (monitor : MetaMonitor) :
    MetaMonitor :=
  { monitor with current_mode := first_assigned_mode manager monitor monitor.modes 0 }

/-! ## Rebuilding the monitor list (`meta-monitor-manager.c`) -/

/-- The loop of `rebuild_monitors` over the output indices still to visit, `none` when
a tiled constructor aborts. -/
def rebuild_monitors_loop (manager : MetaMonitorManager) :
    List Nat → List MetaMonitor → Option (List MetaMonitor)
  | [], monitors => some monitors
  | i :: rest, monitors =>
    if (manager.output i).tile_info.group_id ≠ 0 then
      if is_main_tiled_monitor_output (manager.output i) then
        match meta_monitor_tiled_new manager i with
        | none => none
        | some monitor_tiled => rebuild_monitors_loop manager rest (monitors ++ [monitor_tiled])
      else rebuild_monitors_loop manager rest monitors
    else
      rebuild_monitors_loop manager rest (monitors ++ [meta_monitor_normal_new manager i])

/-- The function `rebuild_monitors`: the old list is dropped and the new one built from
the output table. -/
def rebuild_monitors (manager : MetaMonitorManager) : Option MetaMonitorManager :=
  match rebuild_monitors_loop manager (List.range manager.outputs.length) [] with
  | none => none
  | some monitors => some { manager with monitors := monitors }

/-! ## Reading the hardware state and recording connection changes
(`meta-monitor-manager.c`, `meta-gpu.c`) -/

/-- The two event identifiers recorded when a monitor is plugged in or out. -/
inductive EventId where
  | MONITOR_CONNECTED
  | MONITOR_DISCONNECTED
deriving DecidableEq, Repr, Inhabited

/-- The auxiliary payload of a connection event, of variant type `(ssssii@ay)`. -/
structure AuxiliaryPayload where
  name : String := ""
  vendor : String := ""
  product : String := ""
  serial : String := ""
  width_mm : Int := 0
  height_mm : Int := 0
  edid : List Nat := []
deriving DecidableEq, Repr, Inhabited

/-- One call of `emtr_event_recorder_record_event`. -/
structure RecordedEvent where
  event_id : EventId
  auxiliary_payload : AuxiliaryPayload
deriving DecidableEq, Repr, Inhabited

/-- The function `meta_monitor_manager_get_output_auxiliary_payload`, which
`get_output_auxiliary_payload` of `meta-gpu.c` repeats.  `read_edid` is the virtual
function of the backend, `none` when it returns `NULL`; the byte array is then empty. -/
def meta_monitor_manager_get_output_auxiliary_payload
    (read_edid : MetaOutput → Option (List Nat)) (output : MetaOutput) : AuxiliaryPayload :=
  { name := output.name,
    vendor := output.vendor,
    product := output.product,
    serial := output.serial,
    width_mm := output.width_mm,
    height_mm := output.height_mm,
    edid := match read_edid output with
      | some raw_edid => raw_edid
      | none => [] }

/-- The function `meta_monitor_manager_record_connect_events`.  The inner loop stops at
the first old output with the id of the new one; its final index is `findIdx`, equal to
`n_old_outputs` when the loop ran to the end.  The result lists the events recorded, in
order. -/
def meta_monitor_manager_record_connect_events (read_edid : MetaOutput → Option (List Nat))
    (manager : MetaMonitorManager) (old_outputs : List MetaOutput) : List RecordedEvent :=
  manager.outputs.foldl
    (fun events new_output =>
      if old_outputs.findIdx (fun old_output => new_output.winsys_id == old_output.winsys_id)
          = old_outputs.length then
        events ++ [⟨EventId.MONITOR_CONNECTED,
          meta_monitor_manager_get_output_auxiliary_payload read_edid new_output⟩]
      else events)
    []

/-- The function `meta_monitor_manager_record_disconnect_events`. -/
def meta_monitor_manager_record_disconnect_events (read_edid : MetaOutput → Option (List Nat))
    (manager : MetaMonitorManager) (old_outputs : List MetaOutput) : List RecordedEvent :=
  old_outputs.foldl
    (fun events old_output =>
      if manager.outputs.findIdx
          (fun new_output => old_output.winsys_id == new_output.winsys_id)
          = manager.outputs.length then
        events ++ [⟨EventId.MONITOR_DISCONNECTED,
          meta_monitor_manager_get_output_auxiliary_payload read_edid old_output⟩]
      else events)
    []

/-- The function `meta_monitor_manager_record_connection_changes`: the connect events,
then the disconnect events. -/
def meta_monitor_manager_record_connection_changes
    (read_edid : MetaOutput → Option (List Nat)) (manager : MetaMonitorManager)
    (old_outputs : List MetaOutput) : List RecordedEvent :=
  meta_monitor_manager_record_connect_events read_edid manager old_outputs ++
    meta_monitor_manager_record_disconnect_events read_edid manager old_outputs

/-- The function `meta_monitor_manager_read_current_state`.  `read_current` is the
virtual function of the backend.  The result is the manager afterwards and the events
recorded, `none` when rebuilding the monitors aborts.  `serial` is an `unsigned int`.
The old tables are freed at the end; a table of the result that is still the old one is
then a dangling pointer in the source. -/
def meta_monitor_manager_read_current_state (read_edid : MetaOutput → Option (List Nat))
    (read_current : MetaMonitorManager → MetaMonitorManager) (manager : MetaMonitorManager) :
    Option (MetaMonitorManager × List RecordedEvent) :=
  match rebuild_monitors
      (read_current { manager with serial := (manager.serial + 1) % 4294967296 }) with
  | none => none
  | some rebuilt =>
    some (rebuilt,
      meta_monitor_manager_record_connection_changes read_edid rebuilt manager.outputs)

/-- The private part of a `MetaGpu`: its three lists of objects. -/
structure MetaGpu where
  outputs : List MetaOutput := []
  crtcs : List MetaCrtc := []
  modes : List MetaCrtcMode := []
deriving DecidableEq, Repr, Inhabited

/-- The function `record_connect_events` of `meta-gpu.c`.  The inner loop leaves `k` at
the first old output with the id of the new one, `NULL` when there is none. -/
def record_connect_events (read_edid : MetaOutput → Option (List Nat)) (gpu : MetaGpu)
    (old_outputs : List MetaOutput) : List RecordedEvent :=
  gpu.outputs.foldl
    (fun events new_output =>
      match old_outputs.find? (fun old_output => new_output.winsys_id == old_output.winsys_id) with
      | none =>
        events ++ [⟨EventId.MONITOR_CONNECTED,
          meta_monitor_manager_get_output_auxiliary_payload read_edid new_output⟩]
      | some _ => events)
    []

/-- The function `record_disconnect_events` of `meta-gpu.c`. -/
def record_disconnect_events (read_edid : MetaOutput → Option (List Nat)) (gpu : MetaGpu)
    (old_outputs : List MetaOutput) : List RecordedEvent :=
  old_outputs.foldl
    (fun events old_output =>
      match gpu.outputs.find? (fun new_output => old_output.winsys_id == new_output.winsys_id) with
      | none =>
        events ++ [⟨EventId.MONITOR_DISCONNECTED,
          meta_monitor_manager_get_output_auxiliary_payload read_edid old_output⟩]
      | some _ => events)
    []

/-- The function `record_connection_changes` of `meta-gpu.c`. -/
def record_connection_changes (read_edid : MetaOutput → Option (List Nat)) (gpu : MetaGpu)
    (old_outputs : List MetaOutput) : List RecordedEvent :=
  record_connect_events read_edid gpu old_outputs ++
    record_disconnect_events read_edid gpu old_outputs

/-- The function `meta_gpu_read_current`.  `read_current` is the virtual function of
the gpu class, giving its return value and the gpu afterwards. -/
def meta_gpu_read_current (read_edid : MetaOutput → Option (List Nat))
    (read_current : MetaGpu → Bool × MetaGpu) (gpu : MetaGpu) :
    Bool × MetaGpu × List RecordedEvent :=
  ((read_current gpu).1, (read_current gpu).2,
    record_connection_changes read_edid (read_current gpu).2 gpu.outputs)

/-! ## Reading the XRandR state (`core/monitor-xrandr.c`) -/

/-- The three tables `meta_monitor_manager_xrandr_read_current` builds once it holds the
screen resources.  The loops that fill them from the resources and from the further
replies of the server (crtc and output infos, properties, EDID) are not embedded: the
tables they produce are taken as they come. -/
structure XrandrTables where
  modes : List MetaCrtcMode := []
  crtcs : List MetaCrtc := []
  outputs : List MetaOutput := []
deriving DecidableEq, Repr, Inhabited

/-- The answers of the X server to the requests `meta_monitor_manager_xrandr_read_current`
makes: `DPMSCapable`, `DPMSInfo` (`none` when it fails, else the state and the enabled
flag), `XRRGetScreenSizeRange`, the size of the screen, and
`XRRGetScreenResourcesCurrent` (`none` when it returns `NULL`). -/
structure XrandrReplies where
  dpms_capable : Bool := false
  dpms_info : Option (Nat × Bool) := none
  max_screen_width : Int := 0
  max_screen_height : Int := 0
  screen_width : Int := 0
  screen_height : Int := 0
  resources : Option XrandrTables := none
deriving DecidableEq, Repr, Inhabited

/-- The `switch (dpms_state)` of the function: `DPMSModeOn` is 0, `DPMSModeStandby` 1,
`DPMSModeSuspend` 2 and `DPMSModeOff` 3. -/
def power_save_of_dpms_state (dpms_state : Nat) : MetaPowerSave :=
  match dpms_state with
  | 0 => MetaPowerSave.META_POWER_SAVE_ON
  | 1 => MetaPowerSave.META_POWER_SAVE_STANDBY
  | 2 => MetaPowerSave.META_POWER_SAVE_SUSPEND
  | 3 => MetaPowerSave.META_POWER_SAVE_OFF
  | _ => MetaPowerSave.META_POWER_SAVE_UNSUPPORTED

/-- The power saving mode the function stores: the DPMS state when the server is
capable, answers `DPMSInfo` and has DPMS enabled, else "unsupported". -/
def read_power_save_mode (server : XrandrReplies) : MetaPowerSave :=
  if server.dpms_capable then
    match server.dpms_info with
    | some (dpms_state, true) => power_save_of_dpms_state dpms_state
    | _ => MetaPowerSave.META_POWER_SAVE_UNSUPPORTED
  else MetaPowerSave.META_POWER_SAVE_UNSUPPORTED

/-- The function `meta_monitor_manager_xrandr_read_current`.  It stores the power
saving mode, the maximum screen size and the screen size, then asks for the screen
resources and returns at once when there are none; only after that does it assign the
counts and the three tables. -/
def meta_monitor_manager_xrandr_read_current (server : XrandrReplies)
    (manager : MetaMonitorManager) : MetaMonitorManager :=
  match server.resources with
  | none =>
    { manager with
      power_save_mode := read_power_save_mode server,
      max_screen_width := server.max_screen_width,
      max_screen_height := server.max_screen_height,
      screen_width := server.screen_width,
      screen_height := server.screen_height }
  | some tables =>
    { manager with
      power_save_mode := read_power_save_mode server,
      max_screen_width := server.max_screen_width,
      max_screen_height := server.max_screen_height,
      screen_width := server.screen_width,
      screen_height := server.screen_height,
      modes := tables.modes,
      crtcs := tables.crtcs,
      outputs := tables.outputs }

/-! ## Configurations and the logical state (`meta-monitor-manager.c`, `meta-monitor.c`) -/

/-- The identification of a monitor, `MetaMonitorSpec`. -/
structure MetaMonitorSpec where
  connector : String := ""
  vendor : String := ""
  product : String := ""
  serial : String := ""
deriving DecidableEq, Repr, Inhabited

/-- The configuration of one monitor, `MetaMonitorConfig`. -/
structure MetaMonitorConfig where
  monitor_spec : MetaMonitorSpec := {}
  mode_spec : MetaMonitorModeSpec := {}
deriving DecidableEq, Repr, Inhabited

/-- The configuration of one logical monitor, `MetaLogicalMonitorConfig`. -/
structure MetaLogicalMonitorConfig where
  layout : MetaRectangle := ⟨0, 0, 0, 0⟩
  monitor_configs : List MetaMonitorConfig := []
  is_primary : Bool := false
deriving DecidableEq, Repr, Inhabited

/-- A whole configuration, `MetaMonitorsConfig`. -/
structure MetaMonitorsConfig where
  logical_monitor_configs : List MetaLogicalMonitorConfig := []
deriving DecidableEq, Repr, Inhabited

/-- The functions `meta_monitor_manager_ensure_configured` and
`meta_monitor_manager_rebuild` call outside the files in scope.  `get_stored`,
`create_suggested`, `create_linear` and `create_fallback` are the functions of the
configuration manager of those names (`none` for `NULL`); `apply_monitors_config` is
the virtual function of the backend, giving its return value and the manager afterwards;
`logical_monitor_new` is `meta_logical_monitor_new`, giving the new logical monitor and
the manager afterwards (it sets the back pointers of the crtcs);
`logical_monitor_make_primary` is `meta_logical_monitor_make_primary`;
`config_apply_stored` and `config_make_default` are the two functions of the legacy
configuration, `meta_monitor_config_apply_stored` and `meta_monitor_config_make_default`. -/
structure ConfigCollaborators where
  get_stored : MetaMonitorManager → Option MetaMonitorsConfig
  create_suggested : MetaMonitorManager → Option MetaMonitorsConfig
  create_linear : MetaMonitorManager → Option MetaMonitorsConfig
  create_fallback : MetaMonitorManager → Option MetaMonitorsConfig
  apply_monitors_config : MetaMonitorManager → MetaMonitorsConfig → Bool × MetaMonitorManager
  logical_monitor_new :
    MetaMonitorManager → MetaLogicalMonitorConfig → Int → MetaLogicalMonitor × MetaMonitorManager
  logical_monitor_make_primary : MetaLogicalMonitor → MetaLogicalMonitor
  config_apply_stored : MetaMonitorManager → Bool × MetaMonitorManager
  config_make_default : MetaMonitorManager → MetaMonitorManager

/-- The function `meta_monitor_spec_equals`. -/
def meta_monitor_spec_equals (monitor_spec other_monitor_spec : MetaMonitorSpec) : Bool :=
  monitor_spec.connector == other_monitor_spec.connector &&
    monitor_spec.vendor == other_monitor_spec.vendor &&
    monitor_spec.product == other_monitor_spec.product &&
    monitor_spec.serial == other_monitor_spec.serial

/-- The function `meta_monitor_get_spec`.  The spec is written once, by
`meta_monitor_generate_spec` in the constructor, from the strings of the main output;
it is recomputed here from that output. -/
def meta_monitor_get_spec (manager : MetaMonitorManager) (monitor : MetaMonitor) :
    MetaMonitorSpec :=
  { connector := (manager.output (meta_monitor_get_main_output monitor)).name,
    vendor := (manager.output (meta_monitor_get_main_output monitor)).vendor,
    product := (manager.output (meta_monitor_get_main_output monitor)).product,
    serial := (manager.output (meta_monitor_get_main_output monitor)).serial }

/-- The function `meta_monitor_manager_get_monitor_from_spec`: the position of the first
monitor with that spec, `none` for `NULL`. -/
def meta_monitor_manager_get_monitor_from_spec (manager : MetaMonitorManager)
    (monitor_spec : MetaMonitorSpec) : Option Nat :=
  manager.monitors.findIdx?
    (fun monitor => meta_monitor_spec_equals (meta_monitor_get_spec manager monitor) monitor_spec)

/-- The function `meta_monitor_mode_spec_equals`. -/
def meta_monitor_mode_spec_equals (monitor_mode_spec other_monitor_mode_spec :
    MetaMonitorModeSpec) : Bool :=
  monitor_mode_spec.width == other_monitor_mode_spec.width &&
    monitor_mode_spec.height == other_monitor_mode_spec.height &&
    monitor_mode_spec.refresh_rate == other_monitor_mode_spec.refresh_rate

/-- The function `meta_monitor_get_mode_from_spec`: the position of the first mode with
that spec, `none` for `NULL`. -/
def meta_monitor_get_mode_from_spec (monitor : MetaMonitor)
    (monitor_mode_spec : MetaMonitorModeSpec) : Option Nat :=
  monitor.modes.findIdx?
    (fun monitor_mode => meta_monitor_mode_spec_equals monitor_mode_spec monitor_mode.spec)

/-- The function `meta_monitor_set_current_mode`. -/
def meta_monitor_set_current_mode (monitor : MetaMonitor) (mode : Option Nat) : MetaMonitor :=
  { monitor with current_mode := mode }

/-- The function `meta_monitor_get_logical_monitor`: the back pointer of the crtc of
the main output, `none` when the output has no crtc. -/
def meta_monitor_get_logical_monitor (manager : MetaMonitorManager) (monitor : MetaMonitor) :
    Option Int :=
  match (manager.output (meta_monitor_get_main_output monitor)).crtc with
  | some crtc => (manager.crtc crtc).logical_monitor
  | none => none

/-- The function `meta_monitor_manager_has_hotplug_mode_update`. -/
def meta_monitor_manager_has_hotplug_mode_update (manager : MetaMonitorManager) : Bool :=
  manager.outputs.any (fun output => output.hotplug_mode_update)

/-- The function `should_use_stored_config`. -/
def should_use_stored_config (manager : MetaMonitorManager) : Bool :=
  !meta_monitor_manager_has_hotplug_mode_update manager

/-- The function `meta_monitor_manager_set_primary_logical_monitor`; the pointer is a
position in the list of logical monitors. -/
def meta_monitor_manager_set_primary_logical_monitor (env : ConfigCollaborators)
    (manager : MetaMonitorManager) (logical_monitor : Option Nat) : MetaMonitorManager :=
  match logical_monitor with
  | none => { manager with primary_logical_monitor := none }
  | some p =>
    { manager with
      primary_logical_monitor := some p,
      logical_monitors :=
        manager.logical_monitors.modify env.logical_monitor_make_primary p }

/-- The state of the loop of `meta_monitor_manager_rebuild_logical_monitors`. -/
structure LogicalMonitorsState where
  manager : MetaMonitorManager
  logical_monitors : List MetaLogicalMonitor := []
  monitor_number : Int := 0
  primary_logical_monitor : Option Nat := none

/-- The body of the loop of `meta_monitor_manager_rebuild_logical_monitors` for one
logical monitor configuration. -/
def rebuild_logical_monitors_step (env : ConfigCollaborators) (st : LogicalMonitorsState)
    (logical_monitor_config : MetaLogicalMonitorConfig) : LogicalMonitorsState :=
  { manager := (env.logical_monitor_new st.manager logical_monitor_config st.monitor_number).2,
    logical_monitors := st.logical_monitors ++
      [(env.logical_monitor_new st.manager logical_monitor_config st.monitor_number).1],
    monitor_number := st.monitor_number + 1,
    primary_logical_monitor :=
      if logical_monitor_config.is_primary then some st.logical_monitors.length
      else st.primary_logical_monitor }

/-- The configurations a builder walks: `config ? config->logical_monitor_configs : NULL`. -/
def logical_monitor_configs_of (config : Option MetaMonitorsConfig) :
    List MetaLogicalMonitorConfig :=
  match config with
  | some c => c.logical_monitor_configs
  | none => []

/-- The function `meta_monitor_manager_rebuild_logical_monitors`. -/
def meta_monitor_manager_rebuild_logical_monitors (env : ConfigCollaborators)
    (manager : MetaMonitorManager) (config : Option MetaMonitorsConfig) : MetaMonitorManager :=
  let st := (logical_monitor_configs_of config).foldl (rebuild_logical_monitors_step env)
    { manager := manager }
  meta_monitor_manager_set_primary_logical_monitor env
    { st.manager with logical_monitors := st.logical_monitors }
    (if st.primary_logical_monitor = none ∧ st.logical_monitors ≠ [] then some 0
     else st.primary_logical_monitor)

/-- The function `set_logical_monitor_modes`, `none` when a monitor spec of the
configuration names no monitor (the source then reads through a `NULL` monitor). -/
def set_logical_monitor_modes (manager : MetaMonitorManager) :
    List MetaMonitorConfig → Option MetaMonitorManager
  | [] => some manager
  | monitor_config :: rest =>
    match meta_monitor_manager_get_monitor_from_spec manager monitor_config.monitor_spec with
    | none => none
    | some i =>
      set_logical_monitor_modes
        { manager with
          monitors := manager.monitors.modify
            (fun monitor => meta_monitor_set_current_mode monitor
              (meta_monitor_get_mode_from_spec monitor monitor_config.mode_spec)) i }
        rest

/-- The first loop of `meta_monitor_manager_update_monitor_modes`. -/
def update_monitor_modes_loop (manager : MetaMonitorManager) :
    List MetaLogicalMonitorConfig → Option MetaMonitorManager
  | [] => some manager
  | logical_monitor_config :: rest =>
    match set_logical_monitor_modes manager logical_monitor_config.monitor_configs with
    | none => none
    | some next => update_monitor_modes_loop next rest

/-- The function `meta_monitor_manager_update_monitor_modes`: after the modes named by
the configuration are set, every monitor without a logical monitor loses its current
mode. -/
def meta_monitor_manager_update_monitor_modes (manager : MetaMonitorManager)
    (config : Option MetaMonitorsConfig) : Option MetaMonitorManager :=
  match update_monitor_modes_loop manager (logical_monitor_configs_of config) with
  | none => none
  | some next =>
    some { next with
      monitors := next.monitors.map
        (fun monitor =>
          if meta_monitor_get_logical_monitor next monitor = none then
            meta_monitor_set_current_mode monitor none
          else monitor) }

/-- The function `meta_monitor_manager_update_logical_state`. -/
def meta_monitor_manager_update_logical_state (env : ConfigCollaborators)
    (manager : MetaMonitorManager) (config : Option MetaMonitorsConfig) :
    Option MetaMonitorManager :=
  meta_monitor_manager_update_monitor_modes
    (meta_monitor_manager_rebuild_logical_monitors env manager config) config

/-- The function `meta_monitor_manager_rebuild`: the manager afterwards and the number
of "monitors-changed" notifications sent (`meta_monitor_manager_notify_monitors_changed`).
Nothing happens while the manager is in its construction phase (`in_init`). -/
def meta_monitor_manager_rebuild (env : ConfigCollaborators) (manager : MetaMonitorManager)
    (config : Option MetaMonitorsConfig) : Option (MetaMonitorManager × Nat) :=
  if manager.in_init then some (manager, 0)
  else
    match meta_monitor_manager_update_logical_state env manager config with
    | none => none
    | some next => some (next, 1)

/-- What one run of `meta_monitor_manager_ensure_configured` did: the manager
afterwards, the configuration returned, the arguments of the calls of
`meta_monitor_manager_apply_monitors_config` in order, the arguments of the calls of
`meta_monitor_config_manager_set_current`, the warnings logged, and the number of
"monitors-changed" notifications. -/
structure EnsureOutcome where
  manager : MetaMonitorManager
  result : Option MetaMonitorsConfig := none
  applied : List MetaMonitorsConfig := []
  set_current : List (Option MetaMonitorsConfig) := []
  warnings : List String := []
  monitors_changed : Nat := 0
deriving DecidableEq, Repr

/-- The function `legacy_ensure_configured`. -/
def legacy_ensure_configured (env : ConfigCollaborators) (manager : MetaMonitorManager) :
    MetaMonitorManager :=
  if !(env.config_apply_stored manager).1 then
    env.config_make_default (env.config_apply_stored manager).2
  else (env.config_apply_stored manager).2

/-- One of the four blocks `if (config) { if (!apply (...)) { ... } else goto done; }` of
`meta_monitor_manager_ensure_configured`, run on the outcome so far with the candidate
`config`; `result` is set when the block jumps to `done`. -/
def ensure_configured_try (env : ConfigCollaborators) (warning : String)
    (config : Option MetaMonitorsConfig) (sofar : EnsureOutcome) : EnsureOutcome :=
  match config with
  | none => sofar
  | some c =>
    if !(env.apply_monitors_config sofar.manager c).1 then
      { sofar with
        manager := (env.apply_monitors_config sofar.manager c).2,
        applied := sofar.applied ++ [c],
        warnings := sofar.warnings ++ [warning] }
    else
      { sofar with
        manager := (env.apply_monitors_config sofar.manager c).2,
        applied := sofar.applied ++ [c],
        result := some c }

/-- The part of `meta_monitor_manager_ensure_configured` after the label `done`. -/
def ensure_configured_done (env : ConfigCollaborators) (sofar : EnsureOutcome) :
    Option EnsureOutcome :=
  match sofar.result with
  | none =>
    match meta_monitor_manager_rebuild env sofar.manager none with
    | none => none
    | some (next, notified) =>
      some { sofar with
        manager := next,
        set_current := sofar.set_current ++ [none],
        monitors_changed := sofar.monitors_changed + notified }
  | some c => some { sofar with set_current := sofar.set_current ++ [some c] }

/-- The function `meta_monitor_manager_ensure_configured`, `none` when it aborts. -/
def meta_monitor_manager_ensure_configured (env : ConfigCollaborators)
    (manager : MetaMonitorManager) : Option EnsureOutcome :=
  if !manager.config_manager then
    some { manager := legacy_ensure_configured env manager }
  else
    let stored :=
      if should_use_stored_config manager then
        ensure_configured_try env "Failed to use stored monitor configuration"
          (env.get_stored manager) { manager := manager }
      else { manager := manager }
    if stored.result ≠ none then ensure_configured_done env stored
    else
      let suggested :=
        ensure_configured_try env "Failed to use suggested monitor configuration"
          (env.create_suggested stored.manager) stored
      if suggested.result ≠ none then ensure_configured_done env suggested
      else
        let linear :=
          ensure_configured_try env "Failed to use linear monitor configuration"
            (env.create_linear suggested.manager) suggested
        if linear.result ≠ none then ensure_configured_done env linear
        else
          ensure_configured_done env
            (ensure_configured_try env "Failed to use fallback monitor configuration"
              (env.create_fallback linear.manager) linear)

/-! ## Confirming or reverting a persistent change (`meta-monitor-manager.c`) -/

/-- The two functions of the legacy configuration that settle a persistent change:
`meta_monitor_config_restore_previous` and `meta_monitor_config_make_persistent`. -/
inductive LegacyConfigCall where
  | restore_previous
  | make_persistent
deriving DecidableEq, Repr, Inhabited

/-- What `save_config_timeout` or `meta_monitor_manager_confirm_configuration` did: the
manager afterwards, the timers removed with `g_source_remove`, the calls made to the
legacy configuration, and, for the timer callback, whether it asks to be called again
(`G_SOURCE_REMOVE` is `false`). -/
structure ConfirmOutcome where
  manager : MetaMonitorManager
  removed_timeouts : List Nat := []
  calls : List LegacyConfigCall := []
  source_continue : Bool := false
deriving DecidableEq, Repr

/-- The function `legacy_restore_previous_config`; `restore_previous` is
`meta_monitor_config_restore_previous`, which works on the manager. -/
def legacy_restore_previous_config (restore_previous : MetaMonitorManager → MetaMonitorManager)
    (manager : MetaMonitorManager) : MetaMonitorManager :=
  restore_previous manager

/-- The timer callback `save_config_timeout`, `none` when it aborts on the assertion of
the new configuration system. -/
def save_config_timeout (restore_previous : MetaMonitorManager → MetaMonitorManager)
    (manager : MetaMonitorManager) : Option ConfirmOutcome :=
  if manager.config_manager then none
  else
    some { manager :=
             { legacy_restore_previous_config restore_previous manager with
               persistent_timeout_id := 0 },
           calls := [LegacyConfigCall.restore_previous],
           source_continue := false }

/-- The function `legacy_confirm_configuration`: the manager afterwards and the call
made.  `meta_monitor_config_make_persistent` works on the configuration object only. -/
def legacy_confirm_configuration (restore_previous : MetaMonitorManager → MetaMonitorManager)
    (manager : MetaMonitorManager) (confirmed : Bool) :
    MetaMonitorManager × LegacyConfigCall :=
  if confirmed then (manager, LegacyConfigCall.make_persistent)
  else (restore_previous manager, LegacyConfigCall.restore_previous)

/-- The function `meta_monitor_manager_confirm_configuration`, `none` when it aborts on
the assertion of the new configuration system. -/
def meta_monitor_manager_confirm_configuration
    (restore_previous : MetaMonitorManager → MetaMonitorManager)
    (manager : MetaMonitorManager) (ok : Bool) : Option ConfirmOutcome :=
  if manager.persistent_timeout_id = 0 then some { manager := manager }
  else if manager.config_manager then none
  else
    some { manager :=
             (legacy_confirm_configuration restore_previous
               { manager with persistent_timeout_id := 0 } ok).1,
           removed_timeouts := [manager.persistent_timeout_id],
           calls :=
             [(legacy_confirm_configuration restore_previous
               { manager with persistent_timeout_id := 0 } ok).2] }

/-! ## Applying a configuration through XRandR (`core/monitor-xrandr.c`) -/

/-- The requests of `meta_monitor_manager_xrandr_apply_configuration` that change the
state of the X server: `XRRSetCrtcConfig` (mode `none` for `None`), `XRRSetScreenSize`,
`XRRSetOutputPrimary`, and the `XRRChangeOutputProperty` calls for the presentation
flag, the two underscan borders and the underscan atom (`crop` or `off`). -/
inductive XrandrRequest where
  | SetCrtcConfig (crtc_id : Int) (x y : Int) (mode : Option Int) (rotation : Nat)
      (outputs : List Int)
  | SetScreenSize (width height width_mm height_mm : Int)
  | SetOutputPrimary (output_id : Int)
  | SetPresentation (output_id : Int) (value : Bool)
  | SetUnderscanBorder (output_id : Int) (horizontal : Bool) (border_value : Int)
  | SetUnderscan (output_id : Int) (crop : Bool)
deriving DecidableEq, Repr, Inhabited

/-- What `meta_monitor_manager_xrandr_apply_configuration` uses from outside the file:
`is_rotated` is `meta_monitor_transform_is_rotated`; the six `RR_` values are the
rotation bits of the RandR protocol headers; `set_crtc_config_ok` tells whether the
server answers `Success` to an `XRRSetCrtcConfig` request, given the requests sent
before; `get_underscanning` gives what the three property reads of
`output_get_underscanning_xrandr` find for an output id (the underscan flag and the two
borders), given the requests sent before; `mm_of_pixels` is the floating-point
expression `(pixels / DPI_FALLBACK) * 25.4 + 0.5` converted to `int`, and
`overscan_border` is `round (pixels * OVERSCAN_COMPENSATION_BORDER)`. -/
structure XrandrCollaborators where
  is_rotated : Nat → Bool
  RR_Rotate_0 : Nat
  RR_Rotate_90 : Nat
  RR_Rotate_180 : Nat
  RR_Rotate_270 : Nat
  RR_Reflect_X : Nat
  RR_Reflect_Y : Nat
  set_crtc_config_ok : List XrandrRequest → XrandrRequest → Bool
  get_underscanning : List XrandrRequest → Int → Bool × Int × Int
  mm_of_pixels : Int → Int
  overscan_border : Int → Int

/-- The function `wl_transform_to_xrandr`, `none` when it reaches
`g_assert_not_reached`.  The transforms are numbered 0 to 7: normal, 90, 180, 270 and
their flipped variants. -/
def wl_transform_to_xrandr (env : XrandrCollaborators) (transform : Nat) : Option Nat :=
  match transform with
  | 0 => some env.RR_Rotate_0
  | 1 => some env.RR_Rotate_90
  | 2 => some env.RR_Rotate_180
  | 3 => some env.RR_Rotate_270
  | 4 => some (env.RR_Reflect_X ||| env.RR_Rotate_0)
  | 5 => some (env.RR_Reflect_X ||| env.RR_Rotate_90)
  | 6 => some (env.RR_Reflect_X ||| env.RR_Rotate_180)
  | 7 => some (env.RR_Reflect_X ||| env.RR_Rotate_270)
  | _ => none

/-- The state threaded through `meta_monitor_manager_xrandr_apply_configuration`: the
manager, the requests sent so far in order, and the number of warnings logged. -/
structure XrandrApplyState where
  manager : MetaMonitorManager
  requests : List XrandrRequest := []
  warnings : Nat := 0
deriving DecidableEq, Repr

/-- The body of the first loop: the crtc is marked dirty and the framebuffer size is
extended to cover the requested rectangle.  The running `width` and `height` are the
second and third component. -/
def xrandr_apply_size_step (env : XrandrCollaborators)
    (st : MetaMonitorManager × Int × Int) (crtc_info : MetaCrtcInfo) :
    MetaMonitorManager × Int × Int :=
  match crtc_info.mode with
  | none =>
    ({ st.1 with
        crtcs := st.1.crtcs.modify (fun crtc => { crtc with is_dirty := true }) crtc_info.crtc },
      st.2.1, st.2.2)
  | some mode =>
    if env.is_rotated crtc_info.transform then
      ({ st.1 with
          crtcs := st.1.crtcs.modify (fun crtc => { crtc with is_dirty := true })
            crtc_info.crtc },
        max st.2.1 (int_wrap (crtc_info.x + (st.1.mode mode).height)),
        max st.2.2 (int_wrap (crtc_info.y + (st.1.mode mode).width)))
    else
      ({ st.1 with
          crtcs := st.1.crtcs.modify (fun crtc => { crtc with is_dirty := true })
            crtc_info.crtc },
        max st.2.1 (int_wrap (crtc_info.x + (st.1.mode mode).width)),
        max st.2.2 (int_wrap (crtc_info.y + (st.1.mode mode).height)))

/-- The block that switches a crtc off, used by the second and the third loop:
`XRRSetCrtcConfig` with mode `None`, then the rectangle and the current mode of the crtc
are cleared. -/
def xrandr_disable_crtc (env : XrandrCollaborators) (st : XrandrApplyState) (crtc : Nat) :
    XrandrApplyState :=
  { st with
    manager :=
      { st.manager with
        crtcs := st.manager.crtcs.modify
          (fun c => { c with rect := ⟨0, 0, 0, 0⟩, current_mode := none }) crtc },
    requests := st.requests ++
      [XrandrRequest.SetCrtcConfig (st.manager.crtc crtc).crtc_id 0 0 none env.RR_Rotate_0 []] }

/-- The body of the second loop (the shrink phase): a requested crtc is switched off
when it gets no mode or when its present rectangle does not fit the new framebuffer. -/
def xrandr_apply_shrink_step (env : XrandrCollaborators) (width height : Int)
    (st : XrandrApplyState) (crtc_info : MetaCrtcInfo) : XrandrApplyState :=
  if crtc_info.mode = none ∨
      int_wrap ((st.manager.crtc crtc_info.crtc).rect.x +
        (st.manager.crtc crtc_info.crtc).rect.width) > width ∨
      int_wrap ((st.manager.crtc crtc_info.crtc).rect.y +
        (st.manager.crtc crtc_info.crtc).rect.height) > height then
    xrandr_disable_crtc env st crtc_info.crtc
  else st

/-- The body of the third loop, over the crtc table: a dirty crtc is cleaned, a crtc not
mentioned in the request is switched off if it has a mode. -/
def xrandr_apply_unmentioned_step (env : XrandrCollaborators) (st : XrandrApplyState)
    (i : Nat) : XrandrApplyState :=
  if (st.manager.crtc i).is_dirty then
    { st with
      manager :=
        { st.manager with
          crtcs := st.manager.crtcs.modify (fun c => { c with is_dirty := false }) i } }
  else if (st.manager.crtc i).current_mode = none then st
  else xrandr_disable_crtc env st i

/-- The loop that computes `old_controlled_mask`: bit `j` is set for every index `j` of
the output table whose output is driven by the crtc.  Shifts by 64 or more are undefined
in the source; the mask is kept exact here. -/
def old_controlled_mask (manager : MetaMonitorManager) (crtc : Nat) : Nat :=
  (List.range manager.outputs.length).foldl
    (fun mask j => if (manager.output j).crtc = some crtc then mask ||| (1 <<< j) else mask)
    0

/-- The mask the loop over `crtc_info->outputs` computes as `new_controlled_mask`: bit
`j` is set for every position `j` of that list. -/
def new_controlled_mask (outputs : List Nat) : Nat :=
  (List.range outputs.length).foldl (fun mask j => mask ||| (1 <<< j)) 0

/-- The writes of the loop over `crtc_info->outputs`: each listed output is marked dirty
and attached to the crtc. -/
def xrandr_assign_outputs (manager : MetaMonitorManager) (crtc : Nat) (outputs : List Nat) :
    MetaMonitorManager :=
  outputs.foldl
    (fun m output =>
      { m with
        outputs := m.outputs.modify
          (fun o => { o with is_dirty := true, crtc := some crtc }) output })
    manager

/-- The size a crtc gets from a mode under a transform. -/
def xrandr_rotated_size (env : XrandrCollaborators) (manager : MetaMonitorManager)
    (mode : Nat) (transform : Nat) : Int × Int :=
  if env.is_rotated transform then ((manager.mode mode).height, (manager.mode mode).width)
  else ((manager.mode mode).width, (manager.mode mode).height)

/-- The body of the main crtc loop for one crtc info, `none` when the transform makes
`wl_transform_to_xrandr` abort.  A crtc info without mode is skipped; when the test
for "No change" holds nothing is sent; else `XRRSetCrtcConfig` is sent and, on success,
the crtc takes the requested rectangle, mode and transform.  `old_controlled_mask` is
computed before the listed outputs are attached to the crtc; the loop that attaches them
writes to the outputs only, so the crtc, the mode and the output ids are read from the
state before it. -/
def xrandr_apply_crtc_step (env : XrandrCollaborators) (st : XrandrApplyState)
    (crtc_info : MetaCrtcInfo) : Option XrandrApplyState :=
  match crtc_info.mode with
  | none => some st
  | some mode =>
    if (st.manager.crtc crtc_info.crtc).current_mode = some mode ∧
        (st.manager.crtc crtc_info.crtc).rect.x = crtc_info.x ∧
        (st.manager.crtc crtc_info.crtc).rect.y = crtc_info.y ∧
        (st.manager.crtc crtc_info.crtc).transform = crtc_info.transform ∧
        old_controlled_mask st.manager crtc_info.crtc =
          new_controlled_mask crtc_info.outputs then
      some { st with
        manager := xrandr_assign_outputs st.manager crtc_info.crtc crtc_info.outputs }
    else
      match wl_transform_to_xrandr env crtc_info.transform with
      | none => none
      | some rotation =>
        if !(env.set_crtc_config_ok st.requests
            (XrandrRequest.SetCrtcConfig (st.manager.crtc crtc_info.crtc).crtc_id
              crtc_info.x crtc_info.y (some (st.manager.mode mode).mode_id) rotation
              (crtc_info.outputs.map (fun o => (st.manager.output o).winsys_id)))) then
          some
            { manager := xrandr_assign_outputs st.manager crtc_info.crtc crtc_info.outputs,
              requests := st.requests ++
                [XrandrRequest.SetCrtcConfig (st.manager.crtc crtc_info.crtc).crtc_id
                  crtc_info.x crtc_info.y (some (st.manager.mode mode).mode_id) rotation
                  (crtc_info.outputs.map (fun o => (st.manager.output o).winsys_id))],
              warnings := st.warnings + 1 }
        else
          some
            { manager :=
                { xrandr_assign_outputs st.manager crtc_info.crtc crtc_info.outputs with
                  crtcs :=
                    (xrandr_assign_outputs st.manager crtc_info.crtc
                      crtc_info.outputs).crtcs.modify
                      (fun c =>
                        { c with
                          rect := ⟨crtc_info.x, crtc_info.y,
                            (xrandr_rotated_size env st.manager mode crtc_info.transform).1,
                            (xrandr_rotated_size env st.manager mode crtc_info.transform).2⟩,
                          current_mode := some mode,
                          transform := crtc_info.transform })
                      crtc_info.crtc },
              requests := st.requests ++
                [XrandrRequest.SetCrtcConfig (st.manager.crtc crtc_info.crtc).crtc_id
                  crtc_info.x crtc_info.y (some (st.manager.mode mode).mode_id) rotation
                  (crtc_info.outputs.map (fun o => (st.manager.output o).winsys_id))],
              warnings := st.warnings }

/-- The main crtc loop. -/
def xrandr_apply_crtcs (env : XrandrCollaborators) :
    List MetaCrtcInfo → XrandrApplyState → Option XrandrApplyState
  | [], st => some st
  | crtc_info :: rest, st =>
    match xrandr_apply_crtc_step env st crtc_info with
    | none => none
    | some next => xrandr_apply_crtcs env rest next

/-- The function `output_get_underscanning_xrandr`: the three fields read from the
server are stored on the output and the underscan flag is returned. -/
def output_get_underscanning_xrandr (env : XrandrCollaborators) (st : XrandrApplyState)
    (output : Nat) : XrandrApplyState × Bool :=
  ({ st with
      manager :=
        { st.manager with
          outputs := st.manager.outputs.modify
            (fun o =>
              { o with
                is_underscanning :=
                  (env.get_underscanning st.requests (st.manager.output output).winsys_id).1,
                underscan_hborder :=
                  (env.get_underscanning st.requests (st.manager.output output).winsys_id).2.1,
                underscan_vborder :=
                  (env.get_underscanning st.requests (st.manager.output output).winsys_id).2.2 })
            output } },
    (env.get_underscanning st.requests (st.manager.output output).winsys_id).1)

/-- The function `output_set_underscanning_xrandr`, `none` when it is asked to switch
underscanning on for an output without crtc or whose crtc has no mode (the source then
reads through a `NULL` pointer). -/
def output_set_underscanning_xrandr (env : XrandrCollaborators) (st : XrandrApplyState)
    (output : Nat) (underscanning : Bool) : Option XrandrApplyState :=
  if underscanning then
    match (st.manager.output output).crtc with
    | none => none
    | some crtc =>
      match (st.manager.crtc crtc).current_mode with
      | none => none
      | some mode =>
        some
          { st with
            manager :=
              { st.manager with
                outputs := st.manager.outputs.modify
                  (fun o =>
                    { o with
                      underscan_hborder := env.overscan_border (st.manager.mode mode).width,
                      underscan_vborder := env.overscan_border (st.manager.mode mode).height })
                  output },
            requests := st.requests ++
              [XrandrRequest.SetUnderscanBorder (st.manager.output output).winsys_id true
                (env.overscan_border (st.manager.mode mode).width),
               XrandrRequest.SetUnderscanBorder (st.manager.output output).winsys_id false
                (env.overscan_border (st.manager.mode mode).height),
               XrandrRequest.SetUnderscan (st.manager.output output).winsys_id true] }
  else
    some
      { st with
        requests := st.requests ++
          [XrandrRequest.SetUnderscan (st.manager.output output).winsys_id false] }

/-- The first half of the body of the output loop: the primary and presentation
requests are sent and the two flags stored on the output. -/
def xrandr_apply_output_flags (st : XrandrApplyState) (output_info : MetaOutputInfo) :
    XrandrApplyState :=
  { st with
    manager :=
      { st.manager with
        outputs := st.manager.outputs.modify
          (fun o =>
            { o with
              is_primary := output_info.is_primary,
              is_presentation := output_info.is_presentation })
          output_info.output },
    requests := st.requests ++
      (if output_info.is_primary then
        [XrandrRequest.SetOutputPrimary (st.manager.output output_info.output).winsys_id]
       else []) ++
      [XrandrRequest.SetPresentation (st.manager.output output_info.output).winsys_id
        output_info.is_presentation] }

/-- The value of `should_underscan` in the output loop: the requested flag, except for
the default configuration, which keeps underscanning exactly when it is on already. -/
def should_underscan (output_info : MetaOutputInfo) (is_currently_underscanning : Bool) :
    Bool :=
  if output_info.is_default_config then is_currently_underscanning
  else output_info.is_underscanning

/-- The body of the output loop for one output info, `none` when
`output_set_underscanning_xrandr` aborts. -/
def xrandr_apply_output_step (env : XrandrCollaborators) (st : XrandrApplyState)
    (output_info : MetaOutputInfo) : Option XrandrApplyState :=
  match
    (if (output_get_underscanning_xrandr env (xrandr_apply_output_flags st output_info)
          output_info.output).2 ≠
        should_underscan output_info
          (output_get_underscanning_xrandr env (xrandr_apply_output_flags st output_info)
            output_info.output).2 then
      output_set_underscanning_xrandr env
        (output_get_underscanning_xrandr env (xrandr_apply_output_flags st output_info)
          output_info.output).1
        output_info.output
        (should_underscan output_info
          (output_get_underscanning_xrandr env (xrandr_apply_output_flags st output_info)
            output_info.output).2)
    else
      some (output_get_underscanning_xrandr env (xrandr_apply_output_flags st output_info)
        output_info.output).1) with
  | none => none
  | some next =>
    some
      { next with
        manager :=
          { next.manager with
            outputs := next.manager.outputs.modify
              (fun o =>
                { o with
                  is_underscanning :=
                    should_underscan output_info
                      (output_get_underscanning_xrandr env
                        (xrandr_apply_output_flags st output_info) output_info.output).2 })
              output_info.output } }

/-- The output loop. -/
def xrandr_apply_outputs (env : XrandrCollaborators) :
    List MetaOutputInfo → XrandrApplyState → Option XrandrApplyState
  | [], st => some st
  | output_info :: rest, st =>
    match xrandr_apply_output_step env st output_info with
    | none => none
    | some next => xrandr_apply_outputs env rest next

/-- The last loop, over the output table: a dirty output is cleaned, an output not
mentioned by any crtc info loses its crtc and its primary flag. -/
def xrandr_apply_unmentioned_outputs (manager : MetaMonitorManager) : MetaMonitorManager :=
  { manager with
    outputs := manager.outputs.map
      (fun o =>
        if o.is_dirty then { o with is_dirty := false }
        else { o with crtc := none, is_primary := false }) }

/-- The function `meta_monitor_manager_xrandr_apply_configuration`: the manager
afterwards and the requests sent, `none` when the function aborts (the assertion
`width > 0 && height > 0`, an unknown transform, or underscanning switched on for an
output that is off).  The framebuffer size is computed first, then the crtcs that are
switched off or do not fit are disabled, then the crtcs not mentioned; the screen is
resized; the crtcs and the outputs of the request are configured; the outputs not
mentioned are detached. -/
def meta_monitor_manager_xrandr_apply_configuration (env : XrandrCollaborators)
    (manager : MetaMonitorManager) (crtcs : List MetaCrtcInfo)
    (outputs : List MetaOutputInfo) : Option XrandrApplyState :=
  let sized := crtcs.foldl (xrandr_apply_size_step env) (manager, 0, 0)
  let shrunk := crtcs.foldl (xrandr_apply_shrink_step env sized.2.1 sized.2.2)
    { manager := sized.1 }
  let cleared := (List.range shrunk.manager.crtcs.length).foldl
    (xrandr_apply_unmentioned_step env) shrunk
  if sized.2.1 > 0 ∧ sized.2.2 > 0 then
    match xrandr_apply_crtcs env crtcs
        { cleared with
          requests := cleared.requests ++
            [XrandrRequest.SetScreenSize sized.2.1 sized.2.2 (env.mm_of_pixels sized.2.1)
              (env.mm_of_pixels sized.2.2)] } with
    | none => none
    | some configured =>
      match xrandr_apply_outputs env outputs configured with
      | none => none
      | some attributed =>
        some { attributed with
          manager := xrandr_apply_unmentioned_outputs attributed.manager }
  else none

/-! ## Activity, primary flag and derived layout of a monitor (`meta-monitor.c`) -/

/-- The function `meta_monitor_is_active`: the main output has a crtc and the crtc a
mode. -/
def meta_monitor_is_active (manager : MetaMonitorManager) (monitor : MetaMonitor) : Bool :=
  match (manager.output (meta_monitor_get_main_output monitor)).crtc with
  | some crtc => (manager.crtc crtc).current_mode.isSome
  | none => false

/-- The function `meta_monitor_is_primary`. -/
def meta_monitor_is_primary (manager : MetaMonitorManager) (monitor : MetaMonitor) : Bool :=
  (manager.output (meta_monitor_get_main_output monitor)).is_primary

/-- The function `meta_monitor_normal_derive_layout`: the rectangle of the crtc of the
main output, `none` when the output has no crtc (the source then reads through `NULL`). -/
def meta_monitor_normal_derive_layout (manager : MetaMonitorManager) (monitor : MetaMonitor) :
    Option MetaRectangle :=
  match (manager.output (meta_monitor_get_main_output monitor)).crtc with
  | some crtc =>
    some { x := (manager.crtc crtc).rect.x,
           y := (manager.crtc crtc).rect.y,
           width := (manager.crtc crtc).rect.width,
           height := (manager.crtc crtc).rect.height }
  | none => none

/-- The constant `INT_MAX`. -/
def INT_MAX : Int := 2147483647

/-- The running values `min_x`, `min_y`, `max_x` and `max_y` of
`meta_monitor_derived_derive_layout`. -/
structure LayoutBounds where
  min_x : Int
  min_y : Int
  max_x : Int
  max_y : Int
deriving DecidableEq, Repr

/-- The body of the loop of `meta_monitor_derived_derive_layout` for one member output:
an output without crtc is skipped, else the bounds take in the rectangle of its crtc. -/
def derive_layout_step (manager : MetaMonitorManager) (bounds : LayoutBounds) (output : Nat) :
    LayoutBounds :=
  match (manager.output output).crtc with
  | none => bounds
  | some crtc =>
    { min_x := min (manager.crtc crtc).rect.x bounds.min_x,
      min_y := min (manager.crtc crtc).rect.y bounds.min_y,
      max_x := max (int_wrap ((manager.crtc crtc).rect.x + (manager.crtc crtc).rect.width))
        bounds.max_x,
      max_y := max (int_wrap ((manager.crtc crtc).rect.y + (manager.crtc crtc).rect.height))
        bounds.max_y }

/-- The function `meta_monitor_derived_derive_layout`, the `derive_layout` of a tiled
monitor. -/
def meta_monitor_derived_derive_layout (manager : MetaMonitorManager) (monitor : MetaMonitor) :
    MetaRectangle :=
  { x := (monitor.outputs.foldl (derive_layout_step manager) ⟨INT_MAX, INT_MAX, 0, 0⟩).min_x,
    y := (monitor.outputs.foldl (derive_layout_step manager) ⟨INT_MAX, INT_MAX, 0, 0⟩).min_y,
    width :=
      int_wrap
        ((monitor.outputs.foldl (derive_layout_step manager) ⟨INT_MAX, INT_MAX, 0, 0⟩).max_x -
          (monitor.outputs.foldl (derive_layout_step manager) ⟨INT_MAX, INT_MAX, 0, 0⟩).min_x),
    height :=
      int_wrap
        ((monitor.outputs.foldl (derive_layout_step manager) ⟨INT_MAX, INT_MAX, 0, 0⟩).max_y -
          (monitor.outputs.foldl (derive_layout_step manager) ⟨INT_MAX, INT_MAX, 0, 0⟩).min_y) }

/-- The function `meta_monitor_derive_layout`: the virtual function `derive_layout` of
the class of the monitor. -/
def meta_monitor_derive_layout (manager : MetaMonitorManager) (monitor : MetaMonitor) :
    Option MetaRectangle :=
  if monitor.is_tiled then some (meta_monitor_derived_derive_layout manager monitor)
  else meta_monitor_normal_derive_layout manager monitor

/-! ## The logical monitors derived from the live state (`meta-monitor-manager.c`) -/

/-- Modelled from the spec: `meta_logical_monitor_new_derived` lives in
`meta-logical-monitor.c`, outside the files in scope.  The specification has the derived
builder "create a new LogicalMonitor" for the layout rectangle of the monitor, built from
that monitor: the new logical monitor has the given number, the layout as its rectangle,
and the monitor (a position in the manager's monitor list) as its only member. -/
def meta_logical_monitor_new_derived (monitor : Nat) (layout : MetaRectangle)
    (monitor_number : Int) : MetaLogicalMonitor :=
  { number := monitor_number, rect := layout, monitors := [monitor] }

/-- Modelled from the spec: `meta_logical_monitor_add_monitor` lives in
`meta-logical-monitor.c`, outside the files in scope.  The specification has the derived
builder "merge" a monitor into an existing logical monitor: the monitor is added to the
member monitors, nothing else changes. -/
def meta_logical_monitor_add_monitor (logical_monitor : MetaLogicalMonitor) (monitor : Nat) :
    MetaLogicalMonitor :=
  { logical_monitor with monitors := logical_monitor.monitors ++ [monitor] }

/-- The function `logical_monitor_from_layout`: the position of the first logical
monitor of the list whose rectangle equals the layout (`meta_rectangle_equal` compares
the four fields), `none` for `NULL`. -/
def logical_monitor_from_layout (logical_monitors : List MetaLogicalMonitor)
    (layout : MetaRectangle) : Option Nat :=
  logical_monitors.findIdx? (fun logical_monitor => decide (layout = logical_monitor.rect))

/-- The state of the loop of `meta_monitor_manager_rebuild_logical_monitors_derived`:
the local list, the next number, and the primary logical monitor as a position in the
list. -/
structure DerivedLogicalState where
  logical_monitors : List MetaLogicalMonitor := []
  monitor_number : Int := 0
  primary_logical_monitor : Option Nat := none
deriving DecidableEq, Repr

/-- The body of the loop of `meta_monitor_manager_rebuild_logical_monitors_derived` for
the monitor at position `i` of the manager's list, `none` when deriving the layout
aborts.  An inactive monitor is skipped; an active one joins the logical monitor with
its layout, or a new logical monitor is appended for it; the logical monitor of a
primary monitor becomes the primary one. -/
def rebuild_logical_monitors_derived_step (manager : MetaMonitorManager)
    (st : DerivedLogicalState) (i : Nat) : Option DerivedLogicalState :=
  if !(meta_monitor_is_active manager (manager.monitors.getD i default)) then some st
  else
    match meta_monitor_derive_layout manager (manager.monitors.getD i default) with
    | none => none
    | some layout =>
      match logical_monitor_from_layout st.logical_monitors layout with
      | some p =>
        some
          { logical_monitors := st.logical_monitors.modify
              (fun logical_monitor => meta_logical_monitor_add_monitor logical_monitor i) p,
            monitor_number := st.monitor_number,
            primary_logical_monitor :=
              if meta_monitor_is_primary manager (manager.monitors.getD i default) then some p
              else st.primary_logical_monitor }
      | none =>
        some
          { logical_monitors := st.logical_monitors ++
              [meta_logical_monitor_new_derived i layout st.monitor_number],
            monitor_number := st.monitor_number + 1,
            primary_logical_monitor :=
              if meta_monitor_is_primary manager (manager.monitors.getD i default) then
                some st.logical_monitors.length
              else st.primary_logical_monitor }

/-- The loop of `meta_monitor_manager_rebuild_logical_monitors_derived` over the
positions of the monitors still to visit. -/
def rebuild_logical_monitors_derived_loop (manager : MetaMonitorManager) :
    List Nat → DerivedLogicalState → Option DerivedLogicalState
  | [], st => some st
  | i :: rest, st =>
    match rebuild_logical_monitors_derived_step manager st i with
    | none => none
    | some next => rebuild_logical_monitors_derived_loop manager rest next

/-- The function `meta_monitor_manager_rebuild_logical_monitors_derived`, `none` when it
aborts. -/
def meta_monitor_manager_rebuild_logical_monitors_derived (env : ConfigCollaborators)
    (manager : MetaMonitorManager) : Option MetaMonitorManager :=
  match rebuild_logical_monitors_derived_loop manager
      (List.range manager.monitors.length) {} with
  | none => none
  | some st =>
    some (meta_monitor_manager_set_primary_logical_monitor env
      { manager with logical_monitors := st.logical_monitors }
      (if st.primary_logical_monitor = none ∧ st.logical_monitors ≠ [] then some 0
       else st.primary_logical_monitor))

/-! ## Reading transforms from XRandR (`core/monitor-xrandr.c`) -/

/-- The table `y_reflected_map` of `wl_transform_from_xrandr`: flipped-180, flipped-90,
flipped and flipped-270, as transform numbers. -/
def y_reflected_map : List Nat := [6, 5, 4, 7]

/-- The function `wl_transform_from_xrandr`.  The `switch` is on `rotation & 0x7F`; its
`default` label shares the branch of `RR_Rotate_0`. -/
def wl_transform_from_xrandr (env : XrandrCollaborators) (rotation : Nat) : Nat :=
  let ret :=
    if rotation &&& 0x7F = env.RR_Rotate_0 then 0
    else if rotation &&& 0x7F = env.RR_Rotate_90 then 1
    else if rotation &&& 0x7F = env.RR_Rotate_180 then 2
    else if rotation &&& 0x7F = env.RR_Rotate_270 then 3
    else 0
  if rotation &&& env.RR_Reflect_X ≠ 0 then ret + 4
  else if rotation &&& env.RR_Reflect_Y ≠ 0 then y_reflected_map.getD ret 0
  else ret

/-- The constant `ALL_WL_TRANSFORMS`, `(1 << (WL_OUTPUT_TRANSFORM_FLIPPED_270 + 1)) - 1`. -/
def ALL_WL_TRANSFORMS : Nat := (1 <<< (7 + 1)) - 1

/-- The constant `ALL_ROTATIONS`. -/
def ALL_ROTATIONS (env : XrandrCollaborators) : Nat :=
  env.RR_Rotate_0 ||| env.RR_Rotate_90 ||| env.RR_Rotate_180 ||| env.RR_Rotate_270

/-- The function `wl_transform_from_xrandr_all`: the set of supported transforms as a
bit mask, bit `t` standing for transform `t`. -/
def wl_transform_from_xrandr_all (env : XrandrCollaborators) (rotation : Nat) : Nat :=
  if rotation = 0 ∨ rotation = env.RR_Rotate_0 then 1 <<< 0
  else if rotation &&& ALL_ROTATIONS env ≠ 0 ∧
      (rotation &&& env.RR_Reflect_X ≠ 0 ∨ rotation &&& env.RR_Reflect_Y ≠ 0) then
    ALL_WL_TRANSFORMS
  else
    let ret0 := 1 <<< 0
    let ret1 := if rotation &&& env.RR_Rotate_90 ≠ 0 then ret0 ||| (1 <<< 1) else ret0
    let ret2 := if rotation &&& env.RR_Rotate_180 ≠ 0 then ret1 ||| (1 <<< 2) else ret1
    let ret3 := if rotation &&& env.RR_Rotate_270 ≠ 0 then ret2 ||| (1 <<< 3) else ret2
    let ret4 :=
      if rotation &&& (env.RR_Rotate_0 ||| env.RR_Reflect_X) ≠ 0 then ret3 ||| (1 <<< 4)
      else ret3
    let ret5 :=
      if rotation &&& (env.RR_Rotate_90 ||| env.RR_Reflect_X) ≠ 0 then ret4 ||| (1 <<< 5)
      else ret4
    let ret6 :=
      if rotation &&& (env.RR_Rotate_180 ||| env.RR_Reflect_X) ≠ 0 then ret5 ||| (1 <<< 6)
      else ret5
    if rotation &&& (env.RR_Rotate_270 ||| env.RR_Reflect_X) ≠ 0 then ret6 ||| (1 <<< 7)
    else ret6

/-! ## The backlight (`core/monitor-xrandr.c`, `meta-monitor-manager.c`) -/

/-- The position of the highest set bit of `n`, found in at most `fuel` halvings; 0 for
`n` below 2. -/
def floor_log2_fuel : Nat → Nat → Nat
  | 0, _ => 0
  | fuel + 1, n => if n < 2 then 0 else floor_log2_fuel fuel (n / 2) + 1

/-- The position of the highest set bit of `n`: the largest `k` with `2 ^ k ≤ n`. -/
def floor_log2 (n : Nat) : Nat := floor_log2_fuel n n

/-- A finite value of the C type `double` (IEEE 754 binary64): `mantissa * 2 ^ exponent`. -/
structure Double where
  mantissa : Int
  exponent : Int
deriving DecidableEq, Repr

/-- The quotient `num / den` rounded to the nearest natural number, a half to the even
neighbour. -/
def round_half_even (num den : Nat) : Nat :=
  if 2 * (num % den) < den then num / den
  else if 2 * (num % den) > den then num / den + 1
  else if (num / den) % 2 = 0 then num / den
  else num / den + 1

/-- The `double` nearest to the quotient `num / den` of a positive `den`, as every
arithmetic operation on `double` rounds its exact result: the mantissa has 53 bits and a
tie goes to the even mantissa.  The operands here come from `int` values, so a result is
neither too large nor too small for the exponent of a `double`. -/
def double_round (num : Int) (den : Nat) : Double :=
  if num = 0 then { mantissa := 0, exponent := 0 }
  else
    let e : Int := (floor_log2 num.natAbs : Int) - (floor_log2 den : Int) - 53
    let n : Nat := num.natAbs * 2 ^ (-e).toNat
    let d : Nat := den * 2 ^ e.toNat
    if n / d < 2 ^ 53 then
      { mantissa := Int.sign num * (round_half_even n d : Int), exponent := e }
    else
      { mantissa := Int.sign num * (round_half_even n (2 * d) : Int), exponent := e + 1 }

/-- The `double` nearest to `mantissa * 2 ^ exponent`. -/
def double_scaled (mantissa exponent : Int) : Double :=
  double_round (mantissa * 2 ^ exponent.toNat) (2 ^ (-exponent).toNat)

/-- The conversion of an `int` to `double`, which is exact. -/
def double_of_int (v : Int) : Double := double_round v 1

/-- The operator `/` on `double`, for a divisor that is not zero. -/
def double_div (a b : Double) : Double :=
  double_round
    (Int.sign b.mantissa * a.mantissa * 2 ^ (a.exponent - b.exponent).toNat)
    (b.mantissa.natAbs * 2 ^ (b.exponent - a.exponent).toNat)

/-- The operator `*` on `double`. -/
def double_mul (a b : Double) : Double :=
  double_scaled (a.mantissa * b.mantissa) (a.exponent + b.exponent)

/-- The operator `+` on `double`. -/
def double_add (a b : Double) : Double :=
  double_scaled
    (a.mantissa * 2 ^ (a.exponent - min a.exponent b.exponent).toNat +
      b.mantissa * 2 ^ (b.exponent - min a.exponent b.exponent).toNat)
    (min a.exponent b.exponent)

/-- The C function `round`: the nearest integer, a half rounded away from zero. -/
def c_round (a : Double) : Int :=
  Int.sign a.mantissa *
    ((2 * a.mantissa.natAbs * 2 ^ a.exponent.toNat + 2 ^ (-a.exponent).toNat) /
      (2 * 2 ^ (-a.exponent).toNat) : Nat)

/-- The conversion of an integral `double` to `int`, `none` when the value is outside the
range of `int`: the C standard leaves that conversion undefined (the conversion
instruction of x86-64 then gives `INT_MIN`). -/
def double_to_int (v : Int) : Option Int :=
  if -2147483648 ≤ v ∧ v ≤ 2147483647 then some v else none

/-- The function `normalize_backlight`:
`round ((double)(hw_value - backlight_min) / (backlight_max - backlight_min) * 100.0)`,
the two differences taken in `int`.  The result is `none` when `backlight_max` equals
`backlight_min`: the `double` quotient is then infinite or not a number, and its
conversion to `int` is undefined. -/
def normalize_backlight (output : MetaOutput) (hw_value : Int) : Option Int :=
  if int_wrap (output.backlight_max - output.backlight_min) = 0 then none
  else
    double_to_int
      (c_round
        (double_mul
          (double_div (double_of_int (int_wrap (hw_value - output.backlight_min)))
            (double_of_int (int_wrap (output.backlight_max - output.backlight_min))))
          (double_of_int 100)))

/-- The function `meta_monitor_manager_xrandr_change_backlight`: the hardware value
`round ((double)value / 100.0 * backlight_max + backlight_min)` written to the
`Backlight` property with `XRRChangeOutputProperty`, and the output afterwards. -/
def meta_monitor_manager_xrandr_change_backlight (output : MetaOutput) (value : Int) :
    Option (Int × MetaOutput) :=
  match double_to_int
      (c_round
        (double_add
          (double_mul (double_div (double_of_int value) (double_of_int 100))
            (double_of_int output.backlight_max))
          (double_of_int output.backlight_min))) with
  | none => none
  | some hw_value =>
    match normalize_backlight output hw_value with
    | none => none
    | some backlight => some (hw_value, { output with backlight := backlight })

/-- What a `ChangeBacklight` call is answered with: an error, or completion with the
backlight of the output. -/
inductive BacklightReply where
  | error (code : DBusErrorCode) (message : String)
  | complete (backlight : Int)
deriving DecidableEq, Repr, Inhabited

/-- What one run of `meta_monitor_manager_handle_change_backlight` did: the manager
afterwards, the reply, and the hardware values written to the property. -/
structure BacklightOutcome where
  manager : MetaMonitorManager
  reply : BacklightReply
  hw_values : List Int := []
deriving DecidableEq, Repr

/-- The handler `meta_monitor_manager_handle_change_backlight`, with the virtual function
`change_backlight` of the backend as an argument; `none` when that function has no
defined result. -/
def meta_monitor_manager_handle_change_backlight
    (change_backlight : MetaOutput → Int → Option (Int × MetaOutput))
    (manager : MetaMonitorManager) (serial output_index : Nat) (value : Int) :
    Option BacklightOutcome :=
  if serial ≠ manager.serial then
    some { manager := manager,
           reply := BacklightReply.error DBusErrorCode.ACCESS_DENIED
             "The requested configuration is based on stale information" }
  else if output_index ≥ manager.outputs.length then
    some { manager := manager,
           reply := BacklightReply.error DBusErrorCode.INVALID_ARGS "Invalid output id" }
  else if value < 0 ∨ value > 100 then
    some { manager := manager,
           reply := BacklightReply.error DBusErrorCode.INVALID_ARGS "Invalid backlight value" }
  else if (manager.output output_index).backlight = -1 ∨
      ((manager.output output_index).backlight_min = 0 ∧
        (manager.output output_index).backlight_max = 0) then
    some { manager := manager,
           reply := BacklightReply.error DBusErrorCode.INVALID_ARGS
             "Output does not support changing backlight" }
  else
    match change_backlight (manager.output output_index) value with
    | none => none
    | some (hw_value, output) =>
      some { manager := { manager with outputs := manager.outputs.set output_index output },
             reply := BacklightReply.complete output.backlight,
             hw_values := [hw_value] }

/-! ## Ordering monitor specs (`meta-monitor.c`) -/

/-- The C function `strcmp` on the characters of two strings, of which the C standard
fixes the sign only: -1 when the first string is the smaller one, 0 when the strings are
equal, 1 otherwise.  The strings are compared character by character up to the first
difference, a string that ends there being the smaller one; comparing the characters
orders the strings as comparing the bytes of their UTF-8 encoding does. -/
def strcmp_chars : List Char → List Char → Int
  | [], [] => 0
  | [], _ :: _ => -1
  | _ :: _, [] => 1
  | a :: s, b :: t => if a = b then strcmp_chars s t else if a < b then -1 else 1

/-- The C function `strcmp` on two strings. -/
def strcmp (s1 s2 : String) : Int := strcmp_chars s1.data s2.data

/-- The function `meta_monitor_spec_compare`. -/
def meta_monitor_spec_compare (monitor_spec_a monitor_spec_b : MetaMonitorSpec) : Int :=
  if strcmp monitor_spec_a.connector monitor_spec_b.connector ≠ 0 then
    strcmp monitor_spec_a.connector monitor_spec_b.connector
  else if strcmp monitor_spec_a.vendor monitor_spec_b.vendor ≠ 0 then
    strcmp monitor_spec_a.vendor monitor_spec_b.vendor
  else if strcmp monitor_spec_a.product monitor_spec_b.product ≠ 0 then
    strcmp monitor_spec_a.product monitor_spec_b.product
  else strcmp monitor_spec_a.serial monitor_spec_b.serial

/-! ## The checks of the handler, as the claims word them -/

/-- The clone condition the handler enforces on the outputs listed by one crtc spec:
every output after the first lists the first one among its possible clones. -/
def later_outputs_list_first (manager : MetaMonitorManager) : List Nat → Prop
  | [] => True
  | first :: rest => ∀ o ∈ rest, output_can_clone (manager.output o) first = true

/-- The clone condition the inner output loop enforces on the outputs still to visit:
with a first output already seen, each of them lists it among its possible clones;
without one, the condition is that of the whole list. -/
def clones_listed (manager : MetaMonitorManager) (first_output : Option Nat)
    (l : List Nat) : Prop :=
  match first_output with
  | some first => ∀ o ∈ l, output_can_clone (manager.output o) first = true
  | none => later_outputs_list_first manager l

/-- The manager with the clone lists opened: every output lists every output of the
table as a possible clone, and nothing else is changed.  A request is accepted on this
manager exactly when it passes every check of the validation other than the clone
check. -/
def with_all_clones (manager : MetaMonitorManager) : MetaMonitorManager :=
  { manager with
    outputs := manager.outputs.map
      (fun output => { output with possible_clones := List.range manager.outputs.length }) }

/-- The clone condition of the specification on the outputs listed by one crtc spec: any
two distinct outputs list each other among their possible clones. -/
def outputs_list_each_other (manager : MetaMonitorManager) (outputs : List Nat) : Prop :=
  ∀ a ∈ outputs, ∀ b ∈ outputs, a ≠ b →
    output_can_clone (manager.output a) b = true ∧ output_can_clone (manager.output b) a = true

/-- The geometry bounds of the specification for a crtc spec that carries mode `m`: the
placed rectangle, with the mode size swapped for a rotated transform, lies within the
maximum screen size.  The sums are exact. -/
def geometry_in_bounds (env : Collaborators) (manager : MetaMonitorManager) (spec : CrtcSpec)
    (m : Nat) : Prop :=
  0 ≤ spec.x ∧ 0 ≤ spec.y ∧
    spec.x + (transformed_size env manager m spec.transform).1 ≤ manager.max_screen_width ∧
    spec.y + (transformed_size env manager m spec.transform).2 ≤ manager.max_screen_height

/-- The value `v` is representable in an `int`. -/
def fits_int (v : Int) : Prop := -2147483648 ≤ v ∧ v ≤ 2147483647

/-- Both sums of the geometry check of a crtc spec carrying mode `m` are representable
in an `int`. -/
def geometry_sums_fit (env : Collaborators) (manager : MetaMonitorManager) (spec : CrtcSpec)
    (m : Nat) : Prop :=
  fits_int (spec.x + (transformed_size env manager m spec.transform).1) ∧
    fits_int (spec.y + (transformed_size env manager m spec.transform).2)

/-! ## Vocabulary for the monitor properties -/

/-- Two monitor values agree on everything but their modes and mode pointers: class,
member outputs, tile group, origin and main output, and window-system id. -/
def same_frame (a b : MetaMonitor) : Prop :=
  a.is_tiled = b.is_tiled ∧ a.outputs = b.outputs ∧ a.tile_group_id = b.tile_group_id ∧
    a.origin_output = b.origin_output ∧ a.main_output = b.main_output ∧
    a.winsys_id = b.winsys_id

/-- The indices of the outputs of the table whose tile group id is `g`, in table order. -/
def group_outputs (manager : MetaMonitorManager) (g : Nat) : List Nat :=
  (List.range manager.outputs.length).filter
    (fun i => (manager.output i).tile_info.group_id = g)

/-- The indices of the outputs of the table whose tile group id is `g` and which sit at
tile position (0, 0), in table order. -/
def group_origins (manager : MetaMonitorManager) (g : Nat) : List Nat :=
  (List.range manager.outputs.length).filter
    (fun i => (manager.output i).tile_info.group_id = g ∧
      is_main_tiled_monitor_output (manager.output i) = true)

/-- The tiled monitors of a monitor list whose tile group id is `g`, in list order. -/
def tiled_monitors_of_group (monitors : List MetaMonitor) (g : Nat) : List MetaMonitor :=
  monitors.filter (fun monitor => monitor.is_tiled = true ∧ monitor.tile_group_id = g)

/-- The sum of `tile_w` over the member outputs in tile row 0. -/
def row_zero_width (manager : MetaMonitorManager) (monitor : MetaMonitor) : Int :=
  ((monitor.outputs.filter
      (fun o => (manager.output o).tile_info.loc_v_tile = 0)).map
    (fun o => ((manager.output o).tile_info.tile_w : Int))).sum

/-- The sum of `tile_h` over the member outputs in tile column 0. -/
def column_zero_height (manager : MetaMonitorManager) (monitor : MetaMonitor) : Int :=
  ((monitor.outputs.filter
      (fun o => (manager.output o).tile_info.loc_h_tile = 0)).map
    (fun o => ((manager.output o).tile_info.tile_h : Int))).sum

/-- The mode agrees with the live state of the member output at every position: where
the mode enables the output, the output has a crtc whose current mode is the crtc mode of
the entry; where the mode disables it, the output has no crtc. -/
def mode_matches_live (manager : MetaMonitorManager) (monitor : MetaMonitor)
    (mode : MetaMonitorMode) : Prop :=
  ∀ (i output : Nat) (entry : MetaMonitorCrtcMode),
    monitor.outputs[i]? = some output → mode.crtc_modes[i]? = some entry →
    match entry.crtc_mode with
    | some m =>
      ∃ c, (manager.output output).crtc = some c ∧ (manager.crtc c).current_mode = some m
    | none => (manager.output output).crtc = none

/-- The tiled monitor mode the first loop of `generate_tiled_monitor_modes` adds for
one crtc mode of the main output, `none` when it adds nothing. -/
def tiled_mode_of (manager : MetaMonitorManager) (main_output : Nat) (monitor : MetaMonitor)
    (crtc_mode : Nat) : Option MetaMonitorMode :=
  if is_crtc_mode_tiled (manager.output main_output) (manager.mode crtc_mode) then
    (create_tiled_monitor_mode manager monitor (manager.mode crtc_mode).refresh_rate).map
      (fun r => r.1)
  else none

/-- The entry `create_tiled_monitor_mode` writes for a member output: its tile
coordinate and the tiled crtc mode found for it at the requested rate. -/
def tiled_entry (manager : MetaMonitorManager) (monitor : MetaMonitor) (refresh_rate : Int)
    (output : Nat) : MetaMonitorCrtcMode :=
  { x := (calculate_tile_coordinate manager monitor output).1,
    y := (calculate_tile_coordinate manager monitor output).2,
    output := output,
    crtc_mode := find_tiled_crtc_mode manager (manager.output output) refresh_rate }

/-- The current mode of the crtc that drives an output, `none` when the output has no
crtc or the crtc has no mode. -/
def live_crtc_mode (manager : MetaMonitorManager) (output : Nat) : Option Nat :=
  match (manager.output output).crtc with
  | none => none
  | some c => (manager.crtc c).current_mode

/-- The crtc mode a monitor mode assigns to the member output at position `k`. -/
def assigned_crtc_mode (k : Nat) (mode : MetaMonitorMode) : Option Nat :=
  (mode.crtc_modes.getD k default).crtc_mode

/-- The cell-sized modes of an output select pairwise different tiled crtc modes on it:
either the output has at most one cell-sized mode, or its preferred mode is not
cell-sized and its cell-sized modes have pairwise different refresh rates. -/
def tiled_modes_distinct (manager : MetaMonitorManager) (output : Nat) : Prop :=
  (∀ a ∈ (manager.output output).modes, ∀ b ∈ (manager.output output).modes,
      is_crtc_mode_tiled (manager.output output) (manager.mode a) = true →
      is_crtc_mode_tiled (manager.output output) (manager.mode b) = true → a = b) ∨
    (is_crtc_mode_tiled (manager.output output)
        (manager.mode (manager.output output).preferred_mode) = false ∧
      ∀ a ∈ (manager.output output).modes, ∀ b ∈ (manager.output output).modes,
        is_crtc_mode_tiled (manager.output output) (manager.mode a) = true →
        is_crtc_mode_tiled (manager.output output) (manager.mode b) = true →
        (manager.mode a).refresh_rate = (manager.mode b).refresh_rate → a = b)

/-- The crtc modes a monitor mode assigns to the member outputs, in their order. -/
def crtc_mode_assignment (mode : MetaMonitorMode) : List (Option Nat) :=
  mode.crtc_modes.map (fun entry => entry.crtc_mode)

/-- No two modes of the monitor's mode list assign the same crtc mode to every member
output. -/
def distinct_assignments (monitor : MetaMonitor) : Prop :=
  monitor.modes.Pairwise (fun x y => crtc_mode_assignment x ≠ crtc_mode_assignment y)

/-- The "connected" event recorded for an output. -/
def connected_event (read_edid : MetaOutput → Option (List Nat)) (output : MetaOutput) :
    RecordedEvent :=
  ⟨EventId.MONITOR_CONNECTED, meta_monitor_manager_get_output_auxiliary_payload read_edid output⟩

/-- The "disconnected" event recorded for an output. -/
def disconnected_event (read_edid : MetaOutput → Option (List Nat)) (output : MetaOutput) :
    RecordedEvent :=
  ⟨EventId.MONITOR_DISCONNECTED,
    meta_monitor_manager_get_output_auxiliary_payload read_edid output⟩

/-- The hardware ids carried by an output table. -/
def output_ids (outputs : List MetaOutput) : List Int :=
  outputs.map (fun output => output.winsys_id)

/-- The outputs of `table` whose hardware id equals the id of no output of `other`, in
table order and with their multiplicity. -/
def outputs_absent_from (table other : List MetaOutput) : List MetaOutput :=
  table.filter (fun output => output.winsys_id ∉ output_ids other)

/-- The candidate sources of `meta_monitor_manager_ensure_configured` in their fixed
order: stored (left out when some output has `hotplug_mode_update` set), suggested,
linear, fallback.  A source gives its candidate for the manager as it is when the source
is asked, `none` when the candidate is absent. -/
def candidate_sources (env : ConfigCollaborators) (manager : MetaMonitorManager) :
    List (MetaMonitorManager → Option MetaMonitorsConfig) :=
  (if manager.outputs.any (fun output => output.hotplug_mode_update) then []
   else [env.get_stored]) ++
    [env.create_suggested, env.create_linear, env.create_fallback]

/-- Trying candidate sources in order, as the claim words it: an absent candidate is
skipped, a present one is applied, and the first one whose apply succeeds ends the
search.  The result is the manager after the last apply, the candidates applied so far
in order, and the candidate that succeeded (`none` when none did). -/
def first_applicable (env : ConfigCollaborators) :
    List (MetaMonitorManager → Option MetaMonitorsConfig) → MetaMonitorManager →
    List MetaMonitorsConfig → MetaMonitorManager × List MetaMonitorsConfig × Option MetaMonitorsConfig
  | [], manager, applied => (manager, applied, none)
  | source :: rest, manager, applied =>
    match source manager with
    | none => first_applicable env rest manager applied
    | some c =>
      if (env.apply_monitors_config manager c).1 then
        ((env.apply_monitors_config manager c).2, applied ++ [c], some c)
      else first_applicable env rest (env.apply_monitors_config manager c).2 (applied ++ [c])

/-- The search of the claim run from a manager: its candidate sources tried in order,
starting with nothing applied. -/
def candidate_search (env : ConfigCollaborators) (manager : MetaMonitorManager) :
    MetaMonitorManager × List MetaMonitorsConfig × Option MetaMonitorsConfig :=
  first_applicable env (candidate_sources env manager) manager []

/-- The sum of `tile_w` over the member outputs in the tile row of `output` (equal
`loc_v_tile`) with a strictly smaller `loc_h_tile`. -/
def row_offset (manager : MetaMonitorManager) (monitor : MetaMonitor) (output : Nat) : Int :=
  ((monitor.outputs.filter
      (fun other =>
        (manager.output other).tile_info.loc_v_tile =
            (manager.output output).tile_info.loc_v_tile ∧
          (manager.output other).tile_info.loc_h_tile <
            (manager.output output).tile_info.loc_h_tile)).map
    (fun other => ((manager.output other).tile_info.tile_w : Int))).sum

/-- The sum of `tile_h` over the member outputs in the tile column of `output` (equal
`loc_h_tile`) with a strictly smaller `loc_v_tile`. -/
def column_offset (manager : MetaMonitorManager) (monitor : MetaMonitor) (output : Nat) :
    Int :=
  ((monitor.outputs.filter
      (fun other =>
        (manager.output other).tile_info.loc_h_tile =
            (manager.output output).tile_info.loc_h_tile ∧
          (manager.output other).tile_info.loc_v_tile <
            (manager.output output).tile_info.loc_v_tile)).map
    (fun other => ((manager.output other).tile_info.tile_h : Int))).sum

/-- An output has a usable tiled crtc mode for rate `r`: its preferred mode has the cell
size, or it lists a cell-sized mode with rate `r`. -/
def usable_tiled_crtc_mode (manager : MetaMonitorManager) (output : MetaOutput) (r : Int) :
    Prop :=
  is_crtc_mode_tiled output (manager.mode output.preferred_mode) = true ∨
    ∃ m ∈ output.modes,
      is_crtc_mode_tiled output (manager.mode m) = true ∧ (manager.mode m).refresh_rate = r

/-- The tiled monitor modes `generate_tiled_monitor_modes` builds for a monitor, in the
order of the mode list of its main output. -/
def tiled_modes_of (manager : MetaMonitorManager) (monitor : MetaMonitor) :
    List MetaMonitorMode :=
  (manager.output (meta_monitor_get_main_output monitor)).modes.filterMap
    (tiled_mode_of manager (meta_monitor_get_main_output monitor) monitor)

/-- The monitor mode uses the hardware-preferred crtc mode on every member output. -/
def uses_preferred_everywhere (manager : MetaMonitorManager) (monitor : MetaMonitor)
    (mode : MetaMonitorMode) : Prop :=
  ∀ (i o : Nat), monitor.outputs[i]? = some o →
    assigned_crtc_mode i mode = some (manager.output o).preferred_mode

/-- The candidate tiled monitor modes as the claim words them: one for each cell-sized
mode of the origin output, at that mode's refresh rate, in the order of the origin
output's mode list. -/
def tiled_modes_from_origin (manager : MetaMonitorManager) (monitor : MetaMonitor) :
    List MetaMonitorMode :=
  (manager.output monitor.origin_output).modes.filterMap
    (tiled_mode_of manager monitor.origin_output monitor)

/-- The indices of the outputs of the table that a crtc drives at present. -/
def outputs_driven_by (manager : MetaMonitorManager) (crtc : Nat) : List Nat :=
  (List.range manager.outputs.length).filter (fun j => (manager.output j).crtc = some crtc)

/-- A crtc info restates the present state of its crtc: it carries a mode, and its mode,
position, transform and set of outputs are the current mode, position and transform of
the crtc and the set of outputs the crtc drives. -/
def crtc_info_restates_state (manager : MetaMonitorManager) (crtc_info : MetaCrtcInfo) :
    Prop :=
  crtc_info.mode ≠ none ∧
    (manager.crtc crtc_info.crtc).current_mode = crtc_info.mode ∧
    (manager.crtc crtc_info.crtc).rect.x = crtc_info.x ∧
    (manager.crtc crtc_info.crtc).rect.y = crtc_info.y ∧
    (manager.crtc crtc_info.crtc).transform = crtc_info.transform ∧
    (∀ o ∈ crtc_info.outputs, o ∈ outputs_driven_by manager crtc_info.crtc) ∧
    (∀ o ∈ outputs_driven_by manager crtc_info.crtc, o ∈ crtc_info.outputs)

/-- The request is an `XRRSetCrtcConfig` for the crtc with this hardware id. -/
def reconfigures_crtc (crtc_id : Int) (request : XrandrRequest) : Bool :=
  match request with
  | XrandrRequest.SetCrtcConfig id _ _ _ _ _ => id == crtc_id
  | _ => false

/-- The number of modes of an output that do not have its cell size. -/
def untiled_mode_count (manager : MetaMonitorManager) (output : Nat) : Int :=
  (((manager.output output).modes.filter
    (fun crtc_mode =>
      !(is_crtc_mode_tiled (manager.output output) (manager.mode crtc_mode)))).length : Int)

/-- The rectangles of the crtcs of the member outputs of a monitor that have a crtc, in
the order of the member list. -/
def live_crtc_rects (manager : MetaMonitorManager) (monitor : MetaMonitor) :
    List MetaRectangle :=
  monitor.outputs.filterMap
    (fun output => (manager.output output).crtc.map (fun crtc => (manager.crtc crtc).rect))

/-- The layout of the monitor at position `i` when it is active, `none` when it is
inactive. -/
def active_layout (manager : MetaMonitorManager) (i : Nat) : Option MetaRectangle :=
  if meta_monitor_is_active manager (manager.monitors.getD i default) then
    meta_monitor_derive_layout manager (manager.monitors.getD i default)
  else none

/-- The monitor at position `i` is active and flagged primary by the hardware. -/
def active_primary (manager : MetaMonitorManager) (i : Nat) : Prop :=
  meta_monitor_is_active manager (manager.monitors.getD i default) = true ∧
    meta_monitor_is_primary manager (manager.monitors.getD i default) = true

/-- The distinct elements of a list in the order of their first occurrence, after the
elements of `seen`. -/
def first_occurrences (seen : List MetaRectangle) (l : List MetaRectangle) :
    List MetaRectangle :=
  l.foldl (fun acc r => if r ∈ acc then acc else acc ++ [r]) seen

/-- What holds of the state of the loop of
`meta_monitor_manager_rebuild_logical_monitors_derived` once the monitors at the positions
`done` have been visited: the next number is the length of the list; the logical monitors
are numbered by their position; their rectangles are the distinct layouts of the active
monitors visited, in the order of first occurrence, each once; the members of a logical
monitor are the visited active monitors with its rectangle as layout; and the primary
logical monitor is set once a visited active monitor is flagged primary, and then holds
such a monitor. -/
def derived_invariant (manager : MetaMonitorManager) (done : List Nat)
    (st : DerivedLogicalState) : Prop :=
  st.monitor_number = st.logical_monitors.length ∧
    st.logical_monitors.map (fun logical_monitor => logical_monitor.number) =
      (List.range st.logical_monitors.length).map Int.ofNat ∧
    st.logical_monitors.map (fun logical_monitor => logical_monitor.rect) =
      first_occurrences [] (done.filterMap (active_layout manager)) ∧
    (st.logical_monitors.map (fun logical_monitor => logical_monitor.rect)).Nodup ∧
    (∀ logical_monitor ∈ st.logical_monitors, ∀ i,
      i ∈ logical_monitor.monitors ↔
        i ∈ done ∧ active_layout manager i = some logical_monitor.rect) ∧
    ((∃ i ∈ done, active_primary manager i) → st.primary_logical_monitor ≠ none) ∧
    (∀ p, st.primary_logical_monitor = some p →
      ∃ logical_monitor, st.logical_monitors[p]? = some logical_monitor ∧
        ∃ i ∈ logical_monitor.monitors, active_primary manager i)

/-! ## Sample tables used to instantiate the theorems -/

/-- Collaborators for the samples: odd transforms are the rotated ones, the backend
stores nothing, and the new timer gets identifier 42. -/
def sample_env : Collaborators :=
  { is_rotated := fun transform => transform % 2 == 1,
    apply_configuration := fun manager _ _ => manager,
    config_update_current := fun manager => manager,
    timeout_add := fun _ => 42 }

/-- A manager at serial 7 with one 1920x1080 mode, three crtcs (0 to 2) supporting
every transform, and two outputs; output 1 lists output 0 as a possible clone, output 0
lists no clone. -/
def sample_manager : MetaMonitorManager :=
  { serial := 7,
    modes := [{ mode_id := 100, width := 1920, height := 1080, refresh_rate := 60 }],
    crtcs := [{ crtc_id := 10, all_transforms := 255 }, { crtc_id := 11, all_transforms := 255 },
              { crtc_id := 12, all_transforms := 255 }],
    outputs := [{ winsys_id := 20, modes := [0], preferred_mode := 0,
                  possible_crtcs := [0, 1, 2], possible_clones := [] },
                { winsys_id := 21, modes := [0], preferred_mode := 0,
                  possible_crtcs := [0, 1, 2], possible_clones := [0] }],
    max_screen_width := 8192,
    max_screen_height := 8192 }

/-- A request at a stale serial (6 instead of 7) that is otherwise acceptable. -/
def sample_stale_request : ApplyRequest :=
  { serial := 6, persistent := true,
    crtcs := [{ crtc_id := 0, new_mode := 0, x := 0, y := 0, transform := 0, outputs := [0] }],
    outputs := [{ output_index := 0, primary := some true }] }

/-- A request at the current serial that switches crtcs 0 and 1 off and names no mode. -/
def sample_disable_request : ApplyRequest :=
  { serial := 7,
    crtcs := [{ crtc_id := 0, new_mode := -1 }, { crtc_id := 1, new_mode := -1 }] }

/-- A request at the current serial whose first crtc spec names crtc 5. -/
def sample_bad_crtc_request : ApplyRequest :=
  { serial := 7, persistent := true,
    crtcs := [{ crtc_id := 5, new_mode := 0, x := 0, y := 0, transform := 0, outputs := [0] },
              { crtc_id := 1, new_mode := 0, x := 1920, y := 0, transform := 0, outputs := [1] }] }

/-- A request at the current serial that puts outputs 0 and 1 on crtc 0. -/
def sample_clone_request : ApplyRequest :=
  { serial := 7,
    crtcs := [{ crtc_id := 0, new_mode := 0, x := 0, y := 0, transform := 0,
                outputs := [0, 1] }] }

/-- A request at the current serial that puts outputs 1 and 0, in this order, on crtc 0. -/
def sample_bad_clone_request : ApplyRequest :=
  { serial := 7,
    crtcs := [{ crtc_id := 0, new_mode := 0, x := 0, y := 0, transform := 0,
                outputs := [1, 0] }] }

/-- A request at the current serial that places mode 0 on crtc 0 at the origin and on
crtc 1 at x = 2147483647, the largest `int`. -/
def sample_overflow_request : ApplyRequest :=
  { serial := 7,
    crtcs := [{ crtc_id := 0, new_mode := 0, x := 0, y := 0, transform := 0, outputs := [0] },
              { crtc_id := 1, new_mode := 0, x := 2147483647, y := 0, transform := 0,
                outputs := [1] }] }

/-- A request at the current serial that places mode 0 on crtc 0 at x = 7000, beyond the
maximum screen width 8192 of the sample manager. -/
def sample_out_of_bounds_request : ApplyRequest :=
  { serial := 7,
    crtcs := [{ crtc_id := 0, new_mode := 0, x := 7000, y := 0, transform := 0,
                outputs := [0] }] }

/-- The scenario of the specification: output A (index 0) without a tile group, and
outputs B (index 1, tile (0, 0)) and C (index 2, tile (1, 0)) of tile group 7 with cells
of 1920 x 1080; every output supports and prefers the 1920 x 1080 mode at rate 60. -/
def scenario_manager : MetaMonitorManager :=
  { modes := [{ mode_id := 1, width := 1920, height := 1080, refresh_rate := 60 }],
    outputs :=
      [{ winsys_id := 1, modes := [0], preferred_mode := 0 },
       { winsys_id := 2, modes := [0], preferred_mode := 0,
         tile_info := { group_id := 7, max_h_tiles := 2, max_v_tiles := 1,
                        loc_h_tile := 0, loc_v_tile := 0, tile_w := 1920, tile_h := 1080 } },
       { winsys_id := 3, modes := [0], preferred_mode := 0,
         tile_info := { group_id := 7, max_h_tiles := 2, max_v_tiles := 1,
                        loc_h_tile := 1, loc_v_tile := 0, tile_w := 1920, tile_h := 1080 } }] }

/-- The tiled mode of the scenario: 3840 x 1080 at rate 60, with B at (0, 0) and C at
(1920, 0), both driven by mode 0. -/
def scenario_tiled_mode : MetaMonitorMode :=
  { spec := { width := 3840, height := 1080, refresh_rate := 60 },
    crtc_modes := [{ x := 0, y := 0, output := 1, crtc_mode := some 0 },
                   { x := 1920, y := 0, output := 2, crtc_mode := some 0 }] }

/-- The tiled monitor of the scenario, as `meta_monitor_tiled_new` builds it from
output B. -/
def scenario_tiled_monitor : MetaMonitor :=
  { is_tiled := true,
    outputs := [1, 2],
    modes := [scenario_tiled_mode],
    preferred_mode := some 0,
    current_mode := none,
    winsys_id := 2,
    tile_group_id := 7,
    origin_output := 1,
    main_output := 1 }

/-- The normal monitor of the scenario, as `meta_monitor_normal_new` builds it from
output A. -/
def scenario_normal_monitor : MetaMonitor :=
  { is_tiled := false,
    outputs := [0],
    modes := [{ spec := { width := 1920, height := 1080, refresh_rate := 60 },
                crtc_modes := [{ x := 0, y := 0, output := 0, crtc_mode := some 0 }] }],
    preferred_mode := some 0,
    current_mode := none,
    winsys_id := 1 }

/-- The scenario with the tiled monitor lit: crtc 0 drives B and crtc 1 drives C, both
in mode 0. -/
def scenario_live_manager : MetaMonitorManager :=
  { modes := [{ mode_id := 1, width := 1920, height := 1080, refresh_rate := 60 }],
    crtcs := [{ crtc_id := 1, rect := ⟨0, 0, 1920, 1080⟩, current_mode := some 0 },
              { crtc_id := 2, rect := ⟨1920, 0, 1920, 1080⟩, current_mode := some 0 }],
    outputs :=
      [{ winsys_id := 1, modes := [0], preferred_mode := 0 },
       { winsys_id := 2, crtc := some 0, modes := [0], preferred_mode := 0,
         tile_info := { group_id := 7, max_h_tiles := 2, max_v_tiles := 1,
                        loc_h_tile := 0, loc_v_tile := 0, tile_w := 1920, tile_h := 1080 } },
       { winsys_id := 3, crtc := some 1, modes := [0], preferred_mode := 0,
         tile_info := { group_id := 7, max_h_tiles := 2, max_v_tiles := 1,
                        loc_h_tile := 1, loc_v_tile := 0, tile_w := 1920, tile_h := 1080 } }] }

/-- A table whose only output belongs to tile group 7 and sits at tile (1, 0): the
group has no output at tile (0, 0). -/
def sample_no_origin_manager : MetaMonitorManager :=
  { modes := [{ mode_id := 1, width := 1920, height := 1080, refresh_rate := 60 }],
    outputs :=
      [{ winsys_id := 3, modes := [0], preferred_mode := 0,
         tile_info := { group_id := 7, max_h_tiles := 2, max_v_tiles := 1,
                        loc_h_tile := 1, loc_v_tile := 0, tile_w := 1920, tile_h := 1080 } }] }

/-- A table with two outputs of tile group 7 that both report tile (0, 0). -/
def sample_two_origins_manager : MetaMonitorManager :=
  { modes := [{ mode_id := 1, width := 1920, height := 1080, refresh_rate := 60 }],
    outputs :=
      [{ winsys_id := 2, modes := [0], preferred_mode := 0,
         tile_info := { group_id := 7, max_h_tiles := 2, max_v_tiles := 1,
                        loc_h_tile := 0, loc_v_tile := 0, tile_w := 1920, tile_h := 1080 } },
       { winsys_id := 3, modes := [0], preferred_mode := 0,
         tile_info := { group_id := 7, max_h_tiles := 2, max_v_tiles := 1,
                        loc_h_tile := 0, loc_v_tile := 0, tile_w := 1920, tile_h := 1080 } }] }

/-- A table whose only output, the tile (0, 0) of group 7 with cells of 1920 x 1080,
lists the 1024 x 768 mode 1 twice and is lit by crtc 0 in that mode. -/
def sample_duplicate_mode_manager : MetaMonitorManager :=
  { modes := [{ mode_id := 1, width := 1920, height := 1080, refresh_rate := 60 },
              { mode_id := 2, width := 1024, height := 768, refresh_rate := 60 }],
    crtcs := [{ crtc_id := 1, rect := ⟨0, 0, 1024, 768⟩, current_mode := some 1 }],
    outputs :=
      [{ winsys_id := 2, crtc := some 0, modes := [1, 1], preferred_mode := 1,
         tile_info := { group_id := 7, max_h_tiles := 1, max_v_tiles := 1,
                        loc_h_tile := 0, loc_v_tile := 0, tile_w := 1920, tile_h := 1080 } }] }

/-- A tiled panel of two tiles (group 7, cells of 1920 x 1080) whose outputs both list
the cell-sized modes 0 (rate 60, preferred) and 1 (rate 30), each mode once, and are both
lit in mode 0. -/
def sample_two_rates_manager : MetaMonitorManager :=
  { modes := [{ mode_id := 1, width := 1920, height := 1080, refresh_rate := 60 },
              { mode_id := 2, width := 1920, height := 1080, refresh_rate := 30 }],
    crtcs := [{ crtc_id := 1, rect := ⟨0, 0, 1920, 1080⟩, current_mode := some 0 },
              { crtc_id := 2, rect := ⟨1920, 0, 1920, 1080⟩, current_mode := some 0 }],
    outputs :=
      [{ winsys_id := 2, crtc := some 0, modes := [0, 1], preferred_mode := 0,
         tile_info := { group_id := 7, max_h_tiles := 2, max_v_tiles := 1,
                        loc_h_tile := 0, loc_v_tile := 0, tile_w := 1920, tile_h := 1080 } },
       { winsys_id := 3, crtc := some 1, modes := [0, 1], preferred_mode := 0,
         tile_info := { group_id := 7, max_h_tiles := 2, max_v_tiles := 1,
                        loc_h_tile := 1, loc_v_tile := 0, tile_w := 1920, tile_h := 1080 } }] }

/-- The tiled mode of `sample_two_rates_manager` built for rate 60. -/
def sample_rate_60_mode : MetaMonitorMode :=
  { spec := { width := 3840, height := 1080, refresh_rate := 60 },
    crtc_modes := [{ x := 0, y := 0, output := 0, crtc_mode := some 0 },
                   { x := 1920, y := 0, output := 1, crtc_mode := some 0 }] }

/-- The tiled mode of `sample_two_rates_manager` built for rate 30: both tiles are driven
by their preferred mode 0, as for rate 60. -/
def sample_rate_30_mode : MetaMonitorMode :=
  { spec := { width := 3840, height := 1080, refresh_rate := 30 },
    crtc_modes := [{ x := 0, y := 0, output := 0, crtc_mode := some 0 },
                   { x := 1920, y := 0, output := 1, crtc_mode := some 0 }] }

/-- The tiled monitor `meta_monitor_tiled_new` builds from output 0 of
`sample_two_rates_manager`. -/
def sample_two_rates_monitor : MetaMonitor :=
  { is_tiled := true,
    outputs := [0, 1],
    modes := [sample_rate_60_mode, sample_rate_30_mode],
    preferred_mode := some 1,
    current_mode := some 1,
    winsys_id := 2,
    tile_group_id := 7,
    origin_output := 0,
    main_output := 0 }

/-- A table whose only output, without tile group, lists mode 0 twice and is lit in it. -/
def sample_repeated_mode_manager : MetaMonitorManager :=
  { modes := [{ mode_id := 1, width := 1920, height := 1080, refresh_rate := 60 }],
    crtcs := [{ crtc_id := 1, rect := ⟨0, 0, 1920, 1080⟩, current_mode := some 0 }],
    outputs := [{ winsys_id := 2, crtc := some 0, modes := [0, 0], preferred_mode := 0 }] }

/-- A backend without EDID data. -/
def sample_read_edid : MetaOutput → Option (List Nat) := fun _ => none

/-- The output table of an earlier read: connectors with hardware ids 1 and 2. -/
def sample_old_outputs : List MetaOutput :=
  [{ winsys_id := 1, name := "DP-1", modes := [0], crtc := some 0 },
   { winsys_id := 2, name := "HDMI-1" }]

/-- A manager after a read in which connector 2 went away and connector 0x42 appeared;
connector 1 stays, with another mode list and no crtc. -/
def sample_hotplug_manager : MetaMonitorManager :=
  { outputs :=
      [{ winsys_id := 1, name := "DP-1", modes := [0, 1] },
       { winsys_id := 66, name := "HDMI-2", vendor := "ACM", product := "Panel",
         serial := "0001", width_mm := 600, height_mm := 340 }] }

/-- A manager after a read that found the ids of `sample_old_outputs` again, in another
order and with other modes and crtcs. -/
def sample_same_ids_manager : MetaMonitorManager :=
  { outputs :=
      [{ winsys_id := 2, name := "HDMI-1", modes := [3], crtc := some 1 },
       { winsys_id := 1, name := "DP-1" }] }

/-- A gpu holding the outputs of `sample_same_ids_manager`. -/
def sample_same_ids_gpu : MetaGpu := { outputs := sample_same_ids_manager.outputs }

/-- Replies of a server whose resource query fails. -/
def sample_failed_replies : XrandrReplies :=
  { dpms_capable := true, dpms_info := some (0, true),
    max_screen_width := 8192, max_screen_height := 8192,
    screen_width := 1920, screen_height := 1080,
    resources := none }

/-- A configuration with one logical monitor at 1920x1080. -/
def sample_config : MetaMonitorsConfig :=
  { logical_monitor_configs := [{ layout := ⟨0, 0, 1920, 1080⟩, is_primary := true }] }

/-- Another configuration, with one logical monitor at 1024x768. -/
def sample_fallback_config : MetaMonitorsConfig :=
  { logical_monitor_configs := [{ layout := ⟨0, 0, 1024, 768⟩, is_primary := true }] }

/-- Collaborators for the samples: there is no stored and no suggested candidate, the
linear candidate is `sample_config` and the fallback candidate `sample_fallback_config`;
the backend refuses every configuration but `sample_fallback_config` and changes
nothing. -/
def sample_config_env : ConfigCollaborators :=
  { get_stored := fun _ => none,
    create_suggested := fun _ => none,
    create_linear := fun _ => some sample_config,
    create_fallback := fun _ => some sample_fallback_config,
    apply_monitors_config := fun manager config =>
      (decide (config = sample_fallback_config), manager),
    logical_monitor_new := fun manager logical_monitor_config monitor_number =>
      ({ number := monitor_number, rect := logical_monitor_config.layout }, manager),
    logical_monitor_make_primary := fun logical_monitor =>
      { logical_monitor with is_primary := true },
    config_apply_stored := fun manager => (false, manager),
    config_make_default := fun manager => manager }

/-- Collaborators whose backend refuses every configuration; the candidates are those of
`sample_config_env`. -/
def sample_refusing_env : ConfigCollaborators :=
  { sample_config_env with apply_monitors_config := fun manager _ => (false, manager) }

/-- A manager with the new configuration system and one logical monitor. -/
def sample_configured_manager : MetaMonitorManager :=
  { sample_manager with
    config_manager := true,
    logical_monitors := [{ number := 0, rect := ⟨0, 0, 1920, 1080⟩, is_primary := true }],
    primary_logical_monitor := some 0 }

/-- A manager with the new configuration system while it is being constructed
(`in_init`): no logical monitor has been built yet. -/
def sample_constructing_manager : MetaMonitorManager :=
  { sample_manager with config_manager := true, in_init := true }

/-- A restore that brings back the screen size 1024x768 and leaves the rest alone. -/
def sample_restore_previous : MetaMonitorManager → MetaMonitorManager :=
  fun manager => { manager with screen_width := 1024, screen_height := 768 }

/-- The sample manager with revert timer 42 pending. -/
def sample_pending_manager : MetaMonitorManager :=
  { sample_manager with persistent_timeout_id := 42 }

/-- A tiled panel of two tiles (group 7, cells of 1920 x 1080) whose outputs both list
the cell-sized modes 0 (rate 30) and 1 (rate 60) and the mode 2 of 640 x 480, which is
the preferred mode of both; no output is lit. -/
def sample_unpreferred_tiles_manager : MetaMonitorManager :=
  { modes := [{ mode_id := 1, width := 1920, height := 1080, refresh_rate := 30 },
              { mode_id := 2, width := 1920, height := 1080, refresh_rate := 60 },
              { mode_id := 3, width := 640, height := 480, refresh_rate := 60 }],
    crtcs := [{ crtc_id := 1 }, { crtc_id := 2 }],
    outputs :=
      [{ winsys_id := 2, modes := [0, 1, 2], preferred_mode := 2,
         tile_info := { group_id := 7, max_h_tiles := 2, max_v_tiles := 1,
                        loc_h_tile := 0, loc_v_tile := 0, tile_w := 1920, tile_h := 1080 } },
       { winsys_id := 3, modes := [0, 1, 2], preferred_mode := 2,
         tile_info := { group_id := 7, max_h_tiles := 2, max_v_tiles := 1,
                        loc_h_tile := 1, loc_v_tile := 0, tile_w := 1920, tile_h := 1080 } }] }

/-- The tiled mode of `sample_unpreferred_tiles_manager` for rate 30. -/
def sample_unpreferred_rate_30_mode : MetaMonitorMode :=
  { spec := { width := 3840, height := 1080, refresh_rate := 30 },
    crtc_modes := [{ x := 0, y := 0, output := 0, crtc_mode := some 0 },
                   { x := 1920, y := 0, output := 1, crtc_mode := some 0 }] }

/-- The tiled mode of `sample_unpreferred_tiles_manager` for rate 60. -/
def sample_unpreferred_rate_60_mode : MetaMonitorMode :=
  { spec := { width := 3840, height := 1080, refresh_rate := 60 },
    crtc_modes := [{ x := 0, y := 0, output := 0, crtc_mode := some 1 },
                   { x := 1920, y := 0, output := 1, crtc_mode := some 1 }] }

/-- The tiled monitor `meta_monitor_tiled_new` builds from output 0 of
`sample_unpreferred_tiles_manager`: the two tiled modes, then the untiled mode of
640 x 480 on output 0; the preferred mode is the tiled mode of rate 60. -/
def sample_unpreferred_tiles_monitor : MetaMonitor :=
  { is_tiled := true,
    outputs := [0, 1],
    modes := [sample_unpreferred_rate_30_mode, sample_unpreferred_rate_60_mode,
      { spec := { width := 640, height := 480, refresh_rate := 60 },
        crtc_modes := [{ x := 0, y := 0, output := 0, crtc_mode := some 2 },
                       { x := 0, y := 0, output := 1, crtc_mode := none }] }],
    preferred_mode := some 1,
    current_mode := none,
    winsys_id := 2,
    tile_group_id := 7,
    origin_output := 0,
    main_output := 0 }

/-- A tiled panel of two tiles (group 7, cells of 1920 x 1080).  Output 0, at tile
(0, 0), lists the cell-sized modes 0 (rate 60, preferred) and 1 (rate 30) and nothing
else; output 1, at tile (1, 0), lists the cell-sized mode 0 (preferred) and the two
smaller modes 2 and 3, so it has the most untiled modes. -/
def sample_driver_manager : MetaMonitorManager :=
  { modes := [{ mode_id := 1, width := 1920, height := 1080, refresh_rate := 60 },
              { mode_id := 2, width := 1920, height := 1080, refresh_rate := 30 },
              { mode_id := 3, width := 640, height := 480, refresh_rate := 60 },
              { mode_id := 4, width := 800, height := 600, refresh_rate := 60 }],
    crtcs := [{ crtc_id := 1 }, { crtc_id := 2 }],
    outputs :=
      [{ winsys_id := 2, modes := [0, 1], preferred_mode := 0,
         tile_info := { group_id := 7, max_h_tiles := 2, max_v_tiles := 1,
                        loc_h_tile := 0, loc_v_tile := 0, tile_w := 1920, tile_h := 1080 } },
       { winsys_id := 3, modes := [0, 2, 3], preferred_mode := 0,
         tile_info := { group_id := 7, max_h_tiles := 2, max_v_tiles := 1,
                        loc_h_tile := 1, loc_v_tile := 0, tile_w := 1920, tile_h := 1080 } }] }

/-- Collaborators for the XRandR samples: odd transforms are the rotated ones, the
rotation bits have the values of the RandR protocol, the server accepts every crtc
configuration, no output underscans, and sizes in millimetres are computed at 96 dots
per inch. -/
def sample_xrandr_env : XrandrCollaborators :=
  { is_rotated := fun transform => transform % 2 == 1,
    RR_Rotate_0 := 1, RR_Rotate_90 := 2, RR_Rotate_180 := 4, RR_Rotate_270 := 8,
    RR_Reflect_X := 16, RR_Reflect_Y := 32,
    set_crtc_config_ok := fun _ _ => true,
    get_underscanning := fun _ _ => (false, 0, 0),
    mm_of_pixels := fun pixels => (pixels * 254 + 480) / 960,
    overscan_border := fun pixels => pixels / 20 }

/-- A manager with one 1920x1080 mode, one crtc showing it at (0, 0) untransformed, and
two outputs: output 0 (id 20) is off, output 1 (id 21) is driven by the crtc. -/
def sample_second_output_manager : MetaMonitorManager :=
  { modes := [{ mode_id := 100, width := 1920, height := 1080, refresh_rate := 60 }],
    crtcs := [{ crtc_id := 10, rect := ⟨0, 0, 1920, 1080⟩, current_mode := some 0,
                transform := 0, all_transforms := 255 }],
    outputs := [{ winsys_id := 20, modes := [0], possible_crtcs := [0] },
                { winsys_id := 21, modes := [0], possible_crtcs := [0], crtc := some 0,
                  is_primary := true }],
    max_screen_width := 8192,
    max_screen_height := 8192,
    screen_width := 1920,
    screen_height := 1080 }

/-- The crtc part of a request that restates the present state of
`sample_second_output_manager`: crtc 0 keeps mode 0 at (0, 0), untransformed, driving
output 1. -/
def sample_unchanged_crtc_infos : List MetaCrtcInfo :=
  [{ crtc := 0, mode := some 0, x := 0, y := 0, transform := 0, outputs := [1] }]

/-- The output part of that request: output 1 stays primary. -/
def sample_unchanged_output_infos : List MetaOutputInfo :=
  [{ output := 1, is_primary := true }]

/-- The same hardware with the lit connector first in the output table: output 0
(id 21) is driven by the crtc, output 1 (id 20) is off. -/
def sample_first_output_manager : MetaMonitorManager :=
  { sample_second_output_manager with
    outputs := [{ winsys_id := 21, modes := [0], possible_crtcs := [0], crtc := some 0,
                  is_primary := true },
                { winsys_id := 20, modes := [0], possible_crtcs := [0] }] }

/-- A tiled panel of two tiles (group 7, cells of 1920 x 1080) for which no tiled mode
can be built: output 0, at tile (0, 0), lists the cell-sized mode 0 (preferred) and the
modes 1 (1600 x 1200, rate 30) and 2 (640 x 480, rate 60); output 1, at tile (1, 0),
lists mode 2 only. -/
def sample_no_tiled_mode_manager : MetaMonitorManager :=
  { modes := [{ mode_id := 1, width := 1920, height := 1080, refresh_rate := 60 },
              { mode_id := 2, width := 1600, height := 1200, refresh_rate := 30 },
              { mode_id := 3, width := 640, height := 480, refresh_rate := 60 }],
    crtcs := [{ crtc_id := 1 }, { crtc_id := 2 }],
    outputs :=
      [{ winsys_id := 2, modes := [0, 1, 2], preferred_mode := 0,
         tile_info := { group_id := 7, max_h_tiles := 2, max_v_tiles := 1,
                        loc_h_tile := 0, loc_v_tile := 0, tile_w := 1920, tile_h := 1080 } },
       { winsys_id := 3, modes := [2], preferred_mode := 2,
         tile_info := { group_id := 7, max_h_tiles := 2, max_v_tiles := 1,
                        loc_h_tile := 1, loc_v_tile := 0, tile_w := 1920, tile_h := 1080 } }] }

/-- A monitor whose mode list is 1600 x 1200 at rate 30 followed by 640 x 480 at
rate 60. -/
def sample_two_modes_monitor : MetaMonitor :=
  { modes := [{ spec := { width := 1600, height := 1200, refresh_rate := 30 } },
              { spec := { width := 640, height := 480, refresh_rate := 60 } }] }

/-- The scenario tables with the crtc of tile B moved to (-3000, -2000), left of and
above the origin of the screen, and tile C without crtc. -/
def sample_negative_layout_manager : MetaMonitorManager :=
  { scenario_manager with
    crtcs := [{ crtc_id := 1, rect := ⟨-3000, -2000, 1920, 1080⟩, current_mode := some 0 }],
    outputs := scenario_manager.outputs.modify (fun output => { output with crtc := some 0 }) 1 }

/-- Four connectors: outputs 0 and 1 are clones, both shown at (0, 0) by crtcs 0 and 1,
output 1 being the primary one; output 2 is off; output 3 is shown at (1920, 0) by crtc 2.
The monitors are the normal monitors of outputs 0, 2, 3 and 1, in this order. -/
def sample_clone_manager : MetaMonitorManager :=
  { modes := [{ mode_id := 1, width := 1920, height := 1080, refresh_rate := 60 }],
    crtcs := [{ crtc_id := 1, rect := ⟨0, 0, 1920, 1080⟩, current_mode := some 0 },
              { crtc_id := 2, rect := ⟨0, 0, 1920, 1080⟩, current_mode := some 0 },
              { crtc_id := 3, rect := ⟨1920, 0, 1920, 1080⟩, current_mode := some 0 }],
    outputs := [{ winsys_id := 1, crtc := some 0, modes := [0], preferred_mode := 0 },
                { winsys_id := 2, crtc := some 1, modes := [0], preferred_mode := 0,
                  is_primary := true },
                { winsys_id := 3, modes := [0], preferred_mode := 0 },
                { winsys_id := 4, crtc := some 2, modes := [0], preferred_mode := 0 }],
    monitors := [{ outputs := [0], winsys_id := 1 },
                 { outputs := [2], winsys_id := 3 },
                 { outputs := [3], winsys_id := 4 },
                 { outputs := [1], winsys_id := 2 }] }

/-- A configuration with two logical monitors, the second one flagged primary. -/
def sample_two_logical_config : MetaMonitorsConfig :=
  { logical_monitor_configs :=
      [{ layout := ⟨0, 0, 1920, 1080⟩ },
       { layout := ⟨1920, 0, 1920, 1080⟩, is_primary := true }] }

/-- A manager at serial 7 whose only output has a backlight with the hardware range
10 to 100, now at 50 percent. -/
def sample_backlight_manager : MetaMonitorManager :=
  { serial := 7,
    outputs := [{ winsys_id := 20, backlight_min := 10, backlight_max := 100,
                  backlight := 50 }] }

/-- The panel of `sample_driver_manager` lit through its second connector alone: crtc 0
drives output 1 in the 640 x 480 mode 2, and output 0 is off. -/
def sample_untiled_live_manager : MetaMonitorManager :=
  { modes := [{ mode_id := 1, width := 1920, height := 1080, refresh_rate := 60 },
              { mode_id := 2, width := 1920, height := 1080, refresh_rate := 30 },
              { mode_id := 3, width := 640, height := 480, refresh_rate := 60 },
              { mode_id := 4, width := 800, height := 600, refresh_rate := 60 }],
    crtcs := [{ crtc_id := 1, rect := ⟨0, 0, 640, 480⟩, current_mode := some 2 },
              { crtc_id := 2 }],
    outputs :=
      [{ winsys_id := 2, modes := [0, 1], preferred_mode := 0,
         tile_info := { group_id := 7, max_h_tiles := 2, max_v_tiles := 1,
                        loc_h_tile := 0, loc_v_tile := 0, tile_w := 1920, tile_h := 1080 } },
       { winsys_id := 3, crtc := some 0, modes := [0, 2, 3], preferred_mode := 0,
         tile_info := { group_id := 7, max_h_tiles := 2, max_v_tiles := 1,
                        loc_h_tile := 1, loc_v_tile := 0, tile_w := 1920, tile_h := 1080 } }] }

/-- A panel of three tiles in one row (group 7), each cell 1500000000 wide and 1080
high; every output lists and prefers mode 0, which has the cell size. -/
def sample_wide_tiles_manager : MetaMonitorManager :=
  { modes := [{ mode_id := 1, width := 1500000000, height := 1080, refresh_rate := 60 }],
    outputs :=
      [{ winsys_id := 1, modes := [0], preferred_mode := 0,
         tile_info := { group_id := 7, max_h_tiles := 3, max_v_tiles := 1,
                        loc_h_tile := 0, loc_v_tile := 0,
                        tile_w := 1500000000, tile_h := 1080 } },
       { winsys_id := 2, modes := [0], preferred_mode := 0,
         tile_info := { group_id := 7, max_h_tiles := 3, max_v_tiles := 1,
                        loc_h_tile := 1, loc_v_tile := 0,
                        tile_w := 1500000000, tile_h := 1080 } },
       { winsys_id := 3, modes := [0], preferred_mode := 0,
         tile_info := { group_id := 7, max_h_tiles := 3, max_v_tiles := 1,
                        loc_h_tile := 2, loc_v_tile := 0,
                        tile_w := 1500000000, tile_h := 1080 } }] }

/-- The tiled monitor `meta_monitor_tiled_new` builds from output 0 of
`sample_untiled_live_manager`: the tiled mode of 3840 x 1080 and the two untiled modes
of output 1, of which the mode of 640 x 480 is the current one. -/
def sample_untiled_live_monitor : MetaMonitor :=
  { is_tiled := true,
    outputs := [0, 1],
    modes := [{ spec := { width := 3840, height := 1080, refresh_rate := 60 },
                crtc_modes := [{ x := 0, y := 0, output := 0, crtc_mode := some 0 },
                               { x := 1920, y := 0, output := 1, crtc_mode := some 0 }] },
              { spec := { width := 640, height := 480, refresh_rate := 60 },
                crtc_modes := [{ x := 0, y := 0, output := 0, crtc_mode := none },
                               { x := 0, y := 0, output := 1, crtc_mode := some 2 }] },
              { spec := { width := 800, height := 600, refresh_rate := 60 },
                crtc_modes := [{ x := 0, y := 0, output := 0, crtc_mode := none },
                               { x := 0, y := 0, output := 1, crtc_mode := some 3 }] }],
    preferred_mode := some 0,
    current_mode := some 1,
    winsys_id := 2,
    tile_group_id := 7,
    origin_output := 0,
    main_output := 1 }

/-! ## Properties of the legacy `ApplyConfiguration` handler -/

/-- Every error of the inner output loop is an invalid-argument error. -/
theorem validate_nested_outputs_error_code (manager : MetaMonitorManager) (crtc : Nat)
    (mode : Option Nat) (l : List Nat) (first_output : Option Nat) (acc : List Nat)
    (code : DBusErrorCode) (message : String)
    (h : validate_nested_outputs manager crtc mode l first_output acc =
      Except.error (code, message)) :
    code = DBusErrorCode.INVALID_ARGS := by
  induction l generalizing first_output acc with
  | nil => simp [validate_nested_outputs] at h
  | cons o rest ih =>
    unfold validate_nested_outputs at h
    split_ifs at h with h1 h2
    · cases h; rfl
    · cases h; rfl
    · cases first_output with
      | none => exact ih _ _ h
      | some first =>
        simp only at h
        split_ifs at h with h3
        · cases h; rfl
        · exact ih _ _ h

/-- Every error of the geometry check is an invalid-argument error. -/
theorem validate_geometry_error_code (env : Collaborators) (manager : MetaMonitorManager)
    (spec : CrtcSpec) (w h : Int) (code : DBusErrorCode) (message : String)
    (hv : validate_geometry env manager spec w h = Except.error (code, message)) :
    code = DBusErrorCode.INVALID_ARGS := by
  unfold validate_geometry at hv
  split at hv
  · split_ifs at hv
    cases hv; rfl
  · cases hv

/-- Every error of the validation of one crtc spec is an invalid-argument error. -/
theorem validate_crtc_error_code (env : Collaborators) (manager : MetaMonitorManager)
    (spec : CrtcSpec) (w h : Int) (code : DBusErrorCode) (message : String)
    (hv : validate_crtc env manager spec w h = Except.error (code, message)) :
    code = DBusErrorCode.INVALID_ARGS := by
  unfold validate_crtc at hv
  by_cases h1 : spec.crtc_id ≥ manager.crtcs.length
  · rw [if_pos h1] at hv; cases hv; rfl
  rw [if_neg h1] at hv
  by_cases h2 : spec.new_mode ≠ -1 ∧ (spec.new_mode < 0 ∨ spec.new_mode ≥ manager.modes.length)
  · rw [if_pos h2] at hv; cases hv; rfl
  rw [if_neg h2] at hv
  cases hg : validate_geometry env manager spec w h with
  | error e =>
    rw [hg] at hv
    cases hv
    exact validate_geometry_error_code _ _ _ _ _ _ _ hg
  | ok r =>
    obtain ⟨w2, h2, x, y⟩ := r
    rw [hg] at hv
    dsimp only at hv
    by_cases h3 : spec.transform > META_MONITOR_TRANSFORM_FLIPPED_270 ∨
        (manager.crtc spec.crtc_id).all_transforms &&& (1 <<< spec.transform) = 0
    · rw [if_pos h3] at hv; cases hv; rfl
    rw [if_neg h3] at hv
    cases hn : validate_nested_outputs manager spec.crtc_id (requested_mode spec)
        spec.outputs none [] with
    | error e =>
      rw [hn] at hv
      cases hv
      exact validate_nested_outputs_error_code _ _ _ _ _ _ _ _ hn
    | ok r =>
      obtain ⟨first_output, outputs⟩ := r
      rw [hn] at hv
      dsimp only at hv
      by_cases h4 : first_output = none ∧ requested_mode spec ≠ none
      · rw [if_pos h4] at hv; cases hv; rfl
      · rw [if_neg h4] at hv; cases hv

/-- Every error of the crtc loop is an invalid-argument error. -/
theorem validate_crtcs_error_code (env : Collaborators) (manager : MetaMonitorManager)
    (l : List CrtcSpec) (w h : Int) (acc : List MetaCrtcInfo) (code : DBusErrorCode)
    (message : String)
    (hv : validate_crtcs env manager l w h acc = Except.error (code, message)) :
    code = DBusErrorCode.INVALID_ARGS := by
  induction l generalizing w h acc with
  | nil => simp [validate_crtcs] at hv
  | cons spec rest ih =>
    unfold validate_crtcs at hv
    split at hv
    · rename_i e he
      cases hv
      exact validate_crtc_error_code _ _ _ _ _ _ _ he
    · exact ih _ _ _ hv

/-- Every error of the output-spec loop is an invalid-argument error. -/
theorem validate_outputs_error_code (manager : MetaMonitorManager) (l : List OutputSpec)
    (acc : List MetaOutputInfo) (code : DBusErrorCode) (message : String)
    (hv : validate_outputs manager l acc = Except.error (code, message)) :
    code = DBusErrorCode.INVALID_ARGS := by
  induction l generalizing acc with
  | nil => simp [validate_outputs] at hv
  | cons spec rest ih =>
    unfold validate_outputs at hv
    split_ifs at hv
    · cases hv; rfl
    · cases hv; rfl
    · exact ih _ hv

/-- Every validation error is an invalid-argument error. -/
theorem validate_request_error_code (env : Collaborators) (manager : MetaMonitorManager)
    (request : ApplyRequest) (code : DBusErrorCode) (message : String)
    (hv : validate_request env manager request = Except.error (code, message)) :
    code = DBusErrorCode.INVALID_ARGS := by
  unfold validate_request at hv
  split at hv
  · rename_i e he
    cases hv
    exact validate_crtcs_error_code _ _ _ _ _ _ _ _ he
  · split_ifs at hv
    · cases hv; rfl
    · split at hv
      · rename_i e he
        cases hv
        exact validate_outputs_error_code _ _ _ _ _ he
      · cases hv

/-- A rejected request: the handler answers with the validation error, calls no backend
function and returns the manager it was given. -/
theorem handler_of_validation_error (env : Collaborators) (manager : MetaMonitorManager)
    (request : ApplyRequest) (code : DBusErrorCode) (message : String)
    (hlegacy : manager.config_manager = false) (hserial : request.serial = manager.serial)
    (hv : validate_request env manager request = Except.error (code, message)) :
    meta_monitor_manager_legacy_handle_apply_configuration env manager request =
      { manager := manager, reply := MethodReply.error code message } := by
  unfold meta_monitor_manager_legacy_handle_apply_configuration
  simp [hlegacy, hserial, hv]

/-- With no mode requested the geometry block leaves the screen size as it was. -/
theorem validate_geometry_no_mode (env : Collaborators) (manager : MetaMonitorManager)
    (spec : CrtcSpec) (w h : Int) (hmode : spec.new_mode = -1) :
    validate_geometry env manager spec w h = Except.ok (w, h, 0, 0) := by
  simp [validate_geometry, requested_mode, hmode]

/-- A crtc spec without a mode, when accepted, leaves the screen size as it was. -/
theorem validate_crtc_no_mode (env : Collaborators) (manager : MetaMonitorManager)
    (spec : CrtcSpec) (w h : Int) (hmode : spec.new_mode = -1) (info : MetaCrtcInfo)
    (w2 h2 : Int) (hv : validate_crtc env manager spec w h = Except.ok (info, w2, h2)) :
    w2 = w ∧ h2 = h := by
  unfold validate_crtc at hv
  rw [validate_geometry_no_mode env manager spec w h hmode] at hv
  dsimp only at hv
  split_ifs at hv
  split at hv
  · cases hv
  · split_ifs at hv
    cases hv
    exact ⟨rfl, rfl⟩

/-- A crtc list without any mode, when accepted, leaves the screen size as it was. -/
theorem validate_crtcs_no_mode (env : Collaborators) (manager : MetaMonitorManager)
    (l : List CrtcSpec) (w h : Int) (acc : List MetaCrtcInfo)
    (hmodes : ∀ spec ∈ l, spec.new_mode = -1) (infos : List MetaCrtcInfo) (w2 h2 : Int)
    (hv : validate_crtcs env manager l w h acc = Except.ok (infos, w2, h2)) :
    w2 = w ∧ h2 = h := by
  induction l generalizing w h acc with
  | nil =>
    simp only [validate_crtcs] at hv
    cases hv
    exact ⟨rfl, rfl⟩
  | cons spec rest ih =>
    unfold validate_crtcs at hv
    cases hc : validate_crtc env manager spec w h with
    | error e => rw [hc] at hv; cases hv
    | ok r =>
      obtain ⟨info, w1, h1⟩ := r
      rw [hc] at hv
      dsimp only at hv
      obtain ⟨hw, hh⟩ := validate_crtc_no_mode env manager spec w h
        (hmodes spec (List.mem_cons_self _ _)) info w1 h1 hc
      obtain ⟨hw2, hh2⟩ := ih w1 h1 _ (fun s hs => hmodes s (List.mem_cons_of_mem _ hs)) hv
      exact ⟨hw2.trans hw, hh2.trans hh⟩

/-- C1: under the legacy configuration system, a request whose serial differs from the
manager's serial is answered, whatever its crtc and output specs are, with the error
"The requested configuration is based on stale information"; the backend apply is not
called, no timer is removed and the manager (tables, serial, pending revert timer) is
returned as it was. -/
theorem stale_serial_rejected (env : Collaborators) (manager : MetaMonitorManager)
    (request : ApplyRequest) (hlegacy : manager.config_manager = false)
    (hserial : request.serial ≠ manager.serial) :
    (meta_monitor_manager_legacy_handle_apply_configuration env manager request).reply =
        MethodReply.error DBusErrorCode.ACCESS_DENIED
          "The requested configuration is based on stale information" ∧
      (meta_monitor_manager_legacy_handle_apply_configuration env manager request).applied = [] ∧
      (meta_monitor_manager_legacy_handle_apply_configuration env manager request).removed_timeouts
        = [] ∧
      (meta_monitor_manager_legacy_handle_apply_configuration env manager request).manager =
        manager := by
  unfold meta_monitor_manager_legacy_handle_apply_configuration
  simp [hlegacy, hserial]

/-- C1 at the sample manager (serial 7) and a request at serial 6. -/
theorem stale_serial_rejected_witness :
    sample_manager.config_manager = false ∧
      sample_stale_request.serial ≠ sample_manager.serial ∧
      (meta_monitor_manager_legacy_handle_apply_configuration sample_env sample_manager
          sample_stale_request).reply =
        MethodReply.error DBusErrorCode.ACCESS_DENIED
          "The requested configuration is based on stale information" ∧
      (meta_monitor_manager_legacy_handle_apply_configuration sample_env sample_manager
          sample_stale_request).manager = sample_manager :=
  ⟨rfl, by decide,
    (stale_serial_rejected sample_env sample_manager sample_stale_request rfl (by decide)).1,
    (stale_serial_rejected sample_env sample_manager sample_stale_request rfl
      (by decide)).2.2.2⟩

/-- Under the new configuration system the handler refuses every request: it calls no
backend function and returns the manager it was given. -/
theorem handler_of_new_system (env : Collaborators) (manager : MetaMonitorManager)
    (request : ApplyRequest) (hnew : manager.config_manager = true) :
    meta_monitor_manager_legacy_handle_apply_configuration env manager request =
      { manager := manager,
        reply := MethodReply.error DBusErrorCode.ACCESS_DENIED
          "Used old configuration API with new configuration system" } := by
  unfold meta_monitor_manager_legacy_handle_apply_configuration
  simp [hnew]

/-- C2: a request at the current serial in which no crtc spec carries a mode (empty crtc
list, or mode -1 in every spec) is rejected: the backend apply is not called, no timer is
removed and the manager, with its crtcs and outputs, is returned as it was; the error is
an invalid-argument error (under the legacy configuration system, the one that reaches
the validation). -/
theorem request_without_modes_rejected (env : Collaborators) (manager : MetaMonitorManager)
    (request : ApplyRequest) (hserial : request.serial = manager.serial)
    (hmodes : ∀ spec ∈ request.crtcs, spec.new_mode = -1) :
    (manager.config_manager = false →
        ∃ message,
          (meta_monitor_manager_legacy_handle_apply_configuration env manager request).reply =
            MethodReply.error DBusErrorCode.INVALID_ARGS message) ∧
      (∃ code message,
        (meta_monitor_manager_legacy_handle_apply_configuration env manager request).reply =
          MethodReply.error code message) ∧
      (meta_monitor_manager_legacy_handle_apply_configuration env manager request).applied = [] ∧
      (meta_monitor_manager_legacy_handle_apply_configuration env manager request).removed_timeouts
        = [] ∧
      (meta_monitor_manager_legacy_handle_apply_configuration env manager request).manager =
        manager := by
  have hrej : ∃ message, validate_request env manager request =
      Except.error (DBusErrorCode.INVALID_ARGS, message) := by
    cases hc : validate_crtcs env manager request.crtcs 0 0 [] with
    | error e =>
      obtain ⟨code, message⟩ := e
      have hcode := validate_crtcs_error_code env manager _ _ _ _ code message hc
      subst hcode
      exact ⟨message, by simp [validate_request, hc]⟩
    | ok r =>
      obtain ⟨infos, w, h⟩ := r
      obtain ⟨hw, hh⟩ := validate_crtcs_no_mode env manager _ 0 0 [] hmodes infos w h hc
      subst hw
      exact ⟨"Refusing to disable all outputs", by simp [validate_request, hc]⟩
  obtain ⟨message, hv⟩ := hrej
  cases hcm : manager.config_manager with
  | true =>
    rw [handler_of_new_system env manager request hcm]
    exact ⟨fun h => Bool.noConfusion h, ⟨_, _, rfl⟩, rfl, rfl, rfl⟩
  | false =>
    rw [handler_of_validation_error env manager request _ message hcm hserial hv]
    exact ⟨fun _ => ⟨message, rfl⟩, ⟨_, _, rfl⟩, rfl, rfl, rfl⟩

/-- C2 at the sample manager and a request that switches two crtcs off. -/
theorem request_without_modes_rejected_witness :
    sample_disable_request.serial = sample_manager.serial ∧
      (∀ spec ∈ sample_disable_request.crtcs, spec.new_mode = -1) ∧
      sample_manager.config_manager = false ∧
      (∃ message,
        (meta_monitor_manager_legacy_handle_apply_configuration sample_env sample_manager
            sample_disable_request).reply =
          MethodReply.error DBusErrorCode.INVALID_ARGS message) ∧
      (meta_monitor_manager_legacy_handle_apply_configuration sample_env sample_manager
          sample_disable_request).applied = [] ∧
      (meta_monitor_manager_legacy_handle_apply_configuration sample_env sample_manager
          sample_disable_request).manager = sample_manager :=
  ⟨rfl, by decide, rfl,
    (request_without_modes_rejected sample_env sample_manager sample_disable_request rfl
      (by decide)).1 rfl,
    (request_without_modes_rejected sample_env sample_manager sample_disable_request rfl
      (by decide)).2.2.1,
    (request_without_modes_rejected sample_env sample_manager sample_disable_request rfl
      (by decide)).2.2.2.2⟩

/-- C3: a request at the current serial whose first crtc spec names a crtc id greater
than or equal to the number of crtcs is rejected: the backend apply is not called, no
timer is removed and the manager (crtc, output and mode tables, pending revert timer) is
returned as it was; the error is the invalid-argument error "Invalid CRTC id" (under the
legacy configuration system, the one that reaches the validation). -/
theorem invalid_first_crtc_id_rejected (env : Collaborators) (manager : MetaMonitorManager)
    (request : ApplyRequest) (spec : CrtcSpec) (rest : List CrtcSpec)
    (hserial : request.serial = manager.serial)
    (hfirst : request.crtcs = spec :: rest) (hid : spec.crtc_id ≥ manager.crtcs.length) :
    (manager.config_manager = false →
        (meta_monitor_manager_legacy_handle_apply_configuration env manager request).reply =
          MethodReply.error DBusErrorCode.INVALID_ARGS "Invalid CRTC id") ∧
      (∃ code message,
        (meta_monitor_manager_legacy_handle_apply_configuration env manager request).reply =
          MethodReply.error code message) ∧
      (meta_monitor_manager_legacy_handle_apply_configuration env manager request).applied = [] ∧
      (meta_monitor_manager_legacy_handle_apply_configuration env manager request).removed_timeouts
        = [] ∧
      (meta_monitor_manager_legacy_handle_apply_configuration env manager request).manager =
        manager := by
  have hv : validate_request env manager request =
      Except.error (DBusErrorCode.INVALID_ARGS, "Invalid CRTC id") := by
    simp [validate_request, hfirst, validate_crtcs, validate_crtc, hid]
  cases hcm : manager.config_manager with
  | true =>
    rw [handler_of_new_system env manager request hcm]
    exact ⟨fun h => Bool.noConfusion h, ⟨_, _, rfl⟩, rfl, rfl, rfl⟩
  | false =>
    rw [handler_of_validation_error env manager request _ _ hcm hserial hv]
    exact ⟨fun _ => rfl, ⟨_, _, rfl⟩, rfl, rfl, rfl⟩

/-- C3 at the sample manager, whose crtcs are 0 to 2, and a request naming crtc 5. -/
theorem invalid_first_crtc_id_rejected_witness :
    sample_bad_crtc_request.serial = sample_manager.serial ∧
      (5 : Nat) ≥ sample_manager.crtcs.length ∧
      sample_manager.config_manager = false ∧
      (meta_monitor_manager_legacy_handle_apply_configuration sample_env sample_manager
          sample_bad_crtc_request).reply =
        MethodReply.error DBusErrorCode.INVALID_ARGS "Invalid CRTC id" ∧
      (meta_monitor_manager_legacy_handle_apply_configuration sample_env sample_manager
          sample_bad_crtc_request).manager = sample_manager :=
  ⟨rfl, by decide, rfl,
    (invalid_first_crtc_id_rejected sample_env sample_manager sample_bad_crtc_request
      { crtc_id := 5, new_mode := 0, x := 0, y := 0, transform := 0, outputs := [0] }
      [{ crtc_id := 1, new_mode := 0, x := 1920, y := 0, transform := 0, outputs := [1] }]
      rfl rfl (by decide)).1 rfl,
    (invalid_first_crtc_id_rejected sample_env sample_manager sample_bad_crtc_request
      { crtc_id := 5, new_mode := 0, x := 0, y := 0, transform := 0, outputs := [0] }
      [{ crtc_id := 1, new_mode := 0, x := 1920, y := 0, transform := 0, outputs := [1] }]
      rfl rfl (by decide)).2.2.2.2⟩

/-- An accepted output list of a crtc spec: the outputs are gathered in order, and every
output visited after `first_output` was set lists that output as a possible clone. -/
theorem validate_nested_outputs_ok (manager : MetaMonitorManager) (crtc : Nat)
    (mode : Option Nat) (l : List Nat) (first_output : Option Nat) (acc : List Nat)
    (first2 : Option Nat) (outs : List Nat)
    (h : validate_nested_outputs manager crtc mode l first_output acc =
      Except.ok (first2, outs)) :
    outs = acc ++ l ∧
      (∀ f, first_output = some f →
        ∀ o ∈ l, output_can_clone (manager.output o) f = true) ∧
      (first_output = none → later_outputs_list_first manager l) ∧
      (first2 = none ↔ first_output = none ∧ l = []) := by
  induction l generalizing first_output acc with
  | nil =>
    simp only [validate_nested_outputs] at h
    cases h
    simp [later_outputs_list_first]
  | cons o rest ih =>
    unfold validate_nested_outputs at h
    by_cases h1 : o ≥ manager.outputs.length
    · rw [if_pos h1] at h; cases h
    rw [if_neg h1] at h
    by_cases h2 : (!output_can_config (manager.output o) crtc mode) = true
    · rw [if_pos h2] at h; cases h
    rw [if_neg h2] at h
    cases first_output with
    | none =>
      dsimp only at h
      obtain ⟨e1, e2, _, e4⟩ := ih _ _ h
      refine ⟨by simp [e1], by simp, fun _ => ?_, ?_⟩
      · exact e2 o rfl
      · simp [e4]
    | some f =>
      dsimp only at h
      by_cases h3 : (!output_can_clone (manager.output o) f) = true
      · rw [if_pos h3] at h; cases h
      rw [if_neg h3] at h
      obtain ⟨e1, e2, _, e4⟩ := ih _ _ h
      refine ⟨by simp [e1], ?_, by simp, by simp [e4]⟩
      intro f2 hf o2 ho2
      cases hf
      rcases List.mem_cons.1 ho2 with rfl | hm
      · simpa using h3
      · exact e2 f rfl o2 hm

/-- An accepted crtc spec: what the checks established and the `MetaCrtcInfo` built. -/
theorem validate_crtc_ok (env : Collaborators) (manager : MetaMonitorManager)
    (spec : CrtcSpec) (w h : Int) (info : MetaCrtcInfo) (w2 h2 : Int)
    (hv : validate_crtc env manager spec w h = Except.ok (info, w2, h2)) :
    spec.crtc_id < manager.crtcs.length ∧
      (∃ x y, validate_geometry env manager spec w h = Except.ok (w2, h2, x, y) ∧
        info = ⟨spec.crtc_id, requested_mode spec, x, y, spec.transform, spec.outputs⟩) ∧
      later_outputs_list_first manager spec.outputs ∧
      (requested_mode spec ≠ none → spec.outputs ≠ []) := by
  unfold validate_crtc at hv
  by_cases h1 : spec.crtc_id ≥ manager.crtcs.length
  · rw [if_pos h1] at hv; cases hv
  rw [if_neg h1] at hv
  by_cases h2 : spec.new_mode ≠ -1 ∧ (spec.new_mode < 0 ∨ spec.new_mode ≥ manager.modes.length)
  · rw [if_pos h2] at hv; cases hv
  rw [if_neg h2] at hv
  cases hg : validate_geometry env manager spec w h with
  | error e => rw [hg] at hv; cases hv
  | ok r =>
    obtain ⟨w3, h3, x, y⟩ := r
    rw [hg] at hv
    dsimp only at hv
    by_cases h3 : spec.transform > META_MONITOR_TRANSFORM_FLIPPED_270 ∨
        (manager.crtc spec.crtc_id).all_transforms &&& (1 <<< spec.transform) = 0
    · rw [if_pos h3] at hv; cases hv
    rw [if_neg h3] at hv
    cases hn : validate_nested_outputs manager spec.crtc_id (requested_mode spec)
        spec.outputs none [] with
    | error e => rw [hn] at hv; cases hv
    | ok r =>
      obtain ⟨first_output, outputs⟩ := r
      rw [hn] at hv
      dsimp only at hv
      by_cases h4 : first_output = none ∧ requested_mode spec ≠ none
      · rw [if_pos h4] at hv; cases hv
      rw [if_neg h4] at hv
      cases hv
      obtain ⟨e1, _, e3, e4⟩ := validate_nested_outputs_ok _ _ _ _ _ _ _ _ hn
      refine ⟨Nat.lt_of_not_ge h1, ⟨x, y, rfl, by simp [e1]⟩, e3 rfl, ?_⟩
      intro hm hnil
      exact h4 ⟨e4.2 ⟨rfl, hnil⟩, hm⟩

/-- An accepted crtc list: every crtc spec of the list was accepted by `validate_crtc`
at some running screen size, and the infos handed on are those built for the specs, in
order, after the ones gathered before. -/
theorem validate_crtcs_ok (env : Collaborators) (manager : MetaMonitorManager)
    (l : List CrtcSpec) (w h : Int) (acc infos : List MetaCrtcInfo) (w2 h2 : Int)
    (hv : validate_crtcs env manager l w h acc = Except.ok (infos, w2, h2)) :
    ∃ new : List MetaCrtcInfo, infos = acc ++ new ∧
      List.Forall₂ (fun spec info => ∃ wa ha wb hb,
        validate_crtc env manager spec wa ha = Except.ok (info, wb, hb)) l new := by
  induction l generalizing w h acc with
  | nil =>
    simp only [validate_crtcs] at hv
    cases hv
    exact ⟨[], by simp, List.Forall₂.nil⟩
  | cons spec rest ih =>
    unfold validate_crtcs at hv
    cases hc : validate_crtc env manager spec w h with
    | error e => rw [hc] at hv; cases hv
    | ok r =>
      obtain ⟨info, w1, h1⟩ := r
      rw [hc] at hv
      dsimp only at hv
      obtain ⟨new, e1, e2⟩ := ih _ _ _ hv
      exact ⟨info :: new, by simp [e1], List.Forall₂.cons ⟨w, h, w1, h1, hc⟩ e2⟩

/-- An accepted request: the crtc infos handed to the backend correspond, one to one
and in order, to the crtc specs of the request, each accepted by `validate_crtc`. -/
theorem validate_request_ok (env : Collaborators) (manager : MetaMonitorManager)
    (request : ApplyRequest) (crtc_infos : List MetaCrtcInfo)
    (output_infos : List MetaOutputInfo)
    (hv : validate_request env manager request = Except.ok (crtc_infos, output_infos)) :
    List.Forall₂ (fun spec info => ∃ wa ha wb hb,
      validate_crtc env manager spec wa ha = Except.ok (info, wb, hb))
      request.crtcs crtc_infos := by
  unfold validate_request at hv
  cases hc : validate_crtcs env manager request.crtcs 0 0 [] with
  | error e => rw [hc] at hv; cases hv
  | ok r =>
    obtain ⟨infos, w, h⟩ := r
    rw [hc] at hv
    dsimp only at hv
    split_ifs at hv
    cases ho : validate_outputs manager request.outputs [] with
    | error e => rw [ho] at hv; cases hv
    | ok r =>
      rw [ho] at hv
      cases hv
      obtain ⟨new, e1, e2⟩ := validate_crtcs_ok _ _ _ _ _ _ _ _ _ hc
      simpa [e1] using e2

/-- An accepted request under the legacy system: the handler completes the call and the
backend apply is called once, with the validated infos. -/
theorem handler_of_validation_ok (env : Collaborators) (manager : MetaMonitorManager)
    (request : ApplyRequest) (crtc_infos : List MetaCrtcInfo)
    (output_infos : List MetaOutputInfo)
    (hlegacy : manager.config_manager = false) (hserial : request.serial = manager.serial)
    (hv : validate_request env manager request = Except.ok (crtc_infos, output_infos)) :
    (meta_monitor_manager_legacy_handle_apply_configuration env manager request).reply =
        MethodReply.complete ∧
      (meta_monitor_manager_legacy_handle_apply_configuration env manager request).applied =
        [(crtc_infos, output_infos)] := by
  unfold meta_monitor_manager_legacy_handle_apply_configuration
  simp [hlegacy, hserial, hv]

/-- The inner output loop answers "Outputs cannot be cloned" only when an output does
not list the first output of the list as a possible clone. -/
theorem validate_nested_outputs_clone_error (manager : MetaMonitorManager) (crtc : Nat)
    (mode : Option Nat) (l : List Nat) (first_output : Option Nat) (acc : List Nat)
    (code : DBusErrorCode)
    (h : validate_nested_outputs manager crtc mode l first_output acc =
      Except.error (code, "Outputs cannot be cloned")) :
    (∀ f, first_output = some f →
        ∃ o ∈ l, output_can_clone (manager.output o) f = false) ∧
      (first_output = none → ¬ later_outputs_list_first manager l) := by
  induction l generalizing first_output acc with
  | nil => simp [validate_nested_outputs] at h
  | cons o rest ih =>
    unfold validate_nested_outputs at h
    by_cases h1 : o ≥ manager.outputs.length
    · rw [if_pos h1] at h; simp at h
    rw [if_neg h1] at h
    by_cases h2 : (!output_can_config (manager.output o) crtc mode) = true
    · rw [if_pos h2] at h; simp at h
    rw [if_neg h2] at h
    cases first_output with
    | none =>
      dsimp only at h
      obtain ⟨e1, _⟩ := ih _ _ h
      refine ⟨by simp, fun _ hl => ?_⟩
      obtain ⟨o2, ho2, hc⟩ := e1 o rfl
      have := hl o2 ho2
      rw [hc] at this
      cases this
    | some f =>
      dsimp only at h
      by_cases h3 : (!output_can_clone (manager.output o) f) = true
      · refine ⟨?_, by simp⟩
        intro f2 hf
        cases hf
        exact ⟨o, List.mem_cons_self _ _, by simpa using h3⟩
      rw [if_neg h3] at h
      obtain ⟨e1, _⟩ := ih _ _ h
      refine ⟨?_, by simp⟩
      intro f2 hf
      obtain ⟨o2, ho2, hc⟩ := e1 f2 hf
      exact ⟨o2, List.mem_cons_of_mem _ ho2, hc⟩

/-- The validation of a crtc spec answers "Outputs cannot be cloned" only when the spec
lists an output that does not list the first output of the spec as a possible clone. -/
theorem validate_crtc_clone_error (env : Collaborators) (manager : MetaMonitorManager)
    (spec : CrtcSpec) (w h : Int) (code : DBusErrorCode)
    (hv : validate_crtc env manager spec w h =
      Except.error (code, "Outputs cannot be cloned")) :
    ¬ later_outputs_list_first manager spec.outputs := by
  unfold validate_crtc at hv
  by_cases h1 : spec.crtc_id ≥ manager.crtcs.length
  · rw [if_pos h1] at hv; simp at hv
  rw [if_neg h1] at hv
  by_cases h2 : spec.new_mode ≠ -1 ∧ (spec.new_mode < 0 ∨ spec.new_mode ≥ manager.modes.length)
  · rw [if_pos h2] at hv; simp at hv
  rw [if_neg h2] at hv
  cases hg : validate_geometry env manager spec w h with
  | error e =>
    rw [hg] at hv
    unfold validate_geometry at hg
    split at hg
    · split_ifs at hg
      cases hg
      simp at hv
    · cases hg
  | ok r =>
    obtain ⟨w3, h3, x, y⟩ := r
    rw [hg] at hv
    dsimp only at hv
    by_cases h3 : spec.transform > META_MONITOR_TRANSFORM_FLIPPED_270 ∨
        (manager.crtc spec.crtc_id).all_transforms &&& (1 <<< spec.transform) = 0
    · rw [if_pos h3] at hv; simp at hv
    rw [if_neg h3] at hv
    cases hn : validate_nested_outputs manager spec.crtc_id (requested_mode spec)
        spec.outputs none [] with
    | error e =>
      rw [hn] at hv
      obtain ⟨c, m⟩ := e
      simp only [Except.error.injEq, Prod.mk.injEq] at hv
      obtain ⟨rfl, rfl⟩ := hv
      exact (validate_nested_outputs_clone_error _ _ _ _ _ _ _ hn).2 rfl
    | ok r =>
      obtain ⟨first_output, outputs⟩ := r
      rw [hn] at hv
      dsimp only at hv
      by_cases h4 : first_output = none ∧ requested_mode spec ≠ none
      · rw [if_pos h4] at hv; simp at hv
      · rw [if_neg h4] at hv; cases hv

/-- The crtc loop answers with the error of the first crtc spec that is refused. -/
theorem validate_crtcs_error_spec (env : Collaborators) (manager : MetaMonitorManager)
    (l : List CrtcSpec) (w h : Int) (acc : List MetaCrtcInfo) (e : DBusErrorCode × String)
    (hv : validate_crtcs env manager l w h acc = Except.error e) :
    ∃ spec ∈ l, ∃ wa ha, validate_crtc env manager spec wa ha = Except.error e := by
  induction l generalizing w h acc with
  | nil => simp [validate_crtcs] at hv
  | cons spec rest ih =>
    unfold validate_crtcs at hv
    cases hc : validate_crtc env manager spec w h with
    | error e2 =>
      rw [hc] at hv
      cases hv
      exact ⟨spec, List.mem_cons_self _ _, w, h, hc⟩
    | ok r =>
      obtain ⟨info, w1, h1⟩ := r
      rw [hc] at hv
      dsimp only at hv
      obtain ⟨s2, hs2, wa, ha, he⟩ := ih _ _ _ hv
      exact ⟨s2, List.mem_cons_of_mem _ hs2, wa, ha, he⟩

/-- The messages of the output-spec loop. -/
theorem validate_outputs_error_message (manager : MetaMonitorManager) (l : List OutputSpec)
    (acc : List MetaOutputInfo) (code : DBusErrorCode) (message : String)
    (hv : validate_outputs manager l acc = Except.error (code, message)) :
    message = "Invalid output id" ∨ message = "Underscanning requested but unsupported" := by
  induction l generalizing acc with
  | nil => simp [validate_outputs] at hv
  | cons spec rest ih =>
    unfold validate_outputs at hv
    split_ifs at hv
    · cases hv; exact Or.inl rfl
    · cases hv; exact Or.inr rfl
    · exact ih _ hv

/-- A validation error other than the three raised after the crtc loop is the error of
some crtc spec of the request. -/
theorem validate_request_error_spec (env : Collaborators) (manager : MetaMonitorManager)
    (request : ApplyRequest) (code : DBusErrorCode) (message : String)
    (hv : validate_request env manager request = Except.error (code, message))
    (h1 : message ≠ "Refusing to disable all outputs")
    (h2 : message ≠ "Invalid output id")
    (h3 : message ≠ "Underscanning requested but unsupported") :
    ∃ spec ∈ request.crtcs, ∃ wa ha,
      validate_crtc env manager spec wa ha = Except.error (code, message) := by
  unfold validate_request at hv
  cases hc : validate_crtcs env manager request.crtcs 0 0 [] with
  | error e =>
    rw [hc] at hv
    cases hv
    exact validate_crtcs_error_spec _ _ _ _ _ _ _ hc
  | ok r =>
    obtain ⟨infos, w, h⟩ := r
    rw [hc] at hv
    dsimp only at hv
    split_ifs at hv
    · cases hv; exact absurd rfl h1
    · cases ho : validate_outputs manager request.outputs [] with
      | error e =>
        rw [ho] at hv
        cases hv
        rcases validate_outputs_error_message _ _ _ _ _ ho with hm | hm
        · exact absurd hm h2
        · exact absurd hm h3
      | ok r => rw [ho] at hv; cases hv

/-- Related lists: every element of the right list has a partner in the left list. -/
theorem forall₂_partner_left {α β : Type} {R : α → β → Prop} {l1 : List α} {l2 : List β}
    (h : List.Forall₂ R l1 l2) : ∀ b ∈ l2, ∃ a ∈ l1, R a b := by
  induction h with
  | nil => intro b hb; cases hb
  | cons hab _ ih =>
    intro b hb
    rcases List.mem_cons.1 hb with rfl | hm
    · exact ⟨_, List.mem_cons_self _ _, hab⟩
    · obtain ⟨a, ha, hr⟩ := ih b hm
      exact ⟨a, List.mem_cons_of_mem _ ha, hr⟩

/-- Related lists: every element of the left list has a partner in the right list. -/
theorem forall₂_partner_right {α β : Type} {R : α → β → Prop} {l1 : List α} {l2 : List β}
    (h : List.Forall₂ R l1 l2) : ∀ a ∈ l1, ∃ b ∈ l2, R a b := by
  induction h with
  | nil => intro a ha; cases ha
  | cons hab _ ih =>
    intro a ha
    rcases List.mem_cons.1 ha with rfl | hm
    · exact ⟨_, List.mem_cons_self _ _, hab⟩
    · obtain ⟨b, hb, hr⟩ := ih a hm
      exact ⟨b, List.mem_cons_of_mem _ hb, hr⟩

/-- Under the legacy system and at the current serial, an error reply of the handler is
the error of the validation. -/
theorem handler_error_reply (env : Collaborators) (manager : MetaMonitorManager)
    (request : ApplyRequest) (code : DBusErrorCode) (message : String)
    (hlegacy : manager.config_manager = false) (hserial : request.serial = manager.serial)
    (hr : (meta_monitor_manager_legacy_handle_apply_configuration env manager request).reply =
      MethodReply.error code message) :
    validate_request env manager request = Except.error (code, message) := by
  cases hv : validate_request env manager request with
  | error e =>
    obtain ⟨c, m⟩ := e
    rw [handler_of_validation_error env manager request c m hlegacy hserial hv] at hr
    cases hr
    rfl
  | ok r =>
    obtain ⟨crtc_infos, output_infos⟩ := r
    rw [(handler_of_validation_ok env manager request _ _ hlegacy hserial hv).1] at hr
    cases hr

/-- An accepted request: every crtc spec of the request was accepted by `validate_crtc`. -/
theorem validate_request_ok_spec (env : Collaborators) (manager : MetaMonitorManager)
    (request : ApplyRequest) (crtc_infos : List MetaCrtcInfo)
    (output_infos : List MetaOutputInfo)
    (hv : validate_request env manager request = Except.ok (crtc_infos, output_infos)) :
    ∀ spec ∈ request.crtcs, ∃ info wa ha wb hb,
      validate_crtc env manager spec wa ha = Except.ok (info, wb, hb) := by
  intro spec hs
  obtain ⟨info, _, wa, ha, wb, hb, h⟩ :=
    forall₂_partner_right (validate_request_ok env manager request _ _ hv) spec hs
  exact ⟨info, wa, ha, wb, hb, h⟩

/-- A request with a crtc spec that `validate_crtc` accepts at no screen size is rejected
by the handler with an invalid-argument error, without a call of the backend apply. -/
theorem handler_rejects (env : Collaborators) (manager : MetaMonitorManager)
    (request : ApplyRequest)
    (hlegacy : manager.config_manager = false) (hserial : request.serial = manager.serial)
    (hbad : ∃ spec ∈ request.crtcs, ∀ info wa ha wb hb,
      validate_crtc env manager spec wa ha ≠ Except.ok (info, wb, hb)) :
    (∃ message,
        (meta_monitor_manager_legacy_handle_apply_configuration env manager request).reply =
          MethodReply.error DBusErrorCode.INVALID_ARGS message) ∧
      (meta_monitor_manager_legacy_handle_apply_configuration env manager request).applied =
        [] := by
  cases hv : validate_request env manager request with
  | error e =>
    obtain ⟨c, m⟩ := e
    have hc := validate_request_error_code env manager request c m hv
    subst hc
    rw [handler_of_validation_error env manager request _ m hlegacy hserial hv]
    exact ⟨⟨m, rfl⟩, rfl⟩
  | ok r =>
    obtain ⟨crtc_infos, output_infos⟩ := r
    obtain ⟨spec, hs, hno⟩ := hbad
    obtain ⟨info, wa, ha, wb, hb, h⟩ := validate_request_ok_spec env manager request _ _ hv spec hs
    exact absurd h (hno info wa ha wb hb)

/-- Opening the clone lists keeps the number of outputs. -/
theorem with_all_clones_length (manager : MetaMonitorManager) :
    (with_all_clones manager).outputs.length = manager.outputs.length := by
  simp [with_all_clones]

/-- Opening the clone lists changes the clone list of an output of the table and nothing
else of it. -/
theorem with_all_clones_output (manager : MetaMonitorManager) (i : Nat)
    (hi : i < manager.outputs.length) :
    (with_all_clones manager).output i =
      { manager.output i with possible_clones := List.range manager.outputs.length } := by
  unfold MetaMonitorManager.output with_all_clones
  simp [List.getD_eq_getElem?_getD, List.getElem?_map, List.getElem?_eq_getElem hi]

/-- With the clone lists opened, every output of the table lists every output of the
table. -/
theorem with_all_clones_can_clone (manager : MetaMonitorManager) (i f : Nat)
    (hi : i < manager.outputs.length) (hf : f < manager.outputs.length) :
    output_can_clone ((with_all_clones manager).output i) f = true := by
  rw [with_all_clones_output manager i hi]
  unfold output_can_clone
  simp [hf]

/-- Opening the clone lists does not change whether an output can be driven by a crtc
in a mode. -/
theorem with_all_clones_can_config (manager : MetaMonitorManager) (i crtc : Nat)
    (mode : Option Nat) (hi : i < manager.outputs.length) :
    output_can_config ((with_all_clones manager).output i) crtc mode =
      output_can_config (manager.output i) crtc mode := by
  rw [with_all_clones_output manager i hi]
  rfl

/-- The inner output loop, when it succeeds with the clone lists opened: on the manager
itself it gives the same result if the clone condition holds, and "Outputs cannot be
cloned" if it does not. -/
theorem validate_nested_outputs_opened (manager : MetaMonitorManager) (crtc : Nat)
    (mode : Option Nat) (l : List Nat) (first_output : Option Nat) (acc : List Nat)
    (r : Option Nat × List Nat)
    (hf : ∀ f, first_output = some f → f < manager.outputs.length)
    (h : validate_nested_outputs (with_all_clones manager) crtc mode l first_output acc =
      Except.ok r) :
    (clones_listed manager first_output l →
        validate_nested_outputs manager crtc mode l first_output acc = Except.ok r) ∧
      (¬ clones_listed manager first_output l →
        validate_nested_outputs manager crtc mode l first_output acc =
          Except.error (DBusErrorCode.INVALID_ARGS, "Outputs cannot be cloned")) := by
  induction l generalizing first_output acc with
  | nil =>
    simp only [validate_nested_outputs] at h ⊢
    refine ⟨fun _ => h, fun hn => absurd ?_ hn⟩
    cases first_output with
    | none => exact trivial
    | some f => intro o ho; cases ho
  | cons o rest ih =>
    unfold validate_nested_outputs at h ⊢
    rw [with_all_clones_length] at h
    by_cases h1 : o ≥ manager.outputs.length
    · rw [if_pos h1] at h; cases h
    rw [if_neg h1] at h ⊢
    have ho : o < manager.outputs.length := not_le.1 h1
    rw [with_all_clones_can_config manager o crtc mode ho] at h
    by_cases h2 : (!output_can_config (manager.output o) crtc mode) = true
    · rw [if_pos h2] at h; cases h
    rw [if_neg h2] at h ⊢
    cases first_output with
    | none =>
      dsimp only at h ⊢
      exact ih (some o) _ (fun f hf2 => by cases hf2; exact ho) h
    | some f =>
      dsimp only at h ⊢
      have hfl := hf f rfl
      rw [with_all_clones_can_clone manager o f ho hfl] at h
      rw [if_neg (by decide)] at h
      obtain ⟨i1, i2⟩ := ih (some f) _ hf h
      by_cases h3 : output_can_clone (manager.output o) f = true
      · rw [h3, if_neg (by decide)]
        constructor
        · intro hc
          exact i1 (fun o2 ho2 => hc o2 (List.mem_cons_of_mem _ ho2))
        · intro hc
          apply i2
          intro hall
          apply hc
          intro o2 ho2
          rcases List.mem_cons.1 ho2 with rfl | hm
          · exact h3
          · exact hall o2 hm
      · have h3f : output_can_clone (manager.output o) f = false := by
          cases hq : output_can_clone (manager.output o) f with
          | true => exact absurd hq h3
          | false => rfl
        rw [h3f, if_pos (by decide)]
        refine ⟨fun hc => ?_, fun _ => rfl⟩
        have := hc o (List.mem_cons_self _ _)
        rw [h3f] at this
        cases this

/-- The validation of a crtc spec, when it succeeds with the clone lists opened: on the
manager itself it gives the same result if every later output of the spec lists the
first one, and "Outputs cannot be cloned" if not. -/
theorem validate_crtc_opened (env : Collaborators) (manager : MetaMonitorManager)
    (spec : CrtcSpec) (w h : Int) (r : MetaCrtcInfo × Int × Int)
    (hop : validate_crtc env (with_all_clones manager) spec w h = Except.ok r) :
    (later_outputs_list_first manager spec.outputs →
        validate_crtc env manager spec w h = Except.ok r) ∧
      (¬ later_outputs_list_first manager spec.outputs →
        validate_crtc env manager spec w h =
          Except.error (DBusErrorCode.INVALID_ARGS, "Outputs cannot be cloned")) := by
  have hg : validate_geometry env (with_all_clones manager) spec w h =
      validate_geometry env manager spec w h := rfl
  have hc : (with_all_clones manager).crtc spec.crtc_id = manager.crtc spec.crtc_id := rfl
  have hl : (with_all_clones manager).crtcs.length = manager.crtcs.length := rfl
  have hm : (with_all_clones manager).modes.length = manager.modes.length := rfl
  unfold validate_crtc at hop ⊢
  rw [hg, hc, hl, hm] at hop
  by_cases h1 : spec.crtc_id ≥ manager.crtcs.length
  · rw [if_pos h1] at hop; cases hop
  rw [if_neg h1] at hop ⊢
  by_cases h2 : spec.new_mode ≠ -1 ∧ (spec.new_mode < 0 ∨ spec.new_mode ≥ manager.modes.length)
  · rw [if_pos h2] at hop; cases hop
  rw [if_neg h2] at hop ⊢
  cases hgeo : validate_geometry env manager spec w h with
  | error e => rw [hgeo] at hop; cases hop
  | ok g =>
    obtain ⟨w3, h3, x, y⟩ := g
    rw [hgeo] at hop
    dsimp only at hop ⊢
    by_cases h3 : spec.transform > META_MONITOR_TRANSFORM_FLIPPED_270 ∨
        (manager.crtc spec.crtc_id).all_transforms &&& (1 <<< spec.transform) = 0
    · rw [if_pos h3] at hop; cases hop
    rw [if_neg h3] at hop ⊢
    cases hn : validate_nested_outputs (with_all_clones manager) spec.crtc_id
        (requested_mode spec) spec.outputs none [] with
    | error e => rw [hn] at hop; cases hop
    | ok n =>
      obtain ⟨i1, i2⟩ := validate_nested_outputs_opened manager spec.crtc_id
        (requested_mode spec) spec.outputs none [] n (fun f hf => by cases hf) hn
      rw [hn] at hop
      constructor
      · intro hcl
        rw [i1 hcl]
        exact hop
      · intro hcl
        rw [i2 hcl]

/-- The crtc loop, when it succeeds with the clone lists opened: on the manager itself
it answers "Outputs cannot be cloned" as soon as a crtc spec has a later output that
does not list the first one. -/
theorem validate_crtcs_opened (env : Collaborators) (manager : MetaMonitorManager)
    (l : List CrtcSpec) (w h : Int) (acc : List MetaCrtcInfo)
    (r : List MetaCrtcInfo × Int × Int)
    (hop : validate_crtcs env (with_all_clones manager) l w h acc = Except.ok r)
    (hbad : ∃ spec ∈ l, ¬ later_outputs_list_first manager spec.outputs) :
    validate_crtcs env manager l w h acc =
      Except.error (DBusErrorCode.INVALID_ARGS, "Outputs cannot be cloned") := by
  induction l generalizing w h acc with
  | nil =>
    obtain ⟨spec, hs, _⟩ := hbad
    cases hs
  | cons spec rest ih =>
    unfold validate_crtcs at hop ⊢
    cases hc : validate_crtc env (with_all_clones manager) spec w h with
    | error e => rw [hc] at hop; cases hop
    | ok c =>
      obtain ⟨info, w2, h2⟩ := c
      rw [hc] at hop
      dsimp only at hop
      obtain ⟨i1, i2⟩ := validate_crtc_opened env manager spec w h _ hc
      by_cases hcl : later_outputs_list_first manager spec.outputs
      · rw [i1 hcl]
        dsimp only
        apply ih _ _ _ hop
        obtain ⟨s2, hs2, hb2⟩ := hbad
        rcases List.mem_cons.1 hs2 with rfl | hm
        · exact absurd hcl hb2
        · exact ⟨s2, hm, hb2⟩
      · rw [i2 hcl]

/-- The validation of a request that passes every check but the clone check, that is, one
that is accepted with the clone lists opened, and that has a crtc spec with a later
output that does not list the first one: the answer is "Outputs cannot be cloned". -/
theorem validate_request_opened (env : Collaborators) (manager : MetaMonitorManager)
    (request : ApplyRequest) (crtc_infos : List MetaCrtcInfo)
    (output_infos : List MetaOutputInfo)
    (hop : validate_request env (with_all_clones manager) request =
      Except.ok (crtc_infos, output_infos))
    (hbad : ∃ spec ∈ request.crtcs, ¬ later_outputs_list_first manager spec.outputs) :
    validate_request env manager request =
      Except.error (DBusErrorCode.INVALID_ARGS, "Outputs cannot be cloned") := by
  unfold validate_request at hop ⊢
  cases hc : validate_crtcs env (with_all_clones manager) request.crtcs 0 0 [] with
  | error e => rw [hc] at hop; cases hop
  | ok r => rw [validate_crtcs_opened env manager _ _ _ _ r hc hbad]

/-- The inner output loop on the manager and with the clone lists opened: a success is
the same success with the lists opened, and an error is "Outputs cannot be cloned" or
the same error with the lists opened. -/
theorem validate_nested_outputs_closed (manager : MetaMonitorManager) (crtc : Nat)
    (mode : Option Nat) (l : List Nat) (first_output : Option Nat) (acc : List Nat)
    (hf : ∀ f, first_output = some f → f < manager.outputs.length) :
    (∀ r, validate_nested_outputs manager crtc mode l first_output acc = Except.ok r →
        validate_nested_outputs (with_all_clones manager) crtc mode l first_output acc =
          Except.ok r) ∧
      (∀ e, validate_nested_outputs manager crtc mode l first_output acc = Except.error e →
        e = (DBusErrorCode.INVALID_ARGS, "Outputs cannot be cloned") ∨
          validate_nested_outputs (with_all_clones manager) crtc mode l first_output acc =
            Except.error e) := by
  induction l generalizing first_output acc with
  | nil =>
    simp only [validate_nested_outputs]
    exact ⟨fun r h => h, fun e h => by cases h⟩
  | cons o rest ih =>
    unfold validate_nested_outputs
    rw [with_all_clones_length]
    by_cases h1 : o ≥ manager.outputs.length
    · rw [if_pos h1, if_pos h1]
      exact ⟨fun r h => h, fun e h => Or.inr h⟩
    rw [if_neg h1, if_neg h1]
    have ho : o < manager.outputs.length := not_le.1 h1
    rw [with_all_clones_can_config manager o crtc mode ho]
    by_cases h2 : (!output_can_config (manager.output o) crtc mode) = true
    · rw [if_pos h2, if_pos h2]
      exact ⟨fun r h => h, fun e h => Or.inr h⟩
    rw [if_neg h2, if_neg h2]
    cases first_output with
    | none =>
      dsimp only
      exact ih (some o) _ (fun f hf2 => by cases hf2; exact ho)
    | some f =>
      dsimp only
      have hnt : ¬ ((!true) = true) := by decide
      have hnf : (!false) = true := by decide
      rw [with_all_clones_can_clone manager o f ho (hf f rfl), if_neg hnt]
      by_cases h3 : output_can_clone (manager.output o) f = true
      · rw [h3, if_neg hnt]
        exact ih (some f) _ hf
      · have h3f : output_can_clone (manager.output o) f = false := by
          cases hq : output_can_clone (manager.output o) f with
          | true => exact absurd hq h3
          | false => rfl
        rw [h3f, if_pos hnf]
        refine ⟨fun r h => (by cases h), fun e h => Or.inl ?_⟩
        cases h
        rfl

/-- The validation of a crtc spec on the manager and with the clone lists opened. -/
theorem validate_crtc_closed (env : Collaborators) (manager : MetaMonitorManager)
    (spec : CrtcSpec) (w h : Int) :
    (∀ r, validate_crtc env manager spec w h = Except.ok r →
        validate_crtc env (with_all_clones manager) spec w h = Except.ok r) ∧
      (∀ e, validate_crtc env manager spec w h = Except.error e →
        e = (DBusErrorCode.INVALID_ARGS, "Outputs cannot be cloned") ∨
          validate_crtc env (with_all_clones manager) spec w h = Except.error e) := by
  have hg : validate_geometry env (with_all_clones manager) spec w h =
      validate_geometry env manager spec w h := rfl
  have hc : (with_all_clones manager).crtc spec.crtc_id = manager.crtc spec.crtc_id := rfl
  have hl : (with_all_clones manager).crtcs.length = manager.crtcs.length := rfl
  have hm : (with_all_clones manager).modes.length = manager.modes.length := rfl
  unfold validate_crtc
  rw [hg, hc, hl, hm]
  by_cases h1 : spec.crtc_id ≥ manager.crtcs.length
  · rw [if_pos h1, if_pos h1]
    exact ⟨fun r h => h, fun e h => Or.inr h⟩
  rw [if_neg h1, if_neg h1]
  by_cases h2 : spec.new_mode ≠ -1 ∧ (spec.new_mode < 0 ∨ spec.new_mode ≥ manager.modes.length)
  · rw [if_pos h2, if_pos h2]
    exact ⟨fun r h => h, fun e h => Or.inr h⟩
  rw [if_neg h2, if_neg h2]
  cases hgeo : validate_geometry env manager spec w h with
  | error e0 => exact ⟨fun r h => h, fun e h => Or.inr h⟩
  | ok g =>
    obtain ⟨w3, h3, x, y⟩ := g
    dsimp only
    by_cases h3 : spec.transform > META_MONITOR_TRANSFORM_FLIPPED_270 ∨
        (manager.crtc spec.crtc_id).all_transforms &&& (1 <<< spec.transform) = 0
    · rw [if_pos h3, if_pos h3]
      exact ⟨fun r h => h, fun e h => Or.inr h⟩
    rw [if_neg h3, if_neg h3]
    obtain ⟨i1, i2⟩ := validate_nested_outputs_closed manager spec.crtc_id
      (requested_mode spec) spec.outputs none [] (fun f hf => by cases hf)
    cases hn : validate_nested_outputs manager spec.crtc_id (requested_mode spec)
        spec.outputs none [] with
    | error e0 =>
      dsimp only
      refine ⟨fun r h => (by cases h), fun e h => ?_⟩
      cases h
      rcases i2 _ hn with hcl | hop
      · exact Or.inl hcl
      · rw [hop]
        exact Or.inr rfl
    | ok n =>
      rw [i1 n hn]
      exact ⟨fun r h => h, fun e h => Or.inr h⟩

/-- The crtc loop on the manager and with the clone lists opened. -/
theorem validate_crtcs_closed (env : Collaborators) (manager : MetaMonitorManager)
    (l : List CrtcSpec) (w h : Int) (acc : List MetaCrtcInfo) :
    (∀ r, validate_crtcs env manager l w h acc = Except.ok r →
        validate_crtcs env (with_all_clones manager) l w h acc = Except.ok r) ∧
      (∀ e, validate_crtcs env manager l w h acc = Except.error e →
        e = (DBusErrorCode.INVALID_ARGS, "Outputs cannot be cloned") ∨
          validate_crtcs env (with_all_clones manager) l w h acc = Except.error e) := by
  induction l generalizing w h acc with
  | nil =>
    simp only [validate_crtcs]
    exact ⟨fun r h => h, fun e h => by cases h⟩
  | cons spec rest ih =>
    unfold validate_crtcs
    obtain ⟨i1, i2⟩ := validate_crtc_closed env manager spec w h
    cases hc : validate_crtc env manager spec w h with
    | error e0 =>
      dsimp only
      refine ⟨fun r h => (by cases h), fun e h => ?_⟩
      cases h
      rcases i2 _ hc with hcl | hop
      · exact Or.inl hcl
      · rw [hop]
        exact Or.inr rfl
    | ok c =>
      obtain ⟨info, w2, h2⟩ := c
      rw [i1 _ hc]
      dsimp only
      exact ih w2 h2 _

/-- The loop over the output specs does not read the clone lists. -/
theorem validate_outputs_closed (manager : MetaMonitorManager) (l : List OutputSpec)
    (acc : List MetaOutputInfo) :
    validate_outputs (with_all_clones manager) l acc = validate_outputs manager l acc := by
  induction l generalizing acc with
  | nil => rfl
  | cons spec rest ih =>
    unfold validate_outputs
    rw [with_all_clones_length]
    by_cases h1 : spec.output_index ≥ manager.outputs.length
    · rw [if_pos h1, if_pos h1]
    rw [if_neg h1, if_neg h1, with_all_clones_output manager _ (not_le.1 h1)]
    dsimp only
    rw [ih]

/-- The validation of a request on the manager and with the clone lists opened: an error
is "Outputs cannot be cloned" or the error another check gives, the one answered with
the clone lists opened. -/
theorem validate_request_closed (env : Collaborators) (manager : MetaMonitorManager)
    (request : ApplyRequest) (e : DBusErrorCode × String)
    (h : validate_request env manager request = Except.error e) :
    e = (DBusErrorCode.INVALID_ARGS, "Outputs cannot be cloned") ∨
      validate_request env (with_all_clones manager) request = Except.error e := by
  unfold validate_request at h ⊢
  obtain ⟨i1, i2⟩ := validate_crtcs_closed env manager request.crtcs 0 0 []
  cases hc : validate_crtcs env manager request.crtcs 0 0 [] with
  | error e0 =>
    rw [hc] at h
    cases h
    rcases i2 _ hc with hcl | hop
    · exact Or.inl hcl
    · rw [hop]
      exact Or.inr rfl
  | ok c =>
    rw [hc] at h
    rw [i1 c hc, validate_outputs_closed]
    exact Or.inr h

/-- C4 (counterexample): at the sample manager, where output 1 lists output 0 as a
possible clone but output 0 lists no clone, the request that puts outputs 0 and 1 on
crtc 0 passes validation and is handed to the backend, although output 0 does not list
output 1; it is not rejected with "Outputs cannot be cloned". -/
theorem clone_check_one_sided_counterexample :
    validate_request sample_env sample_manager sample_clone_request =
        Except.ok ([⟨0, some 0, 0, 0, 0, [0, 1]⟩], []) ∧
      (meta_monitor_manager_legacy_handle_apply_configuration sample_env sample_manager
          sample_clone_request).reply = MethodReply.complete ∧
      output_can_clone (sample_manager.output 0) 1 = false ∧
      ¬ outputs_list_each_other sample_manager [0, 1] := by
  refine ⟨rfl, by decide, by decide, ?_⟩
  intro h
  have := (h 0 (by simp) 1 (by simp) (by decide)).1
  revert this
  decide

/-- C4 (amended): in every request that passes validation, each output listed by a crtc
spec after the first one lists that first output among its possible clones (the reverse
direction and pairs of later outputs are not tested).  Under the legacy system and at the
current serial, a request with a crtc spec in which some later output does not list the
first output is rejected with an invalid-argument error and not applied; the message is
"Outputs cannot be cloned" unless another check fails, in which case it may be the
message of that check, the one answered when every output lists every output as a
possible clone; when the request passes every other check, that is, when it is accepted
with every output listing every output as a possible clone, the answer is "Outputs
cannot be cloned" and the manager is left as it was; and the handler answers "Outputs
cannot be cloned" only for a request with such a crtc spec. -/
theorem clone_check_against_first_output (env : Collaborators) (manager : MetaMonitorManager)
    (request : ApplyRequest)
    (hlegacy : manager.config_manager = false) (hserial : request.serial = manager.serial) :
    (∀ crtc_infos output_infos,
        validate_request env manager request = Except.ok (crtc_infos, output_infos) →
        ∀ info ∈ crtc_infos, later_outputs_list_first manager info.outputs) ∧
      ((∃ spec ∈ request.crtcs, ¬ later_outputs_list_first manager spec.outputs) →
        (∃ message,
          (meta_monitor_manager_legacy_handle_apply_configuration env manager request).reply =
            MethodReply.error DBusErrorCode.INVALID_ARGS message) ∧
        (meta_monitor_manager_legacy_handle_apply_configuration env manager request).applied =
          [] ∧
        ((meta_monitor_manager_legacy_handle_apply_configuration env manager request).reply =
            MethodReply.error DBusErrorCode.INVALID_ARGS "Outputs cannot be cloned" ∨
          ∃ message,
            validate_request env (with_all_clones manager) request =
              Except.error (DBusErrorCode.INVALID_ARGS, message) ∧
            (meta_monitor_manager_legacy_handle_apply_configuration env manager request).reply =
              MethodReply.error DBusErrorCode.INVALID_ARGS message) ∧
        ((∃ crtc_infos output_infos,
            validate_request env (with_all_clones manager) request =
              Except.ok (crtc_infos, output_infos)) →
          meta_monitor_manager_legacy_handle_apply_configuration env manager request =
            { manager := manager,
              reply := MethodReply.error DBusErrorCode.INVALID_ARGS
                "Outputs cannot be cloned" })) ∧
      ((meta_monitor_manager_legacy_handle_apply_configuration env manager request).reply =
          MethodReply.error DBusErrorCode.INVALID_ARGS "Outputs cannot be cloned" →
        ∃ spec ∈ request.crtcs, ¬ later_outputs_list_first manager spec.outputs) := by
  refine ⟨?_, ?_, ?_⟩
  · intro crtc_infos output_infos hv info hi
    obtain ⟨spec, _, wa, ha, wb, hb, h⟩ :=
      forall₂_partner_left (validate_request_ok env manager request _ _ hv) info hi
    obtain ⟨_, ⟨x, y, _, hinfo⟩, hclone, _⟩ := validate_crtc_ok env manager spec wa ha info wb hb h
    rw [hinfo]
    exact hclone
  · rintro ⟨spec, hs, hbad⟩
    obtain ⟨e1, e2⟩ := handler_rejects env manager request hlegacy hserial
      ⟨spec, hs, fun info wa ha wb hb h =>
        hbad (validate_crtc_ok env manager spec wa ha info wb hb h).2.2.1⟩
    refine ⟨e1, e2, ?_, ?_⟩
    · obtain ⟨message, hmsg⟩ := e1
      have hv := handler_error_reply env manager request _ _ hlegacy hserial hmsg
      rcases validate_request_closed env manager request _ hv with hcl | hop
      · left
        rw [hmsg, (Prod.mk.inj hcl).2]
      · exact Or.inr ⟨message, hop, hmsg⟩
    · rintro ⟨crtc_infos, output_infos, hop⟩
      exact handler_of_validation_error env manager request _ _ hlegacy hserial
        (validate_request_opened env manager request _ _ hop ⟨spec, hs, hbad⟩)
  · intro hr
    have hv := handler_error_reply env manager request _ _ hlegacy hserial hr
    obtain ⟨spec, hs, wa, ha, he⟩ := validate_request_error_spec env manager request _ _ hv
      (by decide) (by decide) (by decide)
    exact ⟨spec, hs, validate_crtc_clone_error env manager spec wa ha _ he⟩

/-- C4 (amended) at the sample manager and the request that lists outputs 1 and 0, in
this order, on crtc 0: output 0 does not list output 1, the request passes every other
check, and it is rejected with "Outputs cannot be cloned" and not applied. -/
theorem clone_check_against_first_output_witness :
    sample_manager.config_manager = false ∧
      sample_bad_clone_request.serial = sample_manager.serial ∧
      validate_request sample_env (with_all_clones sample_manager) sample_bad_clone_request =
        Except.ok ([⟨0, some 0, 0, 0, 0, [1, 0]⟩], []) ∧
      (meta_monitor_manager_legacy_handle_apply_configuration sample_env sample_manager
          sample_bad_clone_request).reply =
        MethodReply.error DBusErrorCode.INVALID_ARGS "Outputs cannot be cloned" ∧
      (meta_monitor_manager_legacy_handle_apply_configuration sample_env sample_manager
          sample_bad_clone_request).applied = [] := by
  have h := (clone_check_against_first_output sample_env sample_manager
    sample_bad_clone_request rfl rfl).2.1
      ⟨{ crtc_id := 0, new_mode := 0, x := 0, y := 0, transform := 0, outputs := [1, 0] },
        by simp [sample_bad_clone_request],
        by simp [later_outputs_list_first, output_can_clone, MetaMonitorManager.output,
          sample_manager]⟩
  refine ⟨rfl, rfl, rfl, ?_, h.2.1⟩
  rw [h.2.2.2 ⟨_, _, rfl⟩]

/-- A value that is representable in an `int` is left alone by the reduction to 32 bits. -/
theorem int_wrap_of_fits (v : Int) (h : fits_int v) : int_wrap v = v := by
  unfold fits_int at h
  unfold int_wrap
  omega

/-- A passed geometry check: the position is non-negative and the 32-bit sums do not
exceed the maximum screen size. -/
theorem validate_geometry_ok (env : Collaborators) (manager : MetaMonitorManager)
    (spec : CrtcSpec) (w h w2 h2 x y : Int) (m : Nat)
    (hv : validate_geometry env manager spec w h = Except.ok (w2, h2, x, y))
    (hm : requested_mode spec = some m) :
    0 ≤ spec.x ∧ 0 ≤ spec.y ∧
      int_wrap (spec.x + (transformed_size env manager m spec.transform).1) ≤
        manager.max_screen_width ∧
      int_wrap (spec.y + (transformed_size env manager m spec.transform).2) ≤
        manager.max_screen_height := by
  unfold validate_geometry at hv
  rw [hm] at hv
  dsimp only at hv
  split_ifs at hv with hc
  simp only [not_or, not_lt, gt_iff_lt] at hc
  exact ⟨hc.1, hc.2.2.1, hc.2.1, hc.2.2.2⟩

/-- A failed geometry check: the spec carries a mode, and its position is negative or a
32-bit sum exceeds the maximum screen size. -/
theorem validate_geometry_error (env : Collaborators) (manager : MetaMonitorManager)
    (spec : CrtcSpec) (w h : Int) (e : DBusErrorCode × String)
    (hv : validate_geometry env manager spec w h = Except.error e) :
    ∃ m, requested_mode spec = some m ∧
      (spec.x < 0 ∨
        int_wrap (spec.x + (transformed_size env manager m spec.transform).1) >
          manager.max_screen_width ∨
        spec.y < 0 ∨
        int_wrap (spec.y + (transformed_size env manager m spec.transform).2) >
          manager.max_screen_height) := by
  unfold validate_geometry at hv
  cases hm : requested_mode spec with
  | none => rw [hm] at hv; cases hv
  | some m =>
    rw [hm] at hv
    dsimp only at hv
    split_ifs at hv with hc
    exact ⟨m, rfl, hc⟩

/-- The messages of the inner output loop. -/
theorem validate_nested_outputs_error_message (manager : MetaMonitorManager) (crtc : Nat)
    (mode : Option Nat) (l : List Nat) (first_output : Option Nat) (acc : List Nat)
    (code : DBusErrorCode) (message : String)
    (h : validate_nested_outputs manager crtc mode l first_output acc =
      Except.error (code, message)) :
    message = "Invalid output id" ∨
      message = "Output cannot be assigned to this CRTC or mode" ∨
      message = "Outputs cannot be cloned" := by
  induction l generalizing first_output acc with
  | nil => simp [validate_nested_outputs] at h
  | cons o rest ih =>
    unfold validate_nested_outputs at h
    by_cases h1 : o ≥ manager.outputs.length
    · rw [if_pos h1] at h; cases h; exact Or.inl rfl
    rw [if_neg h1] at h
    by_cases h2 : (!output_can_config (manager.output o) crtc mode) = true
    · rw [if_pos h2] at h; cases h; exact Or.inr (Or.inl rfl)
    rw [if_neg h2] at h
    cases first_output with
    | none => exact ih _ _ h
    | some f =>
      dsimp only at h
      by_cases h3 : (!output_can_clone (manager.output o) f) = true
      · rw [if_pos h3] at h; cases h; exact Or.inr (Or.inr rfl)
      · rw [if_neg h3] at h; exact ih _ _ h

/-- The validation of a crtc spec answers "Invalid CRTC geometry" only when the geometry
check of the spec fails. -/
theorem validate_crtc_geometry_error (env : Collaborators) (manager : MetaMonitorManager)
    (spec : CrtcSpec) (w h : Int) (code : DBusErrorCode)
    (hv : validate_crtc env manager spec w h =
      Except.error (code, "Invalid CRTC geometry")) :
    ∃ e, validate_geometry env manager spec w h = Except.error e := by
  unfold validate_crtc at hv
  by_cases h1 : spec.crtc_id ≥ manager.crtcs.length
  · rw [if_pos h1] at hv; simp at hv
  rw [if_neg h1] at hv
  by_cases h2 : spec.new_mode ≠ -1 ∧ (spec.new_mode < 0 ∨ spec.new_mode ≥ manager.modes.length)
  · rw [if_pos h2] at hv; simp at hv
  rw [if_neg h2] at hv
  cases hg : validate_geometry env manager spec w h with
  | error e => exact ⟨e, rfl⟩
  | ok r =>
    obtain ⟨w3, h3, x, y⟩ := r
    rw [hg] at hv
    dsimp only at hv
    by_cases h3 : spec.transform > META_MONITOR_TRANSFORM_FLIPPED_270 ∨
        (manager.crtc spec.crtc_id).all_transforms &&& (1 <<< spec.transform) = 0
    · rw [if_pos h3] at hv; simp at hv
    rw [if_neg h3] at hv
    cases hn : validate_nested_outputs manager spec.crtc_id (requested_mode spec)
        spec.outputs none [] with
    | error e =>
      rw [hn] at hv
      obtain ⟨c, m⟩ := e
      simp only [Except.error.injEq, Prod.mk.injEq] at hv
      obtain ⟨rfl, rfl⟩ := hv
      rcases validate_nested_outputs_error_message _ _ _ _ _ _ _ _ hn with hm | hm | hm <;>
        simp at hm
    | ok r =>
      obtain ⟨first_output, outputs⟩ := r
      rw [hn] at hv
      dsimp only at hv
      by_cases h4 : first_output = none ∧ requested_mode spec ≠ none
      · rw [if_pos h4] at hv; simp at hv
      · rw [if_neg h4] at hv; cases hv

/-- C5: at the sample manager (maximum screen size 8192 x 8192, mode 0 of size
1920 x 1080) the request that places mode 0 on crtc 1 at x = 2147483647 passes
validation, is answered with completion and is handed to the backend with that position,
although 2147483647 + 1920 exceeds 8192: the `int` sum of the geometry check wraps to
-2147481729, which is not greater than the maximum width. -/
theorem geometry_check_overflow_accepted :
    validate_request sample_env sample_manager sample_overflow_request =
        Except.ok ([⟨0, some 0, 0, 0, 0, [0]⟩, ⟨1, some 0, 2147483647, 0, 0, [1]⟩], []) ∧
      (meta_monitor_manager_legacy_handle_apply_configuration sample_env sample_manager
          sample_overflow_request).reply = MethodReply.complete ∧
      (meta_monitor_manager_legacy_handle_apply_configuration sample_env sample_manager
          sample_overflow_request).applied =
        [([⟨0, some 0, 0, 0, 0, [0]⟩, ⟨1, some 0, 2147483647, 0, 0, [1]⟩], [])] ∧
      int_wrap (2147483647 + 1920) = -2147481729 ∧
      sample_manager.max_screen_width = 8192 ∧
      ¬ geometry_in_bounds sample_env sample_manager
          { crtc_id := 1, new_mode := 0, x := 2147483647, y := 0, transform := 0,
            outputs := [1] } 0 := by
  refine ⟨rfl, by decide, by decide, by decide, rfl, ?_⟩
  unfold geometry_in_bounds
  decide

/-- The geometry check where its sums do not overflow: in every request that passes
validation, every crtc spec that carries a mode has x >= 0 and y >= 0 and, when the sums
x + w and y + h are representable in an `int`, x + w <= max_screen_width and
y + h <= max_screen_height, where (w, h) is the size of the mode, swapped for a rotated
transform.  Under the legacy system and at the current serial, a request with a crtc
spec that carries a mode and violates these bounds (sums representable) is rejected with
an invalid-argument error and not applied, and the handler answers "Invalid CRTC
geometry" only for a request with a crtc spec that carries a mode and, if its sums are
representable, violates the bounds. -/
theorem geometry_check_in_bounds (env : Collaborators) (manager : MetaMonitorManager)
    (request : ApplyRequest)
    (hlegacy : manager.config_manager = false) (hserial : request.serial = manager.serial) :
    (∀ crtc_infos output_infos,
        validate_request env manager request = Except.ok (crtc_infos, output_infos) →
        ∀ spec ∈ request.crtcs, ∀ m, requested_mode spec = some m →
          0 ≤ spec.x ∧ 0 ≤ spec.y ∧
            (geometry_sums_fit env manager spec m → geometry_in_bounds env manager spec m)) ∧
      ((∃ spec ∈ request.crtcs, ∃ m, requested_mode spec = some m ∧
          geometry_sums_fit env manager spec m ∧ ¬ geometry_in_bounds env manager spec m) →
        (∃ message,
          (meta_monitor_manager_legacy_handle_apply_configuration env manager request).reply =
            MethodReply.error DBusErrorCode.INVALID_ARGS message) ∧
        (meta_monitor_manager_legacy_handle_apply_configuration env manager request).applied =
          []) ∧
      ((meta_monitor_manager_legacy_handle_apply_configuration env manager request).reply =
          MethodReply.error DBusErrorCode.INVALID_ARGS "Invalid CRTC geometry" →
        ∃ spec ∈ request.crtcs, ∃ m, requested_mode spec = some m ∧
          (geometry_sums_fit env manager spec m → ¬ geometry_in_bounds env manager spec m)) := by
  have key : ∀ spec info wa ha wb hb,
      validate_crtc env manager spec wa ha = Except.ok (info, wb, hb) →
      ∀ m, requested_mode spec = some m →
        0 ≤ spec.x ∧ 0 ≤ spec.y ∧
          (geometry_sums_fit env manager spec m → geometry_in_bounds env manager spec m) := by
    intro spec info wa ha wb hb h m hm
    obtain ⟨_, ⟨x, y, hg, _⟩, _, _⟩ := validate_crtc_ok env manager spec wa ha info wb hb h
    obtain ⟨hx, hy, hw, hh⟩ := validate_geometry_ok env manager spec wa ha wb hb x y m hg hm
    refine ⟨hx, hy, fun hfit => ?_⟩
    rw [int_wrap_of_fits _ hfit.1] at hw
    rw [int_wrap_of_fits _ hfit.2] at hh
    exact ⟨hx, hy, hw, hh⟩
  refine ⟨?_, ?_, ?_⟩
  · intro crtc_infos output_infos hv spec hs m hm
    obtain ⟨info, wa, ha, wb, hb, h⟩ :=
      validate_request_ok_spec env manager request _ _ hv spec hs
    exact key spec info wa ha wb hb h m hm
  · rintro ⟨spec, hs, m, hm, hfit, hbad⟩
    refine handler_rejects env manager request hlegacy hserial ⟨spec, hs, ?_⟩
    intro info wa ha wb hb h
    exact hbad ((key spec info wa ha wb hb h m hm).2.2 hfit)
  · intro hr
    have hv := handler_error_reply env manager request _ _ hlegacy hserial hr
    obtain ⟨spec, hs, wa, ha, he⟩ := validate_request_error_spec env manager request _ _ hv
      (by decide) (by decide) (by decide)
    obtain ⟨e, hg⟩ := validate_crtc_geometry_error env manager spec wa ha _ he
    obtain ⟨m, hm, hc⟩ := validate_geometry_error env manager spec wa ha e hg
    refine ⟨spec, hs, m, hm, fun hfit hin => ?_⟩
    rw [int_wrap_of_fits _ hfit.1, int_wrap_of_fits _ hfit.2] at hc
    unfold geometry_in_bounds at hin
    omega

/-- The geometry check at the sample manager and the request that places the 1920 x 1080
mode at x = 7000: 7000 + 1920 exceeds the maximum width 8192 and the request is
rejected. -/
theorem geometry_check_in_bounds_witness :
    sample_manager.config_manager = false ∧
      sample_out_of_bounds_request.serial = sample_manager.serial ∧
      (∃ message,
        (meta_monitor_manager_legacy_handle_apply_configuration sample_env sample_manager
            sample_out_of_bounds_request).reply =
          MethodReply.error DBusErrorCode.INVALID_ARGS message) ∧
      (meta_monitor_manager_legacy_handle_apply_configuration sample_env sample_manager
          sample_out_of_bounds_request).applied = [] :=
  ⟨rfl, rfl,
    (geometry_check_in_bounds sample_env sample_manager sample_out_of_bounds_request
      rfl rfl).2.1
      ⟨{ crtc_id := 0, new_mode := 0, x := 7000, y := 0, transform := 0, outputs := [0] },
        by simp [sample_out_of_bounds_request], 0, rfl,
        by unfold geometry_sums_fit fits_int; decide,
        by unfold geometry_in_bounds; decide⟩⟩

/-! ## Properties of monitor construction -/

/-- The relation `same_frame` is reflexive. -/
theorem same_frame_refl (a : MetaMonitor) : same_frame a a :=
  ⟨rfl, rfl, rfl, rfl, rfl, rfl⟩

/-- The relation `same_frame` is transitive. -/
theorem same_frame_trans {a b c : MetaMonitor} (h1 : same_frame a b) (h2 : same_frame b c) :
    same_frame a c :=
  ⟨h1.1.trans h2.1, h1.2.1.trans h2.2.1, h1.2.2.1.trans h2.2.2.1,
    h1.2.2.2.1.trans h2.2.2.2.1, h1.2.2.2.2.1.trans h2.2.2.2.2.1,
    h1.2.2.2.2.2.trans h2.2.2.2.2.2⟩

/-- The main output depends on the frame only. -/
theorem main_output_of_same_frame {a b : MetaMonitor} (h : same_frame a b) :
    meta_monitor_get_main_output a = meta_monitor_get_main_output b := by
  unfold meta_monitor_get_main_output
  rw [h.1, h.2.1, h.2.2.2.2.1]

/-- The loop of `meta_monitor_normal_generate_modes` appends one mode per crtc mode and
keeps the frame. -/
theorem normal_generate_modes_fold (manager : MetaMonitorManager) (output : Nat)
    (l : List Nat) (monitor : MetaMonitor) :
    (l.foldl (meta_monitor_normal_generate_modes_step manager output) monitor).modes =
        monitor.modes ++ l.map (normal_monitor_mode manager output) ∧
      same_frame (l.foldl (meta_monitor_normal_generate_modes_step manager output) monitor)
        monitor := by
  induction l generalizing monitor with
  | nil => simp [same_frame_refl]
  | cons c rest ih =>
    rw [List.foldl_cons]
    obtain ⟨e1, e2⟩ := ih (meta_monitor_normal_generate_modes_step manager output monitor c)
    refine ⟨?_, same_frame_trans e2 ⟨rfl, rfl, rfl, rfl, rfl, rfl⟩⟩
    rw [e1]
    simp [meta_monitor_normal_generate_modes_step]

/-- A normal monitor: its class, its single member output and its modes, one per crtc
mode of the output. -/
theorem meta_monitor_normal_new_spec (manager : MetaMonitorManager) (output : Nat) :
    (meta_monitor_normal_new manager output).is_tiled = false ∧
      (meta_monitor_normal_new manager output).outputs = [output] ∧
      (meta_monitor_normal_new manager output).modes =
        (manager.output output).modes.map (normal_monitor_mode manager output) := by
  unfold meta_monitor_normal_new meta_monitor_normal_generate_modes
  have hm : meta_monitor_get_main_output
      { is_tiled := false, outputs := [output],
        winsys_id := (manager.output output).winsys_id } = output := rfl
  rw [hm]
  obtain ⟨e1, e2⟩ := normal_generate_modes_fold manager output (manager.output output).modes
    { is_tiled := false, outputs := [output], winsys_id := (manager.output output).winsys_id }
  exact ⟨e2.1, e2.2.1, by simpa using e1⟩

/-- The function `add_tiled_monitor_outputs` appends the outputs of the monitor's tile
group, in table order, and changes nothing else. -/
theorem add_tiled_monitor_outputs_spec (manager : MetaMonitorManager) (monitor : MetaMonitor) :
    add_tiled_monitor_outputs manager monitor =
      { monitor with
        outputs := monitor.outputs ++ group_outputs manager monitor.tile_group_id } := by
  unfold add_tiled_monitor_outputs group_outputs
  generalize List.range manager.outputs.length = l
  induction l generalizing monitor with
  | nil => simp
  | cons i rest ih =>
    rw [List.foldl_cons]
    by_cases hg : (manager.output i).tile_info.group_id = monitor.tile_group_id
    · rw [if_neg (by simpa using hg), ih]
      simp [List.filter_cons, hg]
    · rw [if_pos hg, ih]
      simp [List.filter_cons, hg]

/-- The tile coordinate of an output depends on the member outputs only. -/
theorem calculate_tile_coordinate_congr (manager : MetaMonitorManager) (a b : MetaMonitor)
    (h : a.outputs = b.outputs) (output : Nat) :
    calculate_tile_coordinate manager a output = calculate_tile_coordinate manager b output := by
  unfold calculate_tile_coordinate
  rw [h]

/-- The loop of `create_tiled_monitor_mode` depends on the member outputs only. -/
theorem create_tiled_monitor_mode_loop_congr (manager : MetaMonitorManager)
    (a b : MetaMonitor) (h : a.outputs = b.outputs) (refresh_rate : Int) (l : List Nat)
    (mode : MetaMonitorMode) (is_preferred : Bool) :
    create_tiled_monitor_mode_loop manager a refresh_rate l mode is_preferred =
      create_tiled_monitor_mode_loop manager b refresh_rate l mode is_preferred := by
  induction l generalizing mode is_preferred with
  | nil => rfl
  | cons o rest ih =>
    unfold create_tiled_monitor_mode_loop
    cases find_tiled_crtc_mode manager (manager.output o) refresh_rate with
    | none => rfl
    | some t =>
      dsimp only
      rw [calculate_tile_coordinate_congr manager a b h o]
      exact ih _ _

/-- The function `create_tiled_monitor_mode` depends on the member outputs only. -/
theorem create_tiled_monitor_mode_congr (manager : MetaMonitorManager) (a b : MetaMonitor)
    (h : a.outputs = b.outputs) (refresh_rate : Int) :
    create_tiled_monitor_mode manager a refresh_rate =
      create_tiled_monitor_mode manager b refresh_rate := by
  unfold create_tiled_monitor_mode meta_monitor_tiled_calculate_tiled_size
  rw [h]
  exact create_tiled_monitor_mode_loop_congr manager a b h _ _ _ _

/-- The function `tiled_mode_of` depends on the member outputs only. -/
theorem tiled_mode_of_congr (manager : MetaMonitorManager) (main_output : Nat)
    (a b : MetaMonitor) (h : a.outputs = b.outputs) :
    tiled_mode_of manager main_output a = tiled_mode_of manager main_output b := by
  funext c
  unfold tiled_mode_of
  rw [create_tiled_monitor_mode_congr manager a b h]

/-- The function `create_untiled_monitor_mode` depends on the member outputs only. -/
theorem create_untiled_monitor_mode_congr (manager : MetaMonitorManager) (a b : MetaMonitor)
    (h : a.outputs = b.outputs) (main_output : Nat) :
    create_untiled_monitor_mode manager a main_output =
      create_untiled_monitor_mode manager b main_output := by
  funext c
  unfold create_untiled_monitor_mode
  rw [h]

/-- The function `is_monitor_mode_assigned` depends on the member outputs only. -/
theorem is_monitor_mode_assigned_congr (manager : MetaMonitorManager) (a b : MetaMonitor)
    (h : a.outputs = b.outputs) (mode : MetaMonitorMode) :
    is_monitor_mode_assigned manager a mode = is_monitor_mode_assigned manager b mode := by
  unfold is_monitor_mode_assigned
  rw [h]

/-- One step of the first loop of `generate_tiled_monitor_modes` keeps the frame and the
mode list of the monitor and appends at most one mode to `tiled_modes`. -/
theorem generate_tiled_monitor_modes_step_spec (manager : MetaMonitorManager)
    (main_output : Nat) (st : TiledModesState) (c : Nat) :
    same_frame (generate_tiled_monitor_modes_step manager main_output st c).monitor
        st.monitor ∧
      (generate_tiled_monitor_modes_step manager main_output st c).monitor.modes =
        st.monitor.modes ∧
      (generate_tiled_monitor_modes_step manager main_output st c).tiled_modes =
        st.tiled_modes ++ (tiled_mode_of manager main_output st.monitor c).toList := by
  unfold generate_tiled_monitor_modes_step tiled_mode_of
  by_cases ht : is_crtc_mode_tiled (manager.output main_output) (manager.mode c) = true
  · rw [if_neg (by simp [ht]), if_pos ht]
    cases create_tiled_monitor_mode manager st.monitor (manager.mode c).refresh_rate with
    | none => simp [same_frame_refl]
    | some r =>
      obtain ⟨mode, is_preferred⟩ := r
      exact ⟨⟨rfl, rfl, rfl, rfl, rfl, rfl⟩, rfl, by simp⟩
  · rw [if_pos (by simp [ht]), if_neg ht]
    simp [same_frame_refl]

/-- The first loop of `generate_tiled_monitor_modes` keeps the frame and the mode list of
the monitor and gathers the tiled modes of the crtc modes visited, in order. -/
theorem generate_tiled_monitor_modes_fold (manager : MetaMonitorManager) (main_output : Nat)
    (l : List Nat) (st : TiledModesState) :
    same_frame (l.foldl (generate_tiled_monitor_modes_step manager main_output) st).monitor
        st.monitor ∧
      (l.foldl (generate_tiled_monitor_modes_step manager main_output) st).monitor.modes =
        st.monitor.modes ∧
      (l.foldl (generate_tiled_monitor_modes_step manager main_output) st).tiled_modes =
        st.tiled_modes ++ l.filterMap (tiled_mode_of manager main_output st.monitor) := by
  induction l generalizing st with
  | nil => simp [same_frame_refl]
  | cons c rest ih =>
    rw [List.foldl_cons]
    obtain ⟨s1, s2, s3⟩ := generate_tiled_monitor_modes_step_spec manager main_output st c
    obtain ⟨e1, e2, e3⟩ := ih (generate_tiled_monitor_modes_step manager main_output st c)
    refine ⟨same_frame_trans e1 s1, e2.trans s2, ?_⟩
    rw [e3, s3, tiled_mode_of_congr manager main_output _ st.monitor s1.2.1]
    cases h : tiled_mode_of manager main_output st.monitor c <;>
      simp [List.filterMap_cons, h]

/-- The function `generate_tiled_monitor_modes` keeps the frame and appends the tiled
modes of the crtc modes of the main output, in order. -/
theorem generate_tiled_monitor_modes_spec (manager : MetaMonitorManager)
    (monitor : MetaMonitor) :
    same_frame (generate_tiled_monitor_modes manager monitor) monitor ∧
      (generate_tiled_monitor_modes manager monitor).modes =
        monitor.modes ++
          (manager.output (meta_monitor_get_main_output monitor)).modes.filterMap
            (tiled_mode_of manager (meta_monitor_get_main_output monitor) monitor) := by
  obtain ⟨e1, e2, e3⟩ := generate_tiled_monitor_modes_fold manager
    (meta_monitor_get_main_output monitor)
    (manager.output (meta_monitor_get_main_output monitor)).modes
    { tiled_modes := [], monitor := monitor }
  unfold generate_tiled_monitor_modes generate_tiled_monitor_modes_loop
  dsimp only at e1 e2 e3 ⊢
  split_ifs
  · exact ⟨e1, by rw [e2, e3]; simp⟩
  · exact ⟨e1, by rw [e2, e3]; simp⟩

/-- One step of the loop of `generate_untiled_monitor_modes`, when it does not abort,
keeps the frame and appends the mode. -/
theorem generate_untiled_monitor_modes_step_spec (manager : MetaMonitorManager)
    (main_output : Nat) (monitor : MetaMonitor) (c : Nat) (mode : MetaMonitorMode)
    (result : MetaMonitor)
    (h : generate_untiled_monitor_modes_step manager main_output monitor c mode = some result) :
    same_frame result monitor ∧ result.modes = monitor.modes ++ [mode] := by
  unfold generate_untiled_monitor_modes_step at h
  split_ifs at h <;>
  · cases h
    exact ⟨⟨rfl, rfl, rfl, rfl, rfl, rfl⟩, rfl⟩

/-- The loop of `generate_untiled_monitor_modes`, when it completes, keeps the frame and
appends the untiled modes of the crtc modes visited, in order. -/
theorem generate_untiled_monitor_modes_loop_spec (manager : MetaMonitorManager)
    (main_output : Nat) (l : List Nat) (monitor result : MetaMonitor)
    (h : generate_untiled_monitor_modes_loop manager main_output l monitor = some result) :
    same_frame result monitor ∧
      result.modes = monitor.modes ++
        l.filterMap (create_untiled_monitor_mode manager monitor main_output) := by
  induction l generalizing monitor with
  | nil =>
    simp only [generate_untiled_monitor_modes_loop] at h
    cases h
    simp [same_frame_refl]
  | cons c rest ih =>
    unfold generate_untiled_monitor_modes_loop at h
    cases hc : create_untiled_monitor_mode manager monitor main_output c with
    | none =>
      rw [hc] at h
      obtain ⟨e1, e2⟩ := ih _ h
      exact ⟨e1, by simp [e2, List.filterMap_cons, hc]⟩
    | some mode =>
      rw [hc] at h
      dsimp only at h
      cases hs : generate_untiled_monitor_modes_step manager main_output monitor c mode with
      | none => rw [hs] at h; cases h
      | some monitor1 =>
        rw [hs] at h
        dsimp only at h
        obtain ⟨s1, s2⟩ := generate_untiled_monitor_modes_step_spec _ _ _ _ _ _ hs
        obtain ⟨e1, e2⟩ := ih _ h
        refine ⟨same_frame_trans e1 s1, ?_⟩
        rw [e2, s2, create_untiled_monitor_mode_congr manager monitor1 monitor s1.2.1]
        simp [List.filterMap_cons, hc]

/-- The function `meta_monitor_tiled_generate_modes`, when it completes on a tiled
monitor without modes, keeps the frame and leaves the tiled modes followed by the untiled
modes, both in the order of the main output's mode list. -/
theorem meta_monitor_tiled_generate_modes_spec (manager : MetaMonitorManager)
    (base result : MetaMonitor)
    (h : meta_monitor_tiled_generate_modes manager base = some result)
    (hb1 : base.is_tiled = true) (hb6 : base.modes = []) :
    same_frame result base ∧
      result.modes =
        (manager.output base.main_output).modes.filterMap
            (tiled_mode_of manager base.main_output base) ++
          (manager.output base.main_output).modes.filterMap
            (create_untiled_monitor_mode manager base base.main_output) := by
  unfold meta_monitor_tiled_generate_modes at h
  obtain ⟨t1, t2⟩ := generate_tiled_monitor_modes_spec manager base
  cases hu : generate_untiled_monitor_modes manager (generate_tiled_monitor_modes manager base) with
  | none => rw [hu] at h; cases h
  | some m1 =>
    rw [hu] at h
    unfold generate_untiled_monitor_modes at hu
    obtain ⟨u1, u2⟩ := generate_untiled_monitor_modes_loop_spec manager _ _ _ _ hu
    have hmain2 : meta_monitor_get_main_output base = base.main_output := by
      unfold meta_monitor_get_main_output
      rw [hb1]; rfl
    have hmain : meta_monitor_get_main_output (generate_tiled_monitor_modes manager base) =
        base.main_output := by
      rw [main_output_of_same_frame t1, hmain2]
    have hm1 : m1.modes =
        (manager.output base.main_output).modes.filterMap
            (tiled_mode_of manager base.main_output base) ++
          (manager.output base.main_output).modes.filterMap
            (create_untiled_monitor_mode manager base base.main_output) := by
      rw [u2, t2, hb6, hmain, hmain2,
        create_untiled_monitor_mode_congr manager _ base t1.2.1]
      simp
    dsimp only at h
    split_ifs at h
    · cases h
      exact ⟨same_frame_trans ⟨rfl, rfl, rfl, rfl, rfl, rfl⟩ (same_frame_trans u1 t1), hm1⟩
    · cases h
      exact ⟨same_frame_trans u1 t1, hm1⟩

/-- A tiled monitor: its class, group, origin, member outputs, and its modes: the tiled
modes followed by the untiled modes, both in the order of the main output's mode list. -/
theorem meta_monitor_tiled_new_spec (manager : MetaMonitorManager) (output : Nat)
    (monitor : MetaMonitor) (h : meta_monitor_tiled_new manager output = some monitor) :
    monitor.is_tiled = true ∧
      monitor.tile_group_id = (manager.output output).tile_info.group_id ∧
      monitor.origin_output = output ∧
      monitor.outputs = group_outputs manager (manager.output output).tile_info.group_id ∧
      monitor.main_output = find_untiled_output manager monitor ∧
      monitor.modes =
        (manager.output monitor.main_output).modes.filterMap
            (tiled_mode_of manager monitor.main_output monitor) ++
          (manager.output monitor.main_output).modes.filterMap
            (create_untiled_monitor_mode manager monitor monitor.main_output) := by
  unfold meta_monitor_tiled_new at h
  dsimp only at h
  rw [add_tiled_monitor_outputs_spec] at h
  obtain ⟨f, hmodes⟩ := meta_monitor_tiled_generate_modes_spec manager _ monitor h rfl rfl
  rw [← tiled_mode_of_congr manager _ monitor _ f.2.1,
    ← create_untiled_monitor_mode_congr manager monitor _ f.2.1] at hmodes
  obtain ⟨f1, f2, f3, f4, f5, _⟩ := f
  dsimp only at f1 f2 f3 f4 f5 hmodes
  simp only [List.nil_append] at f2 f5 hmodes
  refine ⟨f1, f3, f4, f2, ?_, ?_⟩
  · rw [f5]
    unfold find_untiled_output
    rw [f2, f4]
  · rw [hmodes, ← f5]

/-- A pointer below the table length dereferences to an element of the output table. -/
theorem output_mem_of_lt (manager : MetaMonitorManager) (i : Nat)
    (h : i < manager.outputs.length) : manager.output i ∈ manager.outputs := by
  unfold MetaMonitorManager.output
  rw [List.getD_eq_getElem _ _ h]
  exact List.getElem_mem _

/-- Over outputs without a tile group the loop of `rebuild_monitors` appends one normal
monitor per output, in order, and completes. -/
theorem rebuild_monitors_loop_untiled (manager : MetaMonitorManager) (l : List Nat)
    (acc : List MetaMonitor)
    (h : ∀ i ∈ l, (manager.output i).tile_info.group_id = 0) :
    rebuild_monitors_loop manager l acc =
      some (acc ++ l.map (meta_monitor_normal_new manager)) := by
  induction l generalizing acc with
  | nil => simp [rebuild_monitors_loop]
  | cons i rest ih =>
    unfold rebuild_monitors_loop
    rw [if_neg (by simp [h i (List.mem_cons_self _ _)])]
    rw [ih _ (fun j hj => h j (List.mem_cons_of_mem _ hj))]
    simp

/-- C7: for an output table in which every output has tile group id 0,
`rebuild_monitors` completes and produces a monitor list of the length of the output
table in which the monitor at position i is a normal monitor whose member outputs are
exactly output i. -/
theorem untiled_outputs_give_normal_monitors (manager : MetaMonitorManager)
    (h : ∀ output ∈ manager.outputs, output.tile_info.group_id = 0) :
    ∃ rebuilt, rebuild_monitors manager = some rebuilt ∧
      rebuilt.monitors.length = manager.outputs.length ∧
      ∀ i, i < manager.outputs.length →
        ∃ monitor, rebuilt.monitors[i]? = some monitor ∧
          monitor.is_tiled = false ∧ monitor.outputs = [i] := by
  have hl : rebuild_monitors_loop manager (List.range manager.outputs.length) [] =
      some ([] ++ (List.range manager.outputs.length).map (meta_monitor_normal_new manager)) :=
    rebuild_monitors_loop_untiled manager _ [] (fun i hi =>
      h _ (output_mem_of_lt manager i (List.mem_range.1 hi)))
  refine ⟨{ manager with
    monitors := (List.range manager.outputs.length).map (meta_monitor_normal_new manager) },
    ?_, by simp, ?_⟩
  · unfold rebuild_monitors
    rw [hl]
    simp
  · intro i hi
    refine ⟨meta_monitor_normal_new manager i, ?_, (meta_monitor_normal_new_spec manager i).1,
      (meta_monitor_normal_new_spec manager i).2.1⟩
    simp [List.getElem?_map, List.getElem?_range hi]

/-- C7 at the sample manager, whose two outputs carry no tile group. -/
theorem untiled_outputs_give_normal_monitors_witness :
    (∀ output ∈ sample_manager.outputs, output.tile_info.group_id = 0) ∧
      ∃ rebuilt, rebuild_monitors sample_manager = some rebuilt ∧
        rebuilt.monitors.length = sample_manager.outputs.length ∧
        ∀ i, i < sample_manager.outputs.length →
          ∃ monitor, rebuilt.monitors[i]? = some monitor ∧
            monitor.is_tiled = false ∧ monitor.outputs = [i] :=
  ⟨by decide, untiled_outputs_give_normal_monitors sample_manager (by decide)⟩

/-- Reducing to 32 bits twice is reducing once. -/
theorem int_wrap_idem (a : Int) : int_wrap (int_wrap a) = int_wrap a := by
  unfold int_wrap
  omega

/-- A term of a sum may be reduced to 32 bits before the sum is. -/
theorem int_wrap_add_left (a b : Int) : int_wrap (int_wrap a + b) = int_wrap (a + b) := by
  unfold int_wrap
  omega

/-- The loop of `meta_monitor_tiled_calculate_tiled_size` adds, to the width, the cell
widths of the outputs in tile row 0 and, to the height, the cell heights of the outputs
in tile column 0, all in 32 bits. -/
theorem tiled_size_fold (manager : MetaMonitorManager) (l : List Nat) (wh : Int × Int)
    (h1 : int_wrap wh.1 = wh.1) (h2 : int_wrap wh.2 = wh.2) :
    l.foldl
        (fun (wh : Int × Int) (output : Nat) =>
          (if (manager.output output).tile_info.loc_v_tile = 0 then
              int_wrap (wh.1 + (manager.output output).tile_info.tile_w)
            else wh.1,
           if (manager.output output).tile_info.loc_h_tile = 0 then
              int_wrap (wh.2 + (manager.output output).tile_info.tile_h)
            else wh.2)) wh =
      (int_wrap (wh.1 + ((l.filter (fun o => (manager.output o).tile_info.loc_v_tile = 0)).map
          (fun o => ((manager.output o).tile_info.tile_w : Int))).sum),
       int_wrap (wh.2 + ((l.filter (fun o => (manager.output o).tile_info.loc_h_tile = 0)).map
          (fun o => ((manager.output o).tile_info.tile_h : Int))).sum)) := by
  induction l generalizing wh with
  | nil => simp [h1, h2]
  | cons o rest ih =>
    rw [List.foldl_cons, ih]
    · by_cases hv : (manager.output o).tile_info.loc_v_tile = 0 <;>
        by_cases hh : (manager.output o).tile_info.loc_h_tile = 0 <;>
        simp [List.filter_cons, hv, hh, int_wrap_add_left, add_assoc]
    · dsimp only
      split_ifs
      · exact int_wrap_idem _
      · exact h1
    · dsimp only
      split_ifs
      · exact int_wrap_idem _
      · exact h2

/-- The tiled size is the width of tile row 0 and the height of tile column 0, both
reduced to 32 bits. -/
theorem meta_monitor_tiled_calculate_tiled_size_spec (manager : MetaMonitorManager)
    (monitor : MetaMonitor) :
    meta_monitor_tiled_calculate_tiled_size manager monitor =
      (int_wrap (row_zero_width manager monitor),
        int_wrap (column_zero_height manager monitor)) := by
  unfold meta_monitor_tiled_calculate_tiled_size row_zero_width column_zero_height
  rw [tiled_size_fold _ _ _ rfl rfl]
  simp

/-- The loop of `create_tiled_monitor_mode`, when it completes: a tiled crtc mode was
found for every output visited, the entries of these outputs were appended in order, the
size is kept, and the rate is the requested one as soon as one output was visited. -/
theorem create_tiled_monitor_mode_loop_spec (manager : MetaMonitorManager)
    (monitor : MetaMonitor) (r : Int) (l : List Nat) (mode0 mode : MetaMonitorMode)
    (p0 p : Bool)
    (h : create_tiled_monitor_mode_loop manager monitor r l mode0 p0 = some (mode, p)) :
    mode.crtc_modes = mode0.crtc_modes ++ l.map (tiled_entry manager monitor r) ∧
      (∀ o ∈ l, find_tiled_crtc_mode manager (manager.output o) r ≠ none) ∧
      mode.spec.width = mode0.spec.width ∧ mode.spec.height = mode0.spec.height ∧
      (l ≠ [] → mode.spec.refresh_rate = r) := by
  induction l generalizing mode0 p0 with
  | nil =>
    simp only [create_tiled_monitor_mode_loop] at h
    cases h
    simp
  | cons o rest ih =>
    unfold create_tiled_monitor_mode_loop at h
    cases hf : find_tiled_crtc_mode manager (manager.output o) r with
    | none => rw [hf] at h; cases h
    | some t =>
      rw [hf] at h
      dsimp only at h
      obtain ⟨e1, e2, e3, e4, e5⟩ := ih _ _ h
      refine ⟨?_, ?_, e3, e4, fun _ => ?_⟩
      · rw [e1]
        simp [tiled_entry, hf]
      · intro o2 ho2
        rcases List.mem_cons.1 ho2 with rfl | hm
        · rw [hf]; simp
        · exact e2 o2 hm
      · cases rest with
        | nil =>
          simp only [create_tiled_monitor_mode_loop] at h
          cases h
          rfl
        | cons o3 rest3 => exact e5 (by simp)

/-- The function `create_tiled_monitor_mode`, when it gives a mode: the size is that of
tile row 0 and tile column 0 in 32 bits, every member output has its entry with its tile coordinate
and the tiled crtc mode found for it, and for a monitor with a member output the rate is
the requested one. -/
theorem create_tiled_monitor_mode_spec (manager : MetaMonitorManager) (monitor : MetaMonitor)
    (r : Int) (mode : MetaMonitorMode) (p : Bool)
    (h : create_tiled_monitor_mode manager monitor r = some (mode, p)) :
    mode.crtc_modes = monitor.outputs.map (tiled_entry manager monitor r) ∧
      (∀ o ∈ monitor.outputs, find_tiled_crtc_mode manager (manager.output o) r ≠ none) ∧
      mode.spec.width = int_wrap (row_zero_width manager monitor) ∧
      mode.spec.height = int_wrap (column_zero_height manager monitor) ∧
      (monitor.outputs ≠ [] → mode.spec.refresh_rate = r) := by
  unfold create_tiled_monitor_mode at h
  rw [meta_monitor_tiled_calculate_tiled_size_spec] at h
  obtain ⟨e1, e2, e3, e4, e5⟩ := create_tiled_monitor_mode_loop_spec _ _ _ _ _ _ _ _ h
  exact ⟨by simpa using e1, e2, e3, e4, e5⟩

/-- The origin output of a tiled monitor built from an output of the table is one of
its member outputs. -/
theorem origin_mem_outputs (manager : MetaMonitorManager) (output : Nat)
    (monitor : MetaMonitor) (h : meta_monitor_tiled_new manager output = some monitor)
    (ho : output < manager.outputs.length) : output ∈ monitor.outputs := by
  rw [(meta_monitor_tiled_new_spec manager output monitor h).2.2.2.1]
  unfold group_outputs
  simp [List.mem_filter, ho]

/-- The width of tile row 0 and the height of tile column 0 are not negative. -/
theorem row_zero_width_nonneg (manager : MetaMonitorManager) (monitor : MetaMonitor) :
    0 ≤ row_zero_width manager monitor ∧ 0 ≤ column_zero_height manager monitor := by
  unfold row_zero_width column_zero_height
  constructor <;>
  · apply List.sum_nonneg
    intro x hx
    obtain ⟨o, _, rfl⟩ := List.mem_map.1 hx
    exact Int.ofNat_nonneg _

/-- C8 as stated fails on a panel of three tiles in one row, each 1500000000 wide: the
sum of the cell widths is 4500000000, but the mode `create_tiled_monitor_mode` builds
for the monitor of the panel is 205032704 wide, the sum reduced to 32 bits. -/
theorem tiled_mode_size_counterexample :
    (meta_monitor_tiled_new sample_wide_tiles_manager 0).bind
        (fun monitor =>
          (create_tiled_monitor_mode sample_wide_tiles_manager monitor 60).map
            (fun built =>
              (monitor.outputs, built.1.spec.width,
                row_zero_width sample_wide_tiles_manager monitor))) =
      some ([0, 1, 2], 205032704, 4500000000) := by
  decide

/-- C8 (amended): for every tiled monitor built from an output of the table, every mode
that `create_tiled_monitor_mode` builds for it has as width the sum of `tile_w` over the
member outputs in tile row 0 and as height the sum of `tile_h` over the member outputs
in tile column 0, each reduced to a 32-bit `int`, hence the sum itself when the sum is at
most 2147483647, and as rate the requested rate.  In the scenario of outputs A (no tile
group), B (group 7, tile (0, 0)) and C (group 7, tile (1, 0)) with cells of 1920 x 1080,
each preferring the 1920 x 1080 mode at rate 60, the monitor list is the normal monitor
of A followed by the tiled monitor of B and C, and the preferred mode of the tiled
monitor is 3840 x 1080 at rate 60 with B at (0, 0) and C at (1920, 0). -/
theorem tiled_mode_size_and_scenario :
    (∀ (manager : MetaMonitorManager) (output : Nat) (monitor : MetaMonitor),
        meta_monitor_tiled_new manager output = some monitor →
        output < manager.outputs.length →
        ∀ (r : Int) (mode : MetaMonitorMode) (p : Bool),
          create_tiled_monitor_mode manager monitor r = some (mode, p) →
          mode.spec.width = int_wrap (row_zero_width manager monitor) ∧
            mode.spec.height = int_wrap (column_zero_height manager monitor) ∧
            (row_zero_width manager monitor ≤ 2147483647 →
              mode.spec.width = row_zero_width manager monitor) ∧
            (column_zero_height manager monitor ≤ 2147483647 →
              mode.spec.height = column_zero_height manager monitor) ∧
            mode.spec.refresh_rate = r) ∧
      rebuild_monitors scenario_manager =
        some { scenario_manager with
          monitors := [scenario_normal_monitor, scenario_tiled_monitor] } ∧
      scenario_normal_monitor.is_tiled = false ∧
      scenario_normal_monitor.outputs = [0] ∧
      scenario_tiled_monitor.is_tiled = true ∧
      scenario_tiled_monitor.outputs = [1, 2] ∧
      scenario_tiled_monitor.preferred_mode = some 0 ∧
      scenario_tiled_monitor.modes[0]? =
        some { spec := { width := 3840, height := 1080, refresh_rate := 60 },
               crtc_modes := [{ x := 0, y := 0, output := 1, crtc_mode := some 0 },
                              { x := 1920, y := 0, output := 2, crtc_mode := some 0 }] } := by
  refine ⟨?_, by decide, rfl, rfl, rfl, rfl, rfl, rfl⟩
  intro manager output monitor hnew ho r mode p hc
  obtain ⟨_, _, e3, e4, e5⟩ := create_tiled_monitor_mode_spec manager monitor r mode p hc
  obtain ⟨n1, n2⟩ := row_zero_width_nonneg manager monitor
  refine ⟨e3, e4, fun hw => ?_, fun hh => ?_,
    e5 (List.ne_nil_of_mem (origin_mem_outputs manager output monitor hnew ho))⟩
  · rw [e3]
    exact int_wrap_of_fits _ ⟨by omega, hw⟩
  · rw [e4]
    exact int_wrap_of_fits _ ⟨by omega, hh⟩

/-- C8 (amended) at the tiled monitor of the scenario and rate 60: the sum of the cell
widths, 3840, is at most 2147483647, and the mode built is 3840 x 1080 at rate 60. -/
theorem tiled_mode_size_and_scenario_witness :
    meta_monitor_tiled_new scenario_manager 1 = some scenario_tiled_monitor ∧
      (1 : Nat) < scenario_manager.outputs.length ∧
      create_tiled_monitor_mode scenario_manager scenario_tiled_monitor 60 =
        some (scenario_tiled_mode, true) ∧
      row_zero_width scenario_manager scenario_tiled_monitor = 3840 ∧
      column_zero_height scenario_manager scenario_tiled_monitor = 1080 ∧
      scenario_tiled_mode.spec.width =
        row_zero_width scenario_manager scenario_tiled_monitor ∧
      scenario_tiled_mode.spec.height =
        column_zero_height scenario_manager scenario_tiled_monitor ∧
      scenario_tiled_mode.spec.refresh_rate = 60 :=
  ⟨by decide, by decide, by decide, by decide, by decide,
    (tiled_mode_size_and_scenario.1 scenario_manager 1 scenario_tiled_monitor (by decide)
      (by decide) 60 scenario_tiled_mode true (by decide)).2.2.1 (by decide),
    (tiled_mode_size_and_scenario.1 scenario_manager 1 scenario_tiled_monitor (by decide)
      (by decide) 60 scenario_tiled_mode true (by decide)).2.2.2.1 (by decide),
    (tiled_mode_size_and_scenario.1 scenario_manager 1 scenario_tiled_monitor (by decide)
      (by decide) 60 scenario_tiled_mode true (by decide)).2.2.2.2⟩

/-- One entry of a mode agrees with the live state of its output exactly when: an
enabled output has a crtc whose current mode is the entry's crtc mode, and a disabled
output has no crtc. -/
theorem crtc_mode_assigned_iff (manager : MetaMonitorManager) (output : MetaOutput)
    (entry : MetaMonitorCrtcMode) :
    crtc_mode_assigned manager output entry = true ↔
      match entry.crtc_mode with
      | some m => ∃ c, output.crtc = some c ∧ (manager.crtc c).current_mode = some m
      | none => output.crtc = none := by
  unfold crtc_mode_assigned
  cases h1 : entry.crtc_mode <;> cases h2 : output.crtc <;> simp

/-- The loop of `is_monitor_mode_assigned` from index `k` on succeeds exactly when every
output still to visit agrees with the entry at its index. -/
theorem is_monitor_mode_assigned_from_iff (manager : MetaMonitorManager)
    (mode : MetaMonitorMode) (outs : List Nat) (k : Nat) :
    is_monitor_mode_assigned_from manager mode outs k = true ↔
      ∀ j output, outs[j]? = some output →
        crtc_mode_assigned manager (manager.output output)
          (mode.crtc_modes.getD (k + j) default) = true := by
  induction outs generalizing k with
  | nil => simp [is_monitor_mode_assigned_from]
  | cons o rest ih =>
    unfold is_monitor_mode_assigned_from
    cases h : crtc_mode_assigned manager (manager.output o) (mode.crtc_modes.getD k default) with
    | true =>
      rw [if_neg (by decide), ih]
      constructor
      · intro hall j output hj
        cases j with
        | zero =>
          rw [List.getElem?_cons_zero] at hj
          cases hj
          exact h
        | succ j =>
          rw [List.getElem?_cons_succ] at hj
          have := hall j output hj
          rwa [Nat.add_assoc, Nat.add_comm 1 j] at this
      · intro hall j output hj
        have := hall (j + 1) output (by rw [List.getElem?_cons_succ]; exact hj)
        rwa [Nat.add_assoc, Nat.add_comm 1 j]
    | false =>
      rw [if_pos (by decide)]
      constructor
      · intro hf; cases hf
      · intro hall
        have := hall 0 o (List.getElem?_cons_zero)
        rw [Nat.add_zero, h] at this
        cases this

/-- For a mode with one entry per member output, `is_monitor_mode_assigned` holds
exactly when the mode agrees with the live state at every position. -/
theorem is_monitor_mode_assigned_iff (manager : MetaMonitorManager) (monitor : MetaMonitor)
    (mode : MetaMonitorMode) (hlen : mode.crtc_modes.length = monitor.outputs.length) :
    is_monitor_mode_assigned manager monitor mode = true ↔
      mode_matches_live manager monitor mode := by
  unfold is_monitor_mode_assigned mode_matches_live
  rw [is_monitor_mode_assigned_from_iff]
  constructor
  · intro hall i output entry ho he
    have := hall i output ho
    rw [Nat.zero_add, List.getD_eq_getElem?_getD, he] at this
    exact (crtc_mode_assigned_iff manager _ entry).1 (by simpa using this)
  · intro hall j output ho
    have hj : j < monitor.outputs.length := by
      by_contra hn
      rw [List.getElem?_eq_none (Nat.le_of_not_lt hn)] at ho
      cases ho
    have hj2 : j < mode.crtc_modes.length := by rw [hlen]; exact hj
    rw [Nat.zero_add, List.getD_eq_getElem _ _ hj2]
    exact (crtc_mode_assigned_iff manager _ _).2
      (hall j output _ ho (List.getElem?_eq_getElem hj2))

/-- The loop of `meta_monitor_derive_current_mode`: no position is found exactly when no
mode of the list is assigned, and a position found is that of an assigned mode. -/
theorem first_assigned_mode_spec (manager : MetaMonitorManager) (monitor : MetaMonitor)
    (l : List MetaMonitorMode) (k : Nat) :
    (first_assigned_mode manager monitor l k = none ↔
        ∀ mode ∈ l, is_monitor_mode_assigned manager monitor mode = false) ∧
      (∀ i, first_assigned_mode manager monitor l k = some i →
        k ≤ i ∧ ∃ mode, l[i - k]? = some mode ∧
          is_monitor_mode_assigned manager monitor mode = true) := by
  induction l generalizing k with
  | nil => simp [first_assigned_mode]
  | cons mode rest ih =>
    unfold first_assigned_mode
    by_cases h : is_monitor_mode_assigned manager monitor mode = true
    · rw [if_pos h]
      refine ⟨by simp [h], ?_⟩
      intro i hi
      cases hi
      exact ⟨Nat.le_refl _, mode, by simp, h⟩
    · rw [if_neg h]
      obtain ⟨e1, e2⟩ := ih (k + 1)
      refine ⟨by simp [e1, h], ?_⟩
      intro i hi
      obtain ⟨hk, m, hm, ha⟩ := e2 i hi
      refine ⟨by omega, m, ?_, ha⟩
      have : i - k = (i - (k + 1)) + 1 := by omega
      rw [this, List.getElem?_cons_succ]
      exact hm

/-- Every mode of a normal monitor has exactly the entry of the single member output. -/
theorem normal_monitor_mode_outputs (manager : MetaMonitorManager) (output : Nat)
    (mode : MetaMonitorMode) (h : mode ∈ (meta_monitor_normal_new manager output).modes) :
    mode.crtc_modes.map (fun e => e.output) =
      (meta_monitor_normal_new manager output).outputs := by
  obtain ⟨_, e2, e3⟩ := meta_monitor_normal_new_spec manager output
  rw [e3] at h
  obtain ⟨c, _, rfl⟩ := List.mem_map.1 h
  rw [e2]
  rfl

/-- Every mode of a tiled monitor has one entry per member output, in the order of the
member outputs. -/
theorem tiled_monitor_mode_outputs (manager : MetaMonitorManager) (output : Nat)
    (monitor : MetaMonitor) (hnew : meta_monitor_tiled_new manager output = some monitor)
    (mode : MetaMonitorMode) (h : mode ∈ monitor.modes) :
    mode.crtc_modes.map (fun e => e.output) = monitor.outputs := by
  rw [(meta_monitor_tiled_new_spec manager output monitor hnew).2.2.2.2.2] at h
  rcases List.mem_append.1 h with ht | hu
  · obtain ⟨c, _, hc⟩ := List.mem_filterMap.1 ht
    unfold tiled_mode_of at hc
    split_ifs at hc
    cases hcr : create_tiled_monitor_mode manager monitor (manager.mode c).refresh_rate with
    | none => rw [hcr] at hc; cases hc
    | some r =>
      obtain ⟨m, p⟩ := r
      rw [hcr] at hc
      cases hc
      rw [(create_tiled_monitor_mode_spec manager monitor _ m p hcr).1, List.map_map]
      exact List.map_id'' (fun _ => rfl) _
  · obtain ⟨c, _, hc⟩ := List.mem_filterMap.1 hu
    unfold create_untiled_monitor_mode at hc
    split_ifs at hc
    cases hc
    simp only [List.map_map]
    refine (List.map_congr_left ?_).trans (List.map_id _)
    intro o _
    by_cases ho : o = monitor.main_output <;> simp [ho]

/-- C9: for every monitor built by `meta_monitor_normal_new` or
`meta_monitor_tiled_new` and every live state of the tables,
`meta_monitor_derive_current_mode` touches nothing but the current mode, and afterwards
the current mode is either none or the position of a mode of the monitor's list that has
one entry per member output and agrees with the live state of every member output (an
enabled output has a crtc whose current mode is the entry's crtc mode, a disabled output
has no crtc); the current mode is none exactly when no mode of the list agrees with the
live state in this way. -/
theorem derived_current_mode_matches (built_from : MetaMonitorManager) (output : Nat)
    (monitor : MetaMonitor)
    (hbuilt : monitor = meta_monitor_normal_new built_from output ∨
      meta_monitor_tiled_new built_from output = some monitor)
    (manager : MetaMonitorManager) :
    (meta_monitor_derive_current_mode manager monitor).modes = monitor.modes ∧
      (meta_monitor_derive_current_mode manager monitor).outputs = monitor.outputs ∧
      ((meta_monitor_derive_current_mode manager monitor).current_mode = none ∨
        ∃ i mode,
          (meta_monitor_derive_current_mode manager monitor).current_mode = some i ∧
          monitor.modes[i]? = some mode ∧
          mode.crtc_modes.map (fun e => e.output) = monitor.outputs ∧
          mode_matches_live manager monitor mode) ∧
      ((meta_monitor_derive_current_mode manager monitor).current_mode = none ↔
        ∀ mode ∈ monitor.modes, ¬ mode_matches_live manager monitor mode) := by
  have hinv : ∀ mode ∈ monitor.modes,
      mode.crtc_modes.map (fun e => e.output) = monitor.outputs := by
    intro mode hm
    rcases hbuilt with rfl | ht
    · exact normal_monitor_mode_outputs built_from output mode hm
    · exact tiled_monitor_mode_outputs built_from output monitor ht mode hm
  have hlen : ∀ mode ∈ monitor.modes, mode.crtc_modes.length = monitor.outputs.length := by
    intro mode hm
    rw [← hinv mode hm, List.length_map]
  obtain ⟨e1, e2⟩ := first_assigned_mode_spec manager monitor monitor.modes 0
  refine ⟨rfl, rfl, ?_, ?_⟩
  · cases hf : first_assigned_mode manager monitor monitor.modes 0 with
    | none => exact Or.inl hf
    | some i =>
      obtain ⟨_, mode, hm, ha⟩ := e2 i hf
      rw [Nat.sub_zero] at hm
      have hmem : mode ∈ monitor.modes := List.getElem?_mem hm
      exact Or.inr ⟨i, mode, hf, hm, hinv mode hmem,
        (is_monitor_mode_assigned_iff manager monitor mode (hlen mode hmem)).1 ha⟩
  · show first_assigned_mode manager monitor monitor.modes 0 = none ↔ _
    rw [e1]
    constructor
    · intro hall mode hm hmatch
      have := (is_monitor_mode_assigned_iff manager monitor mode (hlen mode hm)).2 hmatch
      rw [hall mode hm] at this
      cases this
    · intro hall mode hm
      by_contra hne
      have ht : is_monitor_mode_assigned manager monitor mode = true := by
        simpa using hne
      exact hall mode hm
        ((is_monitor_mode_assigned_iff manager monitor mode (hlen mode hm)).1 ht)

/-- C9 at the tiled monitor of the scenario with both tiles lit in mode 0: the derived
current mode is the tiled mode at position 0. -/
theorem derived_current_mode_matches_witness :
    meta_monitor_tiled_new scenario_manager 1 = some scenario_tiled_monitor ∧
      (meta_monitor_derive_current_mode scenario_live_manager
        scenario_tiled_monitor).current_mode = some 0 ∧
      ((meta_monitor_derive_current_mode scenario_live_manager
          scenario_tiled_monitor).current_mode = none ↔
        ∀ mode ∈ scenario_tiled_monitor.modes,
          ¬ mode_matches_live scenario_live_manager scenario_tiled_monitor mode) :=
  ⟨by decide, by decide,
    (derived_current_mode_matches scenario_manager 1 scenario_tiled_monitor
      (Or.inr (by decide)) scenario_live_manager).2.2.2⟩

/-- The crtc mode `find_tiled_crtc_mode` gives has the cell size of the output. -/
theorem find_tiled_crtc_mode_tiled (manager : MetaMonitorManager) (output : MetaOutput)
    (r : Int) (t : Nat) (h : find_tiled_crtc_mode manager output r = some t) :
    is_crtc_mode_tiled output (manager.mode t) = true := by
  unfold find_tiled_crtc_mode at h
  split_ifs at h with hp
  · cases h; exact hp
  · have := List.find?_some h
    simp only [Bool.and_eq_true] at this
    exact this.1

/-- A mode that is assigned drives the member output at position `k`, when it enables
it, with the live mode of that output's crtc. -/
theorem assigned_crtc_mode_live (manager : MetaMonitorManager) (monitor : MetaMonitor)
    (mode : MetaMonitorMode) (k output m : Nat)
    (hk : monitor.outputs[k]? = some output)
    (ha : is_monitor_mode_assigned manager monitor mode = true)
    (hm : assigned_crtc_mode k mode = some m) :
    live_crtc_mode manager output = some m := by
  unfold is_monitor_mode_assigned at ha
  have h1 := (is_monitor_mode_assigned_from_iff manager mode monitor.outputs 0).1 ha k output hk
  rw [Nat.zero_add] at h1
  have h2 := (crtc_mode_assigned_iff manager _ _).1 h1
  unfold assigned_crtc_mode at hm
  rw [hm] at h2
  obtain ⟨c, hc, hcur⟩ := h2
  unfold live_crtc_mode
  rw [hc]
  exact hcur

/-- An untiled mode assigns the crtc mode it was made from to the main output, and that
crtc mode does not have the cell size. -/
theorem create_untiled_monitor_mode_assigned (manager : MetaMonitorManager)
    (monitor : MetaMonitor) (main_output c k : Nat) (mode : MetaMonitorMode)
    (hk : monitor.outputs[k]? = some main_output)
    (h : create_untiled_monitor_mode manager monitor main_output c = some mode) :
    assigned_crtc_mode k mode = some c ∧
      is_crtc_mode_tiled (manager.output main_output) (manager.mode c) = false := by
  unfold create_untiled_monitor_mode at h
  split_ifs at h with ht
  cases h
  refine ⟨?_, by simpa using ht⟩
  unfold assigned_crtc_mode
  simp [List.getD_eq_getElem?_getD, List.getElem?_map, hk]

/-- A tiled mode assigns to a member output the tiled crtc mode found for it, which has
the cell size of that output. -/
theorem tiled_mode_of_assigned (manager : MetaMonitorManager) (monitor : MetaMonitor)
    (main_output c k output : Nat) (mode : MetaMonitorMode)
    (hk : monitor.outputs[k]? = some output)
    (h : tiled_mode_of manager main_output monitor c = some mode) :
    is_crtc_mode_tiled (manager.output main_output) (manager.mode c) = true ∧
      ∃ t, assigned_crtc_mode k mode = some t ∧
        find_tiled_crtc_mode manager (manager.output output) (manager.mode c).refresh_rate =
          some t ∧
        is_crtc_mode_tiled (manager.output output) (manager.mode t) = true := by
  unfold tiled_mode_of at h
  split_ifs at h with ht
  cases hcr : create_tiled_monitor_mode manager monitor (manager.mode c).refresh_rate with
  | none => rw [hcr] at h; cases h
  | some r =>
    obtain ⟨m, p⟩ := r
    rw [hcr] at h
    cases h
    obtain ⟨e1, e2, _⟩ := create_tiled_monitor_mode_spec manager monitor _ m p hcr
    have hmem : output ∈ monitor.outputs := List.getElem?_mem hk
    cases hf : find_tiled_crtc_mode manager (manager.output output)
        (manager.mode c).refresh_rate with
    | none => exact absurd hf (e2 output hmem)
    | some t =>
      refine ⟨ht, t, ?_, rfl, find_tiled_crtc_mode_tiled manager _ _ t hf⟩
      unfold assigned_crtc_mode
      simp [e1, List.getD_eq_getElem?_getD, List.getElem?_map, hk, tiled_entry, hf]

/-- The output `find_untiled_output` chooses is a member output, when the origin output
is one. -/
theorem find_untiled_output_mem (manager : MetaMonitorManager) (monitor : MetaMonitor)
    (h : monitor.origin_output ∈ monitor.outputs) :
    find_untiled_output manager monitor ∈ monitor.outputs := by
  unfold find_untiled_output
  have key : ∀ (l : List Nat) (best : Nat × Int), (best.1 ∈ monitor.outputs) →
      (∀ o ∈ l, o ∈ monitor.outputs) →
      (l.foldl
        (fun (best : Nat × Int) (output : Nat) =>
          if output = monitor.origin_output then best
          else if count_untiled_crtc_modes manager (manager.output output) > best.2 then
            (output, count_untiled_crtc_modes manager (manager.output output))
          else best) best).1 ∈ monitor.outputs := by
    intro l
    induction l with
    | nil => intro best hb _; exact hb
    | cons o rest ih =>
      intro best hb hl
      rw [List.foldl_cons]
      apply ih
      · split_ifs
        · exact hb
        · exact hl o (List.mem_cons_self _ _)
        · exact hb
      · intro o2 ho2
        exact hl o2 (List.mem_cons_of_mem _ ho2)
  exact key _ _ h (fun o ho => ho)

/-- The main output of a tiled monitor built from an output of the table is one of its
member outputs, and an output of the table. -/
theorem main_output_mem (manager : MetaMonitorManager) (output : Nat)
    (monitor : MetaMonitor) (h : meta_monitor_tiled_new manager output = some monitor)
    (ho : output < manager.outputs.length) :
    monitor.main_output ∈ monitor.outputs ∧ monitor.main_output < manager.outputs.length := by
  obtain ⟨_, _, e3, e4, e5, _⟩ := meta_monitor_tiled_new_spec manager output monitor h
  have hmem : monitor.main_output ∈ monitor.outputs := by
    rw [e5]
    apply find_untiled_output_mem
    rw [e3]
    exact origin_mem_outputs manager output monitor h ho
  refine ⟨hmem, ?_⟩
  rw [e4] at hmem
  unfold group_outputs at hmem
  exact List.mem_range.1 (List.mem_filter.1 hmem).1

/-- The loop of `generate_untiled_monitor_modes` completes over a duplicate-free list of
crtc modes when, in case a current mode is already set, the live mode of the main output
is none of the crtc modes still to visit that lack the cell size. -/
theorem generate_untiled_monitor_modes_loop_completes (manager : MetaMonitorManager)
    (main_output k : Nat) (l : List Nat) (monitor : MetaMonitor)
    (hk : monitor.outputs[k]? = some main_output) (hnd : l.Nodup)
    (hinv : monitor.current_mode ≠ none →
      ∃ m0, live_crtc_mode manager main_output = some m0 ∧
        ∀ c ∈ l, is_crtc_mode_tiled (manager.output main_output) (manager.mode c) = false →
          m0 ≠ c) :
    ∃ result, generate_untiled_monitor_modes_loop manager main_output l monitor =
      some result := by
  induction l generalizing monitor with
  | nil => exact ⟨monitor, rfl⟩
  | cons c rest ih =>
    unfold generate_untiled_monitor_modes_loop
    have hnd2 : rest.Nodup := (List.nodup_cons.1 hnd).2
    have hnotin : c ∉ rest := (List.nodup_cons.1 hnd).1
    cases hc : create_untiled_monitor_mode manager monitor main_output c with
    | none =>
      dsimp only
      apply ih monitor hk hnd2
      intro hcur
      obtain ⟨m0, h1, h2⟩ := hinv hcur
      exact ⟨m0, h1, fun c2 hc2 => h2 c2 (List.mem_cons_of_mem _ hc2)⟩
    | some mode =>
      dsimp only
      obtain ⟨hkey, hnt⟩ := create_untiled_monitor_mode_assigned manager monitor
        main_output c k mode hk hc
      unfold generate_untiled_monitor_modes_step
      cases ha : is_monitor_mode_assigned manager monitor mode with
      | true =>
        have hlive := assigned_crtc_mode_live manager monitor mode k main_output c hk ha hkey
        have hcur : monitor.current_mode = none := by
          by_contra hne
          obtain ⟨m0, h1, h2⟩ := hinv hne
          rw [hlive] at h1
          cases h1
          exact h2 c (List.mem_cons_self _ _) hnt rfl
        rw [if_neg (by simp [hcur])]
        dsimp only
        refine ih _ ?_ hnd2 ?_
        · exact hk
        · intro _
          refine ⟨c, hlive, fun c2 hc2 _ => ?_⟩
          intro heq
          exact hnotin (heq ▸ hc2)
      | false =>
        rw [if_neg (by simp)]
        dsimp only
        refine ih _ ?_ hnd2 ?_
        · exact hk
        · intro hcur
          obtain ⟨m0, h1, h2⟩ := hinv (by simpa using hcur)
          exact ⟨m0, h1, fun c2 hc2 => h2 c2 (List.mem_cons_of_mem _ hc2)⟩

/-- After the first loop of `generate_tiled_monitor_modes` a current mode is set only if
it was set before or one of the tiled modes built is assigned. -/
theorem generate_tiled_monitor_modes_fold_current (manager : MetaMonitorManager)
    (main_output : Nat) (l : List Nat) (st : TiledModesState)
    (h : (l.foldl (generate_tiled_monitor_modes_step manager main_output)
      st).monitor.current_mode ≠ none) :
    st.monitor.current_mode ≠ none ∨
      ∃ c ∈ l, ∃ mode, tiled_mode_of manager main_output st.monitor c = some mode ∧
        is_monitor_mode_assigned manager st.monitor mode = true := by
  induction l generalizing st with
  | nil => exact Or.inl h
  | cons c rest ih =>
    rw [List.foldl_cons] at h
    obtain ⟨s1, _, _⟩ := generate_tiled_monitor_modes_step_spec manager main_output st c
    rcases ih _ h with h1 | ⟨c2, hc2, mode, hm, ha⟩
    · unfold generate_tiled_monitor_modes_step at h1
      by_cases ht : is_crtc_mode_tiled (manager.output main_output) (manager.mode c) = true
      · rw [if_neg (by simp [ht])] at h1
        cases hcr : create_tiled_monitor_mode manager st.monitor
            (manager.mode c).refresh_rate with
        | none =>
          rw [hcr] at h1
          exact Or.inl h1
        | some r =>
          obtain ⟨m, p⟩ := r
          rw [hcr] at h1
          dsimp only at h1
          by_cases ha : is_monitor_mode_assigned manager st.monitor m = true
          · refine Or.inr ⟨c, List.mem_cons_self _ _, m, ?_, ha⟩
            unfold tiled_mode_of
            rw [if_pos ht, hcr]
            rfl
          · rw [if_neg ha] at h1
            exact Or.inl h1
      · rw [if_pos (by simp [ht])] at h1
        exact Or.inl h1
    · refine Or.inr ⟨c2, List.mem_cons_of_mem _ hc2, mode, ?_, ?_⟩
      · rw [← tiled_mode_of_congr manager main_output _ st.monitor s1.2.1]
        exact hm
      · rw [← is_monitor_mode_assigned_congr manager _ st.monitor s1.2.1]
        exact ha

/-- After `generate_tiled_monitor_modes` on a monitor without a current mode, a current
mode is set only if one of the tiled modes built is assigned. -/
theorem generate_tiled_monitor_modes_current (manager : MetaMonitorManager)
    (monitor : MetaMonitor) (hcur : monitor.current_mode = none)
    (h : (generate_tiled_monitor_modes manager monitor).current_mode ≠ none) :
    ∃ c ∈ (manager.output (meta_monitor_get_main_output monitor)).modes, ∃ mode,
      tiled_mode_of manager (meta_monitor_get_main_output monitor) monitor c = some mode ∧
        is_monitor_mode_assigned manager monitor mode = true := by
  have h2 : (((manager.output (meta_monitor_get_main_output monitor)).modes.foldl
      (generate_tiled_monitor_modes_step manager (meta_monitor_get_main_output monitor))
      { tiled_modes := [], monitor := monitor }).monitor.current_mode ≠ none) := by
    unfold generate_tiled_monitor_modes generate_tiled_monitor_modes_loop at h
    dsimp only at h
    split_ifs at h <;> exact h
  rcases generate_tiled_monitor_modes_fold_current manager _ _ _ h2 with h3 | h3
  · exact absurd hcur h3
  · exact h3

/-- The function `meta_monitor_tiled_generate_modes` completes on a tiled monitor
without a current mode whose main output is a member output and lists each of its modes
at most once. -/
theorem meta_monitor_tiled_generate_modes_completes (manager : MetaMonitorManager)
    (base : MetaMonitor) (k : Nat) (hb1 : base.is_tiled = true)
    (hcur : base.current_mode = none)
    (hk : base.outputs[k]? = some base.main_output)
    (hnd : (manager.output base.main_output).modes.Nodup) :
    ∃ result, meta_monitor_tiled_generate_modes manager base = some result := by
  have hmain2 : meta_monitor_get_main_output base = base.main_output := by
    unfold meta_monitor_get_main_output
    rw [hb1]; rfl
  obtain ⟨t1, _⟩ := generate_tiled_monitor_modes_spec manager base
  have hmain : meta_monitor_get_main_output (generate_tiled_monitor_modes manager base) =
      base.main_output := by
    rw [main_output_of_same_frame t1, hmain2]
  have hloop : ∃ result, generate_untiled_monitor_modes manager
      (generate_tiled_monitor_modes manager base) = some result := by
    unfold generate_untiled_monitor_modes
    rw [hmain]
    apply generate_untiled_monitor_modes_loop_completes manager base.main_output k _ _
      (by rw [t1.2.1]; exact hk) hnd
    intro hne
    obtain ⟨c, _, mode, hm, ha⟩ := generate_tiled_monitor_modes_current manager base hcur hne
    rw [hmain2] at hm
    obtain ⟨_, t, ht1, _, ht3⟩ := tiled_mode_of_assigned manager base base.main_output c k
      base.main_output mode hk hm
    refine ⟨t, assigned_crtc_mode_live manager base mode k base.main_output t hk ha ht1, ?_⟩
    intro c2 _ hc2 heq
    rw [heq, hc2] at ht3
    cases ht3
  obtain ⟨m1, hm1⟩ := hloop
  unfold meta_monitor_tiled_generate_modes
  rw [hm1]
  dsimp only
  split_ifs
  · exact ⟨_, rfl⟩
  · exact ⟨_, rfl⟩

/-- The constructor `meta_monitor_tiled_new` completes for an output of the table when
every output of the table lists each of its modes at most once. -/
theorem meta_monitor_tiled_new_completes (manager : MetaMonitorManager) (output : Nat)
    (ho : output < manager.outputs.length)
    (hnd : ∀ out ∈ manager.outputs, out.modes.Nodup) :
    ∃ monitor, meta_monitor_tiled_new manager output = some monitor := by
  unfold meta_monitor_tiled_new
  dsimp only
  rw [add_tiled_monitor_outputs_spec]
  dsimp only
  have hmem : find_untiled_output manager
      { is_tiled := true,
        outputs := [] ++ group_outputs manager (manager.output output).tile_info.group_id,
        winsys_id := (manager.output output).winsys_id,
        tile_group_id := (manager.output output).tile_info.group_id,
        origin_output := output } ∈
      group_outputs manager (manager.output output).tile_info.group_id := by
    have := find_untiled_output_mem manager
      { is_tiled := true,
        outputs := [] ++ group_outputs manager (manager.output output).tile_info.group_id,
        winsys_id := (manager.output output).winsys_id,
        tile_group_id := (manager.output output).tile_info.group_id,
        origin_output := output }
      (by simp [group_outputs, List.mem_filter, ho])
    simpa using this
  obtain ⟨k, hk⟩ := List.getElem?_of_mem hmem
  have hlt := List.mem_range.1 (List.mem_filter.1 hmem).1
  exact meta_monitor_tiled_generate_modes_completes manager _ k rfl rfl (by simpa using hk)
    (hnd _ (output_mem_of_lt manager _ hlt))

/-- The loop of `rebuild_monitors` completes over outputs of the table when every output
lists each of its modes at most once. -/
theorem rebuild_monitors_loop_completes (manager : MetaMonitorManager) (l : List Nat)
    (acc : List MetaMonitor) (hl : ∀ i ∈ l, i < manager.outputs.length)
    (hnd : ∀ out ∈ manager.outputs, out.modes.Nodup) :
    ∃ monitors, rebuild_monitors_loop manager l acc = some monitors := by
  induction l generalizing acc with
  | nil => exact ⟨acc, rfl⟩
  | cons i rest ih =>
    have hrest : ∀ j ∈ rest, j < manager.outputs.length :=
      fun j hj => hl j (List.mem_cons_of_mem _ hj)
    unfold rebuild_monitors_loop
    split_ifs
    · obtain ⟨m, hm⟩ := meta_monitor_tiled_new_completes manager i
        (hl i (List.mem_cons_self _ _)) hnd
      rw [hm]
      exact ih _ hrest
    · exact ih _ hrest
    · exact ih _ hrest

/-- The loop of `rebuild_monitors`, when it completes, appends monitors to the list it
was given, and among the appended ones the tiled monitors of a non-zero group `g` are
those built, in order, from the outputs visited that belong to `g` and sit at tile
(0, 0). -/
theorem rebuild_monitors_loop_tiled (manager : MetaMonitorManager) (g : Nat) (hg : g ≠ 0)
    (l : List Nat) (acc monitors : List MetaMonitor)
    (h : rebuild_monitors_loop manager l acc = some monitors) :
    ∃ new, monitors = acc ++ new ∧
      List.Forall₂ (fun i monitor => meta_monitor_tiled_new manager i = some monitor)
        (l.filter (fun i => (manager.output i).tile_info.group_id = g ∧
          is_main_tiled_monitor_output (manager.output i) = true))
        (tiled_monitors_of_group new g) := by
  induction l generalizing acc with
  | nil =>
    simp only [rebuild_monitors_loop] at h
    cases h
    exact ⟨[], by simp, by simp [tiled_monitors_of_group]⟩
  | cons i rest ih =>
    unfold rebuild_monitors_loop at h
    by_cases h0 : (manager.output i).tile_info.group_id ≠ 0
    · rw [if_pos h0] at h
      by_cases hmain : is_main_tiled_monitor_output (manager.output i) = true
      · rw [if_pos hmain] at h
        cases hn : meta_monitor_tiled_new manager i with
        | none => rw [hn] at h; cases h
        | some m =>
          rw [hn] at h
          dsimp only at h
          obtain ⟨new, e1, e2⟩ := ih _ h
          obtain ⟨f1, f2, _⟩ := meta_monitor_tiled_new_spec manager i m hn
          refine ⟨m :: new, by simp [e1], ?_⟩
          by_cases hgi : (manager.output i).tile_info.group_id = g
          · have hfil : tiled_monitors_of_group (m :: new) g =
                m :: tiled_monitors_of_group new g := by
              simp [tiled_monitors_of_group, List.filter_cons, f1, f2, hgi]
            rw [hfil, List.filter_cons, if_pos (by simp [hgi, hmain])]
            exact List.Forall₂.cons hn e2
          · have hfil : tiled_monitors_of_group (m :: new) g =
                tiled_monitors_of_group new g := by
              simp [tiled_monitors_of_group, List.filter_cons, f1, f2, hgi]
            rw [hfil, List.filter_cons, if_neg (by simp [hgi])]
            exact e2
      · rw [if_neg hmain] at h
        obtain ⟨new, e1, e2⟩ := ih _ h
        refine ⟨new, e1, ?_⟩
        rw [List.filter_cons, if_neg (by simp [hmain])]
        exact e2
    · rw [if_neg h0] at h
      obtain ⟨new, e1, e2⟩ := ih _ h
      have hgi : (manager.output i).tile_info.group_id ≠ g := by
        intro heq
        exact h0 (heq ▸ hg)
      refine ⟨meta_monitor_normal_new manager i :: new, by simp [e1], ?_⟩
      have hfil : tiled_monitors_of_group (meta_monitor_normal_new manager i :: new) g =
          tiled_monitors_of_group new g := by
        simp [tiled_monitors_of_group, List.filter_cons,
          (meta_monitor_normal_new_spec manager i).1]
      rw [hfil, List.filter_cons, if_neg (by simp [hgi])]
      exact e2

/-- C6 (counterexample): first, in the table whose only output belongs to group 7 and
sits at tile (1, 0), `rebuild_monitors` produces no monitor at all, although group 7 is
carried by output 0; second, in the table with two outputs of group 7 both at tile
(0, 0), it produces two tiled monitors of group 7; third, in the table whose tile (0, 0)
output lists the mode it is lit in twice, it stops at the assertion of
`generate_untiled_monitor_modes` and produces nothing. -/
theorem tiled_group_monitor_counterexample :
    (rebuild_monitors sample_no_origin_manager =
        some { sample_no_origin_manager with monitors := [] } ∧
      group_outputs sample_no_origin_manager 7 = [0]) ∧
    (∃ rebuilt, rebuild_monitors sample_two_origins_manager = some rebuilt ∧
      (tiled_monitors_of_group rebuilt.monitors 7).length = 2) ∧
    (rebuild_monitors sample_duplicate_mode_manager = none ∧
      group_outputs sample_duplicate_mode_manager 7 = [0]) := by
  refine ⟨⟨by decide, by decide⟩, ?_, ⟨by decide, by decide⟩⟩
  cases h : rebuild_monitors sample_two_origins_manager with
  | none => revert h; decide
  | some rebuilt =>
    refine ⟨rebuilt, rfl, ?_⟩
    revert h
    revert rebuilt
    decide

/-- C6 (amended): for every output table and every non-zero tile group id `g` such that
exactly one output of group `g` sits at tile (0, 0): whenever `rebuild_monitors`
completes, the monitor list has exactly one tiled monitor whose tile group id is `g`, it
is built from that output, and its member outputs are exactly the outputs of the table
whose group id is `g`, in table order; and `rebuild_monitors` does complete when every
output lists each of its modes at most once. -/
theorem one_tiled_monitor_per_group_origin (manager : MetaMonitorManager) (g : Nat)
    (hg : g ≠ 0) (origin : Nat) (horigin : group_origins manager g = [origin]) :
    (∀ rebuilt, rebuild_monitors manager = some rebuilt →
        ∃ monitor, tiled_monitors_of_group rebuilt.monitors g = [monitor] ∧
          monitor.is_tiled = true ∧ monitor.tile_group_id = g ∧
          monitor.origin_output = origin ∧
          monitor.outputs = group_outputs manager g) ∧
      ((∀ output ∈ manager.outputs, output.modes.Nodup) →
        ∃ rebuilt, rebuild_monitors manager = some rebuilt) := by
  constructor
  · intro rebuilt hre
    unfold rebuild_monitors at hre
    cases hl : rebuild_monitors_loop manager (List.range manager.outputs.length) [] with
    | none => rw [hl] at hre; cases hre
    | some monitors =>
      rw [hl] at hre
      cases hre
      obtain ⟨new, e1, e2⟩ := rebuild_monitors_loop_tiled manager g hg _ _ _ hl
      rw [List.nil_append] at e1
      subst e1
      unfold group_origins at horigin
      rw [horigin] at e2
      obtain ⟨monitor, rest2, hn, hrest, hl2⟩ := List.forall₂_cons_left_iff.1 e2
      rw [List.forall₂_nil_left_iff.1 hrest] at hl2
      · obtain ⟨f1, f2, f3, f4, _⟩ := meta_monitor_tiled_new_spec manager origin monitor hn
        have hmem : origin ∈ (List.range manager.outputs.length).filter
            (fun i => (manager.output i).tile_info.group_id = g ∧
              is_main_tiled_monitor_output (manager.output i) = true) := by
          rw [horigin]; exact List.mem_cons_self _ _
        have hgo : (manager.output origin).tile_info.group_id = g := by
          have := (List.mem_filter.1 hmem).2
          simp only [decide_eq_true_eq] at this
          exact this.1
        refine ⟨monitor, hl2, f1, f2.trans hgo, f3, ?_⟩
        rw [f4, hgo]
  · intro hnd
    obtain ⟨monitors, hm⟩ := rebuild_monitors_loop_completes manager
      (List.range manager.outputs.length) [] (fun i hi => List.mem_range.1 hi) hnd
    unfold rebuild_monitors
    rw [hm]
    exact ⟨_, rfl⟩

/-- C6 (amended) at the scenario table and group 7, whose only tile (0, 0) output is
output 1: the tiled monitor built has member outputs 1 and 2. -/
theorem one_tiled_monitor_per_group_origin_witness :
    (7 : Nat) ≠ 0 ∧ group_origins scenario_manager 7 = [1] ∧
      group_outputs scenario_manager 7 = [1, 2] ∧
      (∀ rebuilt, rebuild_monitors scenario_manager = some rebuilt →
        ∃ monitor, tiled_monitors_of_group rebuilt.monitors 7 = [monitor] ∧
          monitor.is_tiled = true ∧ monitor.tile_group_id = 7 ∧
          monitor.origin_output = 1 ∧
          monitor.outputs = group_outputs scenario_manager 7) ∧
      ((∀ output ∈ scenario_manager.outputs, output.modes.Nodup) →
        ∃ rebuilt, rebuild_monitors scenario_manager = some rebuilt) :=
  ⟨by decide, by decide, by decide,
    one_tiled_monitor_per_group_origin scenario_manager 7 (by decide) 1 (by decide)⟩

/-- Two cell-sized modes of an output for which `find_tiled_crtc_mode` gives the same
crtc mode on that output are the same mode, when the tiled modes of the output are
distinct. -/
theorem tiled_modes_distinct_find (manager : MetaMonitorManager) (output : Nat)
    (hd : tiled_modes_distinct manager output) (a b t : Nat)
    (ha : a ∈ (manager.output output).modes) (hb : b ∈ (manager.output output).modes)
    (hta : is_crtc_mode_tiled (manager.output output) (manager.mode a) = true)
    (htb : is_crtc_mode_tiled (manager.output output) (manager.mode b) = true)
    (hfa : find_tiled_crtc_mode manager (manager.output output)
      (manager.mode a).refresh_rate = some t)
    (hfb : find_tiled_crtc_mode manager (manager.output output)
      (manager.mode b).refresh_rate = some t) : a = b := by
  rcases hd with h1 | ⟨hp, h2⟩
  · exact h1 a ha b hb hta htb
  · unfold find_tiled_crtc_mode at hfa hfb
    rw [if_neg (by simp [hp])] at hfa hfb
    have ra := List.find?_some hfa
    have rb := List.find?_some hfb
    simp only [Bool.and_eq_true, beq_iff_eq] at ra rb
    exact h2 a ha b hb hta htb (ra.2.symm.trans rb.2)

/-- Modes that assign pairwise different crtc modes to the member output at position
`k`, and never none: two modes of the list that are both assigned sit at the same
position. -/
theorem assigned_position_unique (live : MetaMonitorManager) (monitor : MetaMonitor)
    (k output : Nat) (hk : monitor.outputs[k]? = some output)
    (hpair : monitor.modes.Pairwise
      (fun x y => assigned_crtc_mode k x ≠ assigned_crtc_mode k y))
    (hsome : ∀ mode ∈ monitor.modes, ∃ m, assigned_crtc_mode k mode = some m)
    (i j : Nat) (mi mj : MetaMonitorMode)
    (hi : monitor.modes[i]? = some mi) (hj : monitor.modes[j]? = some mj)
    (hai : is_monitor_mode_assigned live monitor mi = true)
    (haj : is_monitor_mode_assigned live monitor mj = true) : i = j := by
  obtain ⟨m1, hm1⟩ := hsome mi (List.getElem?_mem hi)
  obtain ⟨m2, hm2⟩ := hsome mj (List.getElem?_mem hj)
  have l1 := assigned_crtc_mode_live live monitor mi k output m1 hk hai hm1
  have l2 := assigned_crtc_mode_live live monitor mj k output m2 hk haj hm2
  have hkey : assigned_crtc_mode k mi = assigned_crtc_mode k mj := by
    rw [hm1, hm2, ← l1, ← l2]
  obtain ⟨hil, hie⟩ := List.getElem?_eq_some.1 hi
  obtain ⟨hjl, hje⟩ := List.getElem?_eq_some.1 hj
  rw [List.pairwise_iff_getElem] at hpair
  rcases Nat.lt_trichotomy i j with hlt | heq | hgt
  · exact absurd (by rw [hie, hje]; exact hkey) (hpair i j hil hjl hlt)
  · exact heq
  · exact absurd (by rw [hie, hje]; exact hkey.symm) (hpair j i hjl hil hgt)

/-- The modes of a normal monitor whose output lists each mode at most once assign
pairwise different crtc modes to that output. -/
theorem normal_modes_pairwise (manager : MetaMonitorManager) (output : Nat)
    (hnd : (manager.output output).modes.Nodup) :
    (meta_monitor_normal_new manager output).modes.Pairwise
        (fun x y => assigned_crtc_mode 0 x ≠ assigned_crtc_mode 0 y) ∧
      ∀ mode ∈ (meta_monitor_normal_new manager output).modes,
        ∃ m, assigned_crtc_mode 0 mode = some m := by
  rw [(meta_monitor_normal_new_spec manager output).2.2]
  constructor
  · rw [List.pairwise_map]
    refine List.Pairwise.imp ?_ hnd
    intro a b hab h
    apply hab
    simpa [assigned_crtc_mode, normal_monitor_mode] using h
  · intro mode hm
    obtain ⟨c, _, rfl⟩ := List.mem_map.1 hm
    exact ⟨c, rfl⟩

/-- The modes of a tiled monitor whose main output lists each mode at most once and has
distinct tiled modes assign pairwise different crtc modes to the main output. -/
theorem tiled_modes_pairwise (manager : MetaMonitorManager) (output : Nat)
    (monitor : MetaMonitor) (hnew : meta_monitor_tiled_new manager output = some monitor)
    (k : Nat) (hk : monitor.outputs[k]? = some monitor.main_output)
    (hnd : (manager.output monitor.main_output).modes.Nodup)
    (hd : tiled_modes_distinct manager monitor.main_output) :
    monitor.modes.Pairwise (fun x y => assigned_crtc_mode k x ≠ assigned_crtc_mode k y) ∧
      ∀ mode ∈ monitor.modes, ∃ m, assigned_crtc_mode k mode = some m := by
  rw [(meta_monitor_tiled_new_spec manager output monitor hnew).2.2.2.2.2]
  constructor
  · rw [List.pairwise_append]
    refine ⟨?_, ?_, ?_⟩
    · rw [List.pairwise_filterMap]
      refine List.Pairwise.imp_of_mem ?_ hnd
      intro a b ha hb hab ma hma mb hmb heq
      obtain ⟨hta, ta, ka, fa, _⟩ := tiled_mode_of_assigned manager monitor
        monitor.main_output a k monitor.main_output ma hk hma
      obtain ⟨htb, tb, kb, fb, _⟩ := tiled_mode_of_assigned manager monitor
        monitor.main_output b k monitor.main_output mb hk hmb
      rw [ka, kb] at heq
      cases heq
      exact hab (tiled_modes_distinct_find manager monitor.main_output hd a b ta ha hb
        hta htb fa fb)
    · rw [List.pairwise_filterMap]
      refine List.Pairwise.imp ?_ hnd
      intro a b hab ma hma mb hmb heq
      obtain ⟨ka, _⟩ := create_untiled_monitor_mode_assigned manager monitor
        monitor.main_output a k ma hk hma
      obtain ⟨kb, _⟩ := create_untiled_monitor_mode_assigned manager monitor
        monitor.main_output b k mb hk hmb
      rw [ka, kb] at heq
      cases heq
      exact hab rfl
    · intro ma hma mb hmb heq
      obtain ⟨a, _, ha⟩ := List.mem_filterMap.1 hma
      obtain ⟨b, _, hb⟩ := List.mem_filterMap.1 hmb
      obtain ⟨_, ta, ka, _, hta⟩ := tiled_mode_of_assigned manager monitor
        monitor.main_output a k monitor.main_output ma hk ha
      obtain ⟨kb, hnt⟩ := create_untiled_monitor_mode_assigned manager monitor
        monitor.main_output b k mb hk hb
      rw [ka, kb] at heq
      cases heq
      rw [hta] at hnt
      cases hnt
  · intro mode hm
    rcases List.mem_append.1 hm with ht | hu
    · obtain ⟨a, _, ha⟩ := List.mem_filterMap.1 ht
      obtain ⟨_, ta, ka, _, _⟩ := tiled_mode_of_assigned manager monitor
        monitor.main_output a k monitor.main_output mode hk ha
      exact ⟨ta, ka⟩
    · obtain ⟨b, _, hb⟩ := List.mem_filterMap.1 hu
      exact ⟨b, (create_untiled_monitor_mode_assigned manager monitor
        monitor.main_output b k mode hk hb).1⟩

/-- C10 (counterexample): first, the tiled monitor built from the two-tile panel whose
outputs each list the cell-sized modes 0 (rate 60, preferred) and 1 (rate 30) once has
two distinct modes, at positions 0 and 1, that both match the live state in which both
tiles are lit in mode 0: `find_tiled_crtc_mode` gives the preferred mode 0 for either
rate.  Second, the normal monitor built from an output that lists its mode twice has two
modes, at positions 0 and 1, that both match the live state. -/
theorem unique_matching_mode_counterexample :
    (meta_monitor_tiled_new sample_two_rates_manager 0 = some sample_two_rates_monitor ∧
      sample_two_rates_monitor.modes[0]? = some sample_rate_60_mode ∧
      sample_two_rates_monitor.modes[1]? = some sample_rate_30_mode ∧
      mode_matches_live sample_two_rates_manager sample_two_rates_monitor
        sample_rate_60_mode ∧
      mode_matches_live sample_two_rates_manager sample_two_rates_monitor
        sample_rate_30_mode) ∧
    ((meta_monitor_normal_new sample_repeated_mode_manager 0).modes[0]? =
        some (normal_monitor_mode sample_repeated_mode_manager 0 0) ∧
      (meta_monitor_normal_new sample_repeated_mode_manager 0).modes[1]? =
        some (normal_monitor_mode sample_repeated_mode_manager 0 0) ∧
      mode_matches_live sample_repeated_mode_manager
        (meta_monitor_normal_new sample_repeated_mode_manager 0)
        (normal_monitor_mode sample_repeated_mode_manager 0 0)) := by
  refine ⟨⟨by decide, rfl, rfl, ?_, ?_⟩, ⟨by decide, by decide, ?_⟩⟩
  · exact (is_monitor_mode_assigned_iff _ _ _ rfl).1 (by decide)
  · exact (is_monitor_mode_assigned_iff _ _ _ rfl).1 (by decide)
  · exact (is_monitor_mode_assigned_iff _ _ _ (by decide)).1 (by decide)

/-- Two modes with one entry per member output that both agree with the live state
assign the same crtc mode to every member output. -/
theorem matching_modes_same_assignment (live : MetaMonitorManager) (monitor : MetaMonitor)
    (mi mj : MetaMonitorMode)
    (hli : mi.crtc_modes.length = monitor.outputs.length)
    (hlj : mj.crtc_modes.length = monitor.outputs.length)
    (hmi : mode_matches_live live monitor mi) (hmj : mode_matches_live live monitor mj) :
    crtc_mode_assignment mi = crtc_mode_assignment mj := by
  unfold crtc_mode_assignment
  apply List.ext_getElem?
  intro k
  rw [List.getElem?_map, List.getElem?_map]
  by_cases hk : k < monitor.outputs.length
  · obtain ⟨ei, hei⟩ : ∃ e, mi.crtc_modes[k]? = some e :=
      ⟨_, List.getElem?_eq_getElem (by rw [hli]; exact hk)⟩
    obtain ⟨ej, hej⟩ : ∃ e, mj.crtc_modes[k]? = some e :=
      ⟨_, List.getElem?_eq_getElem (by rw [hlj]; exact hk)⟩
    have ho : monitor.outputs[k]? = some monitor.outputs[k] := List.getElem?_eq_getElem hk
    have h1 := hmi k _ ei ho hei
    have h2 := hmj k _ ej ho hej
    rw [hei, hej]
    simp only [Option.map_some', Option.some.injEq]
    cases hci : ei.crtc_mode with
    | none =>
      rw [hci] at h1
      cases hcj : ej.crtc_mode with
      | none => rfl
      | some m =>
        rw [hcj] at h2
        obtain ⟨c, hc, _⟩ := h2
        rw [h1] at hc
        cases hc
    | some m =>
      rw [hci] at h1
      obtain ⟨c, hc, hcur⟩ := h1
      cases hcj : ej.crtc_mode with
      | none =>
        rw [hcj] at h2
        rw [h2] at hc
        cases hc
      | some m2 =>
        rw [hcj] at h2
        obtain ⟨c2, hc2, hcur2⟩ := h2
        rw [hc] at hc2
        cases hc2
        rw [hcur] at hcur2
        exact hcur2
  · rw [List.getElem?_eq_none (by rw [hli]; exact not_lt.1 hk),
      List.getElem?_eq_none (by rw [hlj]; exact not_lt.1 hk)]

/-- Modes that assign pairwise different crtc modes to the member output at one position
assign pairwise different crtc modes to the member outputs. -/
theorem distinct_assignments_of_position (monitor : MetaMonitor) (k : Nat)
    (hpair : monitor.modes.Pairwise
      (fun x y => assigned_crtc_mode k x ≠ assigned_crtc_mode k y)) :
    distinct_assignments monitor := by
  unfold distinct_assignments
  refine List.Pairwise.imp ?_ hpair
  intro a b hab heq
  apply hab
  unfold crtc_mode_assignment at heq
  unfold assigned_crtc_mode
  have := congrArg (fun l => l.getD k (default : MetaMonitorCrtcMode).crtc_mode) heq
  simp only [List.getD_map] at this
  exact this

/-- C10 (amended): for every monitor built by `meta_monitor_normal_new` or by
`meta_monitor_tiled_new` and every live state, two modes of the monitor's mode list
that both match the live state of every member output assign the same crtc mode to every
member output; hence, when no two modes of the list have the same assignment, at most
one position of the list holds a matching mode, and the current mode
`meta_monitor_derive_current_mode` sets, when present, is the only matching one.  No two
modes have the same assignment when the main output lists each of its modes at most once
and, for a tiled monitor built from an output of the table, has distinct tiled modes (at
most one cell-sized mode, or a preferred mode that is not cell-sized and cell-sized
modes of pairwise different refresh rates). -/
theorem at_most_one_mode_matches (built_from : MetaMonitorManager) (output : Nat)
    (monitor : MetaMonitor)
    (hbuilt : monitor = meta_monitor_normal_new built_from output ∨
      meta_monitor_tiled_new built_from output = some monitor)
    (live : MetaMonitorManager) :
    (∀ (i j : Nat) (mi mj : MetaMonitorMode),
        monitor.modes[i]? = some mi → monitor.modes[j]? = some mj →
        mode_matches_live live monitor mi → mode_matches_live live monitor mj →
        crtc_mode_assignment mi = crtc_mode_assignment mj) ∧
      (distinct_assignments monitor →
        (∀ (i j : Nat) (mi mj : MetaMonitorMode),
          monitor.modes[i]? = some mi → monitor.modes[j]? = some mj →
          mode_matches_live live monitor mi → mode_matches_live live monitor mj → i = j) ∧
        (∀ i : Nat, (meta_monitor_derive_current_mode live monitor).current_mode = some i →
          ∀ (j : Nat) (mj : MetaMonitorMode),
            monitor.modes[j]? = some mj → mode_matches_live live monitor mj → j = i)) ∧
      ((built_from.output (meta_monitor_get_main_output monitor)).modes.Nodup →
        (monitor = meta_monitor_normal_new built_from output ∨
          (output < built_from.outputs.length ∧
            tiled_modes_distinct built_from monitor.main_output)) →
        distinct_assignments monitor) := by
  have hlen : ∀ mode ∈ monitor.modes, mode.crtc_modes.length = monitor.outputs.length := by
    intro mode hm
    rcases hbuilt with rfl | ht
    · rw [← normal_monitor_mode_outputs built_from output mode hm, List.length_map]
    · rw [← tiled_monitor_mode_outputs built_from output monitor ht mode hm, List.length_map]
  have hsame : ∀ (i j : Nat) (mi mj : MetaMonitorMode),
      monitor.modes[i]? = some mi → monitor.modes[j]? = some mj →
      mode_matches_live live monitor mi → mode_matches_live live monitor mj →
      crtc_mode_assignment mi = crtc_mode_assignment mj := by
    intro i j mi mj hi hj hmi hmj
    exact matching_modes_same_assignment live monitor mi mj
      (hlen mi (List.getElem?_mem hi)) (hlen mj (List.getElem?_mem hj)) hmi hmj
  have huniq : distinct_assignments monitor → ∀ (i j : Nat) (mi mj : MetaMonitorMode),
      monitor.modes[i]? = some mi → monitor.modes[j]? = some mj →
      mode_matches_live live monitor mi → mode_matches_live live monitor mj → i = j := by
    intro hd i j mi mj hi hj hmi hmj
    have hkey := hsame i j mi mj hi hj hmi hmj
    obtain ⟨hil, hie⟩ := List.getElem?_eq_some.1 hi
    obtain ⟨hjl, hje⟩ := List.getElem?_eq_some.1 hj
    unfold distinct_assignments at hd
    rw [List.pairwise_iff_getElem] at hd
    rcases Nat.lt_trichotomy i j with hlt | heq | hgt
    · exact absurd (by rw [hie, hje]; exact hkey) (hd i j hil hjl hlt)
    · exact heq
    · exact absurd (by rw [hie, hje]; exact hkey.symm) (hd j i hjl hil hgt)
  have hnormal : monitor = meta_monitor_normal_new built_from output →
      (built_from.output (meta_monitor_get_main_output monitor)).modes.Nodup →
      distinct_assignments monitor := by
    intro hn hnodup
    subst hn
    have hmain : meta_monitor_get_main_output (meta_monitor_normal_new built_from output) =
        output := by
      unfold meta_monitor_get_main_output
      rw [(meta_monitor_normal_new_spec built_from output).1,
        (meta_monitor_normal_new_spec built_from output).2.1]
      rfl
    rw [hmain] at hnodup
    exact distinct_assignments_of_position _ 0
      (normal_modes_pairwise built_from output hnodup).1
  refine ⟨hsame, fun hd => ⟨huniq hd, ?_⟩, ?_⟩
  · intro i hcur j mj hj hmj
    obtain ⟨_, mi, hi, hai⟩ := (first_assigned_mode_spec live monitor monitor.modes 0).2 i hcur
    rw [Nat.sub_zero] at hi
    exact huniq hd j i mj mi hj hi hmj
      ((is_monitor_mode_assigned_iff live monitor mi (hlen mi (List.getElem?_mem hi))).1 hai)
  · intro hnodup hcond
    rcases hcond with hn | ⟨ho, hdist⟩
    · exact hnormal hn hnodup
    · rcases hbuilt with hn | ht
      · exact hnormal hn hnodup
      · have hmain : meta_monitor_get_main_output monitor = monitor.main_output := by
          unfold meta_monitor_get_main_output
          rw [(meta_monitor_tiled_new_spec built_from output monitor ht).1]
          rfl
        rw [hmain] at hnodup
        obtain ⟨k, hk⟩ :=
          List.getElem?_of_mem (main_output_mem built_from output monitor ht ho).1
        exact distinct_assignments_of_position monitor k
          (tiled_modes_pairwise built_from output monitor ht k hk hnodup hdist).1

/-- C10 (amended) at the tiled monitor of three modes built from a two-tile panel that
is lit through its second connector in the 640 x 480 mode: the main output 1 lists each
of its modes once and has one cell-sized mode, so no two modes have the same assignment;
the derived current mode is position 1, and of the three modes only the one at position
1 matches the live state. -/
theorem at_most_one_mode_matches_witness :
    meta_monitor_tiled_new sample_untiled_live_manager 0 = some sample_untiled_live_monitor ∧
      sample_untiled_live_monitor.modes.length = 3 ∧
      distinct_assignments sample_untiled_live_monitor ∧
      (meta_monitor_derive_current_mode sample_untiled_live_manager
        sample_untiled_live_monitor).current_mode = some 1 ∧
      ∀ (j : Nat) (mj : MetaMonitorMode), sample_untiled_live_monitor.modes[j]? = some mj →
        mode_matches_live sample_untiled_live_manager sample_untiled_live_monitor mj →
        j = 1 := by
  have h := at_most_one_mode_matches sample_untiled_live_manager 0
    sample_untiled_live_monitor (Or.inr (by decide)) sample_untiled_live_manager
  have hd : distinct_assignments sample_untiled_live_monitor :=
    h.2.2 (by decide) (Or.inr ⟨by decide, Or.inl (by decide)⟩)
  exact ⟨by decide, rfl, hd, by decide, (h.2.1 hd).2 1 (by decide)⟩

/-! ## Properties of the connection-change recording -/

/-- A loop that appends `f x` for the elements that pass a test collects the image of
the filtered list. -/
theorem foldl_append_if {α β : Type} (p : α → Prop) [DecidablePred p] (f : α → β)
    (l : List α) (acc : List β) :
    l.foldl (fun events x => if p x then events ++ [f x] else events) acc =
      acc ++ (l.filter (fun x => decide (p x))).map f := by
  induction l generalizing acc with
  | nil => simp
  | cons x rest ih =>
    rw [List.foldl_cons, ih]
    by_cases h : p x
    · simp [h, List.filter_cons]
    · simp [h, List.filter_cons]

/-- The index scan over a table ends at the length of the table exactly when no output
of the table carries the id. -/
theorem findIdx_eq_length_iff_absent (id : Int) (table : List MetaOutput) :
    table.findIdx (fun output => id == output.winsys_id) = table.length ↔
      id ∉ output_ids table := by
  induction table with
  | nil => simp [output_ids]
  | cons output rest ih =>
    rw [List.findIdx_cons]
    by_cases h : id = output.winsys_id
    · simp [h, output_ids]
    · have hb : (id == output.winsys_id) = false := by simpa using h
      rw [hb]
      simp only [cond_false, List.length_cons, add_left_inj]
      rw [ih]
      simp [output_ids, h]

/-- The list scan over a table finds nothing exactly when no output of the table
carries the id. -/
theorem find_eq_none_iff_absent (id : Int) (table : List MetaOutput) :
    table.find? (fun output => id == output.winsys_id) = none ↔ id ∉ output_ids table := by
  simp only [output_ids, List.find?_eq_none, List.mem_map, not_exists, not_and,
    beq_iff_eq, Bool.not_eq_true, beq_eq_false_iff_ne, ne_eq]
  constructor
  · intro h output hmem heq
    exact h output hmem heq.symm
  · intro h output hmem heq
    exact h output hmem heq.symm

/-- The connect events of the manager are those of the new outputs absent from the old
table. -/
theorem meta_monitor_manager_record_connect_events_spec
    (read_edid : MetaOutput → Option (List Nat)) (manager : MetaMonitorManager)
    (old_outputs : List MetaOutput) :
    meta_monitor_manager_record_connect_events read_edid manager old_outputs =
      (outputs_absent_from manager.outputs old_outputs).map (connected_event read_edid) := by
  unfold meta_monitor_manager_record_connect_events outputs_absent_from
  rw [foldl_append_if (fun new_output : MetaOutput =>
    old_outputs.findIdx (fun old_output => new_output.winsys_id == old_output.winsys_id)
      = old_outputs.length)
    (fun new_output => (⟨EventId.MONITOR_CONNECTED,
      meta_monitor_manager_get_output_auxiliary_payload read_edid new_output⟩ : RecordedEvent))]
  simp only [List.nil_append, findIdx_eq_length_iff_absent]
  rfl

/-- The disconnect events of the manager are those of the old outputs absent from the
new table. -/
theorem meta_monitor_manager_record_disconnect_events_spec
    (read_edid : MetaOutput → Option (List Nat)) (manager : MetaMonitorManager)
    (old_outputs : List MetaOutput) :
    meta_monitor_manager_record_disconnect_events read_edid manager old_outputs =
      (outputs_absent_from old_outputs manager.outputs).map
        (disconnected_event read_edid) := by
  unfold meta_monitor_manager_record_disconnect_events outputs_absent_from
  rw [foldl_append_if (fun old_output : MetaOutput =>
    manager.outputs.findIdx (fun new_output => old_output.winsys_id == new_output.winsys_id)
      = manager.outputs.length)
    (fun old_output => (⟨EventId.MONITOR_DISCONNECTED,
      meta_monitor_manager_get_output_auxiliary_payload read_edid old_output⟩ : RecordedEvent))]
  simp only [List.nil_append, findIdx_eq_length_iff_absent]
  rfl

/-- The connect events of a gpu are those of the new outputs absent from the old list. -/
theorem record_connect_events_spec (read_edid : MetaOutput → Option (List Nat))
    (gpu : MetaGpu) (old_outputs : List MetaOutput) :
    record_connect_events read_edid gpu old_outputs =
      (outputs_absent_from gpu.outputs old_outputs).map (connected_event read_edid) := by
  have hstep : ∀ (events : List RecordedEvent) (new_output : MetaOutput),
      (match old_outputs.find?
          (fun old_output => new_output.winsys_id == old_output.winsys_id) with
        | none => events ++ [(⟨EventId.MONITOR_CONNECTED,
            meta_monitor_manager_get_output_auxiliary_payload read_edid new_output⟩ :
              RecordedEvent)]
        | some _ => events) =
      if new_output.winsys_id ∉ output_ids old_outputs then
        events ++ [connected_event read_edid new_output] else events := by
    intro events new_output
    by_cases h : new_output.winsys_id ∉ output_ids old_outputs
    · rw [if_pos h, (find_eq_none_iff_absent _ _).2 h]
      rfl
    · rw [if_neg h]
      cases hf : old_outputs.find?
          (fun old_output => new_output.winsys_id == old_output.winsys_id) with
      | none => exact absurd ((find_eq_none_iff_absent _ _).1 hf) h
      | some found => rfl
  unfold record_connect_events outputs_absent_from
  simp only [hstep]
  rw [foldl_append_if (fun new_output : MetaOutput =>
    new_output.winsys_id ∉ output_ids old_outputs) (connected_event read_edid)]
  simp

/-- The disconnect events of a gpu are those of the old outputs absent from the new
list. -/
theorem record_disconnect_events_spec (read_edid : MetaOutput → Option (List Nat))
    (gpu : MetaGpu) (old_outputs : List MetaOutput) :
    record_disconnect_events read_edid gpu old_outputs =
      (outputs_absent_from old_outputs gpu.outputs).map (disconnected_event read_edid) := by
  have hstep : ∀ (events : List RecordedEvent) (old_output : MetaOutput),
      (match gpu.outputs.find?
          (fun new_output => old_output.winsys_id == new_output.winsys_id) with
        | none => events ++ [(⟨EventId.MONITOR_DISCONNECTED,
            meta_monitor_manager_get_output_auxiliary_payload read_edid old_output⟩ :
              RecordedEvent)]
        | some _ => events) =
      if old_output.winsys_id ∉ output_ids gpu.outputs then
        events ++ [disconnected_event read_edid old_output] else events := by
    intro events old_output
    by_cases h : old_output.winsys_id ∉ output_ids gpu.outputs
    · rw [if_pos h, (find_eq_none_iff_absent _ _).2 h]
      rfl
    · rw [if_neg h]
      cases hf : gpu.outputs.find?
          (fun new_output => old_output.winsys_id == new_output.winsys_id) with
      | none => exact absurd ((find_eq_none_iff_absent _ _).1 hf) h
      | some found => rfl
  unfold record_disconnect_events outputs_absent_from
  simp only [hstep]
  rw [foldl_append_if (fun old_output : MetaOutput =>
    old_output.winsys_id ∉ output_ids gpu.outputs) (disconnected_event read_edid)]
  simp

/-- No output of a table is absent from a table carrying the same set of ids. -/
theorem outputs_absent_from_same_ids (table other : List MetaOutput)
    (h : ∀ id, id ∈ output_ids table → id ∈ output_ids other) :
    outputs_absent_from table other = [] := by
  unfold outputs_absent_from
  rw [List.filter_eq_nil_iff]
  intro output hmem
  have hid : output.winsys_id ∈ output_ids table := by
    unfold output_ids
    exact List.mem_map.2 ⟨output, hmem, rfl⟩
  simpa using h _ hid

/-- C11: for every old and new output table, the connection-change recording of the
manager and that of a gpu emit one "connected" event for each new output whose hardware
id equals no old output's id, followed by one "disconnected" event for each old output
whose id equals no new output's id, and nothing else; when the two tables carry the
same set of ids, whatever else differs, nothing is emitted. -/
theorem connection_events_by_identity (read_edid : MetaOutput → Option (List Nat))
    (manager : MetaMonitorManager) (gpu : MetaGpu) (old_outputs : List MetaOutput) :
    meta_monitor_manager_record_connection_changes read_edid manager old_outputs =
        (outputs_absent_from manager.outputs old_outputs).map (connected_event read_edid) ++
          (outputs_absent_from old_outputs manager.outputs).map
            (disconnected_event read_edid) ∧
      record_connection_changes read_edid gpu old_outputs =
        (outputs_absent_from gpu.outputs old_outputs).map (connected_event read_edid) ++
          (outputs_absent_from old_outputs gpu.outputs).map (disconnected_event read_edid) ∧
      ((∀ id, id ∈ output_ids manager.outputs ↔ id ∈ output_ids old_outputs) →
        meta_monitor_manager_record_connection_changes read_edid manager old_outputs = []) ∧
      ((∀ id, id ∈ output_ids gpu.outputs ↔ id ∈ output_ids old_outputs) →
        record_connection_changes read_edid gpu old_outputs = []) := by
  have hm : meta_monitor_manager_record_connection_changes read_edid manager old_outputs =
      (outputs_absent_from manager.outputs old_outputs).map (connected_event read_edid) ++
        (outputs_absent_from old_outputs manager.outputs).map
          (disconnected_event read_edid) := by
    unfold meta_monitor_manager_record_connection_changes
    rw [meta_monitor_manager_record_connect_events_spec,
      meta_monitor_manager_record_disconnect_events_spec]
  have hg : record_connection_changes read_edid gpu old_outputs =
      (outputs_absent_from gpu.outputs old_outputs).map (connected_event read_edid) ++
        (outputs_absent_from old_outputs gpu.outputs).map (disconnected_event read_edid) := by
    unfold record_connection_changes
    rw [record_connect_events_spec, record_disconnect_events_spec]
  refine ⟨hm, hg, ?_, ?_⟩
  · intro hsame
    rw [hm, outputs_absent_from_same_ids _ _ (fun id => (hsame id).1),
      outputs_absent_from_same_ids _ _ (fun id => (hsame id).2)]
    rfl
  · intro hsame
    rw [hg, outputs_absent_from_same_ids _ _ (fun id => (hsame id).1),
      outputs_absent_from_same_ids _ _ (fun id => (hsame id).2)]
    rfl

/-- C11 at sample tables: the read that loses connector 2 and finds connector 0x42
records one "connected" event with the data of the new connector and one
"disconnected" event for the lost one, and a read that finds the same ids again records
nothing, for the manager and for a gpu. -/
theorem connection_events_by_identity_witness :
    meta_monitor_manager_record_connection_changes sample_read_edid sample_hotplug_manager
        sample_old_outputs =
      [⟨EventId.MONITOR_CONNECTED,
          { name := "HDMI-2", vendor := "ACM", product := "Panel", serial := "0001",
            width_mm := 600, height_mm := 340, edid := [] }⟩,
        ⟨EventId.MONITOR_DISCONNECTED, { name := "HDMI-1" }⟩] ∧
      meta_monitor_manager_record_connection_changes sample_read_edid
        sample_same_ids_manager sample_old_outputs = [] ∧
      record_connection_changes sample_read_edid sample_same_ids_gpu sample_old_outputs =
        [] :=
  ⟨(connection_events_by_identity sample_read_edid sample_hotplug_manager
      sample_same_ids_gpu sample_old_outputs).1.trans (by decide),
   (connection_events_by_identity sample_read_edid sample_same_ids_manager
      sample_same_ids_gpu sample_old_outputs).2.2.1
      (by
        intro id
        simp only [output_ids, sample_same_ids_manager, sample_old_outputs, List.map_cons,
          List.map_nil, List.mem_cons, List.mem_singleton, List.not_mem_nil, or_false]
        exact Or.comm),
   (connection_events_by_identity sample_read_edid sample_same_ids_manager
      sample_same_ids_gpu sample_old_outputs).2.2.2
      (by
        intro id
        simp only [output_ids, sample_same_ids_gpu, sample_same_ids_manager,
          sample_old_outputs, List.map_cons, List.map_nil, List.mem_cons,
          List.mem_singleton, List.not_mem_nil, or_false]
        exact Or.comm)⟩

/-! ## Properties of the XRandR read -/

/-- A read whose resource query fails leaves the three tables of the manager as they
were, whatever they held. -/
theorem xrandr_read_current_without_resources (server : XrandrReplies)
    (manager : MetaMonitorManager) (h : server.resources = none) :
    (meta_monitor_manager_xrandr_read_current server manager).modes = manager.modes ∧
      (meta_monitor_manager_xrandr_read_current server manager).crtcs = manager.crtcs ∧
      (meta_monitor_manager_xrandr_read_current server manager).outputs = manager.outputs := by
  unfold meta_monitor_manager_xrandr_read_current
  rw [h]
  exact ⟨rfl, rfl, rfl⟩

/-- C12: at the sample manager, which holds one mode, three crtcs and two outputs from
its previous read, a read whose resource query fails leaves the manager with exactly
those tables and counts, not with empty ones; the enclosing
`meta_monitor_manager_read_current_state` completes with the same tables and records no
event. -/
theorem failed_read_keeps_previous_tables :
    (meta_monitor_manager_xrandr_read_current sample_failed_replies sample_manager).outputs
        = sample_manager.outputs ∧
      (meta_monitor_manager_xrandr_read_current sample_failed_replies sample_manager).crtcs
        = sample_manager.crtcs ∧
      (meta_monitor_manager_xrandr_read_current sample_failed_replies sample_manager).modes
        = sample_manager.modes ∧
      (meta_monitor_manager_xrandr_read_current sample_failed_replies
        sample_manager).outputs.length = 2 ∧
      (meta_monitor_manager_xrandr_read_current sample_failed_replies
        sample_manager).crtcs.length = 3 ∧
      (meta_monitor_manager_xrandr_read_current sample_failed_replies
        sample_manager).modes.length = 1 ∧
      (meta_monitor_manager_read_current_state sample_read_edid
          (meta_monitor_manager_xrandr_read_current sample_failed_replies)
          sample_manager).map
        (fun result => (result.1.serial, result.1.outputs, result.1.crtcs, result.1.modes,
          result.2)) =
        some (8, sample_manager.outputs, sample_manager.crtcs, sample_manager.modes, []) := by
  exact ⟨rfl, rfl, rfl, rfl, rfl, rfl, rfl⟩

/-! ## Properties of `meta_monitor_manager_ensure_configured` -/

/-- Rebuilding the logical monitors from no configuration leaves none, and no primary
one. -/
theorem rebuild_logical_monitors_of_none (env : ConfigCollaborators)
    (manager : MetaMonitorManager) :
    meta_monitor_manager_rebuild_logical_monitors env manager none =
      { manager with logical_monitors := [], primary_logical_monitor := none } := by
  simp [meta_monitor_manager_rebuild_logical_monitors, logical_monitor_configs_of,
    meta_monitor_manager_set_primary_logical_monitor]

/-- Outside the construction phase, the rebuild from no configuration completes, leaves
no logical monitor and no primary one, and notifies once. -/
theorem meta_monitor_manager_rebuild_of_none (env : ConfigCollaborators)
    (manager : MetaMonitorManager) (h : manager.in_init = false) :
    ∃ next, meta_monitor_manager_rebuild env manager none = some (next, 1) ∧
      next.logical_monitors = [] ∧ next.primary_logical_monitor = none := by
  unfold meta_monitor_manager_rebuild
  rw [h]
  simp only [Bool.false_eq_true, if_false]
  unfold meta_monitor_manager_update_logical_state
  rw [rebuild_logical_monitors_of_none]
  unfold meta_monitor_manager_update_monitor_modes
  simp only [logical_monitor_configs_of, update_monitor_modes_loop]
  exact ⟨_, rfl, rfl, rfl⟩

/-- During the construction phase the rebuild does nothing. -/
theorem meta_monitor_manager_rebuild_in_init (env : ConfigCollaborators)
    (manager : MetaMonitorManager) (config : Option MetaMonitorsConfig)
    (h : manager.in_init = true) :
    meta_monitor_manager_rebuild env manager config = some (manager, 0) := by
  unfold meta_monitor_manager_rebuild
  rw [h]
  simp

/-- One block of the function, for a candidate source, is one step of the search the
claim describes. -/
theorem first_applicable_step (env : ConfigCollaborators) (warning : String)
    (source : MetaMonitorManager → Option MetaMonitorsConfig)
    (rest : List (MetaMonitorManager → Option MetaMonitorsConfig)) (sofar : EnsureOutcome)
    (h : sofar.result = none) :
    first_applicable env (source :: rest) sofar.manager sofar.applied =
      if (ensure_configured_try env warning (source sofar.manager) sofar).result ≠ none then
        ((ensure_configured_try env warning (source sofar.manager) sofar).manager,
         (ensure_configured_try env warning (source sofar.manager) sofar).applied,
         (ensure_configured_try env warning (source sofar.manager) sofar).result)
      else
        first_applicable env rest
          (ensure_configured_try env warning (source sofar.manager) sofar).manager
          (ensure_configured_try env warning (source sofar.manager) sofar).applied := by
  unfold ensure_configured_try
  rw [first_applicable]
  cases hs : source sofar.manager with
  | none => simp [h]
  | some c =>
    cases ha : (env.apply_monitors_config sofar.manager c).1 with
    | true => simp [ha]
    | false => simp [ha, h]

/-- A block changes neither the calls of `set_current` recorded so far nor the
notification count. -/
theorem ensure_configured_try_frame (env : ConfigCollaborators) (warning : String)
    (config : Option MetaMonitorsConfig) (sofar : EnsureOutcome) :
    (ensure_configured_try env warning config sofar).set_current = sofar.set_current ∧
      (ensure_configured_try env warning config sofar).monitors_changed =
        sofar.monitors_changed := by
  unfold ensure_configured_try
  cases config with
  | none => exact ⟨rfl, rfl⟩
  | some c =>
    cases ha : (env.apply_monitors_config sofar.manager c).1 with
    | true => simp [ha]
    | false => simp [ha]

/-- What the part after `done` does with the outcome of the search. -/
theorem ensure_configured_done_spec (env : ConfigCollaborators) (sofar : EnsureOutcome) :
    ∃ outcome, ensure_configured_done env sofar = some outcome ∧
      outcome.result = sofar.result ∧ outcome.applied = sofar.applied ∧
      outcome.set_current = sofar.set_current ++ [sofar.result] ∧
      (sofar.result ≠ none →
        outcome.manager = sofar.manager ∧ outcome.monitors_changed = sofar.monitors_changed) ∧
      (sofar.result = none →
        (sofar.manager.in_init = false →
          outcome.manager.logical_monitors = [] ∧
          outcome.manager.primary_logical_monitor = none ∧
          outcome.monitors_changed = sofar.monitors_changed + 1) ∧
        (sofar.manager.in_init = true →
          outcome.manager = sofar.manager ∧
          outcome.monitors_changed = sofar.monitors_changed)) := by
  unfold ensure_configured_done
  cases hr : sofar.result with
  | some c =>
    refine ⟨_, rfl, hr.symm ▸ rfl, rfl, rfl, ?_, ?_⟩
    · intro _
      exact ⟨rfl, rfl⟩
    · intro hnone
      exact absurd hnone (by simp)
  | none =>
    cases hi : sofar.manager.in_init with
    | true =>
      rw [meta_monitor_manager_rebuild_in_init env sofar.manager none hi]
      refine ⟨_, rfl, hr.symm ▸ rfl, rfl, rfl, ?_, ?_⟩
      · intro hne
        exact absurd rfl hne
      · intro _
        refine ⟨fun hfalse => Bool.noConfusion hfalse, fun _ => ⟨rfl, rfl⟩⟩
    | false =>
      obtain ⟨next, hnext, hl, hp⟩ := meta_monitor_manager_rebuild_of_none env sofar.manager hi
      rw [hnext]
      refine ⟨_, rfl, hr.symm ▸ rfl, rfl, rfl, ?_, ?_⟩
      · intro hne
        exact absurd rfl hne
      · intro _
        refine ⟨fun _ => ⟨hl, hp, rfl⟩, fun htrue => Bool.noConfusion htrue⟩

/-- The part after `done`, read against the result of the search the claim describes. -/
theorem ensure_configured_done_of_search (env : ConfigCollaborators) (sofar : EnsureOutcome)
    (search : MetaMonitorManager × List MetaMonitorsConfig × Option MetaMonitorsConfig)
    (hs : search = (sofar.manager, sofar.applied, sofar.result))
    (hset : sofar.set_current = []) (hmc : sofar.monitors_changed = 0) :
    ∃ outcome, ensure_configured_done env sofar = some outcome ∧
      outcome.applied = search.2.1 ∧ outcome.result = search.2.2 ∧
      outcome.set_current = [search.2.2] ∧
      (search.2.2 ≠ none → outcome.manager = search.1 ∧ outcome.monitors_changed = 0) ∧
      (search.2.2 = none →
        (search.1.in_init = false →
          outcome.manager.logical_monitors = [] ∧
          outcome.manager.primary_logical_monitor = none ∧
          outcome.monitors_changed = 1) ∧
        (search.1.in_init = true →
          outcome.manager = search.1 ∧ outcome.monitors_changed = 0)) := by
  subst hs
  obtain ⟨outcome, hdone, hres, happ, hcur, hsome, hnone⟩ := ensure_configured_done_spec env sofar
  refine ⟨outcome, hdone, happ, hres, ?_, ?_, ?_⟩
  · rw [hcur, hset]
    rfl
  · intro hne
    have := hsome hne
    rw [hmc] at this
    exact this
  · intro hn
    have := hnone hn
    rw [hmc] at this
    exact this

/-- The three blocks after the stored one, and the part after `done`, follow the search
through the suggested, linear and fallback sources. -/
theorem ensure_configured_tail (env : ConfigCollaborators) (stored : EnsureOutcome)
    (hset : stored.set_current = []) (hmc : stored.monitors_changed = 0)
    (hres : stored.result = none) :
    ∃ outcome,
      (if (ensure_configured_try env "Failed to use suggested monitor configuration"
            (env.create_suggested stored.manager) stored).result ≠ none then
          ensure_configured_done env
            (ensure_configured_try env "Failed to use suggested monitor configuration"
              (env.create_suggested stored.manager) stored)
        else if (ensure_configured_try env "Failed to use linear monitor configuration"
            (env.create_linear
              (ensure_configured_try env "Failed to use suggested monitor configuration"
                (env.create_suggested stored.manager) stored).manager)
            (ensure_configured_try env "Failed to use suggested monitor configuration"
              (env.create_suggested stored.manager) stored)).result ≠ none then
          ensure_configured_done env
            (ensure_configured_try env "Failed to use linear monitor configuration"
              (env.create_linear
                (ensure_configured_try env "Failed to use suggested monitor configuration"
                  (env.create_suggested stored.manager) stored).manager)
              (ensure_configured_try env "Failed to use suggested monitor configuration"
                (env.create_suggested stored.manager) stored))
        else
          ensure_configured_done env
            (ensure_configured_try env "Failed to use fallback monitor configuration"
              (env.create_fallback
                (ensure_configured_try env "Failed to use linear monitor configuration"
                  (env.create_linear
                    (ensure_configured_try env "Failed to use suggested monitor configuration"
                      (env.create_suggested stored.manager) stored).manager)
                  (ensure_configured_try env "Failed to use suggested monitor configuration"
                    (env.create_suggested stored.manager) stored)).manager)
              (ensure_configured_try env "Failed to use linear monitor configuration"
                (env.create_linear
                  (ensure_configured_try env "Failed to use suggested monitor configuration"
                    (env.create_suggested stored.manager) stored).manager)
                (ensure_configured_try env "Failed to use suggested monitor configuration"
                  (env.create_suggested stored.manager) stored)))) = some outcome ∧
      outcome.applied =
        (first_applicable env [env.create_suggested, env.create_linear, env.create_fallback]
          stored.manager stored.applied).2.1 ∧
      outcome.result =
        (first_applicable env [env.create_suggested, env.create_linear, env.create_fallback]
          stored.manager stored.applied).2.2 ∧
      outcome.set_current =
        [(first_applicable env [env.create_suggested, env.create_linear, env.create_fallback]
          stored.manager stored.applied).2.2] ∧
      ((first_applicable env [env.create_suggested, env.create_linear, env.create_fallback]
          stored.manager stored.applied).2.2 ≠ none →
        outcome.manager =
          (first_applicable env [env.create_suggested, env.create_linear, env.create_fallback]
            stored.manager stored.applied).1 ∧
        outcome.monitors_changed = 0) ∧
      ((first_applicable env [env.create_suggested, env.create_linear, env.create_fallback]
          stored.manager stored.applied).2.2 = none →
        ((first_applicable env [env.create_suggested, env.create_linear, env.create_fallback]
            stored.manager stored.applied).1.in_init = false →
          outcome.manager.logical_monitors = [] ∧
          outcome.manager.primary_logical_monitor = none ∧
          outcome.monitors_changed = 1) ∧
        ((first_applicable env [env.create_suggested, env.create_linear, env.create_fallback]
            stored.manager stored.applied).1.in_init = true →
          outcome.manager =
            (first_applicable env [env.create_suggested, env.create_linear,
              env.create_fallback] stored.manager stored.applied).1 ∧
          outcome.monitors_changed = 0)) := by
  generalize hsug : ensure_configured_try env "Failed to use suggested monitor configuration"
    (env.create_suggested stored.manager) stored = suggested
  have hsugf := ensure_configured_try_frame env "Failed to use suggested monitor configuration"
    (env.create_suggested stored.manager) stored
  rw [hsug] at hsugf
  have e1 := first_applicable_step env "Failed to use suggested monitor configuration"
    env.create_suggested [env.create_linear, env.create_fallback] stored hres
  rw [hsug] at e1
  by_cases h1 : suggested.result ≠ none
  · rw [if_pos h1]
    rw [if_pos h1] at e1
    exact ensure_configured_done_of_search env suggested _ e1 (hsugf.1.trans hset)
      (hsugf.2.trans hmc)
  · rw [if_neg h1]
    rw [if_neg h1] at e1
    have hres1 : suggested.result = none := not_not.1 h1
    generalize hlin : ensure_configured_try env "Failed to use linear monitor configuration"
      (env.create_linear suggested.manager) suggested = linear
    have hlinf := ensure_configured_try_frame env "Failed to use linear monitor configuration"
      (env.create_linear suggested.manager) suggested
    rw [hlin] at hlinf
    have e2 := first_applicable_step env "Failed to use linear monitor configuration"
      env.create_linear [env.create_fallback] suggested hres1
    rw [hlin] at e2
    by_cases h2 : linear.result ≠ none
    · rw [if_pos h2]
      rw [if_pos h2] at e2
      exact ensure_configured_done_of_search env linear _ (e1.trans e2)
        ((hlinf.1.trans hsugf.1).trans hset) ((hlinf.2.trans hsugf.2).trans hmc)
    · rw [if_neg h2]
      rw [if_neg h2] at e2
      have hres2 : linear.result = none := not_not.1 h2
      generalize hfb : ensure_configured_try env "Failed to use fallback monitor configuration"
        (env.create_fallback linear.manager) linear = fallback
      have hfbf := ensure_configured_try_frame env
        "Failed to use fallback monitor configuration"
        (env.create_fallback linear.manager) linear
      rw [hfb] at hfbf
      have e3 := first_applicable_step env "Failed to use fallback monitor configuration"
        env.create_fallback [] linear hres2
      rw [hfb] at e3
      have e4 : first_applicable env [env.create_fallback] linear.manager linear.applied =
          (fallback.manager, fallback.applied, fallback.result) := by
        rw [e3]
        by_cases h3 : fallback.result ≠ none
        · rw [if_pos h3]
        · rw [if_neg h3, first_applicable, not_not.1 h3]
      exact ensure_configured_done_of_search env fallback _ ((e1.trans e2).trans e4)
        (((hfbf.1.trans hlinf.1).trans hsugf.1).trans hset)
        (((hfbf.2.trans hlinf.2).trans hsugf.2).trans hmc)

/-- With a config manager, `meta_monitor_manager_ensure_configured`
completes, and what it applies and returns is the search through the candidates in the
order stored, suggested, linear, fallback, without the stored one when an output has
`hotplug_mode_update` set, skipping absent candidates and stopping at the first one
whose apply succeeds; that candidate (none when no apply succeeds) is returned and is
the one recorded as current.  After a success nothing is rebuilt.  When no candidate
applies and the manager is not in its construction phase, the logical monitors are
rebuilt from no configuration: the list is left empty, there is no primary logical
monitor, and one notification is sent; in the construction phase the manager is left as
the last apply left it. -/
theorem ensure_configured_search_spec (env : ConfigCollaborators)
    (manager : MetaMonitorManager) (h : manager.config_manager = true) :
    ∃ outcome, meta_monitor_manager_ensure_configured env manager = some outcome ∧
      outcome.applied = (candidate_search env manager).2.1 ∧
      outcome.result = (candidate_search env manager).2.2 ∧
      outcome.set_current = [(candidate_search env manager).2.2] ∧
      ((candidate_search env manager).2.2 ≠ none →
        outcome.manager = (candidate_search env manager).1 ∧
        outcome.monitors_changed = 0) ∧
      ((candidate_search env manager).2.2 = none →
        ((candidate_search env manager).1.in_init = false →
          outcome.manager.logical_monitors = [] ∧
          outcome.manager.primary_logical_monitor = none ∧
          outcome.monitors_changed = 1) ∧
        ((candidate_search env manager).1.in_init = true →
          outcome.manager = (candidate_search env manager).1 ∧
          outcome.monitors_changed = 0)) := by
  unfold meta_monitor_manager_ensure_configured candidate_search candidate_sources
    should_use_stored_config meta_monitor_manager_has_hotplug_mode_update
  rw [h]
  simp only [Bool.not_true, Bool.false_eq_true, if_false]
  cases hh : manager.outputs.any (fun output => output.hotplug_mode_update) with
  | true =>
    simp only [Bool.not_true, Bool.false_eq_true, if_false, if_true, List.nil_append]
    have hn : ¬ ((none : Option MetaMonitorsConfig) ≠ none) := fun hne => hne rfl
    rw [if_neg hn]
    exact ensure_configured_tail env { manager := manager } rfl rfl rfl
  | false =>
    simp only [Bool.not_false, if_true, Bool.false_eq_true, if_false, List.singleton_append]
    generalize hst : ensure_configured_try env "Failed to use stored monitor configuration"
      (env.get_stored manager) { manager := manager } = stored
    have hstf := ensure_configured_try_frame env "Failed to use stored monitor configuration"
      (env.get_stored manager) { manager := manager }
    rw [hst] at hstf
    have e0 := first_applicable_step env "Failed to use stored monitor configuration"
      env.get_stored [env.create_suggested, env.create_linear, env.create_fallback]
      { manager := manager } rfl
    rw [hst] at e0
    by_cases h0 : stored.result ≠ none
    · rw [if_pos h0]
      rw [if_pos h0] at e0
      exact ensure_configured_done_of_search env stored _ e0 hstf.1 hstf.2
    · rw [if_neg h0]
      rw [if_neg h0] at e0
      rw [e0]
      exact ensure_configured_tail env stored hstf.1 hstf.2 (not_not.1 h0)

/-- The search keeps every property of the manager that the backend's apply keeps. -/
theorem first_applicable_keeps (env : ConfigCollaborators) (keeps : MetaMonitorManager → Prop)
    (hkeep : ∀ (m : MetaMonitorManager) (c : MetaMonitorsConfig), keeps m →
      keeps (env.apply_monitors_config m c).2)
    (sources : List (MetaMonitorManager → Option MetaMonitorsConfig)) :
    ∀ (manager : MetaMonitorManager) (applied : List MetaMonitorsConfig), keeps manager →
      keeps (first_applicable env sources manager applied).1 := by
  induction sources with
  | nil =>
    intro manager applied hm
    exact hm
  | cons source rest ih =>
    intro manager applied hm
    rw [first_applicable]
    cases hs : source manager with
    | none => exact ih manager applied hm
    | some c =>
      dsimp only
      by_cases ha : (env.apply_monitors_config manager c).1 = true
      · rw [if_pos ha]
        exact hkeep manager c hm
      · rw [if_neg ha]
        exact ih _ _ (hkeep manager c hm)

/-- C13: with a config manager, in a state where the list of logical monitors is empty
while the manager is being constructed (`in_init`, set only around the first read of the
hardware, before any list is built) and with a backend whose apply keeps it so (the
rebuilds return at once in that phase), `meta_monitor_manager_ensure_configured`
completes, and what it applies and returns is the search through the candidates in the
order stored, suggested, linear, fallback, without the stored one when an output has
`hotplug_mode_update` set, skipping absent candidates and stopping at the first one
whose apply succeeds; that candidate (none when no apply succeeds) is returned and is
the one recorded as current, and after a success the manager is as that apply left it.
When no candidate applies, no current configuration is recorded, none is returned and
the list of logical monitors is left empty; outside the construction phase there is
then no primary logical monitor either and one notification is sent. -/
theorem ensure_configured_in_priority_order (env : ConfigCollaborators)
    (manager : MetaMonitorManager) (h : manager.config_manager = true)
    (hinit : manager.in_init = true → manager.logical_monitors = [])
    (hkeep : ∀ (m : MetaMonitorManager) (c : MetaMonitorsConfig),
      (m.in_init = true → m.logical_monitors = []) →
      ((env.apply_monitors_config m c).2.in_init = true →
        (env.apply_monitors_config m c).2.logical_monitors = [])) :
    ∃ outcome, meta_monitor_manager_ensure_configured env manager = some outcome ∧
      outcome.applied = (candidate_search env manager).2.1 ∧
      outcome.result = (candidate_search env manager).2.2 ∧
      outcome.set_current = [(candidate_search env manager).2.2] ∧
      ((candidate_search env manager).2.2 ≠ none →
        outcome.manager = (candidate_search env manager).1 ∧
        outcome.monitors_changed = 0) ∧
      ((candidate_search env manager).2.2 = none →
        outcome.result = none ∧
        outcome.set_current = [none] ∧
        outcome.manager.logical_monitors = [] ∧
        ((candidate_search env manager).1.in_init = false →
          outcome.manager.primary_logical_monitor = none ∧
          outcome.monitors_changed = 1)) := by
  obtain ⟨outcome, hrun, happ, hres, hset, hsucc, hfail⟩ :=
    ensure_configured_search_spec env manager h
  have hinv := first_applicable_keeps env
    (fun m => m.in_init = true → m.logical_monitors = []) hkeep
    (candidate_sources env manager) manager [] hinit
  refine ⟨outcome, hrun, happ, hres, hset, hsucc, fun hnone => ⟨?_, ?_, ?_, ?_⟩⟩
  · rw [hres, hnone]
  · rw [hset, hnone]
  · cases hin : (candidate_search env manager).1.in_init with
    | false => exact ((hfail hnone).1 hin).1
    | true =>
      rw [((hfail hnone).2 hin).1]
      exact hinv hin
  · intro hin
    exact ⟨((hfail hnone).1 hin).2.1, ((hfail hnone).1 hin).2.2⟩

/-- C13 at the sample manager with the new configuration system, where the candidates
are the linear and the fallback one.  With a backend that accepts only the fallback
candidate both are applied in that order and the fallback one is returned and recorded
as current; with a backend that refuses every candidate both are applied, none is
returned, none is recorded as current, and the list of logical monitors, which held one
monitor, is left empty with one notification; and while the manager is being
constructed, with no logical monitor yet, the refusing backend leaves the list empty
and nothing is notified. -/
theorem ensure_configured_in_priority_order_witness :
    (sample_configured_manager.config_manager = true ∧
      sample_configured_manager.logical_monitors.length = 1 ∧
      ∃ outcome,
        meta_monitor_manager_ensure_configured sample_config_env sample_configured_manager =
          some outcome ∧
        outcome.applied = [sample_config, sample_fallback_config] ∧
        outcome.result = some sample_fallback_config ∧
        outcome.set_current = [some sample_fallback_config] ∧
        outcome.manager = sample_configured_manager ∧
        outcome.monitors_changed = 0) ∧
      (∃ outcome,
        meta_monitor_manager_ensure_configured sample_refusing_env sample_configured_manager =
          some outcome ∧
        outcome.applied = [sample_config, sample_fallback_config] ∧
        outcome.result = none ∧
        outcome.set_current = [none] ∧
        outcome.manager.logical_monitors = [] ∧
        outcome.manager.primary_logical_monitor = none ∧
        outcome.monitors_changed = 1) ∧
      (sample_constructing_manager.config_manager = true ∧
        sample_constructing_manager.in_init = true ∧
        ∃ outcome,
          meta_monitor_manager_ensure_configured sample_refusing_env
            sample_constructing_manager = some outcome ∧
          outcome.applied = [sample_config, sample_fallback_config] ∧
          outcome.result = none ∧
          outcome.set_current = [none] ∧
          outcome.manager.logical_monitors = [] ∧
          outcome.monitors_changed = 0) := by
  refine ⟨⟨by decide, by decide, ?_⟩, ?_, by decide, by decide, ?_⟩
  · obtain ⟨outcome, hrun, happ, hres, hset, hsucc, _⟩ :=
      ensure_configured_in_priority_order sample_config_env sample_configured_manager
        (by decide) (by decide) (fun _ _ hm => hm)
    exact ⟨outcome, hrun, happ.trans (by decide), hres.trans (by decide),
      hset.trans (by decide), (hsucc (by decide)).1.trans rfl, (hsucc (by decide)).2⟩
  · obtain ⟨outcome, hrun, happ, _, _, _, hfail⟩ :=
      ensure_configured_in_priority_order sample_refusing_env sample_configured_manager
        (by decide) (by decide) (fun _ _ hm => hm)
    exact ⟨outcome, hrun, happ.trans (by decide), (hfail (by decide)).1,
      (hfail (by decide)).2.1, (hfail (by decide)).2.2.1,
      ((hfail (by decide)).2.2.2 (by decide)).1, ((hfail (by decide)).2.2.2 (by decide)).2⟩
  · obtain ⟨outcome, hrun, happ, _, _, _, hfail⟩ :=
      ensure_configured_in_priority_order sample_refusing_env sample_constructing_manager
        (by decide) (fun _ => rfl) (fun _ _ hm => hm)
    have hval : meta_monitor_manager_ensure_configured sample_refusing_env
        sample_constructing_manager =
        some { manager := sample_constructing_manager,
               applied := [sample_config, sample_fallback_config],
               set_current := [none], warnings :=
                 ["Failed to use linear monitor configuration",
                  "Failed to use fallback monitor configuration"] } := by decide
    have ho : outcome = _ := Option.some.inj (hrun.symm.trans hval)
    exact ⟨outcome, hrun, happ.trans (by decide), (hfail (by decide)).1,
      (hfail (by decide)).2.1, (hfail (by decide)).2.2.1, by rw [ho]⟩

/-! ## Properties of the revert timer -/

/-- C14: in the legacy configuration system, with a restore function that leaves the
timer field alone: while a revert timer is pending, rejecting the change and expiry of
the timer each complete, call the restore exactly once and nothing else, and leave no
timer pending (the rejection removes the timer, the expired callback asks not to be
called again); confirming the change removes the timer, makes the configuration
persistent, restores nothing and changes nothing else in the manager.  When no timer
is pending, `meta_monitor_manager_confirm_configuration` changes nothing, removes
nothing and calls neither function. -/
theorem revert_timer_settled_once (restore_previous : MetaMonitorManager → MetaMonitorManager)
    (manager : MetaMonitorManager) (hlegacy : manager.config_manager = false)
    (hframe : ∀ m, (restore_previous m).persistent_timeout_id = m.persistent_timeout_id) :
    (manager.persistent_timeout_id ≠ 0 →
      (∃ outcome,
        meta_monitor_manager_confirm_configuration restore_previous manager false =
          some outcome ∧
        outcome.calls = [LegacyConfigCall.restore_previous] ∧
        outcome.removed_timeouts = [manager.persistent_timeout_id] ∧
        outcome.manager = restore_previous { manager with persistent_timeout_id := 0 } ∧
        outcome.manager.persistent_timeout_id = 0) ∧
      (∃ outcome,
        save_config_timeout restore_previous manager = some outcome ∧
        outcome.calls = [LegacyConfigCall.restore_previous] ∧
        outcome.removed_timeouts = [] ∧
        outcome.source_continue = false ∧
        outcome.manager = { restore_previous manager with persistent_timeout_id := 0 } ∧
        outcome.manager.persistent_timeout_id = 0) ∧
      (∃ outcome,
        meta_monitor_manager_confirm_configuration restore_previous manager true =
          some outcome ∧
        outcome.calls = [LegacyConfigCall.make_persistent] ∧
        outcome.removed_timeouts = [manager.persistent_timeout_id] ∧
        outcome.manager = { manager with persistent_timeout_id := 0 } ∧
        outcome.manager.persistent_timeout_id = 0)) ∧
    (manager.persistent_timeout_id = 0 →
      ∀ ok, meta_monitor_manager_confirm_configuration restore_previous manager ok =
        some { manager := manager, removed_timeouts := [], calls := [] }) := by
  constructor
  · intro hpending
    have hreject : meta_monitor_manager_confirm_configuration restore_previous manager false =
        some { manager := restore_previous { manager with persistent_timeout_id := 0 },
               removed_timeouts := [manager.persistent_timeout_id],
               calls := [LegacyConfigCall.restore_previous] } := by
      unfold meta_monitor_manager_confirm_configuration
      rw [if_neg hpending, hlegacy]
      rfl
    have hexpire : save_config_timeout restore_previous manager =
        some { manager := { restore_previous manager with persistent_timeout_id := 0 },
               calls := [LegacyConfigCall.restore_previous],
               source_continue := false } := by
      unfold save_config_timeout
      rw [hlegacy]
      rfl
    have hconfirm : meta_monitor_manager_confirm_configuration restore_previous manager true =
        some { manager := { manager with persistent_timeout_id := 0 },
               removed_timeouts := [manager.persistent_timeout_id],
               calls := [LegacyConfigCall.make_persistent] } := by
      unfold meta_monitor_manager_confirm_configuration
      rw [if_neg hpending, hlegacy]
      rfl
    exact ⟨⟨_, hreject, rfl, rfl, rfl, hframe _⟩, ⟨_, hexpire, rfl, rfl, rfl, rfl, rfl⟩,
      ⟨_, hconfirm, rfl, rfl, rfl, rfl⟩⟩
  · intro hnone ok
    unfold meta_monitor_manager_confirm_configuration
    rw [if_pos hnone]

/-- C14 at the sample manager with timer 42 pending and at the same manager without a
timer. -/
theorem revert_timer_settled_once_witness :
    (meta_monitor_manager_confirm_configuration sample_restore_previous
        sample_pending_manager false).map
      (fun outcome => (outcome.calls, outcome.removed_timeouts,
        outcome.manager.persistent_timeout_id)) =
      some ([LegacyConfigCall.restore_previous], [42], 0) ∧
    ∀ ok, meta_monitor_manager_confirm_configuration sample_restore_previous sample_manager ok =
      some { manager := sample_manager, removed_timeouts := [], calls := [] } :=
  ⟨by
    obtain ⟨outcome, hrun, hcalls, hremoved, _, htimer⟩ :=
      ((revert_timer_settled_once sample_restore_previous sample_pending_manager
        (by decide) (fun _ => rfl)).1 (by decide)).1
    rw [hrun, Option.map_some', hcalls, hremoved, htimer]
    rfl,
   (revert_timer_settled_once sample_restore_previous sample_manager (by decide)
      (fun _ => rfl)).2 (by decide)⟩

/-! ## Properties of the handler and the revert timer -/

/-- C15: at the sample manager with revert timer 42 pending, the non-persistent request
`sample_clone_request` is accepted and applied, no timer is removed, and timer 42 is
still pending afterwards: the handler cancels the pending timer only under
`persistent_timeout_id && persistent`, although the comment on that test speaks of any
new request. -/
theorem pending_timer_survives_new_request :
    sample_clone_request.persistent = false ∧
      sample_pending_manager.persistent_timeout_id = 42 ∧
      (meta_monitor_manager_legacy_handle_apply_configuration sample_env
        sample_pending_manager sample_clone_request).reply = MethodReply.complete ∧
      (meta_monitor_manager_legacy_handle_apply_configuration sample_env
        sample_pending_manager sample_clone_request).applied.length = 1 ∧
      (meta_monitor_manager_legacy_handle_apply_configuration sample_env
        sample_pending_manager sample_clone_request).removed_timeouts = [] ∧
      (meta_monitor_manager_legacy_handle_apply_configuration sample_env
        sample_pending_manager sample_clone_request).manager.persistent_timeout_id = 42 := by
  exact ⟨rfl, rfl, rfl, rfl, rfl, rfl⟩

/-- What the handler does with a pending revert timer: for every request of the legacy
system at the current serial that passes validation, the handler completes the call and
removes the pending revert timer exactly when one is pending and the request is
persistent; a non-persistent request removes no timer.  When the backend apply and the configuration update leave the timer
field alone and new timers get non-zero identifiers, a non-persistent request leaves the
timer field as it was, and a revert timer is pending afterwards exactly when the request
was persistent or a timer was pending before. -/
theorem new_apply_cancels_timer_when_persistent (env : Collaborators)
    (manager : MetaMonitorManager) (request : ApplyRequest) (crtc_infos : List MetaCrtcInfo)
    (output_infos : List MetaOutputInfo)
    (hlegacy : manager.config_manager = false) (hserial : request.serial = manager.serial)
    (hv : validate_request env manager request = Except.ok (crtc_infos, output_infos))
    (happly : ∀ m c o,
      (env.apply_configuration m c o).persistent_timeout_id = m.persistent_timeout_id)
    (hupdate : ∀ m, (env.config_update_current m).persistent_timeout_id = m.persistent_timeout_id)
    (hadd : ∀ m, env.timeout_add m ≠ 0) :
    (meta_monitor_manager_legacy_handle_apply_configuration env manager request).reply =
        MethodReply.complete ∧
      (meta_monitor_manager_legacy_handle_apply_configuration env manager request).removed_timeouts
        = (if manager.persistent_timeout_id ≠ 0 ∧ request.persistent = true then
            [manager.persistent_timeout_id] else []) ∧
      (request.persistent = false →
        (meta_monitor_manager_legacy_handle_apply_configuration env manager
          request).removed_timeouts = [] ∧
        (meta_monitor_manager_legacy_handle_apply_configuration env manager
          request).manager.persistent_timeout_id = manager.persistent_timeout_id) ∧
      ((meta_monitor_manager_legacy_handle_apply_configuration env manager
          request).manager.persistent_timeout_id ≠ 0 ↔
        (request.persistent = true ∨ manager.persistent_timeout_id ≠ 0)) := by
  unfold meta_monitor_manager_legacy_handle_apply_configuration
  rw [hlegacy]
  simp only [Bool.false_eq_true, if_false, hserial, ne_eq, not_true_eq_false, hv]
  cases hp : request.persistent with
  | false =>
    simp only [Bool.false_eq_true, and_false, if_false, false_or, true_and, forall_const]
    rw [hupdate, happly]
    exact ⟨rfl, Iff.rfl⟩
  | true =>
    simp only [and_true, if_true, true_or, iff_true, Bool.true_eq_false, false_implies,
      true_and]
    exact hadd _

/-- The pending timer at the sample manager with timer 42 pending and the non-persistent
request `sample_clone_request`. -/
theorem new_apply_cancels_timer_when_persistent_witness :
    (meta_monitor_manager_legacy_handle_apply_configuration sample_env sample_pending_manager
        sample_clone_request).removed_timeouts = [] ∧
      (meta_monitor_manager_legacy_handle_apply_configuration sample_env sample_pending_manager
        sample_clone_request).manager.persistent_timeout_id = 42 :=
  ((new_apply_cancels_timer_when_persistent sample_env sample_pending_manager
    sample_clone_request _ _ (by decide) (by decide) rfl (fun _ _ _ => rfl) (fun _ => rfl)
    (fun _ => Nat.succ_ne_zero 41)).2.2.1 (by decide))

/-! ## Properties of the tile placement and of the tiled modes -/

/-- The loop of `calculate_tile_coordinate` adds the filtered sums to its start value,
in 32 bits. -/
theorem tile_coordinate_fold (manager : MetaMonitorManager) (output : Nat) (l : List Nat)
    (xy : Int × Int) (k1 : int_wrap xy.1 = xy.1) (k2 : int_wrap xy.2 = xy.2) :
    l.foldl
        (fun (xy : Int × Int) (other_output : Nat) =>
          let x :=
            if (manager.output other_output).tile_info.loc_v_tile =
                  (manager.output output).tile_info.loc_v_tile ∧
                (manager.output other_output).tile_info.loc_h_tile <
                  (manager.output output).tile_info.loc_h_tile then
              int_wrap (xy.1 + (manager.output other_output).tile_info.tile_w)
            else xy.1
          let y :=
            if (manager.output other_output).tile_info.loc_h_tile =
                  (manager.output output).tile_info.loc_h_tile ∧
                (manager.output other_output).tile_info.loc_v_tile <
                  (manager.output output).tile_info.loc_v_tile then
              int_wrap (xy.2 + (manager.output other_output).tile_info.tile_h)
            else xy.2
          (x, y)) xy =
      (int_wrap (xy.1 + ((l.filter
          (fun other =>
            (manager.output other).tile_info.loc_v_tile =
                (manager.output output).tile_info.loc_v_tile ∧
              (manager.output other).tile_info.loc_h_tile <
                (manager.output output).tile_info.loc_h_tile)).map
          (fun other => ((manager.output other).tile_info.tile_w : Int))).sum),
       int_wrap (xy.2 + ((l.filter
          (fun other =>
            (manager.output other).tile_info.loc_h_tile =
                (manager.output output).tile_info.loc_h_tile ∧
              (manager.output other).tile_info.loc_v_tile <
                (manager.output output).tile_info.loc_v_tile)).map
          (fun other => ((manager.output other).tile_info.tile_h : Int))).sum)) := by
  induction l generalizing xy with
  | nil => simp [k1, k2]
  | cons other rest ih =>
    rw [List.foldl_cons, ih]
    · dsimp only
      by_cases h1 : (manager.output other).tile_info.loc_v_tile =
          (manager.output output).tile_info.loc_v_tile ∧
        (manager.output other).tile_info.loc_h_tile <
          (manager.output output).tile_info.loc_h_tile <;>
      by_cases h2 : (manager.output other).tile_info.loc_h_tile =
          (manager.output output).tile_info.loc_h_tile ∧
        (manager.output other).tile_info.loc_v_tile <
          (manager.output output).tile_info.loc_v_tile <;>
      simp [List.filter_cons, h1, h2, int_wrap_add_left, add_assoc]
    · dsimp only
      split_ifs
      · exact int_wrap_idem _
      · exact k1
    · dsimp only
      split_ifs
      · exact int_wrap_idem _
      · exact k2

/-- The placement of an output is the pair of its row offset and column offset, each
reduced to 32 bits. -/
theorem calculate_tile_coordinate_spec (manager : MetaMonitorManager) (monitor : MetaMonitor)
    (output : Nat) :
    calculate_tile_coordinate manager monitor output =
      (int_wrap (row_offset manager monitor output),
        int_wrap (column_offset manager monitor output)) := by
  unfold calculate_tile_coordinate row_offset column_offset
  rw [tile_coordinate_fold _ _ _ _ rfl rfl]
  simp

/-- The row offset and the column offset of an output are not negative. -/
theorem row_offset_nonneg (manager : MetaMonitorManager) (monitor : MetaMonitor)
    (output : Nat) :
    0 ≤ row_offset manager monitor output ∧ 0 ≤ column_offset manager monitor output := by
  unfold row_offset column_offset
  constructor <;>
  · apply List.sum_nonneg
    intro x hx
    obtain ⟨o, _, rfl⟩ := List.mem_map.1 hx
    exact Int.ofNat_nonneg _

/-- C17 as stated fails on a panel of three tiles in one row, each 1500000000 wide: the
cell widths left of the third tile sum to 3000000000, but `calculate_tile_coordinate`
places the third output at x = -1294967296, the sum reduced to 32 bits, and the tiled
mode built for the monitor carries that placement. -/
theorem tile_placement_counterexample :
    (meta_monitor_tiled_new sample_wide_tiles_manager 0).map
        (fun monitor =>
          (monitor.outputs,
            calculate_tile_coordinate sample_wide_tiles_manager monitor 2,
            row_offset sample_wide_tiles_manager monitor 2,
            monitor.modes.map (fun mode => mode.crtc_modes.map (fun entry => entry.x)))) =
      some ([0, 1, 2], (-1294967296, 0), 3000000000, [[0, 1500000000, -1294967296]]) := by
  decide

/-- C17 (amended): for every tiled monitor and every output, the placement computed by
`calculate_tile_coordinate` has as x the sum of `tile_w` over the member outputs in the
same tile row with a strictly smaller `loc_h_tile`, and as y the sum of `tile_h` over the
member outputs in the same tile column with a strictly smaller `loc_v_tile`, each
reduced to a 32-bit `int`, hence the sum itself when the sum is at most 2147483647; an
output at tile (0, 0) is placed at (0, 0); and in every tiled monitor mode that
`create_tiled_monitor_mode` builds, the entry of each member output carries that
placement. -/
theorem tile_placement_is_offset_sum (manager : MetaMonitorManager) (monitor : MetaMonitor)
    (output : Nat) :
    calculate_tile_coordinate manager monitor output =
        (int_wrap (row_offset manager monitor output),
          int_wrap (column_offset manager monitor output)) ∧
      (row_offset manager monitor output ≤ 2147483647 →
        (calculate_tile_coordinate manager monitor output).1 =
          row_offset manager monitor output) ∧
      (column_offset manager monitor output ≤ 2147483647 →
        (calculate_tile_coordinate manager monitor output).2 =
          column_offset manager monitor output) ∧
      (is_main_tiled_monitor_output (manager.output output) = true →
        calculate_tile_coordinate manager monitor output = (0, 0)) ∧
      (∀ (r : Int) (mode : MetaMonitorMode) (is_preferred : Bool),
        create_tiled_monitor_mode manager monitor r = some (mode, is_preferred) →
        ∀ i : Nat, monitor.outputs[i]? = some output →
          ∃ entry, mode.crtc_modes[i]? = some entry ∧ entry.output = output ∧
            entry.x = int_wrap (row_offset manager monitor output) ∧
            entry.y = int_wrap (column_offset manager monitor output) ∧
            (row_offset manager monitor output ≤ 2147483647 →
              entry.x = row_offset manager monitor output) ∧
            (column_offset manager monitor output ≤ 2147483647 →
              entry.y = column_offset manager monitor output)) := by
  obtain ⟨n1, n2⟩ := row_offset_nonneg manager monitor output
  have hx : row_offset manager monitor output ≤ 2147483647 →
      int_wrap (row_offset manager monitor output) = row_offset manager monitor output :=
    fun h => int_wrap_of_fits _ ⟨by omega, h⟩
  have hy : column_offset manager monitor output ≤ 2147483647 →
      int_wrap (column_offset manager monitor output) =
        column_offset manager monitor output :=
    fun h => int_wrap_of_fits _ ⟨by omega, h⟩
  refine ⟨calculate_tile_coordinate_spec manager monitor output, ?_, ?_, ?_, ?_⟩
  · intro h
    rw [calculate_tile_coordinate_spec]
    exact hx h
  · intro h
    rw [calculate_tile_coordinate_spec]
    exact hy h
  · intro hmain
    rw [calculate_tile_coordinate_spec]
    unfold is_main_tiled_monitor_output at hmain
    simp only [Bool.and_eq_true, beq_iff_eq] at hmain
    unfold row_offset column_offset
    rw [hmain.1, hmain.2]
    simp
    decide
  · intro r mode is_preferred hmode i hi
    have hc := (create_tiled_monitor_mode_spec manager monitor r mode is_preferred hmode).1
    have ex : (tiled_entry manager monitor r output).x =
        int_wrap (row_offset manager monitor output) := by
      simp only [tiled_entry]
      rw [calculate_tile_coordinate_spec]
    have ey : (tiled_entry manager monitor r output).y =
        int_wrap (column_offset manager monitor output) := by
      simp only [tiled_entry]
      rw [calculate_tile_coordinate_spec]
    refine ⟨tiled_entry manager monitor r output, ?_, rfl, ex, ey,
      fun h => ex.trans (hx h), fun h => ey.trans (hy h)⟩
    rw [hc, List.getElem?_map, hi]
    rfl

/-- C17 (amended) at the scenario: in the two-tile monitor of outputs 1 and 2, the cell
widths left of output 2, at tile (1, 0), sum to 1920 and its x is that sum, and output 1
at tile (0, 0) is placed at (0, 0). -/
theorem tile_placement_is_offset_sum_witness :
    row_offset scenario_manager scenario_tiled_monitor 2 = 1920 ∧
      (calculate_tile_coordinate scenario_manager scenario_tiled_monitor 2).1 =
        row_offset scenario_manager scenario_tiled_monitor 2 ∧
      calculate_tile_coordinate scenario_manager scenario_tiled_monitor 2 = (1920, 0) ∧
      calculate_tile_coordinate scenario_manager scenario_tiled_monitor 1 = (0, 0) :=
  ⟨by decide,
   (tile_placement_is_offset_sum scenario_manager scenario_tiled_monitor 2).2.1 (by decide),
   (tile_placement_is_offset_sum scenario_manager scenario_tiled_monitor 2).1.trans
      (by decide),
   (tile_placement_is_offset_sum scenario_manager scenario_tiled_monitor 1).2.2.2.1
      (by decide)⟩

/-- The search `find_tiled_crtc_mode` finds a mode exactly when the output has a usable
tiled crtc mode for the rate. -/
theorem find_tiled_crtc_mode_ne_none_iff (manager : MetaMonitorManager) (output : MetaOutput)
    (r : Int) :
    find_tiled_crtc_mode manager output r ≠ none ↔ usable_tiled_crtc_mode manager output r := by
  unfold find_tiled_crtc_mode usable_tiled_crtc_mode
  by_cases hp : is_crtc_mode_tiled output (manager.mode output.preferred_mode) = true
  · rw [if_pos hp]
    simp [hp]
  · rw [if_neg hp]
    simp only [hp, false_or, ne_eq, List.find?_eq_none, Bool.and_eq_true, beq_iff_eq,
      not_forall, not_not, exists_prop, Bool.false_eq_true]

/-- What `find_tiled_crtc_mode` returns: the preferred mode whenever that mode has the
cell size, else a listed cell-sized mode with the requested rate. -/
theorem find_tiled_crtc_mode_choice (manager : MetaMonitorManager) (output : MetaOutput)
    (r : Int) (t : Nat) (h : find_tiled_crtc_mode manager output r = some t) :
    (is_crtc_mode_tiled output (manager.mode output.preferred_mode) = true →
        t = output.preferred_mode) ∧
      (is_crtc_mode_tiled output (manager.mode output.preferred_mode) = false →
        t ∈ output.modes ∧ (manager.mode t).refresh_rate = r) := by
  unfold find_tiled_crtc_mode at h
  by_cases hp : is_crtc_mode_tiled output (manager.mode output.preferred_mode) = true
  · rw [if_pos hp] at h
    refine ⟨fun _ => (Option.some.inj h).symm, fun hf => ?_⟩
    rw [hp] at hf
    exact Bool.noConfusion hf
  · rw [if_neg hp] at h
    refine ⟨fun ht => absurd ht hp, fun _ => ?_⟩
    have hfound := List.find?_some h
    simp only [Bool.and_eq_true, beq_iff_eq] at hfound
    exact ⟨List.mem_of_find?_eq_some h, hfound.2⟩

/-- The loop of `create_tiled_monitor_mode` returns a mode when every output still to
visit has a tiled crtc mode for the rate. -/
theorem create_tiled_monitor_mode_loop_some (manager : MetaMonitorManager)
    (monitor : MetaMonitor) (r : Int) (l : List Nat) (mode : MetaMonitorMode)
    (is_preferred : Bool)
    (h : ∀ o ∈ l, find_tiled_crtc_mode manager (manager.output o) r ≠ none) :
    ∃ result, create_tiled_monitor_mode_loop manager monitor r l mode is_preferred =
      some result := by
  induction l generalizing mode is_preferred with
  | nil => exact ⟨_, rfl⟩
  | cons o rest ih =>
    unfold create_tiled_monitor_mode_loop
    cases hf : find_tiled_crtc_mode manager (manager.output o) r with
    | none => exact absurd hf (h o (List.mem_cons_self _ _))
    | some t =>
      dsimp only
      exact ih _ _ (fun o2 ho2 => h o2 (List.mem_cons_of_mem _ ho2))

/-- C19 as stated fails: in the two-tile panel whose outputs list the cell-sized modes 0
(rate 60, preferred) and 1 (rate 30), the mode built for rate 30 drives output 0 with
mode 0, of rate 60, although output 0 lists the cell-sized mode 1 of rate 30: the
preferred mode is taken first, not as a fallback. -/
theorem tiled_crtc_mode_rate_counterexample :
    create_tiled_monitor_mode sample_two_rates_manager sample_two_rates_monitor 30 =
        some (sample_rate_30_mode, true) ∧
      assigned_crtc_mode 0 sample_rate_30_mode = some 0 ∧
      (sample_two_rates_manager.mode 0).refresh_rate = 60 ∧
      1 ∈ (sample_two_rates_manager.output 0).modes ∧
      is_crtc_mode_tiled (sample_two_rates_manager.output 0)
        (sample_two_rates_manager.mode 1) = true ∧
      (sample_two_rates_manager.mode 1).refresh_rate = 30 := by
  exact ⟨rfl, rfl, rfl, by decide, rfl, rfl⟩

/-- C19 (amended): for every tiled monitor and rate `r`, `create_tiled_monitor_mode`
returns a mode exactly when every member output has a usable tiled crtc mode (a
cell-sized preferred mode, or a listed cell-sized mode of rate `r`); in the returned
mode the entry of each member output carries a crtc mode of that output's cell size,
which is the output's preferred mode whenever that mode is cell-sized, whatever its
rate, and otherwise a listed mode of rate `r`. -/
theorem tiled_crtc_modes_prefer_preferred (manager : MetaMonitorManager)
    (monitor : MetaMonitor) (r : Int) :
    ((∃ result, create_tiled_monitor_mode manager monitor r = some result) ↔
        ∀ o ∈ monitor.outputs, usable_tiled_crtc_mode manager (manager.output o) r) ∧
      (∀ (mode : MetaMonitorMode) (is_preferred : Bool),
        create_tiled_monitor_mode manager monitor r = some (mode, is_preferred) →
        ∀ (i o : Nat), monitor.outputs[i]? = some o →
          ∃ entry t, mode.crtc_modes[i]? = some entry ∧ entry.output = o ∧
            entry.crtc_mode = some t ∧
            (manager.mode t).width = ((manager.output o).tile_info.tile_w : Int) ∧
            (manager.mode t).height = ((manager.output o).tile_info.tile_h : Int) ∧
            (is_crtc_mode_tiled (manager.output o)
                (manager.mode (manager.output o).preferred_mode) = true →
              t = (manager.output o).preferred_mode) ∧
            (is_crtc_mode_tiled (manager.output o)
                (manager.mode (manager.output o).preferred_mode) = false →
              t ∈ (manager.output o).modes ∧ (manager.mode t).refresh_rate = r)) := by
  constructor
  · constructor
    · rintro ⟨⟨mode, is_preferred⟩, hmode⟩ o ho
      exact (find_tiled_crtc_mode_ne_none_iff manager _ r).1
        ((create_tiled_monitor_mode_spec manager monitor r mode is_preferred hmode).2.1 o ho)
    · intro hall
      unfold create_tiled_monitor_mode
      exact create_tiled_monitor_mode_loop_some manager monitor r _ _ _
        (fun o ho => (find_tiled_crtc_mode_ne_none_iff manager _ r).2 (hall o ho))
  · intro mode is_preferred hmode i o hi
    obtain ⟨hc, hfound, _⟩ :=
      create_tiled_monitor_mode_spec manager monitor r mode is_preferred hmode
    have ho : o ∈ monitor.outputs := List.getElem?_mem hi
    cases hf : find_tiled_crtc_mode manager (manager.output o) r with
    | none => exact absurd hf (hfound o ho)
    | some t =>
      have htiled := find_tiled_crtc_mode_tiled manager _ r t hf
      unfold is_crtc_mode_tiled at htiled
      simp only [Bool.and_eq_true, beq_iff_eq] at htiled
      refine ⟨tiled_entry manager monitor r o, t, ?_, rfl, ?_, htiled.1, htiled.2,
        (find_tiled_crtc_mode_choice manager _ r t hf).1,
        (find_tiled_crtc_mode_choice manager _ r t hf).2⟩
      · rw [hc, List.getElem?_map, hi]
        rfl
      · simp only [tiled_entry]
        exact hf

/-- C19 (amended) at the two-tile panel: a mode is built for rate 30, since both outputs
have a usable tiled crtc mode. -/
theorem tiled_crtc_modes_prefer_preferred_witness :
    ∃ result,
      create_tiled_monitor_mode sample_two_rates_manager sample_two_rates_monitor 30 =
        some result :=
  (tiled_crtc_modes_prefer_preferred sample_two_rates_manager sample_two_rates_monitor
    30).1.2 (by
      intro o ho
      exact Or.inl (by
        have : o = 0 ∨ o = 1 := by simpa [sample_two_rates_monitor] using ho
        rcases this with h | h <;> subst h <;> rfl))

/-- The flag the loop of `create_tiled_monitor_mode` returns is set only if it was set
at the start and every output visited got its preferred mode. -/
theorem create_tiled_monitor_mode_loop_preferred (manager : MetaMonitorManager)
    (monitor : MetaMonitor) (r : Int) (l : List Nat) (mode0 mode : MetaMonitorMode)
    (p0 : Bool)
    (h : create_tiled_monitor_mode_loop manager monitor r l mode0 p0 = some (mode, true)) :
    p0 = true ∧
      ∀ o ∈ l, find_tiled_crtc_mode manager (manager.output o) r =
        some (manager.output o).preferred_mode := by
  induction l generalizing mode0 p0 with
  | nil =>
    simp only [create_tiled_monitor_mode_loop] at h
    cases h
    exact ⟨rfl, fun o ho => absurd ho (List.not_mem_nil o)⟩
  | cons o rest ih =>
    unfold create_tiled_monitor_mode_loop at h
    cases hf : find_tiled_crtc_mode manager (manager.output o) r with
    | none => rw [hf] at h; cases h
    | some t =>
      rw [hf] at h
      dsimp only at h
      obtain ⟨e1, e2⟩ := ih _ _ h
      simp only [Bool.and_eq_true, beq_iff_eq] at e1
      refine ⟨e1.1, ?_⟩
      intro o2 ho2
      rcases List.mem_cons.1 ho2 with rfl | hm
      · rw [hf, e1.2]
      · exact e2 o2 hm

/-- A tiled monitor mode built with the preferred flag set uses the preferred crtc mode
on every member output. -/
theorem create_tiled_monitor_mode_preferred (manager : MetaMonitorManager)
    (monitor : MetaMonitor) (r : Int) (mode : MetaMonitorMode)
    (h : create_tiled_monitor_mode manager monitor r = some (mode, true)) :
    uses_preferred_everywhere manager monitor mode := by
  have hc := (create_tiled_monitor_mode_spec manager monitor r mode true h).1
  unfold create_tiled_monitor_mode at h
  have hp := (create_tiled_monitor_mode_loop_preferred manager monitor r _ _ _ _ h).2
  intro i o hi
  unfold assigned_crtc_mode
  have hentry : mode.crtc_modes[i]? = some (tiled_entry manager monitor r o) := by
    rw [hc, List.getElem?_map, hi]
    rfl
  rw [List.getD_eq_getElem?_getD, hentry]
  simp only [Option.getD_some, tiled_entry]
  exact hp o (List.getElem?_mem hi)

/-- One step of the first loop of `generate_tiled_monitor_modes` leaves the preferred
mode alone when the mode it builds, if any, does not have the preferred flag set. -/
theorem generate_tiled_monitor_modes_step_preferred (manager : MetaMonitorManager)
    (main_output : Nat) (st : TiledModesState) (c : Nat)
    (h : ∀ mode, is_crtc_mode_tiled (manager.output main_output) (manager.mode c) = true →
      create_tiled_monitor_mode manager st.monitor (manager.mode c).refresh_rate ≠
        some (mode, true)) :
    (generate_tiled_monitor_modes_step manager main_output st c).monitor.preferred_mode =
      st.monitor.preferred_mode := by
  unfold generate_tiled_monitor_modes_step
  by_cases ht : is_crtc_mode_tiled (manager.output main_output) (manager.mode c) = true
  · rw [if_neg (by simp [ht])]
    cases hcr : create_tiled_monitor_mode manager st.monitor (manager.mode c).refresh_rate with
    | none => rfl
    | some r =>
      obtain ⟨mode, is_preferred⟩ := r
      cases is_preferred with
      | true => exact absurd hcr (h mode ht)
      | false => simp
  · rw [if_pos (by simp [ht])]

/-- The first loop of `generate_tiled_monitor_modes` leaves the preferred mode alone
when none of the modes it builds has the preferred flag set. -/
theorem generate_tiled_monitor_modes_fold_preferred (manager : MetaMonitorManager)
    (main_output : Nat) (l : List Nat) (st : TiledModesState)
    (h : ∀ c ∈ l, ∀ mode,
      is_crtc_mode_tiled (manager.output main_output) (manager.mode c) = true →
      create_tiled_monitor_mode manager st.monitor (manager.mode c).refresh_rate ≠
        some (mode, true)) :
    (l.foldl (generate_tiled_monitor_modes_step manager main_output) st).monitor.preferred_mode
      = st.monitor.preferred_mode := by
  induction l generalizing st with
  | nil => rfl
  | cons c rest ih =>
    rw [List.foldl_cons]
    have hs := generate_tiled_monitor_modes_step_spec manager main_output st c
    rw [ih, generate_tiled_monitor_modes_step_preferred manager main_output st c
      (h c (List.mem_cons_self _ _))]
    intro c2 hc2 mode ht
    rw [create_tiled_monitor_mode_congr manager _ st.monitor hs.1.2.1]
    exact h c2 (List.mem_cons_of_mem _ hc2) mode ht

/-- The second loop of `generate_tiled_monitor_modes`, run over the rest `l` of a list
whose part `pre` has been visited: the entry it ends with is a mode of the whole list, at
its position, with a refresh rate no lower than that of any mode of the list; there is
no entry only if the list is empty. -/
theorem best_tiled_mode_fold (l pre : List MetaMonitorMode)
    (best : Option (Nat × MetaMonitorMode))
    (hnone : best = none → pre = [])
    (hsome : ∀ b, best = some b →
      (pre ++ l)[b.1]? = some b.2 ∧
        ∀ x ∈ pre, x.spec.refresh_rate ≤ b.2.spec.refresh_rate) :
    ((l.enumFrom pre.length).foldl
        (fun (best : Option (Nat × MetaMonitorMode)) (entry : Nat × MetaMonitorMode) =>
          match best with
          | none => some entry
          | some b =>
            if entry.2.spec.refresh_rate > b.2.spec.refresh_rate then some entry else best)
        best = none → pre ++ l = []) ∧
      ∀ b, (l.enumFrom pre.length).foldl
        (fun (best : Option (Nat × MetaMonitorMode)) (entry : Nat × MetaMonitorMode) =>
          match best with
          | none => some entry
          | some b =>
            if entry.2.spec.refresh_rate > b.2.spec.refresh_rate then some entry else best)
        best = some b →
        (pre ++ l)[b.1]? = some b.2 ∧
          ∀ x ∈ pre ++ l, x.spec.refresh_rate ≤ b.2.spec.refresh_rate := by
  induction l generalizing pre best with
  | nil =>
    simp only [List.enumFrom_nil, List.foldl_nil, List.append_nil]
    exact ⟨hnone, fun b hb => by simpa using hsome b hb⟩
  | cons x rest ih =>
    have happ : pre ++ x :: rest = (pre ++ [x]) ++ rest := by simp
    have hlen : pre.length + 1 = (pre ++ [x]).length := by simp
    rw [List.enumFrom_cons, List.foldl_cons, happ, hlen]
    apply ih
    · intro hn
      cases best with
      | none => simp at hn
      | some b =>
        dsimp only at hn
        split_ifs at hn
    · intro b2 hb2
      cases best with
      | none =>
        dsimp only at hb2
        cases hb2
        have hpre := hnone rfl
        subst hpre
        simp
      | some b =>
        obtain ⟨h1, h2⟩ := hsome b rfl
        dsimp only at hb2
        by_cases hgt : x.spec.refresh_rate > b.2.spec.refresh_rate
        · rw [if_pos hgt] at hb2
          cases hb2
          have hat : ((pre ++ [x]) ++ rest)[pre.length]? = some x := by
            rw [List.getElem?_append_left (by simp), List.getElem?_append_right (le_refl _)]
            simp
          refine ⟨hat, ?_⟩
          intro y hy
          rcases List.mem_append.1 hy with hy1 | hy1
          · exact le_of_lt (lt_of_le_of_lt (h2 y hy1) hgt)
          · rw [List.mem_singleton.1 hy1]
        · rw [if_neg hgt] at hb2
          cases hb2
          refine ⟨by rw [← happ]; exact h1, ?_⟩
          intro y hy
          rcases List.mem_append.1 hy with hy1 | hy1
          · exact h2 y hy1
          · rw [List.mem_singleton.1 hy1]
            exact not_lt.1 hgt

/-- The position `best_tiled_mode` selects in a non-empty list holds a mode whose
refresh rate is no lower than that of any mode of the list. -/
theorem best_tiled_mode_spec (tiled_modes : List MetaMonitorMode) (h : tiled_modes ≠ []) :
    ∃ p mode, best_tiled_mode tiled_modes = some p ∧ tiled_modes[p]? = some mode ∧
      ∀ other ∈ tiled_modes, other.spec.refresh_rate ≤ mode.spec.refresh_rate := by
  have hfold := best_tiled_mode_fold tiled_modes [] none (fun _ => rfl)
    (fun b hb => Option.noConfusion hb)
  simp only [List.length_nil, List.nil_append] at hfold
  unfold best_tiled_mode List.enum
  cases hres : (tiled_modes.enumFrom 0).foldl
      (fun (best : Option (Nat × MetaMonitorMode)) (entry : Nat × MetaMonitorMode) =>
        match best with
        | none => some entry
        | some b =>
          if entry.2.spec.refresh_rate > b.2.spec.refresh_rate then some entry else best)
      none with
  | none => exact absurd (hfold.1 hres) h
  | some b => exact ⟨b.1, b.2, rfl, (hfold.2 b hres).1, (hfold.2 b hres).2⟩

/-- One step of the loop of `generate_untiled_monitor_modes` keeps a preferred mode that
is already set. -/
theorem generate_untiled_monitor_modes_step_preferred (manager : MetaMonitorManager)
    (main_output : Nat) (monitor : MetaMonitor) (c : Nat) (mode : MetaMonitorMode)
    (result : MetaMonitor)
    (h : generate_untiled_monitor_modes_step manager main_output monitor c mode = some result)
    (hp : monitor.preferred_mode ≠ none) :
    result.preferred_mode = monitor.preferred_mode := by
  unfold generate_untiled_monitor_modes_step at h
  by_cases h1 : is_monitor_mode_assigned manager monitor mode = true ∧
      monitor.current_mode ≠ none
  · rw [if_pos h1] at h
    cases h
  · rw [if_neg h1] at h
    cases h
    dsimp only
    rw [if_neg (fun h2 => hp h2.1)]

/-- The loop of `generate_untiled_monitor_modes` keeps a preferred mode that is already
set. -/
theorem generate_untiled_monitor_modes_loop_preferred (manager : MetaMonitorManager)
    (main_output : Nat) (l : List Nat) (monitor result : MetaMonitor)
    (h : generate_untiled_monitor_modes_loop manager main_output l monitor = some result)
    (hp : monitor.preferred_mode ≠ none) :
    result.preferred_mode = monitor.preferred_mode := by
  induction l generalizing monitor with
  | nil =>
    simp only [generate_untiled_monitor_modes_loop] at h
    cases h
    rfl
  | cons c rest ih =>
    unfold generate_untiled_monitor_modes_loop at h
    cases hc : create_untiled_monitor_mode manager monitor main_output c with
    | none =>
      rw [hc] at h
      exact ih monitor h hp
    | some mode =>
      rw [hc] at h
      dsimp only at h
      cases hs : generate_untiled_monitor_modes_step manager main_output monitor c mode with
      | none => rw [hs] at h; cases h
      | some monitor1 =>
        rw [hs] at h
        dsimp only at h
        have h1 := generate_untiled_monitor_modes_step_preferred manager main_output monitor c
          mode monitor1 hs hp
        rw [ih monitor1 h (by rw [h1]; exact hp), h1]

/-- When at least one tiled mode is built and none of them uses the preferred crtc mode
on every member output, `generate_tiled_monitor_modes` run on a monitor without modes
and without preferred mode selects a tiled mode of highest refresh rate. -/
theorem generate_tiled_monitor_modes_preferred (manager : MetaMonitorManager)
    (base : MetaMonitor) (hb6 : base.modes = []) (hpref : base.preferred_mode = none)
    (hbuilt : tiled_modes_of manager base ≠ [])
    (hnone : ∀ mode ∈ tiled_modes_of manager base,
      ¬ uses_preferred_everywhere manager base mode) :
    ∃ p mode, (generate_tiled_monitor_modes manager base).preferred_mode = some p ∧
      (tiled_modes_of manager base)[p]? = some mode ∧
      ∀ other ∈ tiled_modes_of manager base,
        other.spec.refresh_rate ≤ mode.spec.refresh_rate := by
  have hflag : ∀ c ∈ (manager.output (meta_monitor_get_main_output base)).modes, ∀ mode,
      is_crtc_mode_tiled (manager.output (meta_monitor_get_main_output base))
        (manager.mode c) = true →
      create_tiled_monitor_mode manager base (manager.mode c).refresh_rate ≠
        some (mode, true) := by
    intro c hc mode ht hcr
    have hmem : mode ∈ tiled_modes_of manager base := by
      unfold tiled_modes_of
      rw [List.mem_filterMap]
      refine ⟨c, hc, ?_⟩
      unfold tiled_mode_of
      rw [if_pos ht, hcr]
      rfl
    exact hnone mode hmem (create_tiled_monitor_mode_preferred manager base _ mode hcr)
  obtain ⟨_, e2, e3⟩ := generate_tiled_monitor_modes_fold manager
    (meta_monitor_get_main_output base)
    (manager.output (meta_monitor_get_main_output base)).modes
    { tiled_modes := [], monitor := base }
  have e4 := generate_tiled_monitor_modes_fold_preferred manager
    (meta_monitor_get_main_output base)
    (manager.output (meta_monitor_get_main_output base)).modes
    { tiled_modes := [], monitor := base } hflag
  dsimp only at e2 e3 e4
  rw [List.nil_append] at e3
  obtain ⟨p, mode, hbest, hat, hmax⟩ := best_tiled_mode_spec (tiled_modes_of manager base) hbuilt
  refine ⟨p, mode, ?_, hat, hmax⟩
  unfold generate_tiled_monitor_modes generate_tiled_monitor_modes_loop
  dsimp only
  rw [e4, hpref, if_pos rfl]
  dsimp only
  rw [e3, e2, hb6]
  unfold tiled_modes_of at hbest
  rw [hbest]
  simp

/-- With the same premises, the preferred mode after the whole of
`meta_monitor_tiled_generate_modes` is the one `generate_tiled_monitor_modes` selected. -/
theorem meta_monitor_tiled_generate_modes_preferred (manager : MetaMonitorManager)
    (base result : MetaMonitor)
    (h : meta_monitor_tiled_generate_modes manager base = some result)
    (hb6 : base.modes = []) (hpref : base.preferred_mode = none)
    (hbuilt : tiled_modes_of manager base ≠ [])
    (hnone : ∀ mode ∈ tiled_modes_of manager base,
      ¬ uses_preferred_everywhere manager base mode) :
    ∃ p mode, result.preferred_mode = some p ∧
      (tiled_modes_of manager base)[p]? = some mode ∧
      ∀ other ∈ tiled_modes_of manager base,
        other.spec.refresh_rate ≤ mode.spec.refresh_rate := by
  obtain ⟨p, mode, hp, hat, hmax⟩ :=
    generate_tiled_monitor_modes_preferred manager base hb6 hpref hbuilt hnone
  refine ⟨p, mode, ?_, hat, hmax⟩
  unfold meta_monitor_tiled_generate_modes at h
  cases hu : generate_untiled_monitor_modes manager
      (generate_tiled_monitor_modes manager base) with
  | none => rw [hu] at h; cases h
  | some monitor1 =>
    rw [hu] at h
    dsimp only at h
    unfold generate_untiled_monitor_modes at hu
    have hkeep := generate_untiled_monitor_modes_loop_preferred manager _ _ _ _ hu
      (by rw [hp]; exact Option.some_ne_none p)
    have hne : ¬ monitor1.preferred_mode = none := by
      rw [hkeep, hp]
      exact Option.some_ne_none p
    rw [if_neg hne] at h
    cases h
    rw [hkeep, hp]

/-- The tiled modes built for a monitor depend on its frame only. -/
theorem tiled_modes_of_same_frame (manager : MetaMonitorManager) {a b : MetaMonitor}
    (h : same_frame a b) : tiled_modes_of manager a = tiled_modes_of manager b := by
  unfold tiled_modes_of
  rw [main_output_of_same_frame h, tiled_mode_of_congr manager _ a b h.2.1]

/-- The preferred mode of a monitor produced by `meta_monitor_tiled_generate_modes` from
a tiled monitor without modes and without preferred mode, stated on the result. -/
theorem tiled_generate_modes_preferred_of_result (manager : MetaMonitorManager)
    (base monitor : MetaMonitor)
    (h : meta_monitor_tiled_generate_modes manager base = some monitor)
    (hb1 : base.is_tiled = true) (hb6 : base.modes = []) (hpref : base.preferred_mode = none)
    (hbuilt : tiled_modes_of manager monitor ≠ [])
    (hnone : ∀ mode ∈ tiled_modes_of manager monitor,
      ¬ uses_preferred_everywhere manager monitor mode) :
    ∃ p mode, monitor.preferred_mode = some p ∧
      (tiled_modes_of manager monitor)[p]? = some mode ∧
      monitor.modes[p]? = some mode ∧
      ∀ other ∈ tiled_modes_of manager monitor,
        other.spec.refresh_rate ≤ mode.spec.refresh_rate := by
  obtain ⟨f, hmodes⟩ := meta_monitor_tiled_generate_modes_spec manager base monitor h hb1 hb6
  have ht := tiled_modes_of_same_frame manager f
  rw [ht] at hbuilt hnone ⊢
  have hnone2 : ∀ mode ∈ tiled_modes_of manager base,
      ¬ uses_preferred_everywhere manager base mode := by
    intro mode hmem huses
    apply hnone mode hmem
    unfold uses_preferred_everywhere at huses ⊢
    rw [f.2.1]
    exact huses
  obtain ⟨p, mode, hp, hat, hmax⟩ :=
    meta_monitor_tiled_generate_modes_preferred manager base monitor h hb6 hpref hbuilt hnone2
  refine ⟨p, mode, hp, hat, ?_, hmax⟩
  have hmain : meta_monitor_get_main_output base = base.main_output := by
    unfold meta_monitor_get_main_output
    rw [hb1]
    rfl
  have hlt : p < (tiled_modes_of manager base).length := by
    by_contra hge
    rw [List.getElem?_eq_none (not_lt.1 hge)] at hat
    cases hat
  unfold tiled_modes_of at hat hlt
  rw [hmain] at hat hlt
  rw [hmodes, List.getElem?_append_left hlt]
  exact hat

/-- C20: `meta_monitor_tiled_new` completes for an output of the table when every
output lists each of its modes at most once; and for every tiled monitor it returns, if
at least one tiled monitor mode was built and none of them uses the hardware-preferred
crtc mode on every member output, then the preferred mode of the monitor is at the
position of one of the tiled modes (the tiled modes come first in the mode list, so it is
not an untiled mode), and its refresh rate is greater than or equal to that of every
tiled mode. -/
theorem tiled_preferred_is_highest_rate (manager : MetaMonitorManager) (output : Nat) :
    (output < manager.outputs.length → (∀ out ∈ manager.outputs, out.modes.Nodup) →
        ∃ monitor, meta_monitor_tiled_new manager output = some monitor) ∧
      ∀ monitor, meta_monitor_tiled_new manager output = some monitor →
        tiled_modes_of manager monitor ≠ [] →
        (∀ mode ∈ tiled_modes_of manager monitor,
          ¬ uses_preferred_everywhere manager monitor mode) →
        ∃ p mode, monitor.preferred_mode = some p ∧
          (tiled_modes_of manager monitor)[p]? = some mode ∧
          monitor.modes[p]? = some mode ∧
          ∀ other ∈ tiled_modes_of manager monitor,
            other.spec.refresh_rate ≤ mode.spec.refresh_rate := by
  refine ⟨fun ho hnd => meta_monitor_tiled_new_completes manager output ho hnd, ?_⟩
  intro monitor h hbuilt hnone
  unfold meta_monitor_tiled_new at h
  dsimp only at h
  rw [add_tiled_monitor_outputs_spec] at h
  exact tiled_generate_modes_preferred_of_result manager _ monitor h rfl rfl rfl hbuilt hnone

/-- C20 at the two-tile panel whose outputs prefer the mode of 640 x 480: the monitor
built from output 0 has the tiled modes of rates 30 and 60, neither all-preferred, and
its preferred mode is a tiled mode of highest rate. -/
theorem tiled_preferred_is_highest_rate_witness :
    meta_monitor_tiled_new sample_unpreferred_tiles_manager 0 =
        some sample_unpreferred_tiles_monitor ∧
      ∃ p mode, sample_unpreferred_tiles_monitor.preferred_mode = some p ∧
        (tiled_modes_of sample_unpreferred_tiles_manager
          sample_unpreferred_tiles_monitor)[p]? = some mode ∧
        sample_unpreferred_tiles_monitor.modes[p]? = some mode ∧
        ∀ other ∈ tiled_modes_of sample_unpreferred_tiles_manager
            sample_unpreferred_tiles_monitor,
          other.spec.refresh_rate ≤ mode.spec.refresh_rate :=
  ⟨by decide,
   (tiled_preferred_is_highest_rate sample_unpreferred_tiles_manager 0).2
      sample_unpreferred_tiles_monitor (by decide) (by decide)
      (by
        intro mode hmem huses
        have hmodes : tiled_modes_of sample_unpreferred_tiles_manager
            sample_unpreferred_tiles_monitor =
            [sample_unpreferred_rate_30_mode, sample_unpreferred_rate_60_mode] := by decide
        rw [hmodes] at hmem
        have h0 := huses 0 0 (by decide)
        rcases List.mem_cons.1 hmem with h | h
        · subst h
          exact absurd h0 (by decide)
        · rw [List.mem_singleton.1 h] at h0
          exact absurd h0 (by decide))⟩

/-- C18: at the two-tile panel `sample_driver_manager`, the monitor built from the
origin output 0 takes output 1 as its untiled driver, and its tiled monitor modes are
generated from the mode list of output 1: a single tiled mode, of rate 60.  Generated
from the origin output, as the claim and the comment in
`meta_monitor_tiled_generate_modes` say, there would be two, of rates 60 and 30, one for
each cell-sized mode of output 0. -/
theorem tiled_modes_follow_untiled_driver :
    (meta_monitor_tiled_new sample_driver_manager 0).map
        (fun monitor =>
          (monitor.origin_output, monitor.main_output,
            (tiled_modes_of sample_driver_manager monitor).map
              (fun mode => mode.spec.refresh_rate),
            (tiled_modes_from_origin sample_driver_manager monitor).map
              (fun mode => mode.spec.refresh_rate),
            monitor.modes.map (fun mode => (mode.spec.width, mode.spec.refresh_rate)))) =
        some (0, 1, [60], [60, 30], [(3840, 60), (640, 60), (800, 60)]) ∧
      (sample_driver_manager.output 0).modes = [0, 1] ∧
      is_crtc_mode_tiled (sample_driver_manager.output 0) (sample_driver_manager.mode 1) = true ∧
      (sample_driver_manager.mode 1).refresh_rate = 30 := by
  exact ⟨rfl, rfl, rfl, rfl⟩

/-! ## Properties of the XRandR apply -/

/-- C16: at `sample_second_output_manager`, where the crtc with id 10 drives the output
at index 1 of the table and nothing else, the request that restates the present state
of that crtc (same mode, position, transform and output set) still sends
`XRRSetCrtcConfig` for crtc 10: `old_controlled_mask` has bit 1 set, the table index of
the output, and `new_controlled_mask` bit 0, its position in the list of the request.
None of the three disabling phases touches the crtc.  With the lit connector at index 0
of the table the same request sends no `XRRSetCrtcConfig`. -/
theorem unchanged_crtc_is_reconfigured :
    (∀ crtc_info ∈ sample_unchanged_crtc_infos,
        crtc_info_restates_state sample_second_output_manager crtc_info) ∧
      old_controlled_mask sample_second_output_manager 0 = 2 ∧
      new_controlled_mask [1] = 1 ∧
      (meta_monitor_manager_xrandr_apply_configuration sample_xrandr_env
          sample_second_output_manager sample_unchanged_crtc_infos
          sample_unchanged_output_infos).map
        (fun result => (result.requests, result.manager.crtcs)) =
        some ([XrandrRequest.SetScreenSize 1920 1080 508 286,
                XrandrRequest.SetCrtcConfig 10 0 0 (some 100) 1 [21],
                XrandrRequest.SetOutputPrimary 21,
                XrandrRequest.SetPresentation 21 false],
              sample_second_output_manager.crtcs) ∧
      (meta_monitor_manager_xrandr_apply_configuration sample_xrandr_env
          sample_second_output_manager sample_unchanged_crtc_infos
          sample_unchanged_output_infos).map
        (fun result => result.requests.any (reconfigures_crtc 10)) = some true ∧
      (meta_monitor_manager_xrandr_apply_configuration sample_xrandr_env
          sample_first_output_manager
          [{ crtc := 0, mode := some 0, x := 0, y := 0, transform := 0, outputs := [0] }]
          [{ output := 0, is_primary := true }]).map
        (fun result => result.requests.any (reconfigures_crtc 10)) = some false := by
  refine ⟨?_, by decide, by decide, rfl, rfl, rfl⟩
  intro crtc_info hmem
  simp only [sample_unchanged_crtc_infos, List.mem_singleton] at hmem
  subst hmem
  unfold crtc_info_restates_state
  decide

/-! ## Properties of the untiled driver and of the best mode -/

/-- The loop of `count_untiled_crtc_modes` adds the number of non-cell-sized modes to
its start value. -/
theorem count_untiled_fold (manager : MetaMonitorManager) (output : MetaOutput)
    (l : List Nat) (count : Int) :
    l.foldl
        (fun (count : Int) (crtc_mode : Nat) =>
          if !(is_crtc_mode_tiled output (manager.mode crtc_mode)) then count + 1 else count)
        count =
      count + ((l.filter
        (fun crtc_mode => !(is_crtc_mode_tiled output (manager.mode crtc_mode)))).length : Int) := by
  induction l generalizing count with
  | nil => simp
  | cons c rest ih =>
    rw [List.foldl_cons, ih]
    cases h : is_crtc_mode_tiled output (manager.mode c) with
    | true => simp [List.filter_cons, h]
    | false =>
      simp only [List.filter_cons, h, Bool.not_false, if_true, List.length_cons,
        Nat.cast_add, Nat.cast_one]
      ring

/-- The function `count_untiled_crtc_modes` counts the non-cell-sized modes. -/
theorem count_untiled_crtc_modes_spec (manager : MetaMonitorManager) (output : Nat) :
    count_untiled_crtc_modes manager (manager.output output) =
      untiled_mode_count manager output := by
  unfold count_untiled_crtc_modes untiled_mode_count
  rw [count_untiled_fold]
  simp

/-- The loop of `find_untiled_output`, started with a best output and its count: the
result carries the count of its output, that count is at least the start count and at
least the count of every output visited other than the origin, and the best output is
kept when no output visited has a greater count. -/
theorem find_untiled_output_fold (manager : MetaMonitorManager) (origin : Nat)
    (l : List Nat) (best : Nat × Int)
    (hbest : best.2 = count_untiled_crtc_modes manager (manager.output best.1)) :
    (l.foldl
        (fun (best : Nat × Int) (output : Nat) =>
          if output = origin then best
          else if count_untiled_crtc_modes manager (manager.output output) > best.2 then
            (output, count_untiled_crtc_modes manager (manager.output output))
          else best) best).2 =
        count_untiled_crtc_modes manager (manager.output
          (l.foldl
            (fun (best : Nat × Int) (output : Nat) =>
              if output = origin then best
              else if count_untiled_crtc_modes manager (manager.output output) > best.2 then
                (output, count_untiled_crtc_modes manager (manager.output output))
              else best) best).1) ∧
      best.2 ≤ (l.foldl
        (fun (best : Nat × Int) (output : Nat) =>
          if output = origin then best
          else if count_untiled_crtc_modes manager (manager.output output) > best.2 then
            (output, count_untiled_crtc_modes manager (manager.output output))
          else best) best).2 ∧
      (∀ o ∈ l, o ≠ origin →
        count_untiled_crtc_modes manager (manager.output o) ≤
          (l.foldl
            (fun (best : Nat × Int) (output : Nat) =>
              if output = origin then best
              else if count_untiled_crtc_modes manager (manager.output output) > best.2 then
                (output, count_untiled_crtc_modes manager (manager.output output))
              else best) best).2) ∧
      ((∀ o ∈ l, count_untiled_crtc_modes manager (manager.output o) ≤ best.2) →
        l.foldl
          (fun (best : Nat × Int) (output : Nat) =>
            if output = origin then best
            else if count_untiled_crtc_modes manager (manager.output output) > best.2 then
              (output, count_untiled_crtc_modes manager (manager.output output))
            else best) best = best) := by
  induction l generalizing best with
  | nil => exact ⟨hbest, le_refl _, fun o ho => absurd ho (List.not_mem_nil o), fun _ => rfl⟩
  | cons o rest ih =>
    rw [List.foldl_cons]
    by_cases h1 : o = origin
    · rw [if_pos h1]
      obtain ⟨e1, e2, e3, e4⟩ := ih best hbest
      refine ⟨e1, e2, ?_, ?_⟩
      · intro o2 ho2 hne
        rcases List.mem_cons.1 ho2 with h | h
        · exact absurd (h.trans h1) hne
        · exact e3 o2 h hne
      · intro hall
        exact e4 (fun o2 ho2 => hall o2 (List.mem_cons_of_mem _ ho2))
    · rw [if_neg h1]
      by_cases h2 : count_untiled_crtc_modes manager (manager.output o) > best.2
      · rw [if_pos h2]
        obtain ⟨e1, e2, e3, _⟩ :=
          ih (o, count_untiled_crtc_modes manager (manager.output o)) rfl
        refine ⟨e1, le_trans (le_of_lt h2) e2, ?_, ?_⟩
        · intro o2 ho2 hne
          rcases List.mem_cons.1 ho2 with h | h
          · rw [h]
            exact e2
          · exact e3 o2 h hne
        · intro hall
          exact absurd (hall o (List.mem_cons_self _ _)) (not_le.2 h2)
      · rw [if_neg h2]
        obtain ⟨e1, e2, e3, e4⟩ := ih best hbest
        refine ⟨e1, e2, ?_, ?_⟩
        · intro o2 ho2 hne
          rcases List.mem_cons.1 ho2 with h | h
          · rw [h]
            exact le_trans (not_lt.1 h2) e2
          · exact e3 o2 h hne
        · intro hall
          exact e4 (fun o2 ho2 => hall o2 (List.mem_cons_of_mem _ ho2))

/-- The output `find_untiled_output` chooses has a count of non-cell-sized modes that no
member output and not the origin output exceeds, and it is the origin output when no
member output has a greater count than the origin output. -/
theorem find_untiled_output_spec (manager : MetaMonitorManager) (monitor : MetaMonitor) :
    (∀ o ∈ monitor.outputs,
        untiled_mode_count manager o ≤
          untiled_mode_count manager (find_untiled_output manager monitor)) ∧
      untiled_mode_count manager monitor.origin_output ≤
        untiled_mode_count manager (find_untiled_output manager monitor) ∧
      ((∀ o ∈ monitor.outputs,
          untiled_mode_count manager o ≤ untiled_mode_count manager monitor.origin_output) →
        find_untiled_output manager monitor = monitor.origin_output) := by
  obtain ⟨e1, e2, e3, e4⟩ := find_untiled_output_fold manager monitor.origin_output
    monitor.outputs
    (monitor.origin_output,
      count_untiled_crtc_modes manager (manager.output monitor.origin_output)) rfl
  simp only [← count_untiled_crtc_modes_spec]
  unfold find_untiled_output
  dsimp only at e1 e2 e3 e4
  refine ⟨?_, ?_, ?_⟩
  · intro o ho
    by_cases h : o = monitor.origin_output
    · rw [h, ← e1]
      exact e2
    · rw [← e1]
      exact e3 o ho h
  · rw [← e1]
    exact e2
  · intro hall
    rw [e4 hall]

/-- C21: for every tiled monitor whose origin output is one of its member outputs, the
output `find_untiled_output` chooses is a member output, its number of non-cell-sized
modes is at least that of every member output, and it is the origin output whenever the
origin output attains that maximum; `count_untiled_crtc_modes` is that number.  A
monitor built by `meta_monitor_tiled_new` from an output of the table has its origin
among its members and the chosen output as its `main_output`. -/
theorem untiled_driver_has_most_untiled_modes (manager : MetaMonitorManager)
    (monitor : MetaMonitor) :
    (monitor.origin_output ∈ monitor.outputs →
        find_untiled_output manager monitor ∈ monitor.outputs ∧
        (∀ o ∈ monitor.outputs,
          untiled_mode_count manager o ≤
            untiled_mode_count manager (find_untiled_output manager monitor)) ∧
        ((∀ o ∈ monitor.outputs,
            untiled_mode_count manager o ≤
              untiled_mode_count manager monitor.origin_output) →
          find_untiled_output manager monitor = monitor.origin_output)) ∧
      (∀ o : Nat, count_untiled_crtc_modes manager (manager.output o) =
        untiled_mode_count manager o) ∧
      (∀ output : Nat, meta_monitor_tiled_new manager output = some monitor →
        output < manager.outputs.length →
        monitor.origin_output ∈ monitor.outputs ∧
          monitor.main_output = find_untiled_output manager monitor) := by
  refine ⟨?_, count_untiled_crtc_modes_spec manager, ?_⟩
  · intro h
    obtain ⟨e1, _, e3⟩ := find_untiled_output_spec manager monitor
    exact ⟨find_untiled_output_mem manager monitor h, e1, e3⟩
  · intro output hnew ho
    have hspec := meta_monitor_tiled_new_spec manager output monitor hnew
    refine ⟨?_, hspec.2.2.2.2.1⟩
    rw [hspec.2.2.1]
    exact origin_mem_outputs manager output monitor hnew ho

/-- C21 at the two-tile panel `sample_driver_manager`: among outputs 0 and 1 of the
monitor built from output 0, output 1 is chosen, and no member has more non-cell-sized
modes than it. -/
theorem untiled_driver_has_most_untiled_modes_witness :
    find_untiled_output sample_driver_manager
        { is_tiled := true, outputs := [0, 1], origin_output := 0 } = 1 ∧
      find_untiled_output sample_driver_manager
        { is_tiled := true, outputs := [0, 1], origin_output := 0 } ∈ [0, 1] ∧
      ∀ o ∈ [0, 1],
        untiled_mode_count sample_driver_manager o ≤
          untiled_mode_count sample_driver_manager
            (find_untiled_output sample_driver_manager
              { is_tiled := true, outputs := [0, 1], origin_output := 0 }) :=
  ⟨by decide,
   ((untiled_driver_has_most_untiled_modes sample_driver_manager
      { is_tiled := true, outputs := [0, 1], origin_output := 0 }).1 (by decide)).1,
   ((untiled_driver_has_most_untiled_modes sample_driver_manager
      { is_tiled := true, outputs := [0, 1], origin_output := 0 }).1 (by decide)).2.1⟩

/-- C22: on the list of 1600 x 1200 at rate 30 followed by 640 x 480 at rate 60,
`find_best_mode` returns the second mode, whose area is not the greatest of the list:
the test of the refresh rate is made whenever the area is not greater, also when it is
smaller.  The list is the one `meta_monitor_tiled_new` builds for the panel
`sample_no_tiled_mode_manager`, whose preferred mode becomes the mode of 640 x 480. -/
theorem best_mode_prefers_rate_over_area :
    find_best_mode sample_two_modes_monitor = some 1 ∧
      sample_two_modes_monitor.modes.map
          (fun mode => (mode.spec.width * mode.spec.height, mode.spec.refresh_rate)) =
        [(1920000, 30), (307200, 60)] ∧
      (meta_monitor_tiled_new sample_no_tiled_mode_manager 0).map
          (fun monitor =>
            (monitor.preferred_mode,
              monitor.modes.map
                (fun mode => (mode.spec.width, mode.spec.height, mode.spec.refresh_rate)))) =
        some (some 1, [(1600, 1200, 30), (640, 480, 60)]) := by
  exact ⟨rfl, rfl, rfl⟩

/-! ## Properties of the derived layout -/

/-- A running minimum over a list is below its start value and every element, and it is
the start value or an element. -/
theorem foldl_min_spec (xs : List Int) (a : Int) :
    xs.foldl (fun acc x => min x acc) a ≤ a ∧
      (∀ x ∈ xs, xs.foldl (fun acc x => min x acc) a ≤ x) ∧
      (xs.foldl (fun acc x => min x acc) a = a ∨ xs.foldl (fun acc x => min x acc) a ∈ xs) := by
  induction xs generalizing a with
  | nil => simp
  | cons x rest ih =>
    rw [List.foldl_cons]
    obtain ⟨e1, e2, e3⟩ := ih (min x a)
    refine ⟨le_trans e1 (min_le_right _ _), ?_, ?_⟩
    · intro y hy
      rcases List.mem_cons.1 hy with h | h
      · rw [h]
        exact le_trans e1 (min_le_left _ _)
      · exact e2 y h
    · rcases e3 with h | h
      · rcases min_choice x a with hc | hc
        · right
          rw [h, hc]
          exact List.mem_cons_self _ _
        · left
          rw [h, hc]
      · right
        exact List.mem_cons_of_mem _ h

/-- A running maximum over a list is above its start value and every element, and it is
the start value or an element. -/
theorem foldl_max_spec (xs : List Int) (a : Int) :
    a ≤ xs.foldl (fun acc x => max x acc) a ∧
      (∀ x ∈ xs, x ≤ xs.foldl (fun acc x => max x acc) a) ∧
      (xs.foldl (fun acc x => max x acc) a = a ∨ xs.foldl (fun acc x => max x acc) a ∈ xs) := by
  induction xs generalizing a with
  | nil => simp
  | cons x rest ih =>
    rw [List.foldl_cons]
    obtain ⟨e1, e2, e3⟩ := ih (max x a)
    refine ⟨le_trans (le_max_right _ _) e1, ?_, ?_⟩
    · intro y hy
      rcases List.mem_cons.1 hy with h | h
      · rw [h]
        exact le_trans (le_max_left _ _) e1
      · exact e2 y h
    · rcases e3 with h | h
      · rcases max_choice x a with hc | hc
        · right
          rw [h, hc]
          exact List.mem_cons_self _ _
        · left
          rw [h, hc]
      · right
        exact List.mem_cons_of_mem _ h

/-- The four bounds the loop of `meta_monitor_derived_derive_layout` ends with are the
running minima of the left and top edges and the running maxima of the right and bottom
edges, computed in 32 bits, of the live crtc rectangles. -/
theorem derive_layout_fold (manager : MetaMonitorManager) (l : List Nat)
    (bounds : LayoutBounds) :
    (l.foldl (derive_layout_step manager) bounds).min_x =
        ((l.filterMap (fun output => (manager.output output).crtc.map
            (fun crtc => (manager.crtc crtc).rect))).map (fun r => r.x)).foldl
          (fun acc x => min x acc) bounds.min_x ∧
      (l.foldl (derive_layout_step manager) bounds).min_y =
        ((l.filterMap (fun output => (manager.output output).crtc.map
            (fun crtc => (manager.crtc crtc).rect))).map (fun r => r.y)).foldl
          (fun acc y => min y acc) bounds.min_y ∧
      (l.foldl (derive_layout_step manager) bounds).max_x =
        ((l.filterMap (fun output => (manager.output output).crtc.map
            (fun crtc => (manager.crtc crtc).rect))).map
              (fun r => int_wrap (r.x + r.width))).foldl
          (fun acc x => max x acc) bounds.max_x ∧
      (l.foldl (derive_layout_step manager) bounds).max_y =
        ((l.filterMap (fun output => (manager.output output).crtc.map
            (fun crtc => (manager.crtc crtc).rect))).map
              (fun r => int_wrap (r.y + r.height))).foldl
          (fun acc y => max y acc) bounds.max_y := by
  induction l generalizing bounds with
  | nil => exact ⟨rfl, rfl, rfl, rfl⟩
  | cons o rest ih =>
    rw [List.foldl_cons]
    unfold derive_layout_step
    cases hc : (manager.output o).crtc with
    | none =>
      simp only [List.filterMap_cons, hc, Option.map_none']
      exact ih bounds
    | some crtc =>
      simp only [List.filterMap_cons, hc, Option.map_some', List.map_cons, List.foldl_cons]
      exact ih _

/-- The layout of a tiled monitor, read off the running bounds when no `int` operation
of the function overflows: its left and top edge are the running minima, its right and
bottom edge the running maxima. -/
theorem derived_layout_edges (manager : MetaMonitorManager) (monitor : MetaMonitor)
    (hne : live_crtc_rects manager monitor ≠ [])
    (hint : ∀ r ∈ live_crtc_rects manager monitor, r.x ≤ INT_MAX ∧ r.y ≤ INT_MAX)
    (hsum : ∀ r ∈ live_crtc_rects manager monitor,
      fits_int (r.x + r.width) ∧ fits_int (r.y + r.height))
    (hext : ∀ r ∈ live_crtc_rects manager monitor, ∀ s ∈ live_crtc_rects manager monitor,
      fits_int (max 0 (r.x + r.width) - s.x) ∧ fits_int (max 0 (r.y + r.height) - s.y)) :
    (meta_monitor_derived_derive_layout manager monitor).x =
        ((live_crtc_rects manager monitor).map (fun r => r.x)).foldl
          (fun acc x => min x acc) INT_MAX ∧
      (meta_monitor_derived_derive_layout manager monitor).y =
        ((live_crtc_rects manager monitor).map (fun r => r.y)).foldl
          (fun acc y => min y acc) INT_MAX ∧
      (meta_monitor_derived_derive_layout manager monitor).x +
          (meta_monitor_derived_derive_layout manager monitor).width =
        ((live_crtc_rects manager monitor).map (fun r => r.x + r.width)).foldl
          (fun acc x => max x acc) 0 ∧
      (meta_monitor_derived_derive_layout manager monitor).y +
          (meta_monitor_derived_derive_layout manager monitor).height =
        ((live_crtc_rects manager monitor).map (fun r => r.y + r.height)).foldl
          (fun acc y => max y acc) 0 := by
  obtain ⟨e1, e2, e3, e4⟩ := derive_layout_fold manager monitor.outputs
    ⟨INT_MAX, INT_MAX, 0, 0⟩
  have hw : (live_crtc_rects manager monitor).map (fun r => int_wrap (r.x + r.width)) =
      (live_crtc_rects manager monitor).map (fun r => r.x + r.width) :=
    List.map_congr_left (fun r hr => int_wrap_of_fits _ (hsum r hr).1)
  have hh : (live_crtc_rects manager monitor).map (fun r => int_wrap (r.y + r.height)) =
      (live_crtc_rects manager monitor).map (fun r => r.y + r.height) :=
    List.map_congr_left (fun r hr => int_wrap_of_fits _ (hsum r hr).2)
  obtain ⟨x1, x2, x3⟩ := foldl_min_spec
    ((live_crtc_rects manager monitor).map (fun r => r.x)) INT_MAX
  obtain ⟨y1, y2, y3⟩ := foldl_min_spec
    ((live_crtc_rects manager monitor).map (fun r => r.y)) INT_MAX
  obtain ⟨r1, r2, r3⟩ := foldl_max_spec
    ((live_crtc_rects manager monitor).map (fun r => r.x + r.width)) 0
  obtain ⟨b1, b2, b3⟩ := foldl_max_spec
    ((live_crtc_rects manager monitor).map (fun r => r.y + r.height)) 0
  obtain ⟨r0, hr0⟩ := List.exists_mem_of_ne_nil _ hne
  -- the left and top edge are those of a live rectangle
  have hleft : ∃ s ∈ live_crtc_rects manager monitor,
      ((live_crtc_rects manager monitor).map (fun r => r.x)).foldl
        (fun acc x => min x acc) INT_MAX = s.x := by
    rcases x3 with h | h
    · exact ⟨r0, hr0, le_antisymm (x2 _ (List.mem_map.2 ⟨r0, hr0, rfl⟩))
        (le_of_le_of_eq (hint r0 hr0).1 h.symm)⟩
    · obtain ⟨r, hr, hrx⟩ := List.mem_map.1 h
      exact ⟨r, hr, hrx.symm⟩
  have htop : ∃ s ∈ live_crtc_rects manager monitor,
      ((live_crtc_rects manager monitor).map (fun r => r.y)).foldl
        (fun acc y => min y acc) INT_MAX = s.y := by
    rcases y3 with h | h
    · exact ⟨r0, hr0, le_antisymm (y2 _ (List.mem_map.2 ⟨r0, hr0, rfl⟩))
        (le_of_le_of_eq (hint r0 hr0).2 h.symm)⟩
    · obtain ⟨r, hr, hry⟩ := List.mem_map.1 h
      exact ⟨r, hr, hry.symm⟩
  -- the right and bottom edge are 0 or those of a live rectangle
  have hright : ∃ r ∈ live_crtc_rects manager monitor,
      ((live_crtc_rects manager monitor).map (fun r => r.x + r.width)).foldl
        (fun acc x => max x acc) 0 = max 0 (r.x + r.width) := by
    rcases r3 with h | h
    · refine ⟨r0, hr0, ?_⟩
      have hle := r2 _ (List.mem_map.2 ⟨r0, hr0, rfl⟩)
      rw [h] at hle ⊢
      exact (max_eq_left hle).symm
    · obtain ⟨r, hr, hrx⟩ := List.mem_map.1 h
      refine ⟨r, hr, ?_⟩
      rw [← hrx] at r1 ⊢
      exact (max_eq_right r1).symm
  have hbottom : ∃ r ∈ live_crtc_rects manager monitor,
      ((live_crtc_rects manager monitor).map (fun r => r.y + r.height)).foldl
        (fun acc y => max y acc) 0 = max 0 (r.y + r.height) := by
    rcases b3 with h | h
    · refine ⟨r0, hr0, ?_⟩
      have hle := b2 _ (List.mem_map.2 ⟨r0, hr0, rfl⟩)
      rw [h] at hle ⊢
      exact (max_eq_left hle).symm
    · obtain ⟨r, hr, hry⟩ := List.mem_map.1 h
      refine ⟨r, hr, ?_⟩
      rw [← hry] at b1 ⊢
      exact (max_eq_right b1).symm
  unfold meta_monitor_derived_derive_layout
  unfold live_crtc_rects at hw hh hleft htop hright hbottom ⊢
  dsimp only at e1 e2 e3 e4 ⊢
  rw [e1, e2, e3, e4, hw, hh]
  obtain ⟨sl, hsl, el⟩ := hleft
  obtain ⟨st, hst, et⟩ := htop
  obtain ⟨rr, hrr, er⟩ := hright
  obtain ⟨rb, hrb, eb⟩ := hbottom
  refine ⟨rfl, rfl, ?_, ?_⟩
  · rw [int_wrap_of_fits _ (by rw [er, el]; exact (hext rr hrr sl hsl).1)]
    ring
  · rw [int_wrap_of_fits _ (by rw [eb, et]; exact (hext rb hrb st hst).2)]
    ring

/-- C25 as stated fails for a crtc left of and above the origin: with the only live
crtc of the tiled monitor at (-3000, -2000) and of size 1920 x 1080, the layout is
(-3000, -2000, 3000, 2000), so its right and bottom edges are 0 and 0, not the edges
-1080 and -920 of the crtc rectangle. -/
theorem derived_layout_counterexample :
    live_crtc_rects sample_negative_layout_manager scenario_tiled_monitor =
        [⟨-3000, -2000, 1920, 1080⟩] ∧
      meta_monitor_derived_derive_layout sample_negative_layout_manager
        scenario_tiled_monitor = ⟨-3000, -2000, 3000, 2000⟩ ∧
      meta_monitor_derive_layout sample_negative_layout_manager scenario_tiled_monitor =
        some ⟨-3000, -2000, 3000, 2000⟩ := by
  decide

/-- C25 (amended): for every tiled monitor with at least one member output that has a
crtc, when no `int` operation of the function overflows (the crtc positions are `int`
values, the right and bottom edge of every crtc rectangle are representable in an `int`,
and so are the differences between the greater of 0 and a right or bottom edge and a
left or top edge), the layout `meta_monitor_derive_layout` returns, that of
`meta_monitor_derived_derive_layout`, has as x and y the minimum left and top edge of
the crtc rectangles of the member outputs that have a crtc; its right edge x + width and
bottom edge y + height are at least every right and bottom edge of those rectangles and
at least 0; the right edge is the maximum right edge when some rectangle has a right
edge that is not negative, and 0 otherwise, and likewise the bottom edge. -/
theorem derived_layout_encloses_live_rects (manager : MetaMonitorManager)
    (monitor : MetaMonitor)
    (hne : live_crtc_rects manager monitor ≠ [])
    (hint : ∀ r ∈ live_crtc_rects manager monitor, r.x ≤ INT_MAX ∧ r.y ≤ INT_MAX)
    (hsum : ∀ r ∈ live_crtc_rects manager monitor,
      fits_int (r.x + r.width) ∧ fits_int (r.y + r.height))
    (hext : ∀ r ∈ live_crtc_rects manager monitor, ∀ s ∈ live_crtc_rects manager monitor,
      fits_int (max 0 (r.x + r.width) - s.x) ∧ fits_int (max 0 (r.y + r.height) - s.y)) :
    (monitor.is_tiled = true →
        meta_monitor_derive_layout manager monitor =
          some (meta_monitor_derived_derive_layout manager monitor)) ∧
      (∀ r ∈ live_crtc_rects manager monitor,
        (meta_monitor_derived_derive_layout manager monitor).x ≤ r.x ∧
        (meta_monitor_derived_derive_layout manager monitor).y ≤ r.y ∧
        r.x + r.width ≤ (meta_monitor_derived_derive_layout manager monitor).x +
          (meta_monitor_derived_derive_layout manager monitor).width ∧
        r.y + r.height ≤ (meta_monitor_derived_derive_layout manager monitor).y +
          (meta_monitor_derived_derive_layout manager monitor).height) ∧
      (∃ r ∈ live_crtc_rects manager monitor,
        (meta_monitor_derived_derive_layout manager monitor).x = r.x) ∧
      (∃ r ∈ live_crtc_rects manager monitor,
        (meta_monitor_derived_derive_layout manager monitor).y = r.y) ∧
      0 ≤ (meta_monitor_derived_derive_layout manager monitor).x +
        (meta_monitor_derived_derive_layout manager monitor).width ∧
      0 ≤ (meta_monitor_derived_derive_layout manager monitor).y +
        (meta_monitor_derived_derive_layout manager monitor).height ∧
      ((∃ r ∈ live_crtc_rects manager monitor, 0 ≤ r.x + r.width) →
        ∃ r ∈ live_crtc_rects manager monitor,
          (meta_monitor_derived_derive_layout manager monitor).x +
            (meta_monitor_derived_derive_layout manager monitor).width = r.x + r.width) ∧
      ((∃ r ∈ live_crtc_rects manager monitor, 0 ≤ r.y + r.height) →
        ∃ r ∈ live_crtc_rects manager monitor,
          (meta_monitor_derived_derive_layout manager monitor).y +
            (meta_monitor_derived_derive_layout manager monitor).height = r.y + r.height) ∧
      ((∀ r ∈ live_crtc_rects manager monitor, r.x + r.width < 0) →
        (meta_monitor_derived_derive_layout manager monitor).x +
          (meta_monitor_derived_derive_layout manager monitor).width = 0) ∧
      ((∀ r ∈ live_crtc_rects manager monitor, r.y + r.height < 0) →
        (meta_monitor_derived_derive_layout manager monitor).y +
          (meta_monitor_derived_derive_layout manager monitor).height = 0) := by
  refine ⟨fun ht => by unfold meta_monitor_derive_layout; rw [if_pos ht], ?_⟩
  obtain ⟨ex, ey, er, eb⟩ := derived_layout_edges manager monitor hne hint hsum hext
  rw [er, eb, ex, ey]
  obtain ⟨x1, x2, x3⟩ := foldl_min_spec
    ((live_crtc_rects manager monitor).map (fun r => r.x)) INT_MAX
  obtain ⟨y1, y2, y3⟩ := foldl_min_spec
    ((live_crtc_rects manager monitor).map (fun r => r.y)) INT_MAX
  obtain ⟨r1, r2, r3⟩ := foldl_max_spec
    ((live_crtc_rects manager monitor).map (fun r => r.x + r.width)) 0
  obtain ⟨b1, b2, b3⟩ := foldl_max_spec
    ((live_crtc_rects manager monitor).map (fun r => r.y + r.height)) 0
  obtain ⟨r0, hr0⟩ := List.exists_mem_of_ne_nil _ hne
  refine ⟨?_, ?_, ?_, r1, b1, ?_, ?_, ?_, ?_⟩
  · intro r hr
    exact ⟨x2 _ (List.mem_map.2 ⟨r, hr, rfl⟩), y2 _ (List.mem_map.2 ⟨r, hr, rfl⟩),
      r2 _ (List.mem_map.2 ⟨r, hr, rfl⟩), b2 _ (List.mem_map.2 ⟨r, hr, rfl⟩)⟩
  · rcases x3 with h | h
    · refine ⟨r0, hr0, ?_⟩
      exact le_antisymm (x2 _ (List.mem_map.2 ⟨r0, hr0, rfl⟩))
        (le_of_le_of_eq (hint r0 hr0).1 h.symm)
    · obtain ⟨r, hr, hrx⟩ := List.mem_map.1 h
      exact ⟨r, hr, hrx.symm⟩
  · rcases y3 with h | h
    · refine ⟨r0, hr0, ?_⟩
      exact le_antisymm (y2 _ (List.mem_map.2 ⟨r0, hr0, rfl⟩))
        (le_of_le_of_eq (hint r0 hr0).2 h.symm)
    · obtain ⟨r, hr, hry⟩ := List.mem_map.1 h
      exact ⟨r, hr, hry.symm⟩
  · rintro ⟨r, hr, hpos⟩
    rcases r3 with h | h
    · refine ⟨r, hr, ?_⟩
      have hle := r2 _ (List.mem_map.2 ⟨r, hr, rfl⟩)
      rw [h] at hle ⊢
      exact le_antisymm hpos hle
    · obtain ⟨r', hr', hrx⟩ := List.mem_map.1 h
      exact ⟨r', hr', hrx.symm⟩
  · rintro ⟨r, hr, hpos⟩
    rcases b3 with h | h
    · refine ⟨r, hr, ?_⟩
      have hle := b2 _ (List.mem_map.2 ⟨r, hr, rfl⟩)
      rw [h] at hle ⊢
      exact le_antisymm hpos hle
    · obtain ⟨r', hr', hry⟩ := List.mem_map.1 h
      exact ⟨r', hr', hry.symm⟩
  · intro hneg
    rcases r3 with h | h
    · exact h
    · obtain ⟨r', hr', hrx⟩ := List.mem_map.1 h
      have := hneg r' hr'
      rw [hrx] at this
      exact absurd r1 (not_le.2 this)
  · intro hneg
    rcases b3 with h | h
    · exact h
    · obtain ⟨r', hr', hry⟩ := List.mem_map.1 h
      have := hneg r' hr'
      rw [hry] at this
      exact absurd b1 (not_le.2 this)

/-- C25 (amended) at the lit scenario: the layout of the two-tile monitor, whose crtcs
show 1920 x 1080 at (0, 0) and at (1920, 0), is the rectangle (0, 0, 3840, 1080), and its
right edge is the right edge of one of the crtc rectangles. -/
theorem derived_layout_encloses_live_rects_witness :
    meta_monitor_derived_derive_layout scenario_live_manager scenario_tiled_monitor =
        ⟨0, 0, 3840, 1080⟩ ∧
      ∃ r ∈ live_crtc_rects scenario_live_manager scenario_tiled_monitor,
        (meta_monitor_derived_derive_layout scenario_live_manager scenario_tiled_monitor).x +
          (meta_monitor_derived_derive_layout scenario_live_manager
            scenario_tiled_monitor).width = r.x + r.width :=
  ⟨by decide,
   (derived_layout_encloses_live_rects scenario_live_manager scenario_tiled_monitor
      (by decide) (by decide) (by unfold fits_int; decide)
      (by unfold fits_int; decide)).2.2.2.2.2.2.1 ⟨⟨0, 0, 1920, 1080⟩, by decide, by decide⟩⟩

/-! ## Properties of the logical monitor builders -/

/-- Modifying one element of a list with a function that keeps `g` keeps the image of
the list under `g`. -/
theorem map_modify_of_invariant {α β : Type} (g : α → β) (f : α → α)
    (h : ∀ x, g (f x) = g x) :
    ∀ (l : List α) (p : Nat), (l.modify f p).map g = l.map g
  | [], p => by cases p <;> rfl
  | x :: l, 0 => by simp [h]
  | x :: l, p + 1 => by simp [map_modify_of_invariant g f h l p]

/-- A successful `logical_monitor_from_layout` splits the list at the logical monitor
found, whose rectangle is the layout, and a change of that logical monitor changes that
place only. -/
theorem logical_monitor_from_layout_some (l : List MetaLogicalMonitor)
    (layout : MetaRectangle) (p : Nat) (f : MetaLogicalMonitor → MetaLogicalMonitor)
    (h : logical_monitor_from_layout l layout = some p) :
    ∃ pre x post, l = pre ++ x :: post ∧ pre.length = p ∧ x.rect = layout ∧
      l.modify f p = pre ++ f x :: post := by
  unfold logical_monitor_from_layout at h
  rw [List.findIdx?_eq_some_iff_getElem] at h
  obtain ⟨hlt, hp, _⟩ := h
  refine ⟨l.take p, l[p], l.drop (p + 1), ?_, ?_, ?_, ?_⟩
  · rw [← List.drop_eq_getElem_cons hlt, List.take_append_drop]
  · simp [List.length_take, Nat.min_eq_left (Nat.le_of_lt hlt)]
  · exact (of_decide_eq_true hp).symm
  · exact List.modify_eq_take_cons_drop hlt

/-- A failed `logical_monitor_from_layout`: no logical monitor has the layout as its
rectangle. -/
theorem logical_monitor_from_layout_none (l : List MetaLogicalMonitor)
    (layout : MetaRectangle) (h : logical_monitor_from_layout l layout = none) :
    layout ∉ l.map (fun logical_monitor => logical_monitor.rect) := by
  unfold logical_monitor_from_layout at h
  rw [List.findIdx?_eq_none_iff] at h
  intro hmem
  obtain ⟨x, hx, hxe⟩ := List.mem_map.1 hmem
  have := h x hx
  rw [decide_eq_false_iff_not] at this
  exact this hxe.symm

/-- The elements of `first_occurrences seen l` are those of `seen` and of `l`. -/
theorem mem_first_occurrences (r : MetaRectangle) :
    ∀ (l seen : List MetaRectangle), r ∈ first_occurrences seen l ↔ r ∈ seen ∨ r ∈ l
  | [], seen => by simp [first_occurrences]
  | a :: l, seen => by
    have ih := mem_first_occurrences r l (if a ∈ seen then seen else seen ++ [a])
    unfold first_occurrences at ih ⊢
    rw [List.foldl_cons, ih]
    by_cases ha : a ∈ seen
    · rw [if_pos ha]
      simp only [List.mem_cons]
      constructor
      · rintro (h | h)
        · exact Or.inl h
        · exact Or.inr (Or.inr h)
      · rintro (h | h | h)
        · exact Or.inl h
        · exact Or.inl (h ▸ ha)
        · exact Or.inr h
    · rw [if_neg ha]
      simp only [List.mem_append, List.mem_singleton, List.mem_cons]
      tauto

/-- Visiting one more rectangle: it is appended unless it is already there. -/
theorem first_occurrences_concat (l : List MetaRectangle) (r : MetaRectangle) :
    first_occurrences [] (l ++ [r]) =
      if r ∈ first_occurrences [] l then first_occurrences [] l
      else first_occurrences [] l ++ [r] := by
  unfold first_occurrences
  rw [List.foldl_append]
  rfl

/-- An active monitor has a layout. -/
theorem derive_layout_of_active (manager : MetaMonitorManager) (monitor : MetaMonitor)
    (h : meta_monitor_is_active manager monitor = true) :
    ∃ layout, meta_monitor_derive_layout manager monitor = some layout := by
  unfold meta_monitor_derive_layout
  by_cases ht : monitor.is_tiled = true
  · rw [if_pos ht]; exact ⟨_, rfl⟩
  · rw [if_neg ht]
    unfold meta_monitor_is_active at h
    unfold meta_monitor_normal_derive_layout
    cases hc : (manager.output (meta_monitor_get_main_output monitor)).crtc with
    | none => rw [hc] at h; cases h
    | some crtc => exact ⟨_, rfl⟩

/-- One turn of the loop of the derived builder never aborts and keeps the invariant. -/
theorem rebuild_derived_step_spec (manager : MetaMonitorManager) (done : List Nat)
    (st : DerivedLogicalState) (i : Nat) (hinv : derived_invariant manager done st) :
    ∃ next, rebuild_logical_monitors_derived_step manager st i = some next ∧
      derived_invariant manager (done ++ [i]) next := by
  obtain ⟨hnum, hnums, hrects, hnodup, hmem, hprim1, hprim2⟩ := hinv
  unfold rebuild_logical_monitors_derived_step
  cases hact : meta_monitor_is_active manager (manager.monitors.getD i default) with
  | false =>
    have hal : active_layout manager i = none := by
      unfold active_layout
      rw [hact]
      rfl
    refine ⟨st, by simp, hnum, hnums, ?_, hnodup, ?_, ?_, hprim2⟩
    · rw [List.filterMap_append]
      simp [hal, hrects]
    · intro lm hlm j
      rw [hmem lm hlm j]
      simp only [List.mem_append, List.mem_singleton]
      constructor
      · rintro ⟨h1, h2⟩
        exact ⟨Or.inl h1, h2⟩
      · rintro ⟨h1 | h1, h2⟩
        · exact ⟨h1, h2⟩
        · subst h1
          rw [hal] at h2
          cases h2
    · rintro ⟨j, hj, hjp⟩
      simp only [List.mem_append, List.mem_singleton] at hj
      rcases hj with hj | hj
      · exact hprim1 ⟨j, hj, hjp⟩
      · subst hj
        unfold active_primary at hjp
        rw [hact] at hjp
        cases hjp.1
  | true =>
    obtain ⟨layout, hlay⟩ := derive_layout_of_active manager _ hact
    have hal : active_layout manager i = some layout := by
      unfold active_layout
      rw [hact, hlay]
      rfl
    have hfm : (done ++ [i]).filterMap (active_layout manager) =
        done.filterMap (active_layout manager) ++ [layout] := by
      rw [List.filterMap_append]
      simp [hal]
    simp only [Bool.not_true, Bool.false_eq_true, if_false]
    rw [hlay]
    dsimp only
    cases hfind : logical_monitor_from_layout st.logical_monitors layout with
    | some p =>
      obtain ⟨pre, x, post, hl, hp, hx, hmod⟩ := logical_monitor_from_layout_some
        st.logical_monitors layout p
        (fun logical_monitor => meta_logical_monitor_add_monitor logical_monitor i) hfind
      have hin : layout ∈ st.logical_monitors.map (fun lm => lm.rect) := by
        rw [hl]
        simp [hx]
      refine ⟨_, rfl, ?_, ?_, ?_, ?_, ?_, ?_, ?_⟩
      · simpa using hnum
      · dsimp only
        rw [map_modify_of_invariant (fun lm : MetaLogicalMonitor => lm.number)
          (fun lm => meta_logical_monitor_add_monitor lm i)
          (fun _ => rfl), List.length_modify]
        exact hnums
      · dsimp only
        rw [map_modify_of_invariant (fun lm : MetaLogicalMonitor => lm.rect)
          (fun lm => meta_logical_monitor_add_monitor lm i)
          (fun _ => rfl), hfm, first_occurrences_concat, ← hrects, if_pos hin]
      · dsimp only
        rw [map_modify_of_invariant (fun lm : MetaLogicalMonitor => lm.rect)
          (fun lm => meta_logical_monitor_add_monitor lm i)
          (fun _ => rfl)]
        exact hnodup
      · dsimp only
        rw [hmod]
        intro lm hlm j
        simp only [List.mem_append, List.mem_cons] at hlm
        simp only [List.mem_append, List.mem_singleton]
        have hold : ∀ lm0 ∈ st.logical_monitors, lm0.rect ≠ layout →
            (j ∈ lm0.monitors ↔ (j ∈ done ∨ j = i) ∧
              active_layout manager j = some lm0.rect) := by
          intro lm0 h0 hne
          rw [hmem lm0 h0 j]
          constructor
          · rintro ⟨h1, h2⟩
            exact ⟨Or.inl h1, h2⟩
          · rintro ⟨h1 | h1, h2⟩
            · exact ⟨h1, h2⟩
            · subst h1
              rw [hal] at h2
              exact absurd (Option.some.inj h2).symm hne
        have hnd := hnodup
        rw [hl, List.map_append, List.map_cons] at hnd
        have hnd2 := List.nodup_append.1 hnd
        have hnd3 := List.nodup_cons.1 hnd2.2.1
        rcases hlm with hlm | hlm | hlm
        · refine hold lm (by rw [hl]; simp [hlm]) ?_
          intro he
          exact hnd2.2.2 (List.mem_map.2 ⟨lm, hlm, rfl⟩)
            (by rw [he, ← hx]; exact List.mem_cons_self _ _)
        · subst hlm
          have hx0 := hmem x (by rw [hl]; simp) j
          simp only [meta_logical_monitor_add_monitor, List.mem_append, List.mem_singleton]
          rw [hx0, hx]
          constructor
          · rintro (⟨h1, h2⟩ | h1)
            · exact ⟨Or.inl h1, h2⟩
            · exact ⟨Or.inr h1, h1 ▸ hal⟩
          · rintro ⟨h1 | h1, h2⟩
            · exact Or.inl ⟨h1, h2⟩
            · exact Or.inr h1
        · refine hold lm (by rw [hl]; simp [hlm]) ?_
          intro he
          exact hnd3.1 (by rw [hx, ← he]; exact List.mem_map.2 ⟨lm, hlm, rfl⟩)
      · dsimp only
        intro _
        by_cases hpr : meta_monitor_is_primary manager (manager.monitors.getD i default) = true
        · rw [if_pos hpr]
          exact Option.some_ne_none _
        · rw [if_neg hpr]
          apply hprim1
          rename_i hex
          obtain ⟨j, hj, hjp⟩ := hex
          simp only [List.mem_append, List.mem_singleton] at hj
          rcases hj with hj | hj
          · exact ⟨j, hj, hjp⟩
          · subst hj
            exact absurd hjp.2 hpr
      · dsimp only
        intro q hq
        rw [hmod]
        by_cases hpr : meta_monitor_is_primary manager (manager.monitors.getD i default) = true
        · rw [if_pos hpr] at hq
          cases hq
          refine ⟨meta_logical_monitor_add_monitor x i, ?_, i, ?_, hact, hpr⟩
          · rw [← hp, List.getElem?_append_right (le_refl _)]
            simp
          · simp [meta_logical_monitor_add_monitor]
        · rw [if_neg hpr] at hq
          obtain ⟨lm, hlm, j, hj, hjp⟩ := hprim2 q hq
          rw [hl] at hlm
          by_cases hqp : q = pre.length
          · subst hqp
            rw [List.getElem?_append_right (le_refl _)] at hlm
            simp at hlm
            subst hlm
            refine ⟨meta_logical_monitor_add_monitor x i, ?_, j, ?_, hjp⟩
            · rw [List.getElem?_append_right (le_refl _)]
              simp
            · simp [meta_logical_monitor_add_monitor, hj]
          · refine ⟨lm, ?_, j, hj, hjp⟩
            rw [← hlm]
            rcases Nat.lt_or_gt_of_ne hqp with hlt | hgt
            · rw [List.getElem?_append_left hlt, List.getElem?_append_left hlt]
            · rw [List.getElem?_append_right (le_of_lt hgt),
                List.getElem?_append_right (le_of_lt hgt)]
              obtain ⟨k, hk⟩ : ∃ k, q - pre.length = k + 1 := ⟨q - pre.length - 1, by omega⟩
              rw [hk]
              rfl
    | none =>
      have hnin := logical_monitor_from_layout_none st.logical_monitors layout hfind
      refine ⟨_, rfl, ?_, ?_, ?_, ?_, ?_, ?_, ?_⟩
      · simp [hnum]
      · dsimp only
        rw [List.length_append, List.length_singleton, List.range_succ, List.map_append,
          List.map_append, hnums]
        simp [meta_logical_monitor_new_derived, hnum]
      · dsimp only
        rw [hfm, first_occurrences_concat, ← hrects, if_neg hnin, List.map_append]
        rfl
      · dsimp only
        rw [List.map_append]
        refine List.nodup_append.2 ⟨hnodup, List.nodup_singleton _, ?_⟩
        intro a ha hb
        simp only [List.map_cons, List.map_nil, List.mem_singleton] at hb
        subst hb
        exact hnin ha
      · dsimp only
        intro lm hlm j
        simp only [List.mem_append, List.mem_singleton] at hlm ⊢
        rcases hlm with hlm | hlm
        · rw [hmem lm hlm j]
          constructor
          · rintro ⟨h1, h2⟩
            exact ⟨Or.inl h1, h2⟩
          · rintro ⟨h1 | h1, h2⟩
            · exact ⟨h1, h2⟩
            · subst h1
              rw [hal] at h2
              exact absurd (List.mem_map.2 ⟨lm, hlm, (Option.some.inj h2).symm⟩) hnin
        · subst hlm
          simp only [meta_logical_monitor_new_derived, List.mem_singleton]
          constructor
          · intro h1
            exact ⟨Or.inr h1, h1 ▸ hal⟩
          · rintro ⟨h1 | h1, h2⟩
            · exfalso
              apply hnin
              rw [hrects, mem_first_occurrences]
              exact Or.inr (List.mem_filterMap.2 ⟨j, h1, h2⟩)
            · exact h1
      · dsimp only
        intro hex
        by_cases hpr : meta_monitor_is_primary manager (manager.monitors.getD i default) = true
        · rw [if_pos hpr]
          exact Option.some_ne_none _
        · rw [if_neg hpr]
          apply hprim1
          obtain ⟨j, hj, hjp⟩ := hex
          simp only [List.mem_append, List.mem_singleton] at hj
          rcases hj with hj | hj
          · exact ⟨j, hj, hjp⟩
          · subst hj
            exact absurd hjp.2 hpr
      · dsimp only
        intro q hq
        by_cases hpr : meta_monitor_is_primary manager (manager.monitors.getD i default) = true
        · rw [if_pos hpr] at hq
          cases hq
          refine ⟨meta_logical_monitor_new_derived i layout st.monitor_number, ?_, i, ?_,
            hact, hpr⟩
          · rw [List.getElem?_append_right (le_refl _)]
            simp
          · simp [meta_logical_monitor_new_derived]
        · rw [if_neg hpr] at hq
          obtain ⟨lm, hlm, j, hj, hjp⟩ := hprim2 q hq
          refine ⟨lm, ?_, j, hj, hjp⟩
          have hlt : q < st.logical_monitors.length := by
            by_contra hge
            rw [List.getElem?_eq_none (not_lt.1 hge)] at hlm
            cases hlm
          rw [List.getElem?_append_left hlt]
          exact hlm

/-- The loop of the derived builder never aborts and keeps the invariant. -/
theorem rebuild_derived_loop_spec (manager : MetaMonitorManager) :
    ∀ (todo done : List Nat) (st : DerivedLogicalState),
      derived_invariant manager done st →
      ∃ last, rebuild_logical_monitors_derived_loop manager todo st = some last ∧
        derived_invariant manager (done ++ todo) last
  | [], done, st, h => ⟨st, rfl, by rw [List.append_nil]; exact h⟩
  | i :: rest, done, st, h => by
    obtain ⟨next, hstep, hinv⟩ := rebuild_derived_step_spec manager done st i h
    obtain ⟨last, hl, hlinv⟩ := rebuild_derived_loop_spec manager rest (done ++ [i]) next hinv
    refine ⟨last, ?_, ?_⟩
    · unfold rebuild_logical_monitors_derived_loop
      rw [hstep]
      exact hl
    · rw [List.append_assoc] at hlinv
      exact hlinv

/-- The invariant holds before the first monitor is visited. -/
theorem derived_invariant_initial (manager : MetaMonitorManager) :
    derived_invariant manager [] {} := by
  refine ⟨rfl, rfl, rfl, List.nodup_nil, ?_, ?_, ?_⟩
  · intro lm hlm
    cases hlm
  · rintro ⟨i, hi, _⟩
    cases hi
  · intro p hp
    cases hp

/-- The derived builder returns: the loop ends in a state with the invariant for all
monitors, and the manager is that state with the primary logical monitor chosen. -/
theorem rebuild_derived_result (env : ConfigCollaborators) (manager : MetaMonitorManager) :
    ∃ st, derived_invariant manager (List.range manager.monitors.length) st ∧
      meta_monitor_manager_rebuild_logical_monitors_derived env manager =
        some (meta_monitor_manager_set_primary_logical_monitor env
          { manager with logical_monitors := st.logical_monitors }
          (if st.primary_logical_monitor = none ∧ st.logical_monitors ≠ [] then some 0
           else st.primary_logical_monitor)) := by
  obtain ⟨st, hloop, hinv⟩ := rebuild_derived_loop_spec manager
    (List.range manager.monitors.length) [] {} (derived_invariant_initial manager)
  rw [List.nil_append] at hinv
  refine ⟨st, hinv, ?_⟩
  unfold meta_monitor_manager_rebuild_logical_monitors_derived
  rw [hloop]

/-- Setting the primary logical monitor records the pointer. -/
theorem set_primary_logical_monitor_pointer (env : ConfigCollaborators)
    (manager : MetaMonitorManager) (q : Option Nat) :
    (meta_monitor_manager_set_primary_logical_monitor env manager q).primary_logical_monitor =
      q := by
  cases q <;> rfl

/-- Setting the primary logical monitor keeps every attribute of the logical monitors
that `meta_logical_monitor_make_primary` keeps. -/
theorem set_primary_logical_monitor_map {β : Type} (env : ConfigCollaborators)
    (manager : MetaMonitorManager) (q : Option Nat) (g : MetaLogicalMonitor → β)
    (hg : ∀ lm, g (env.logical_monitor_make_primary lm) = g lm) :
    (meta_monitor_manager_set_primary_logical_monitor env manager q).logical_monitors.map g =
      manager.logical_monitors.map g := by
  cases q with
  | none => rfl
  | some p => exact map_modify_of_invariant g _ hg _ p

/-- Setting the primary logical monitor keeps the number of logical monitors. -/
theorem set_primary_logical_monitor_length (env : ConfigCollaborators)
    (manager : MetaMonitorManager) (q : Option Nat) :
    (meta_monitor_manager_set_primary_logical_monitor env manager q).logical_monitors.length =
      manager.logical_monitors.length := by
  cases q with
  | none => rfl
  | some p => exact List.length_modify _ _ _

/-- The logical monitor at a place of the list after the primary one has been set: the
one that was there, made primary when the place is the one chosen. -/
theorem set_primary_logical_monitor_at (env : ConfigCollaborators)
    (manager : MetaMonitorManager) (q : Option Nat) (p : Nat) :
    (meta_monitor_manager_set_primary_logical_monitor env manager q).logical_monitors[p]? =
      (manager.logical_monitors[p]?).map
        (fun lm => if q = some p then env.logical_monitor_make_primary lm else lm) := by
  cases q with
  | none =>
    show manager.logical_monitors[p]? = _
    simp
  | some k =>
    show (manager.logical_monitors.modify env.logical_monitor_make_primary k)[p]? = _
    rw [List.getElem?_modify]
    by_cases hk : k = p
    · simp [hk]
    · simp [hk]

/-- In a list numbered by position the logical monitor at place `p` has number `p`. -/
theorem number_of_position (l : List MetaLogicalMonitor)
    (h : l.map (fun lm => lm.number) = (List.range l.length).map Int.ofNat)
    (p : Nat) (lm : MetaLogicalMonitor) (hp : l[p]? = some lm) : lm.number = p := by
  have hlt : p < l.length := by
    by_contra hge
    rw [List.getElem?_eq_none (not_lt.1 hge)] at hp
    cases hp
  have h2 := congrArg (fun m => m[p]?) h
  simp only [List.getElem?_map, hp, Option.map_some', List.getElem?_range hlt] at h2
  exact Option.some.inj h2

/-- The loop of the configuration builder appends one logical monitor per
configuration entry, built from that entry with the next number. -/
theorem rebuild_logical_monitors_fold_list (env : ConfigCollaborators) :
    ∀ (cfgs : List MetaLogicalMonitorConfig) (st : LogicalMonitorsState),
      ∃ built,
        (cfgs.foldl (rebuild_logical_monitors_step env) st).logical_monitors =
          st.logical_monitors ++ built ∧
        built.length = cfgs.length ∧
        ∀ (p : Nat) (c : MetaLogicalMonitorConfig), cfgs[p]? = some c →
          ∃ m, built[p]? = some (env.logical_monitor_new m c (st.monitor_number + p)).1
  | [], st => ⟨[], by simp, rfl, by intro p c h; simp at h⟩
  | c0 :: rest, st => by
    obtain ⟨built, h1, h2, h3⟩ := rebuild_logical_monitors_fold_list env rest
      (rebuild_logical_monitors_step env st c0)
    refine ⟨(env.logical_monitor_new st.manager c0 st.monitor_number).1 :: built, ?_, ?_, ?_⟩
    · rw [List.foldl_cons, h1]
      simp [rebuild_logical_monitors_step]
    · simp [h2]
    · intro p c hp
      cases p with
      | zero =>
        simp only [List.getElem?_cons_zero, Option.some.injEq] at hp
        subst hp
        exact ⟨st.manager, by simp⟩
      | succ p =>
        rw [List.getElem?_cons_succ] at hp
        obtain ⟨m, hm⟩ := h3 p c hp
        refine ⟨m, ?_⟩
        rw [List.getElem?_cons_succ, hm]
        have : (rebuild_logical_monitors_step env st c0).monitor_number + (p : Int) =
            st.monitor_number + ((p + 1 : Nat) : Int) := by
          simp only [rebuild_logical_monitors_step]
          push_cast
          ring
        rw [this]

/-- The primary pointer after the loop of the configuration builder: unchanged when no
entry is flagged, else the place of a logical monitor built from a flagged entry. -/
theorem rebuild_logical_monitors_fold_primary (env : ConfigCollaborators) :
    ∀ (cfgs : List MetaLogicalMonitorConfig) (st : LogicalMonitorsState),
      ((∀ c ∈ cfgs, c.is_primary = false) →
        (cfgs.foldl (rebuild_logical_monitors_step env) st).primary_logical_monitor =
          st.primary_logical_monitor) ∧
      ((∃ c ∈ cfgs, c.is_primary = true) →
        ∃ (p : Nat) (c : MetaLogicalMonitorConfig),
          (cfgs.foldl (rebuild_logical_monitors_step env) st).primary_logical_monitor =
            some (st.logical_monitors.length + p) ∧
          cfgs[p]? = some c ∧ c.is_primary = true)
  | [], st => ⟨fun _ => rfl, by rintro ⟨c, hc, _⟩; cases hc⟩
  | c0 :: rest, st => by
    obtain ⟨ih1, ih2⟩ := rebuild_logical_monitors_fold_primary env rest
      (rebuild_logical_monitors_step env st c0)
    have hlen : (rebuild_logical_monitors_step env st c0).logical_monitors.length =
        st.logical_monitors.length + 1 := by
      simp [rebuild_logical_monitors_step]
    constructor
    · intro hall
      rw [List.foldl_cons, ih1 (fun c hc => hall c (List.mem_cons_of_mem _ hc))]
      simp [rebuild_logical_monitors_step, hall c0 (List.mem_cons_self _ _)]
    · intro hex
      rw [List.foldl_cons]
      by_cases hrest : ∃ c ∈ rest, c.is_primary = true
      · obtain ⟨p, c, hp, hc, hcp⟩ := ih2 hrest
        refine ⟨p + 1, c, ?_, by rw [List.getElem?_cons_succ]; exact hc, hcp⟩
        rw [hp, hlen]
        congr 1
        omega
      · have hall : ∀ c ∈ rest, c.is_primary = false := by
          intro c hc
          cases hcp : c.is_primary with
          | false => rfl
          | true => exact absurd ⟨c, hc, hcp⟩ hrest
        have h0 : c0.is_primary = true := by
          obtain ⟨c, hc, hcp⟩ := hex
          rcases List.mem_cons.1 hc with h | h
          · exact h ▸ hcp
          · rw [hall c h] at hcp
            cases hcp
        refine ⟨0, c0, ?_, List.getElem?_cons_zero, h0⟩
        rw [ih1 hall]
        simp [rebuild_logical_monitors_step, h0]

/-- C23: in both logical-monitor builders the primary logical monitor is none when the
list built is empty, a logical monitor designated primary when there is one, and else
the first of the list.  The configuration builder builds one logical monitor per
configuration entry, at the same place; its primary logical monitor is none for an
empty configuration, the place of an entry flagged `is_primary` when an entry is
flagged, and place 0 otherwise.  The derived builder returns; its primary logical
monitor is none when it built no logical monitor, a logical monitor holding an active
monitor flagged primary when the list has such a monitor
(`meta_logical_monitor_make_primary` keeping the members), and place 0 otherwise. -/
theorem primary_logical_monitor_designated (env : ConfigCollaborators)
    (manager : MetaMonitorManager) (config : Option MetaMonitorsConfig)
    (hkeep : ∀ lm, (env.logical_monitor_make_primary lm).monitors = lm.monitors) :
    ((meta_monitor_manager_rebuild_logical_monitors env manager config).logical_monitors.length =
        (logical_monitor_configs_of config).length ∧
      (∀ (p : Nat) (c : MetaLogicalMonitorConfig),
        (logical_monitor_configs_of config)[p]? = some c →
        ∃ m, (meta_monitor_manager_rebuild_logical_monitors env manager
            config).logical_monitors[p]? =
          some (if (meta_monitor_manager_rebuild_logical_monitors env manager
              config).primary_logical_monitor = some p
            then env.logical_monitor_make_primary (env.logical_monitor_new m c p).1
            else (env.logical_monitor_new m c p).1)) ∧
      (logical_monitor_configs_of config = [] →
        (meta_monitor_manager_rebuild_logical_monitors env manager
          config).primary_logical_monitor = none) ∧
      ((∃ c ∈ logical_monitor_configs_of config, c.is_primary = true) →
        ∃ (p : Nat) (c : MetaLogicalMonitorConfig),
          (meta_monitor_manager_rebuild_logical_monitors env manager
            config).primary_logical_monitor = some p ∧
          (logical_monitor_configs_of config)[p]? = some c ∧ c.is_primary = true) ∧
      ((∀ c ∈ logical_monitor_configs_of config, c.is_primary = false) →
        logical_monitor_configs_of config ≠ [] →
        (meta_monitor_manager_rebuild_logical_monitors env manager
          config).primary_logical_monitor = some 0)) ∧
    (∃ result, meta_monitor_manager_rebuild_logical_monitors_derived env manager = some result ∧
      (result.logical_monitors = [] → result.primary_logical_monitor = none) ∧
      ((∃ i, i < manager.monitors.length ∧ active_primary manager i) →
        ∃ (p : Nat) (lm : MetaLogicalMonitor),
          result.primary_logical_monitor = some p ∧
          result.logical_monitors[p]? = some lm ∧
          ∃ i ∈ lm.monitors, i < manager.monitors.length ∧ active_primary manager i) ∧
      ((¬ ∃ i, i < manager.monitors.length ∧ active_primary manager i) →
        result.logical_monitors ≠ [] → result.primary_logical_monitor = some 0)) := by
  constructor
  · obtain ⟨built, hb1, hb2, hb3⟩ := rebuild_logical_monitors_fold_list env
      (logical_monitor_configs_of config) { manager := manager }
    obtain ⟨hp1, hp2⟩ := rebuild_logical_monitors_fold_primary env
      (logical_monitor_configs_of config) { manager := manager }
    unfold meta_monitor_manager_rebuild_logical_monitors
    simp only [set_primary_logical_monitor_pointer, set_primary_logical_monitor_length,
      set_primary_logical_monitor_at]
    rw [hb1]
    simp only [List.nil_append, List.length_nil, Nat.zero_add] at hp2 ⊢
    refine ⟨hb2, ?_, ?_, ?_, ?_⟩
    · intro p c hc
      obtain ⟨m, hm⟩ := hb3 p c hc
      refine ⟨m, ?_⟩
      rw [hm]
      simp
    · intro hnil
      have hbn : built = [] := List.length_eq_zero.1 (by rw [hb2, hnil]; rfl)
      rw [hp1 (by rw [hnil]; intro c hc; cases hc), hbn]
      simp
    · intro hex
      obtain ⟨p, c, hp, hc, hcp⟩ := hp2 hex
      refine ⟨p, c, ?_, hc, hcp⟩
      rw [hp]
      simp
    · intro hall hne
      rw [hp1 hall]
      have hbn : built ≠ [] := by
        intro h
        rw [h] at hb2
        exact hne (List.length_eq_zero.1 hb2.symm)
      simp [hbn]
  · obtain ⟨st, ⟨_, _, _, _, hmem, hprim1, hprim2⟩, hres⟩ := rebuild_derived_result env manager
    refine ⟨_, hres, ?_⟩
    simp only [set_primary_logical_monitor_pointer, set_primary_logical_monitor_at]
    have hno : (¬ ∃ i, i < manager.monitors.length ∧ active_primary manager i) →
        st.primary_logical_monitor = none := by
      intro hnone
      cases hq : st.primary_logical_monitor with
      | none => rfl
      | some q =>
        obtain ⟨lm, hlm, i, hi, hip⟩ := hprim2 q hq
        exact absurd ⟨i, List.mem_range.1 ((hmem lm (List.getElem?_mem hlm) i).1 hi).1, hip⟩
          hnone
    refine ⟨?_, ?_, ?_⟩
    · intro hnil
      have hlen := set_primary_logical_monitor_length env
        { manager with logical_monitors := st.logical_monitors }
        (if st.primary_logical_monitor = none ∧ st.logical_monitors ≠ [] then some 0
         else st.primary_logical_monitor)
      rw [hnil] at hlen
      have hst : st.logical_monitors = [] := List.length_eq_zero.1 hlen.symm
      cases hq : st.primary_logical_monitor with
      | none => simp [hst]
      | some q =>
        obtain ⟨lm, hlm, _⟩ := hprim2 q hq
        rw [hst] at hlm
        simp at hlm
    · rintro ⟨i, hi, hip⟩
      cases hq : st.primary_logical_monitor with
      | none => exact absurd hq (hprim1 ⟨i, List.mem_range.2 hi, hip⟩)
      | some q =>
        obtain ⟨lm, hlm, j, hj, hjp⟩ := hprim2 q hq
        refine ⟨q, env.logical_monitor_make_primary lm, by simp, ?_, j, ?_, ?_, hjp⟩
        · show (st.logical_monitors[q]?).map _ = _
          rw [hlm]
          simp
        · rw [hkeep]
          exact hj
        · exact List.mem_range.1 ((hmem lm (List.getElem?_mem hlm) j).1 hj).1
    · intro hnone hne
      rw [hno hnone]
      have hlen := set_primary_logical_monitor_length env
        { manager with logical_monitors := st.logical_monitors }
        (if st.primary_logical_monitor = none ∧ st.logical_monitors ≠ [] then some 0
         else st.primary_logical_monitor)
      have hst : st.logical_monitors ≠ [] := by
        intro h
        apply hne
        apply List.length_eq_zero.1
        rw [hlen]
        exact List.length_eq_zero.2 h
      simp [hst]

/-- C23 on samples: a configuration of two entries, the second flagged primary, gives
the primary logical monitor at place 1; four monitors, the last one active and flagged
primary and a clone of the first, give the primary logical monitor at place 0, which
holds the flagged monitor. -/
theorem primary_logical_monitor_designated_witness :
    (∀ lm, (sample_config_env.logical_monitor_make_primary lm).monitors = lm.monitors) ∧
    (meta_monitor_manager_rebuild_logical_monitors sample_config_env sample_clone_manager
      (some sample_two_logical_config)).primary_logical_monitor = some 1 ∧
    (meta_monitor_manager_rebuild_logical_monitors_derived sample_config_env
      sample_clone_manager).map (fun result => result.primary_logical_monitor) =
        some (some 0) ∧
    (∃ (p : Nat) (c : MetaLogicalMonitorConfig),
      (meta_monitor_manager_rebuild_logical_monitors sample_config_env sample_clone_manager
        (some sample_two_logical_config)).primary_logical_monitor = some p ∧
      (logical_monitor_configs_of (some sample_two_logical_config))[p]? = some c ∧
      c.is_primary = true) ∧
    (∃ result, meta_monitor_manager_rebuild_logical_monitors_derived sample_config_env
        sample_clone_manager = some result ∧
      ∃ (p : Nat) (lm : MetaLogicalMonitor),
        result.primary_logical_monitor = some p ∧
        result.logical_monitors[p]? = some lm ∧
        ∃ i ∈ lm.monitors, i < sample_clone_manager.monitors.length ∧
          active_primary sample_clone_manager i) := by
  have h := primary_logical_monitor_designated sample_config_env sample_clone_manager
    (some sample_two_logical_config) (fun _ => rfl)
  refine ⟨fun _ => rfl, by decide, by decide, ?_, ?_⟩
  · exact h.1.2.2.2.1 ⟨{ layout := ⟨1920, 0, 1920, 1080⟩, is_primary := true }, by decide, rfl⟩
  · obtain ⟨result, hr, _, h2, _⟩ := h.2
    exact ⟨result, hr, h2 ⟨3, by decide, by decide, by decide⟩⟩

/-- C24: for every monitor list, `meta_monitor_manager_rebuild_logical_monitors_derived`
returns, and, `meta_logical_monitor_make_primary` leaving number, rectangle and members
alone, the logical monitors it leaves have pairwise distinct rectangles; their
rectangles are the distinct layouts of the active monitors in the order of first
occurrence; the logical monitor at place p has number p; the members of a logical
monitor are exactly the active monitors of the list whose layout is its rectangle, so
an inactive monitor is in none; every active monitor is in the logical monitor with its
layout; and no monitor is in two logical monitors. -/
theorem derived_logical_monitors_by_distinct_layout (env : ConfigCollaborators)
    (manager : MetaMonitorManager)
    (hkeep : ∀ lm, (env.logical_monitor_make_primary lm).number = lm.number ∧
      (env.logical_monitor_make_primary lm).rect = lm.rect ∧
      (env.logical_monitor_make_primary lm).monitors = lm.monitors) :
    ∃ result, meta_monitor_manager_rebuild_logical_monitors_derived env manager = some result ∧
      (result.logical_monitors.map (fun lm => lm.rect)).Nodup ∧
      result.logical_monitors.map (fun lm => lm.rect) =
        first_occurrences []
          ((List.range manager.monitors.length).filterMap (active_layout manager)) ∧
      (∀ (p : Nat) (lm : MetaLogicalMonitor),
        result.logical_monitors[p]? = some lm → lm.number = p) ∧
      (∀ lm ∈ result.logical_monitors, ∀ i,
        i ∈ lm.monitors ↔
          i < manager.monitors.length ∧ active_layout manager i = some lm.rect) ∧
      (∀ i layout, i < manager.monitors.length → active_layout manager i = some layout →
        ∃ lm ∈ result.logical_monitors, lm.rect = layout ∧ i ∈ lm.monitors) ∧
      (∀ a ∈ result.logical_monitors, ∀ b ∈ result.logical_monitors, ∀ i,
        i ∈ a.monitors → i ∈ b.monitors → a = b) := by
  obtain ⟨st, ⟨_, hnums, hrects, hnodup, hmem, _, _⟩, hres⟩ := rebuild_derived_result env manager
  refine ⟨_, hres, ?_⟩
  have hr := set_primary_logical_monitor_map env
    { manager with logical_monitors := st.logical_monitors }
    (if st.primary_logical_monitor = none ∧ st.logical_monitors ≠ [] then some 0
     else st.primary_logical_monitor)
    (fun lm => lm.rect) (fun lm => (hkeep lm).2.1)
  have hn := set_primary_logical_monitor_map env
    { manager with logical_monitors := st.logical_monitors }
    (if st.primary_logical_monitor = none ∧ st.logical_monitors ≠ [] then some 0
     else st.primary_logical_monitor)
    (fun lm => lm.number) (fun lm => (hkeep lm).1)
  have hm := set_primary_logical_monitor_map env
    { manager with logical_monitors := st.logical_monitors }
    (if st.primary_logical_monitor = none ∧ st.logical_monitors ≠ [] then some 0
     else st.primary_logical_monitor)
    (fun lm => (lm.rect, lm.monitors))
    (fun lm => Prod.ext (hkeep lm).2.1 (hkeep lm).2.2)
  have hlen := set_primary_logical_monitor_length env
    { manager with logical_monitors := st.logical_monitors }
    (if st.primary_logical_monitor = none ∧ st.logical_monitors ≠ [] then some 0
     else st.primary_logical_monitor)
  generalize (meta_monitor_manager_set_primary_logical_monitor env
    { manager with logical_monitors := st.logical_monitors }
    (if st.primary_logical_monitor = none ∧ st.logical_monitors ≠ [] then some 0
     else st.primary_logical_monitor)) = result at hr hn hm hlen ⊢
  dsimp only at hr hn hm hlen
  have hmem2 : ∀ lm ∈ result.logical_monitors, ∀ i,
      i ∈ lm.monitors ↔
        i < manager.monitors.length ∧ active_layout manager i = some lm.rect := by
    intro lm hlm i
    have h1 : (lm.rect, lm.monitors) ∈
        result.logical_monitors.map (fun lm => (lm.rect, lm.monitors)) :=
      List.mem_map.2 ⟨lm, hlm, rfl⟩
    rw [hm] at h1
    obtain ⟨lm0, h0, he⟩ := List.mem_map.1 h1
    have her : lm0.rect = lm.rect := congrArg Prod.fst he
    have hem : lm0.monitors = lm.monitors := congrArg Prod.snd he
    rw [← her, ← hem, hmem lm0 h0 i, List.mem_range]
  have hnd2 : (result.logical_monitors.map (fun lm => lm.rect)).Nodup := by
    rw [hr]
    exact hnodup
  refine ⟨hnd2, by rw [hr]; exact hrects, ?_, hmem2, ?_, ?_⟩
  · intro p lm hp
    refine number_of_position result.logical_monitors ?_ p lm hp
    rw [hn, hlen]
    exact hnums
  · intro i layout hi hal
    have hin : layout ∈ result.logical_monitors.map (fun lm => lm.rect) := by
      rw [hr, hrects, mem_first_occurrences]
      exact Or.inr (List.mem_filterMap.2 ⟨i, List.mem_range.2 hi, hal⟩)
    obtain ⟨lm, hlm, he⟩ := List.mem_map.1 hin
    refine ⟨lm, hlm, he, ?_⟩
    rw [hmem2 lm hlm i]
    exact ⟨hi, by rw [hal, ← he]⟩
  · intro a ha b hb i hia hib
    have h1 := ((hmem2 a ha i).1 hia).2
    have h2 := ((hmem2 b hb i).1 hib).2
    rw [h1] at h2
    exact List.inj_on_of_nodup_map hnd2 ha hb (Option.some.inj h2)

/-- C24 on four monitors of which the first and the last are clones at (0, 0), the
second is off and the third sits at (1920, 0): two logical monitors, numbered 0 and 1,
the first with the two clones and the second with the third monitor. -/
theorem derived_logical_monitors_by_distinct_layout_witness :
    (meta_monitor_manager_rebuild_logical_monitors_derived sample_config_env
        sample_clone_manager).map
        (fun result =>
          result.logical_monitors.map (fun lm => (lm.number, lm.rect, lm.monitors))) =
      some [(0, ⟨0, 0, 1920, 1080⟩, [0, 3]), (1, ⟨1920, 0, 1920, 1080⟩, [2])] ∧
    ∃ result, meta_monitor_manager_rebuild_logical_monitors_derived sample_config_env
        sample_clone_manager = some result ∧
      (result.logical_monitors.map (fun lm => lm.rect)).Nodup ∧
      result.logical_monitors.map (fun lm => lm.rect) =
        first_occurrences []
          ((List.range sample_clone_manager.monitors.length).filterMap
            (active_layout sample_clone_manager)) ∧
      (∀ (p : Nat) (lm : MetaLogicalMonitor),
        result.logical_monitors[p]? = some lm → lm.number = p) ∧
      (∀ lm ∈ result.logical_monitors, ∀ i,
        i ∈ lm.monitors ↔
          i < sample_clone_manager.monitors.length ∧
            active_layout sample_clone_manager i = some lm.rect) ∧
      (∀ i layout, i < sample_clone_manager.monitors.length →
        active_layout sample_clone_manager i = some layout →
        ∃ lm ∈ result.logical_monitors, lm.rect = layout ∧ i ∈ lm.monitors) ∧
      (∀ a ∈ result.logical_monitors, ∀ b ∈ result.logical_monitors, ∀ i,
        i ∈ a.monitors → i ∈ b.monitors → a = b) :=
  ⟨by decide,
   derived_logical_monitors_by_distinct_layout sample_config_env sample_clone_manager
     (fun _ => ⟨rfl, rfl, rfl⟩)⟩


/-! ## Properties of the transforms read from XRandR and of the backlight -/

/-- C26: with the rotation bits of the RandR protocol, the rotation
`wl_transform_to_xrandr` writes for the transforms normal, 90, 180, 270 and flipped reads
back as the same transform, but the rotation written for flipped-90, flipped-180 and
flipped-270 reads back as flipped: the rotation of flipped-90 is
`RR_Reflect_X | RR_Rotate_90`, 18, which `rotation & 0x7F` leaves as it is, so that the
`switch` takes its `default` branch. -/
theorem flipped_rotation_reads_back_as_flipped :
    (List.range 8).map
        (fun t => (wl_transform_to_xrandr sample_xrandr_env t).map
          (wl_transform_from_xrandr sample_xrandr_env)) =
      [some 0, some 1, some 2, some 3, some 4, some 4, some 4, some 4] ∧
    wl_transform_to_xrandr sample_xrandr_env 5 = some 18 ∧
    18 &&& 0x7F = 18 ∧
    wl_transform_from_xrandr sample_xrandr_env 18 = 4 := by
  decide

/-- Joining further bits to a set of transforms keeps the normal transform in it. -/
theorem or_keeps_normal (c : Prop) [Decidable c] (a b : Nat) (ha : a &&& 1 = 1) :
    (if c then a ||| b else a) &&& 1 = 1 := by
  rw [Nat.and_one_is_mod] at ha ⊢
  split_ifs
  · exact Nat.or_mod_two_eq_one.2 (Or.inl ha)
  · exact ha

/-- The set `wl_transform_from_xrandr_all` computes holds the normal transform. -/
theorem wl_transform_from_xrandr_all_normal (env : XrandrCollaborators) (rotation : Nat) :
    wl_transform_from_xrandr_all env rotation &&& 1 = 1 := by
  unfold wl_transform_from_xrandr_all
  by_cases h1 : rotation = 0 ∨ rotation = env.RR_Rotate_0
  · rw [if_pos h1]
    rfl
  · rw [if_neg h1]
    by_cases h2 : rotation &&& ALL_ROTATIONS env ≠ 0 ∧
        (rotation &&& env.RR_Reflect_X ≠ 0 ∨ rotation &&& env.RR_Reflect_Y ≠ 0)
    · rw [if_pos h2]
      rfl
    · rw [if_neg h2]
      exact or_keeps_normal _ _ _ (or_keeps_normal _ _ _ (or_keeps_normal _ _ _
        (or_keeps_normal _ _ _ (or_keeps_normal _ _ _ (or_keeps_normal _ _ _
          (or_keeps_normal _ _ _ rfl))))))

/-- C29: the supported-transform set always contains the normal transform, whatever the
rotation bits are; but with the rotation bits of the RandR protocol the mask 15 of the
four rotations, which holds no reflection, gives the set 255 of all eight transforms, and
the mask 2 of `RR_Rotate_90` alone gives the set 35, which holds flipped-90: the test
`rotation & (RR_Rotate_90 | RR_Reflect_X)` succeeds on the rotation bit alone. -/
theorem rotations_without_reflection_give_flipped :
    (∀ (env : XrandrCollaborators) (rotation : Nat),
      wl_transform_from_xrandr_all env rotation &&& 1 = 1) ∧
    15 &&& (sample_xrandr_env.RR_Reflect_X ||| sample_xrandr_env.RR_Reflect_Y) = 0 ∧
    wl_transform_from_xrandr_all sample_xrandr_env 15 = 255 ∧
    2 &&& (sample_xrandr_env.RR_Reflect_X ||| sample_xrandr_env.RR_Reflect_Y) = 0 ∧
    wl_transform_from_xrandr_all sample_xrandr_env 2 = 35 ∧
    35 &&& (1 <<< 5) ≠ 0 := by
  exact ⟨wl_transform_from_xrandr_all_normal, by decide, by decide, by decide, by decide,
    by decide⟩

set_option maxRecDepth 100000 in
/-- C27: on an output whose backlight has the hardware range 10 to 100, a
`ChangeBacklight` call for 100 percent passes every check of the handler, writes the
hardware value 110, above `backlight_max`, and stores and answers the normalized
backlight 111, above 100: the hardware value is `value / 100 * backlight_max +
backlight_min`, scaled by the maximum and not by the width of the range. -/
theorem backlight_scaled_past_maximum :
    (meta_monitor_manager_handle_change_backlight meta_monitor_manager_xrandr_change_backlight
        sample_backlight_manager 7 0 100).map
        (fun outcome =>
          (outcome.reply, outcome.hw_values, (outcome.manager.output 0).backlight)) =
      some (BacklightReply.complete 111, [110], 111) ∧
    (sample_backlight_manager.output 0).backlight_min = 10 ∧
    (sample_backlight_manager.output 0).backlight_max = 100 ∧
    (meta_monitor_manager_xrandr_change_backlight (sample_backlight_manager.output 0) 100).map
        (fun r => (r.1, r.2.backlight)) = some (110, 111) ∧
    normalize_backlight (sample_backlight_manager.output 0) 110 = some 111 := by
  decide

/-! ## Properties of the assertion of `generate_untiled_monitor_modes` -/

/-- C28: for every tiled monitor built by `meta_monitor_tiled_new` from an output of the
table, if the untiled driver output, the one `find_untiled_output` chooses among the
outputs of the group, lists each of its modes at most once, the constructor returns:
the assertion of `generate_untiled_monitor_modes` does not fail.  The driver is the
`main_output` of the monitor, and of the modes built for it no two match the live state
together: an untiled mode that is assigned excludes the untiled mode of any other crtc
mode, and a tiled mode that is assigned excludes every untiled mode. -/
theorem untiled_assertion_never_fails (manager : MetaMonitorManager) (output : Nat)
    (ho : output < manager.outputs.length)
    (hnd : (manager.output (find_untiled_output manager
      { outputs := group_outputs manager (manager.output output).tile_info.group_id,
        origin_output := output })).modes.Nodup) :
    ∃ monitor, meta_monitor_tiled_new manager output = some monitor ∧
      monitor.main_output = find_untiled_output manager
        { outputs := group_outputs manager (manager.output output).tile_info.group_id,
          origin_output := output } ∧
      (∀ (c1 c2 : Nat) (m1 m2 : MetaMonitorMode),
        create_untiled_monitor_mode manager monitor monitor.main_output c1 = some m1 →
        create_untiled_monitor_mode manager monitor monitor.main_output c2 = some m2 →
        c1 ≠ c2 →
        is_monitor_mode_assigned manager monitor m1 = true →
        is_monitor_mode_assigned manager monitor m2 = false) ∧
      (∀ (c1 c2 : Nat) (mt mu : MetaMonitorMode),
        tiled_mode_of manager monitor.main_output monitor c1 = some mt →
        create_untiled_monitor_mode manager monitor monitor.main_output c2 = some mu →
        is_monitor_mode_assigned manager monitor mt = true →
        is_monitor_mode_assigned manager monitor mu = false) := by
  have hcongr : ∀ (a b : MetaMonitor), a.outputs = b.outputs →
      a.origin_output = b.origin_output →
      find_untiled_output manager a = find_untiled_output manager b := by
    intro a b h1 h2
    unfold find_untiled_output
    rw [h1, h2]
  have hex : ∃ monitor, meta_monitor_tiled_new manager output = some monitor := by
    unfold meta_monitor_tiled_new
    dsimp only
    rw [add_tiled_monitor_outputs_spec]
    dsimp only
    have hdrv : find_untiled_output manager
        { is_tiled := true,
          outputs := [] ++ group_outputs manager (manager.output output).tile_info.group_id,
          winsys_id := (manager.output output).winsys_id,
          tile_group_id := (manager.output output).tile_info.group_id,
          origin_output := output } =
        find_untiled_output manager
          { outputs := group_outputs manager (manager.output output).tile_info.group_id,
            origin_output := output } :=
      hcongr _ _ (List.nil_append _) rfl
    have hmem : find_untiled_output manager
        { is_tiled := true,
          outputs := [] ++ group_outputs manager (manager.output output).tile_info.group_id,
          winsys_id := (manager.output output).winsys_id,
          tile_group_id := (manager.output output).tile_info.group_id,
          origin_output := output } ∈
        group_outputs manager (manager.output output).tile_info.group_id := by
      have := find_untiled_output_mem manager
        { is_tiled := true,
          outputs := [] ++ group_outputs manager (manager.output output).tile_info.group_id,
          winsys_id := (manager.output output).winsys_id,
          tile_group_id := (manager.output output).tile_info.group_id,
          origin_output := output }
        (by simp [group_outputs, List.mem_filter, ho])
      simpa using this
    obtain ⟨k, hk⟩ := List.getElem?_of_mem hmem
    exact meta_monitor_tiled_generate_modes_completes manager _ k rfl rfl (by simpa using hk)
      (by rw [hdrv]; exact hnd)
  obtain ⟨monitor, hnew⟩ := hex
  obtain ⟨_, _, s3, s4, s5, _⟩ := meta_monitor_tiled_new_spec manager output monitor hnew
  have hmem : monitor.main_output ∈ monitor.outputs := by
    rw [s5]
    apply find_untiled_output_mem
    rw [s3]
    exact origin_mem_outputs manager output monitor hnew ho
  obtain ⟨k, hk⟩ := List.getElem?_of_mem hmem
  refine ⟨monitor, hnew, ?_, ?_, ?_⟩
  · rw [s5]
    exact hcongr _ _ s4 s3
  · intro c1 c2 m1 m2 h1 h2 hne ha1
    cases ha2 : is_monitor_mode_assigned manager monitor m2 with
    | false => rfl
    | true =>
      have l1 := assigned_crtc_mode_live manager monitor m1 k monitor.main_output c1 hk ha1
        (create_untiled_monitor_mode_assigned manager monitor monitor.main_output c1 k m1
          hk h1).1
      have l2 := assigned_crtc_mode_live manager monitor m2 k monitor.main_output c2 hk ha2
        (create_untiled_monitor_mode_assigned manager monitor monitor.main_output c2 k m2
          hk h2).1
      rw [l1] at l2
      exact absurd (Option.some.inj l2) hne
  · intro c1 c2 mt mu h1 h2 ha1
    cases ha2 : is_monitor_mode_assigned manager monitor mu with
    | false => rfl
    | true =>
      obtain ⟨_, t, ht1, _, ht3⟩ := tiled_mode_of_assigned manager monitor
        monitor.main_output c1 k monitor.main_output mt hk h1
      have l1 := assigned_crtc_mode_live manager monitor mt k monitor.main_output t hk ha1 ht1
      obtain ⟨hu1, hu2⟩ := create_untiled_monitor_mode_assigned manager monitor
        monitor.main_output c2 k mu hk h2
      have l2 := assigned_crtc_mode_live manager monitor mu k monitor.main_output c2 hk ha2 hu1
      rw [l1] at l2
      rw [Option.some.inj l2, hu2] at ht3
      cases ht3

/-- C28 on a two-tile panel lit through its second connector in a 640 x 480 mode: the
driver of the monitor built from output 0 is output 1, which lists each of its three
modes once; the constructor returns a monitor of three modes whose current mode is the
untiled mode of 640 x 480, at position 1. -/
theorem untiled_assertion_never_fails_witness :
    (sample_untiled_live_manager.output (find_untiled_output sample_untiled_live_manager
      { outputs := group_outputs sample_untiled_live_manager
          (sample_untiled_live_manager.output 0).tile_info.group_id,
        origin_output := 0 })).modes.Nodup ∧
    (meta_monitor_tiled_new sample_untiled_live_manager 0).map
        (fun monitor => (monitor.main_output, monitor.current_mode, monitor.modes.length)) =
      some (1, some 1, 3) ∧
    ∃ monitor, meta_monitor_tiled_new sample_untiled_live_manager 0 = some monitor ∧
      monitor.main_output = find_untiled_output sample_untiled_live_manager
        { outputs := group_outputs sample_untiled_live_manager
            (sample_untiled_live_manager.output 0).tile_info.group_id,
          origin_output := 0 } ∧
      (∀ (c1 c2 : Nat) (m1 m2 : MetaMonitorMode),
        create_untiled_monitor_mode sample_untiled_live_manager monitor monitor.main_output c1 =
          some m1 →
        create_untiled_monitor_mode sample_untiled_live_manager monitor monitor.main_output c2 =
          some m2 →
        c1 ≠ c2 →
        is_monitor_mode_assigned sample_untiled_live_manager monitor m1 = true →
        is_monitor_mode_assigned sample_untiled_live_manager monitor m2 = false) ∧
      (∀ (c1 c2 : Nat) (mt mu : MetaMonitorMode),
        tiled_mode_of sample_untiled_live_manager monitor.main_output monitor c1 = some mt →
        create_untiled_monitor_mode sample_untiled_live_manager monitor monitor.main_output c2 =
          some mu →
        is_monitor_mode_assigned sample_untiled_live_manager monitor mt = true →
        is_monitor_mode_assigned sample_untiled_live_manager monitor mu = false) :=
  ⟨by decide, by decide,
   untiled_assertion_never_fails sample_untiled_live_manager 0 (by decide) (by decide)⟩

/-! ## Properties of the order of monitor specs -/

/-- The function `strcmp` gives 0 exactly on equal strings. -/
theorem strcmp_chars_eq_zero : ∀ (s t : List Char), strcmp_chars s t = 0 ↔ s = t
  | [], [] => by simp [strcmp_chars]
  | [], _ :: _ => by simp [strcmp_chars]
  | _ :: _, [] => by simp [strcmp_chars]
  | a :: s, b :: t => by
    unfold strcmp_chars
    by_cases hab : a = b
    · rw [if_pos hab, strcmp_chars_eq_zero s t]
      simp [hab]
    · rw [if_neg hab]
      by_cases hlt : a < b
      · rw [if_pos hlt]
        simp [hab]
      · rw [if_neg hlt]
        simp [hab]

/-- Swapping the arguments of `strcmp` negates the result. -/
theorem strcmp_chars_swap : ∀ (s t : List Char), strcmp_chars t s = -strcmp_chars s t
  | [], [] => by simp [strcmp_chars]
  | [], _ :: _ => by simp [strcmp_chars]
  | _ :: _, [] => by simp [strcmp_chars]
  | a :: s, b :: t => by
    unfold strcmp_chars
    by_cases hab : a = b
    · rw [if_pos hab, if_pos hab.symm]
      exact strcmp_chars_swap s t
    · rw [if_neg hab, if_neg (fun h => hab h.symm)]
      rcases lt_or_gt_of_ne hab with hlt | hgt
      · rw [if_pos hlt, if_neg (not_lt_of_gt hlt)]
        rfl
      · rw [if_neg (not_lt_of_gt hgt), if_pos hgt]

/-- The order `strcmp` puts on strings is transitive. -/
theorem strcmp_chars_trans : ∀ (s t u : List Char),
    strcmp_chars s t < 0 → strcmp_chars t u < 0 → strcmp_chars s u < 0
  | [], [], _ => by simp [strcmp_chars]
  | [], _ :: _, [] => by simp [strcmp_chars]
  | [], _ :: _, _ :: _ => by simp [strcmp_chars]
  | _ :: _, [], _ => by simp [strcmp_chars]
  | _ :: _, _ :: _, [] => by simp [strcmp_chars]
  | a :: s, b :: t, c :: u => by
    intro h1 h2
    unfold strcmp_chars at h1 h2 ⊢
    by_cases hab : a = b
    · subst hab
      rw [if_pos rfl] at h1
      by_cases hbc : a = c
      · subst hbc
        rw [if_pos rfl] at h2 ⊢
        exact strcmp_chars_trans s t u h1 h2
      · rw [if_neg hbc] at h2 ⊢
        exact h2
    · rw [if_neg hab] at h1
      have hlt : a < b := by
        by_contra hn
        rw [if_neg hn] at h1
        exact absurd h1 (by decide)
      by_cases hbc : b = c
      · subst hbc
        rw [if_neg hab, if_pos hlt]
        decide
      · rw [if_neg hbc] at h2
        have hlt2 : b < c := by
          by_contra hn
          rw [if_neg hn] at h2
          exact absurd h2 (by decide)
        have hac : a < c := lt_trans hlt hlt2
        rw [if_neg (ne_of_lt hac), if_pos hac]
        decide

/-- The three results of `strcmp` on three strings, taken two by two, fit together: the
order is transitive, and equal strings compare alike with a third one. -/
theorem strcmp_triple (s t u : String) :
    (strcmp s t < 0 → strcmp t u < 0 → strcmp s u < 0) ∧
      (strcmp s t = 0 → strcmp s u = strcmp t u) ∧
      (strcmp t u = 0 → strcmp s u = strcmp s t) := by
  unfold strcmp
  refine ⟨strcmp_chars_trans _ _ _, ?_, ?_⟩
  · intro h
    rw [(strcmp_chars_eq_zero _ _).1 h]
  · intro h
    rw [(strcmp_chars_eq_zero _ _).1 h]

/-- The function `strcmp` gives 0 exactly on equal strings. -/
theorem strcmp_eq_zero (s t : String) : strcmp s t = 0 ↔ s = t := by
  unfold strcmp
  rw [strcmp_chars_eq_zero]
  exact ⟨String.ext, fun h => by rw [h]⟩

/-- Swapping the arguments of `strcmp` negates the result. -/
theorem strcmp_swap (s t : String) : strcmp t s = -strcmp s t :=
  strcmp_chars_swap _ _

/-- Comparing by a first key and, when it does not decide, by a second one keeps the
way three results fit together. -/
theorem lex_triple (x1 y1 z1 x2 y2 z2 : Int)
    (h1 : x1 < 0 → y1 < 0 → z1 < 0) (h2 : x1 = 0 → z1 = y1) (h3 : y1 = 0 → z1 = x1)
    (k1 : x2 < 0 → y2 < 0 → z2 < 0) (k2 : x2 = 0 → z2 = y2) (k3 : y2 = 0 → z2 = x2) :
    ((if x1 ≠ 0 then x1 else x2) < 0 → (if y1 ≠ 0 then y1 else y2) < 0 →
        (if z1 ≠ 0 then z1 else z2) < 0) ∧
      ((if x1 ≠ 0 then x1 else x2) = 0 →
        (if z1 ≠ 0 then z1 else z2) = (if y1 ≠ 0 then y1 else y2)) ∧
      ((if y1 ≠ 0 then y1 else y2) = 0 →
        (if z1 ≠ 0 then z1 else z2) = (if x1 ≠ 0 then x1 else x2)) := by
  by_cases a : x1 = 0
  · have hz : z1 = y1 := h2 a
    by_cases b : y1 = 0
    · have hz0 : z1 = 0 := by rw [hz, b]
      rw [if_neg (not_not.2 a), if_neg (not_not.2 b), if_neg (not_not.2 hz0)]
      exact ⟨k1, k2, k3⟩
    · have hz0 : z1 ≠ 0 := by rw [hz]; exact b
      rw [if_neg (not_not.2 a), if_pos b, if_pos hz0]
      exact ⟨fun _ h => hz ▸ h, fun _ => hz, fun h => absurd h b⟩
  · by_cases b : y1 = 0
    · have hz : z1 = x1 := h3 b
      have hz0 : z1 ≠ 0 := by rw [hz]; exact a
      rw [if_pos a, if_neg (not_not.2 b), if_pos hz0]
      exact ⟨fun h _ => hz ▸ h, fun h => absurd h a, fun _ => hz⟩
    · rw [if_pos a, if_pos b]
      refine ⟨fun h k => ?_, fun h => absurd h a, fun h => absurd h b⟩
      have hz := h1 h k
      rw [if_pos (ne_of_lt hz)]
      exact hz

/-- The results of `meta_monitor_spec_compare` on three specs, taken two by two, fit
together as those of `strcmp` do. -/
theorem spec_compare_triple (a b c : MetaMonitorSpec) :
    (meta_monitor_spec_compare a b < 0 → meta_monitor_spec_compare b c < 0 →
        meta_monitor_spec_compare a c < 0) ∧
      (meta_monitor_spec_compare a b = 0 →
        meta_monitor_spec_compare a c = meta_monitor_spec_compare b c) ∧
      (meta_monitor_spec_compare b c = 0 →
        meta_monitor_spec_compare a c = meta_monitor_spec_compare a b) := by
  obtain ⟨t1, e1, f1⟩ := strcmp_triple a.connector b.connector c.connector
  obtain ⟨t2, e2, f2⟩ := strcmp_triple a.vendor b.vendor c.vendor
  obtain ⟨t3, e3, f3⟩ := strcmp_triple a.product b.product c.product
  obtain ⟨t4, e4, f4⟩ := strcmp_triple a.serial b.serial c.serial
  obtain ⟨u1, u2, u3⟩ := lex_triple _ _ _ _ _ _ t3 e3 f3 t4 e4 f4
  obtain ⟨v1, v2, v3⟩ := lex_triple _ _ _ _ _ _ t2 e2 f2 u1 u2 u3
  exact lex_triple _ _ _ _ _ _ t1 e1 f1 v1 v2 v3

/-- C30: for all monitor specs a, b and c, `meta_monitor_spec_equals (a, b)` holds
exactly when `meta_monitor_spec_compare (a, b)` is 0, and then a and b are the same
spec; the comparison is antisymmetric in sign, transitive and total, and it orders the
specs lexicographically by connector, vendor, product and serial, each compared with
`strcmp`. -/
theorem spec_compare_is_lexicographic_order (a b c : MetaMonitorSpec) :
    (meta_monitor_spec_equals a b = true ↔ meta_monitor_spec_compare a b = 0) ∧
      (meta_monitor_spec_compare a b = 0 ↔ a = b) ∧
      (meta_monitor_spec_compare a b < 0 ↔ 0 < meta_monitor_spec_compare b a) ∧
      (meta_monitor_spec_compare a b < 0 → meta_monitor_spec_compare b c < 0 →
        meta_monitor_spec_compare a c < 0) ∧
      (meta_monitor_spec_compare a b ≤ 0 → meta_monitor_spec_compare b c ≤ 0 →
        meta_monitor_spec_compare a c ≤ 0) ∧
      (meta_monitor_spec_compare a b ≤ 0 ∨ meta_monitor_spec_compare b a ≤ 0) ∧
      (meta_monitor_spec_compare a b < 0 ↔
        strcmp a.connector b.connector < 0 ∨
          (a.connector = b.connector ∧
            (strcmp a.vendor b.vendor < 0 ∨
              (a.vendor = b.vendor ∧
                (strcmp a.product b.product < 0 ∨
                  (a.product = b.product ∧ strcmp a.serial b.serial < 0)))))) := by
  have z1 := strcmp_eq_zero a.connector b.connector
  have z2 := strcmp_eq_zero a.vendor b.vendor
  have z3 := strcmp_eq_zero a.product b.product
  have z4 := strcmp_eq_zero a.serial b.serial
  have hzero : meta_monitor_spec_compare a b = 0 ↔
      a.connector = b.connector ∧ a.vendor = b.vendor ∧ a.product = b.product ∧
        a.serial = b.serial := by
    rw [← z1, ← z2, ← z3, ← z4]
    unfold meta_monitor_spec_compare
    split_ifs <;> omega
  have hswap : meta_monitor_spec_compare b a = -meta_monitor_spec_compare a b := by
    unfold meta_monitor_spec_compare
    rw [strcmp_swap a.connector b.connector, strcmp_swap a.vendor b.vendor,
      strcmp_swap a.product b.product, strcmp_swap a.serial b.serial]
    split_ifs <;> omega
  obtain ⟨t1, t2, t3⟩ := spec_compare_triple a b c
  refine ⟨?_, ?_, ?_, t1, ?_, ?_, ?_⟩
  · rw [hzero]
    unfold meta_monitor_spec_equals
    simp only [Bool.and_eq_true, beq_iff_eq, and_assoc]
  · rw [hzero]
    constructor
    · rintro ⟨h1, h2, h3, h4⟩
      cases a
      cases b
      simp only at h1 h2 h3 h4
      rw [h1, h2, h3, h4]
    · intro h
      rw [h]
      exact ⟨rfl, rfl, rfl, rfl⟩
  · rw [hswap]
    omega
  · intro h1 h2
    rcases lt_or_eq_of_le h1 with h | h
    · rcases lt_or_eq_of_le h2 with k | k
      · exact le_of_lt (t1 h k)
      · rw [t3 k]
        exact h1
    · rw [t2 h]
      exact h2
  · rw [hswap]
    omega
  · clear hzero hswap t1 t2 t3 z4
    rw [← z1, ← z2, ← z3]
    clear z1 z2 z3
    unfold meta_monitor_spec_compare
    split_ifs <;> omega


/-! ## The arithmetic of the backlight -/

/-- The value `floor_log2` gives is the position of the highest set bit. -/
theorem floor_log2_spec (n : Nat) (h : 0 < n) :
    2 ^ floor_log2 n ≤ n ∧ n < 2 ^ (floor_log2 n + 1) := by
  have key : ∀ (fuel n : Nat), n ≤ fuel → 0 < n →
      2 ^ floor_log2_fuel fuel n ≤ n ∧ n < 2 ^ (floor_log2_fuel fuel n + 1) := by
    intro fuel
    induction fuel with
    | zero =>
      intro n hle hpos
      omega
    | succ fuel ih =>
      intro n hle hpos
      rw [floor_log2_fuel]
      by_cases h2 : n < 2
      · rw [if_pos h2]
        constructor
        · simpa using hpos
        · simpa using h2
      · rw [if_neg h2]
        have hrec := ih (n / 2) (by omega) (by omega)
        constructor
        · rw [pow_succ]
          have := Nat.div_mul_le_self n 2
          exact le_trans (Nat.mul_le_mul_right 2 hrec.1) this
        · rw [pow_succ]
          have := Nat.lt_mul_of_div_lt hrec.2 (by decide : 0 < 2)
          exact this
  exact key n n (Nat.le_refl n) h

set_option maxRecDepth 100000 in
/-- The hardware value is rounded from the `double` expression: for 58 percent of the
range 0 to 25 the product of the `double` nearest to 0.58 and 25 is just below 14.5, so
14 is written, and 14 is normalized to 56. -/
theorem change_backlight_rounds_in_double :
    (meta_monitor_manager_xrandr_change_backlight
        { (sample_backlight_manager.output 0) with backlight_min := 0, backlight_max := 25 }
        58).map (fun r => (r.1, r.2.backlight)) = some (14, 56) := by
  decide

end Mutter
